import Mathlib

/-!
Screensaver coordinator (clientscr/screensaver.cpp).

A shallow embedding of the BOINC screensaver coordinator and a verification of
its specification.  The embedding follows the build in which `__APPLE__` is
defined (the only build that has the list of incompatible graphics
applications); the run-time switch `gIsCatalina` is a parameter.

Conventions of the embedding

* C strings are `String`; `strlen(p) == 0` is `p = ""`, `strcmp(p, q) == 0` is `p = q`.
* `double` times and periods are exact numbers (`Int`, in a fixed unit); a
  `double` used as a condition is compared with `0`.  The reads of `dtime()`
  made during one pass of the outer loop observe the same instant, except the
  read of line 871: it follows `terminate_default_screensaver`, which waits
  for the process, and is an input of its own.
* A process id (`GFXAPP_ID`) is an `Int`; `0` is the null handle.
* `RESULT*` pointers are `Option RESULT`; only the pointed-to value and the
  null test are ever used by the code.
* Everything outside the file (the RPC client, `run_program`, `kill_program`,
  `waitpid`, the shared memory word, `rand`, the clock, the other thread) is
  an input of the pass, collected in `Env`.
-/

namespace Screensaver

/-! ## Data model -/

/-- The fields of `RESULT` that the coordinator reads. -/
structure RESULT where
  name : String
  project_url : String
  graphics_exec_path : String
  slot_path : String
  slot : Int
deriving DecidableEq, Repr

/-- Phase of the coordinator, `SS_PHASE`. -/
inductive SS_PHASE where
  | DEFAULT_SS_PHASE
  | SCIENCE_SS_PHASE
deriving DecidableEq, Repr

/-- The `SCRAPPERR_*` codes passed to `SetError` in this file. -/
inductive SCRAPPERR where
  | BOINCSCREENSAVERLOADING
  | SCREENSAVERBLANKED
  | BOINCNOGRAPHICSAPPSEXECUTING
  | CANTLAUNCHDEFAULTGFXAPP
  | DEFAULTGFXAPPCANTCONNECT
  | DEFAULTGFXAPPCRASHED
deriving DecidableEq, Repr

/-! ## Task identity, counting and random choice (lines 90-211) -/

/-- The function `CScreensaver::is_same_task`. -/
def is_same_task (taska taskb : Option RESULT) : Bool :=
  match taska, taskb with
  | some a, some b =>
    if a.name ≠ b.name then false
    else if a.project_url ≠ b.project_url then false
    else true
  | _, _ => false

/-- The function `CScreensaver::isIncompatible`: linear search of
`m_vIncompatibleGfxApps` for a path equal to `appPath`. -/
def isIncompatible : List String → String → Bool
  | [], _ => false
  | p :: rest, appPath => if p = appPath then true else isIncompatible rest appPath

/-- The function `CScreensaver::markAsIncompatible`: append a copy of the path. -/
def markAsIncompatible (m_vIncompatibleGfxApps : List String) (gfxAppPath : String) :
    List String :=
  m_vIncompatibleGfxApps ++ [gfxAppPath]

/-- The function `CScreensaver::count_active_graphic_apps`.  The loop runs from
the last index down to index 0, so the tail of the list is processed before
its head; erasing the element at index `i` leaves the lower indexes in place.
Returns the vector after the call and the count. -/
def count_active_graphic_apps (incompat : List String) :
    List RESULT → Option RESULT → List RESULT × Nat
  | [], _ => ([], 0)
  | r :: rest, exclude =>
    let tail := count_active_graphic_apps incompat rest exclude
    if r.graphics_exec_path = "" then (r :: tail.1, tail.2)
    else if is_same_task (some r) exclude then (r :: tail.1, tail.2)
    else if isIncompatible incompat r.graphics_exec_path then (tail.1, tail.2)
    else (r :: tail.1, tail.2 + 1)

/-- The search loop of `get_random_graphics_app` (lines 171-180), started at
some index with `current_counter` already at `current_counter`. -/
def find_chosen (avoid : Option RESULT) (random_selection : Nat) :
    List RESULT → Nat → Option RESULT
  | [], _ => none
  | r :: rest, current_counter =>
    if r.graphics_exec_path = "" then find_chosen avoid random_selection rest current_counter
    else if is_same_task (some r) avoid then
      find_chosen avoid random_selection rest current_counter
    else if current_counter + 1 = random_selection then some r
    else find_chosen avoid random_selection rest (current_counter + 1)

/-- The function `CScreensaver::get_random_graphics_app`; `rnd` is the value
returned by `rand()`.  Returns the vector after the call and the chosen task. -/
def get_random_graphics_app (incompat : List String) (res : List RESULT)
    (exclude : Option RESULT) (rnd : Nat) : List RESULT × Option RESULT :=
  let first := count_active_graphic_apps incompat res exclude
  let recount := decide (first.2 = 0) && exclude.isSome
  let avoid : Option RESULT := if recount then none else exclude
  let counted :=
    if recount then count_active_graphic_apps incompat first.1 none else first
  if counted.2 = 0 then (counted.1, none)
  else
    let random_selection := rnd % counted.2 + 1
    (counted.1, find_chosen avoid random_selection counted.1 0)

/-- A task the search loop counts: it has graphics and is not the avoided task. -/
def candidate (avoid : Option RESULT) (r : RESULT) : Bool :=
  decide (r.graphics_exec_path ≠ "") && !is_same_task (some r) avoid

/-- A task with graphics whose path is not marked incompatible. -/
def displayable (incompat : List String) (r : RESULT) : Bool :=
  decide (r.graphics_exec_path ≠ "") && !isIncompatible incompat r.graphics_exec_path

/-! ## Coordinator state and the inputs of one pass -/

/-- Values fixed while the coordinator thread runs: the run-time platform
switch, constants of headers that are not part of this file
(`common_defs.h`, `error_numbers.h`) and members set before the thread starts. -/
structure Config where
  gIsCatalina : Bool
  SUSPEND_REASON_CPU_THROTTLE : Nat
  SUSPEND_REASON_CPU_USAGE : Nat
  DEFAULT_GFX_CANT_CONNECT : Int
  m_fGFXDefaultPeriod : Int
  m_fGFXSciencePeriod : Int
  m_fGFXChangePeriod : Int
  m_dwBlankScreen : Bool
  m_dwBlankTime : Int
deriving DecidableEq, Repr

/-- The members of `CScreensaver`, the global `graphics_app_result_ptr` and the
locals of `DataManagementProc` that live across passes of its outer loop. -/
structure State where
  m_bErrorMode : Bool
  m_hrError : SCRAPPERR
  m_bDefault_ss_exists : Bool
  m_bScience_gfx_running : Bool
  m_bDefault_gfx_running : Bool
  m_bShow_default_ss_first : Bool
  m_hGraphicsApplication : Int
  m_bConnected : Bool
  m_bResetCoreState : Bool
  m_bQuitDataManagementProc : Bool
  m_bDataManagementProcStopped : Bool
  results : List RESULT
  m_vIncompatibleGfxApps : List String
  graphics_app_result_ptr : Option RESULT
  suspend_reason : Nat
  previous_result_ptr : Option RESULT
  default_phase_start_time : Int
  science_phase_start_time : Int
  last_change_time : Int
  default_saver_start_time_in_science_phase : Int
  default_saver_duration_in_science_phase : Int
  ss_phase : SS_PHASE
  switch_to_default_gfx : Bool
  killing_default_gfx : Bool
  exit_status : Int
deriving DecidableEq, Repr

/-- What a spawn primitive (`run_program`, or the `runfullscreen` RPC followed
by the wait on `*pid_from_shmem`) delivers: its return value and the process
id it made available, `0` when it made none available. -/
structure SpawnOutcome where
  retval : Int
  id : Int
deriving DecidableEq, Repr

/-- Everything one pass of the outer loop reads from outside the file. -/
structure Env where
  /-- the main thread has set `m_bQuitDataManagementProc` by one of the four checks -/
  quit_requested : Bool
  /-- paths handed to `markAsIncompatible` by the other thread since the last pass -/
  marked : List String
  /-- value of `time(0)` -/
  time0 : Int
  /-- value of `dtime()` -/
  dtime : Int
  /-- value of `dtime()` at line 871, read after `terminate_default_screensaver`
  has returned -/
  dtime_after_kill : Int
  /-- link state left by `HandleRPCError` when called at line 673 -/
  rpc_up_at_retry : Bool
  /-- link state left by `HandleRPCError` when called at line 683 or 694 -/
  rpc_up_at_failure : Bool
  /-- return value of `rpc->get_state` -/
  get_state_retval : Int
  /-- return value and out-parameters of `rpc->get_screensaver_tasks` -/
  tasks_retval : Int
  tasks_suspend_reason : Nat
  tasks_results : List RESULT
  /-- value of `rand()` -/
  rand : Nat
  /-- spawn of the default saver at line 765 -/
  spawn_default_switch : SpawnOutcome
  /-- spawn of a science graphics application at line 879 -/
  spawn_science : SpawnOutcome
  /-- spawn of the default saver at line 919 -/
  spawn_default_fallback : SpawnOutcome
  /-- value read from `*pid_from_shmem` at line 1004, `0` when the region is absent -/
  shmem_pid : Int
  /-- result of `waitpid(pid, &status, WNOHANG)` at line 1009 -/
  waitpid_p : Int
  /-- value of `WEXITSTATUS(status)` at line 1010 -/
  waitpid_exitstatus : Int
deriving DecidableEq, Repr

/-- Calls made to the process supervisor during a pass, in order: every call of
a launch function, and every call of a terminate function that gets past the
null-handle tests, so that `terminate_v6_screensaver` signals the process. -/
inductive Action where
  | launch_screensaver (rp : RESULT)
  | launch_default_screensaver
  | terminate_screensaver (pid : Int)
  | terminate_default_screensaver (pid : Int)
deriving DecidableEq, Repr

/-- Is the action a launch call. -/
def Action.isLaunch : Action → Bool
  | Action.launch_screensaver _ => true
  | Action.launch_default_screensaver => true
  | _ => false

/-- Is the action a terminate call that signalled a process. -/
def Action.isTerminate : Action → Bool
  | Action.terminate_screensaver _ => true
  | Action.terminate_default_screensaver _ => true
  | _ => false

/-- Outcome of one pass: the state, the supervisor calls made, and whether
`DataManagementProc` returned (the thread ended). -/
structure TickResult where
  state : State
  actions : List Action
  returned : Bool
deriving DecidableEq, Repr

/-! ## Helpers defined outside the file -/

/-- Modelled from the spec: `SetError` is defined outside this file; it stores
the pair `(error_mode, code)` that signals errors to the host UI. -/
def SetError (mode : Bool) (code : SCRAPPERR) (s : State) : State :=
  { s with m_bErrorMode := mode, m_hrError := code }

/-- Modelled from the spec: `HandleRPCError` is defined outside this file; it
marks the link disconnected and may attempt a reconnect, and a successful
reconnect marks the client state as pending a refresh.  `up` tells whether the
link is connected when the call returns. -/
def HandleRPCError (up : Bool) (s : State) : State :=
  { s with m_bConnected := up, m_bResetCoreState := up || s.m_bResetCoreState }

/-! ## Process supervision (lines 216-532 and 992-1015) -/

/-- The spawn in `launch_screensaver` and `launch_default_screensaver`: under
`gIsCatalina` the handle is assigned only when a non-zero pid shows up in the
shared word within the 800 polls; otherwise `run_program` receives the
handle by reference and stores the id of the process it created. -/
def spawn (o : SpawnOutcome) (graphics_application : Int) : Int × Int :=
  (o.retval, if o.id ≠ 0 then o.id else graphics_application)

/-- The function `CScreensaver::launch_screensaver`; returns `retval` and the handle. -/
def launch_screensaver (o : SpawnOutcome) (rp : RESULT) (graphics_application : Int) :
    Int × Int :=
  if rp.graphics_exec_path ≠ "" then spawn o graphics_application
  else (0, graphics_application)

/-- The function `CScreensaver::launch_default_screensaver`; returns `retval` and the handle. -/
def launch_default_screensaver (o : SpawnOutcome) (graphics_application : Int) : Int × Int :=
  spawn o graphics_application

/-- The function `CScreensaver::terminate_v6_screensaver`: returns at once on a
null handle, otherwise signals the process (stop request or `-kill_gfx`, then
`kill_program`).  The handle is handed to `kill_program` and
`HasProcessExited` by value and is never assigned.  Returns whether a process
was signalled. -/
def terminate_v6_screensaver (graphics_application : Int) : Bool :=
  if graphics_application = 0 then false else true

/-- The function `CScreensaver::terminate_screensaver`; the result lists the
supervisor call made, if any. -/
def terminate_screensaver (m_bScience_gfx_running : Bool) (graphics_application : Int) :
    List Action :=
  if graphics_application ≠ 0 then
    if m_bScience_gfx_running then
      if terminate_v6_screensaver graphics_application then
        [Action.terminate_screensaver graphics_application]
      else []
    else []
  else []

/-- The function `CScreensaver::terminate_default_screensaver`; the result lists
the supervisor call made, if any. -/
def terminate_default_screensaver (graphics_application : Int) : List Action :=
  if graphics_application = 0 then []
  else if terminate_v6_screensaver graphics_application then
    [Action.terminate_default_screensaver graphics_application]
  else []

/-- The function `CScreensaver::HasProcessExited` (non-Windows variant); returns
the answer and the value left in `exitCode`. -/
def HasProcessExited (cfg : Config) (env : Env) (pid : Int) (exitCode : Int) : Bool × Int :=
  if cfg.gIsCatalina then
    if env.shmem_pid ≠ 0 then (false, exitCode) else (true, exitCode)
  else if env.waitpid_p = pid then (true, env.waitpid_exitstatus)
  else if env.waitpid_p = -1 then (true, env.waitpid_exitstatus)
  else (false, 0)

/-- What one call of `terminate_v6_screensaver` meets outside the file: the
return value of the `stop` request sent to the client, the return value of
`run_program` for `gfx_switcher -kill_gfx`, and the round of the poll loop
(counted from 0) in which the awaited process is first seen to have ended, if
it ever is. -/
structure KillOutcome where
  stop_retval : Int
  switcher_retval : Int
  exit_seen_at : Option Nat
deriving DecidableEq, Repr

/-- What a terminate function leaves to its caller: the return value, the value
of the reference parameter `graphics_application` at return, and the number
of rounds the poll loop made. -/
structure TerminateResult where
  retval : Int
  graphics_application : Int
  polls : Nat
deriving DecidableEq, Repr

/-- The poll loops of lines 330-335 and 378-384: at most 200 rounds, left at
the round in which the process is seen to have ended. -/
def poll_rounds (exit_seen_at : Option Nat) : Nat :=
  match exit_seen_at with
  | some i => if i < 200 then i + 1 else 200
  | none => 200

/-- The function `CScreensaver::terminate_v6_screensaver` with its reference
parameter.  No statement assigns `graphics_application`: the `stop` request
and `-kill_gfx` carry a copy of the id, `run_program` stores the id of
`gfx_switcher` in the local `thePID`, and `HasProcessExited` and
`kill_program` receive the id by value. -/
def terminate_v6_screensaver_ref (cfg : Config) (k : KillOutcome)
    (graphics_application : Int) : TerminateResult :=
  if cfg.gIsCatalina then
    if graphics_application = 0 then
      { retval := 0, graphics_application := graphics_application, polls := 0 }
    else
      { retval := k.stop_retval, graphics_application := graphics_application,
        polls := poll_rounds k.exit_seen_at }
  else
    if graphics_application = 0 then
      { retval := 0, graphics_application := graphics_application, polls := 0 }
    else
      { retval := k.switcher_retval, graphics_application := graphics_application,
        polls := poll_rounds k.exit_seen_at }

/-- The function `CScreensaver::terminate_screensaver` with its reference
parameter; its own `retval` stays 0. -/
def terminate_screensaver_ref (cfg : Config) (k : KillOutcome)
    (m_bScience_gfx_running : Bool) (graphics_application : Int) : TerminateResult :=
  if graphics_application ≠ 0 then
    if m_bScience_gfx_running then
      let r := terminate_v6_screensaver_ref cfg k graphics_application
      { retval := 0, graphics_application := r.graphics_application, polls := r.polls }
    else { retval := 0, graphics_application := graphics_application, polls := 0 }
  else { retval := 0, graphics_application := graphics_application, polls := 0 }

/-- The function `CScreensaver::terminate_default_screensaver` with its
reference parameter. -/
def terminate_default_screensaver_ref (cfg : Config) (k : KillOutcome)
    (graphics_application : Int) : TerminateResult :=
  if graphics_application = 0 then
    { retval := 0, graphics_application := graphics_application, polls := 0 }
  else terminate_v6_screensaver_ref cfg k graphics_application

/-! ## Reading the configuration (lines 1019-1061) -/

/-- The structure `ss_periods`. -/
structure ss_periods where
  GFXDefaultPeriod : Int
  GFXSciencePeriod : Int
  GFXChangePeriod : Int
  Show_default_ss_first : Bool
deriving DecidableEq, Repr

/-- An element of the configuration file as the parse calls of lines 1047-1050
see it: one of the four options with its value, or anything else. -/
inductive ConfigTag where
  | default_ss_first (v : Bool)
  | default_gfx_duration (v : Int)
  | science_gfx_duration (v : Int)
  | science_gfx_change_interval (v : Int)
  | other
deriving DecidableEq, Repr

/-- One round of the loop of lines 1046-1051. -/
def parse_tag (periods : ss_periods) : ConfigTag → ss_periods
  | ConfigTag.default_ss_first v => { periods with Show_default_ss_first := v }
  | ConfigTag.default_gfx_duration v => { periods with GFXDefaultPeriod := v }
  | ConfigTag.science_gfx_duration v => { periods with GFXSciencePeriod := v }
  | ConfigTag.science_gfx_change_interval v => { periods with GFXChangePeriod := v }
  | ConfigTag.other => periods

/-- The function `CScreensaver::GetDefaultDisplayPeriods`.  The three constants
`GFX_DEFAULT_PERIOD`, `GFX_SCIENCE_PERIOD` and `GFX_CHANGE_PERIOD` come from a
header; `file` is none when the file cannot be opened. -/
def GetDefaultDisplayPeriods (GFX_DEFAULT_PERIOD GFX_SCIENCE_PERIOD GFX_CHANGE_PERIOD : Int)
    (file : Option (List ConfigTag)) : ss_periods :=
  let periods : ss_periods :=
    { GFXDefaultPeriod := GFX_DEFAULT_PERIOD
      GFXSciencePeriod := GFX_SCIENCE_PERIOD
      GFXChangePeriod := GFX_CHANGE_PERIOD
      Show_default_ss_first := false }
  match file with
  | none => periods
  | some tags => tags.foldl parse_tag periods

/-! ## The coordinator loop `DataManagementProc` (lines 545-976) -/

/-- The test of lines 740 and 858: the client is suspended for a reason that
carries neither `SUSPEND_REASON_CPU_THROTTLE` nor `SUSPEND_REASON_CPU_USAGE`. -/
def suspended (cfg : Config) (suspend_reason : Nat) : Bool :=
  decide (suspend_reason ≠ 0) &&
    decide (suspend_reason &&&
      (cfg.SUSPEND_REASON_CPU_THROTTLE ||| cfg.SUSPEND_REASON_CPU_USAGE) = 0)

/-- Lines 546-626: the state in which the outer loop is entered.  `file_exists`
is the answer of `boinc_file_exists`, `now` the value of `dtime()`; `connected`
and `reset_core` are the values of `m_bConnected` and `m_bResetCoreState`
found at entry.  No graphics process exists at entry. -/
def DataManagementProc_entry (file_exists : Bool) (now : Int)
    (connected reset_core : Bool) : State :=
  let m_bShow_default_ss_first := false
  let m_bDefault_ss_exists := file_exists
  let first := m_bDefault_ss_exists && m_bShow_default_ss_first
  { m_bErrorMode := true
    m_hrError :=
      if file_exists then SCRAPPERR.BOINCSCREENSAVERLOADING
      else SCRAPPERR.CANTLAUNCHDEFAULTGFXAPP
    m_bDefault_ss_exists := m_bDefault_ss_exists
    m_bScience_gfx_running := false
    m_bDefault_gfx_running := false
    m_bShow_default_ss_first := m_bShow_default_ss_first
    m_hGraphicsApplication := 0
    m_bConnected := connected
    m_bResetCoreState := reset_core
    m_bQuitDataManagementProc := false
    m_bDataManagementProcStopped := false
    results := []
    m_vIncompatibleGfxApps := []
    graphics_app_result_ptr := none
    suspend_reason := 0
    previous_result_ptr := none
    default_phase_start_time := if first then now else 0
    science_phase_start_time := if first then 0 else now
    last_change_time := 0
    default_saver_start_time_in_science_phase := 0
    default_saver_duration_in_science_phase := 0
    ss_phase := if first then SS_PHASE.DEFAULT_SS_PHASE else SS_PHASE.SCIENCE_SS_PHASE
    switch_to_default_gfx := first
    killing_default_gfx := false
    exit_status := 0 }

/-- Lines 546-626 applied to the object as the thread finds it.  The members
of `m` are as the caller left them, `m_bShow_default_ss_first` among them; the
fields of `m` that stand for locals are not read, the locals get their
initial values. -/
def DataManagementProc_init (file_exists : Bool) (now : Int) (m : State) : State :=
  -- line 571
  let m1 := SetError true SCRAPPERR.BOINCSCREENSAVERLOADING m
  -- lines 580-587
  let m2 := { m1 with m_bDefault_ss_exists := false, m_bScience_gfx_running := false,
                      m_bDefault_gfx_running := false, m_bShow_default_ss_first := false,
                      graphics_app_result_ptr := none, m_vIncompatibleGfxApps := [] }
  -- lines 611-615
  let m3 :=
    if file_exists then { m2 with m_bDefault_ss_exists := true }
    else SetError true SCRAPPERR.CANTLAUNCHDEFAULTGFXAPP m2
  -- the locals, lines 546-565
  let m4 := { m3 with suspend_reason := 0, previous_result_ptr := none,
                      default_phase_start_time := 0, science_phase_start_time := 0,
                      last_change_time := 0,
                      default_saver_start_time_in_science_phase := 0,
                      default_saver_duration_in_science_phase := 0,
                      ss_phase := SS_PHASE.DEFAULT_SS_PHASE,
                      switch_to_default_gfx := false, killing_default_gfx := false,
                      exit_status := 0 }
  -- lines 617-626
  if m4.m_bDefault_ss_exists ∧ m4.m_bShow_default_ss_first then
    { m4 with ss_phase := SS_PHASE.DEFAULT_SS_PHASE, default_phase_start_time := now,
              science_phase_start_time := 0, switch_to_default_gfx := true }
  else
    { m4 with ss_phase := SS_PHASE.SCIENCE_SS_PHASE, default_phase_start_time := 0,
              science_phase_start_time := now }

/-- The object when the thread starts: the caller, outside this file, has
copied `periods.Show_default_ss_first` into `m_bShow_default_ss_first`. -/
def configuredObject (periods : ss_periods) (m : State) : State :=
  { m with m_bShow_default_ss_first := periods.Show_default_ss_first }

/-- Lines 636-653: the thread was told to stop. -/
def stop_thread (s : State) : TickResult :=
  if s.m_hGraphicsApplication ≠ 0 ∨ s.graphics_app_result_ptr.isSome then
    let acts :=
      if s.m_bDefault_gfx_running then terminate_default_screensaver s.m_hGraphicsApplication
      else terminate_screensaver s.m_bScience_gfx_running s.m_hGraphicsApplication
    { state := { s with graphics_app_result_ptr := none, previous_result_ptr := none,
                        m_hGraphicsApplication := 0, m_bDataManagementProcStopped := true }
      actions := acts
      returned := true }
  else
    { state := { s with m_bDataManagementProcStopped := true }, actions := [], returned := true }

/-- Lines 702-717: time to switch to the default graphics phase? -/
def to_default_phase (cfg : Config) (now : Int) (s : State) : State :=
  if s.m_bDefault_ss_exists ∧ s.ss_phase = SS_PHASE.SCIENCE_SS_PHASE ∧
      cfg.m_fGFXDefaultPeriod > 0 then
    if s.science_phase_start_time ≠ 0 ∧
        now - s.science_phase_start_time > cfg.m_fGFXSciencePeriod then
      { s with
        switch_to_default_gfx :=
          if ¬ s.m_bDefault_gfx_running then true else s.switch_to_default_gfx
        ss_phase := SS_PHASE.DEFAULT_SS_PHASE
        default_phase_start_time := now
        science_phase_start_time := 0
        default_saver_duration_in_science_phase :=
          if s.m_bDefault_gfx_running ∧ s.default_saver_start_time_in_science_phase ≠ 0 then
            s.default_saver_duration_in_science_phase +
              (now - s.default_saver_start_time_in_science_phase)
          else s.default_saver_duration_in_science_phase
        default_saver_start_time_in_science_phase := 0 }
    else s
  else s

/-- Lines 719-735: time to switch to the science graphics phase? -/
def to_science_phase (cfg : Config) (now : Int) (s : State) : State :=
  if s.ss_phase = SS_PHASE.DEFAULT_SS_PHASE ∧ s.m_bConnected ∧
      cfg.m_fGFXSciencePeriod > 0 then
    if s.default_phase_start_time ≠ 0 ∧
        now - s.default_phase_start_time + s.default_saver_duration_in_science_phase
          > cfg.m_fGFXDefaultPeriod then
      { s with
        ss_phase := SS_PHASE.SCIENCE_SS_PHASE
        default_phase_start_time := 0
        default_saver_duration_in_science_phase := 0
        science_phase_start_time := now
        default_saver_start_time_in_science_phase :=
          if s.m_bDefault_gfx_running then now
          else s.default_saver_start_time_in_science_phase
        switch_to_default_gfx := false }
    else s
  else s

/-- Lines 702-735: the two phase tests in their order. -/
def phase_evaluation (cfg : Config) (now : Int) (s : State) : State :=
  to_science_phase cfg now (to_default_phase cfg now s)

/-- Lines 737-747: core client suspended? -/
def suspend_check (cfg : Config) (s : State) : State :=
  if suspended cfg s.suspend_reason then
    if ¬ s.m_bDefault_gfx_running then
      let s1 := SetError true s.m_hrError s
      if s1.m_bDefault_ss_exists then { s1 with switch_to_default_gfx := true } else s1
    else s
  else s

/-- Lines 765-778 and 919-932: launch the default saver and record the result;
`in_science` tells whether `default_saver_start_time_in_science_phase` is set
on success (line 774 tests the phase, line 929 sets it always). -/
def launch_default (o : SpawnOutcome) (now : Int) (in_science : Bool) (s : State) : State :=
  let r := launch_default_screensaver o s.m_hGraphicsApplication
  if r.1 ≠ 0 then
    SetError true SCRAPPERR.CANTLAUNCHDEFAULTGFXAPP
      { s with m_hGraphicsApplication := 0, previous_result_ptr := none,
               graphics_app_result_ptr := none, m_bDefault_gfx_running := false }
  else
    SetError false SCRAPPERR.BOINCSCREENSAVERLOADING
      { s with m_hGraphicsApplication := r.2, m_bDefault_gfx_running := true,
               default_saver_start_time_in_science_phase :=
                 if in_science then now else s.default_saver_start_time_in_science_phase }

/-- Lines 754-759, 824-830 and 841-847: after a terminate call, a null handle
clears `graphics_app_result_ptr` and `m_bScience_gfx_running`. -/
def after_terminate (s : State) : State :=
  if s.m_hGraphicsApplication = 0 then
    { s with graphics_app_result_ptr := none, m_bScience_gfx_running := false }
  else s

/-- Lines 749-781: act on `switch_to_default_gfx`. -/
def switch_to_default (env : Env) (s : State) : State × List Action :=
  if s.switch_to_default_gfx then
    if s.m_bScience_gfx_running then
      if s.m_hGraphicsApplication ≠ 0 ∨ s.previous_result_ptr.isSome then
        let acts := terminate_screensaver s.m_bScience_gfx_running s.m_hGraphicsApplication
        ({ after_terminate s with previous_result_ptr := none }, acts)
      else (s, [])
    else if ¬ s.m_bDefault_gfx_running then
      (launch_default env.spawn_default_switch env.dtime
          (decide (s.ss_phase = SS_PHASE.SCIENCE_SS_PHASE))
          { s with switch_to_default_gfx := false },
        [Action.launch_default_screensaver])
    else (s, [])
  else (s, [])

/-- Lines 804-813: the first task of the vector that is the same task as
`previous_result_ptr`. -/
def find_current_task (previous_result_ptr : Option RESULT) : List RESULT → Option RESULT
  | [] => none
  | theResult :: rest =>
    if is_same_task (some theResult) previous_result_ptr then some theResult
    else find_current_task previous_result_ptr rest

/-- Lines 799-813: look the displayed task up in the new vector. -/
def locate_current_task (s : State) : State :=
  match find_current_task s.previous_result_ptr s.results with
  | some theResult =>
    { s with graphics_app_result_ptr := some theResult, previous_result_ptr := some theResult }
  | none => { s with graphics_app_result_ptr := none }

/-- Lines 815-831: the task of the displayed graphics is gone. -/
def task_finished (s : State) : State × List Action :=
  if s.graphics_app_result_ptr = none ∧ s.m_hGraphicsApplication ≠ 0 then
    let acts := terminate_screensaver s.m_bScience_gfx_running s.m_hGraphicsApplication
    (after_terminate { s with previous_result_ptr := none }, acts)
  else (s, [])

/-- Lines 833-850: time to change to another science graphics application? -/
def change_check (cfg : Config) (now : Int) (s : State) : State × List Action :=
  if s.last_change_time ≠ 0 ∧ cfg.m_fGFXChangePeriod > 0 ∧
      now - s.last_change_time > cfg.m_fGFXChangePeriod then
    let c := count_active_graphic_apps s.m_vIncompatibleGfxApps s.results s.previous_result_ptr
    let s1 := { s with results := c.1 }
    if c.2 > 0 then
      let acts := terminate_screensaver s1.m_bScience_gfx_running s1.m_hGraphicsApplication
      ({ after_terminate s1 with last_change_time := now }, acts)
    else ({ s1 with last_change_time := now }, [])
  else (s, [])

/-- Lines 796-852: science graphics is running. -/
def check_running_science (cfg : Config) (now : Int) (s : State) : State × List Action :=
  if s.m_bScience_gfx_running then
    if s.m_hGraphicsApplication ≠ 0 ∨ s.graphics_app_result_ptr.isSome then
      let r1 := task_finished (locate_current_task s)
      let r2 := change_check cfg now r1.1
      (r2.1, r1.2 ++ r2.2)
    else (s, [])
  else (s, [])

/-- Lines 865-901: a task was chosen. -/
def show_chosen (env : Env) (rp : RESULT) (s : State) : State × List Action :=
  if s.m_bDefault_gfx_running then
    let acts := terminate_default_screensaver s.m_hGraphicsApplication
    ({ s with
        killing_default_gfx := true
        default_saver_duration_in_science_phase :=
          if s.default_saver_start_time_in_science_phase ≠ 0 then
            s.default_saver_duration_in_science_phase +
              (env.dtime_after_kill - s.default_saver_start_time_in_science_phase)
          else s.default_saver_duration_in_science_phase
        default_saver_start_time_in_science_phase := 0 }, acts)
  else
    let r := launch_screensaver env.spawn_science rp s.m_hGraphicsApplication
    if r.1 ≠ 0 then
      ({ s with m_hGraphicsApplication := 0, previous_result_ptr := none,
                graphics_app_result_ptr := none, m_bScience_gfx_running := false },
        [Action.launch_screensaver rp])
    else
      ({ SetError false SCRAPPERR.BOINCSCREENSAVERLOADING
          { s with m_hGraphicsApplication := r.2 } with
          last_change_time := env.dtime
          m_bScience_gfx_running := true
          previous_result_ptr := some rp },
        [Action.launch_screensaver rp])

/-- Lines 902-911: no task was chosen. -/
def none_chosen (s : State) : State :=
  if ¬ s.m_bDefault_gfx_running then
    let s1 := SetError true s.m_hrError s
    if s1.m_bDefault_ss_exists then { s1 with switch_to_default_gfx := true } else s1
  else s

/-- Lines 854-912: with no current graphics application, pick a task at random
and launch its graphics application. -/
def pick_and_launch (cfg : Config) (env : Env) (s : State) : State × List Action :=
  if (s.m_bDefault_gfx_running ∨ s.m_hGraphicsApplication = 0) ∧
      s.graphics_app_result_ptr = none then
    let s1 :=
      if suspended cfg s.suspend_reason then { s with graphics_app_result_ptr := none }
      else
        let sel := get_random_graphics_app s.m_vIncompatibleGfxApps s.results
          s.previous_result_ptr env.rand
        { s with results := sel.1, graphics_app_result_ptr := sel.2,
                 previous_result_ptr := none }
    match s1.graphics_app_result_ptr with
    | some rp => show_chosen env rp s1
    | none => (none_chosen s1, [])
  else (s, [])

/-- Lines 916-934: fall back to the default saver inside the science phase. -/
def fallback_to_default (env : Env) (s : State) : State × List Action :=
  if s.switch_to_default_gfx then
    let s1 := { s with switch_to_default_gfx := false }
    if ¬ s1.m_bDefault_gfx_running then
      (launch_default env.spawn_default_fallback env.dtime true s1,
        [Action.launch_default_screensaver])
    else (s1, [])
  else (s, [])

/-- Lines 783-935: the science phase (`SIMULATE_NO_GRAPHICS` is 0). -/
def science_phase (cfg : Config) (env : Env) (s : State) : State × List Action :=
  if s.ss_phase = SS_PHASE.SCIENCE_SS_PHASE ∧ ¬ s.switch_to_default_gfx then
    let r1 := check_running_science cfg env.dtime s
    let r2 := pick_and_launch cfg env r1.1
    let r3 := fallback_to_default env r2.1
    (r3.1, r1.2 ++ r2.2 ++ r3.2)
  else (s, [])

/-- Lines 939-974: is the graphics application still running? -/
def liveness_check (cfg : Config) (env : Env) (s : State) : State :=
  if s.m_hGraphicsApplication ≠ 0 then
    let r := HasProcessExited cfg env s.m_hGraphicsApplication s.exit_status
    let s1 := { s with exit_status := r.2 }
    if r.1 then
      let s2 :=
        if s1.m_bDefault_gfx_running then
          let s3 :=
            if ¬ s1.killing_default_gfx then
              let s4 :=
                if s1.exit_status = cfg.DEFAULT_GFX_CANT_CONNECT then
                  SetError true SCRAPPERR.DEFAULTGFXAPPCANTCONNECT s1
                else SetError true SCRAPPERR.DEFAULTGFXAPPCRASHED s1
              { s4 with m_bDefault_ss_exists := false, ss_phase := SS_PHASE.SCIENCE_SS_PHASE }
            else s1
          { s3 with killing_default_gfx := false }
        else s1
      { SetError true SCRAPPERR.BOINCNOGRAPHICSAPPSEXECUTING s2 with
        m_hGraphicsApplication := 0
        graphics_app_result_ptr := none
        m_bDefault_gfx_running := false
        m_bScience_gfx_running := false }
    else s1
  else s

/-- Lines 702-974: the part of a pass that follows the task refresh. -/
def reconcile (cfg : Config) (env : Env) (s : State) : State × List Action :=
  let s1 := suspend_check cfg (phase_evaluation cfg env.dtime s)
  let r2 := switch_to_default env s1
  let r3 := science_phase cfg env r2.1
  (liveness_check cfg env r3.1, r2.2 ++ r3.2)

/-- Lines 672-700: link health, state refresh and task refresh.  The second
component tells whether the pass goes on (no `continue` was taken). -/
def refresh (env : Env) (s : State) : State × Bool :=
  let s1 := if ¬ s.m_bConnected then HandleRPCError env.rpc_up_at_retry s else s
  if s1.m_bConnected then
    if s1.m_bResetCoreState ∧ env.get_state_retval ≠ 0 then
      (HandleRPCError env.rpc_up_at_failure s1, false)
    else
      let s2 := if s1.m_bResetCoreState then { s1 with m_bResetCoreState := false } else s1
      let s3 := { s2 with suspend_reason := env.tasks_suspend_reason,
                          results := env.tasks_results }
      if env.tasks_retval ≠ 0 then
        ({ HandleRPCError env.rpc_up_at_failure s3 with m_bResetCoreState := true }, false)
      else (s3, true)
  else ({ s1 with results := [] }, true)

/-- What the other thread did since the last pass: paths it marked as
incompatible, and whether it asked the loop to quit. -/
def other_thread (env : Env) (s : State) : State :=
  { s with
    m_vIncompatibleGfxApps := env.marked.foldl markAsIncompatible s.m_vIncompatibleGfxApps
    m_bQuitDataManagementProc := s.m_bQuitDataManagementProc || env.quit_requested }

/-- Lines 662-668: time to blank the screen saver? -/
def blank_due (cfg : Config) (env : Env) : Bool :=
  cfg.m_dwBlankScreen && decide (env.time0 > cfg.m_dwBlankTime) &&
    decide (cfg.m_dwBlankTime > 0)

/-- One pass of the outer loop of `DataManagementProc` (lines 628-975). -/
def tick (cfg : Config) (env : Env) (s : State) : TickResult :=
  let s0 := other_thread env s
  if s0.m_bQuitDataManagementProc then stop_thread s0
  else if blank_due cfg env then
    { state := { SetError false SCRAPPERR.SCREENSAVERBLANKED s0 with
                 m_bQuitDataManagementProc := true }
      actions := []
      returned := false }
  else
    let r := refresh env s0
    if r.2 then
      let q := reconcile cfg env r.1
      { state := q.1, actions := q.2, returned := false }
    else { state := r.1, actions := [], returned := false }

/-- The passes made for a list of inputs, each with the state it ends in; no
pass follows the one in which the thread returned. -/
def run (cfg : Config) : State → List Env → List TickResult
  | _, [] => []
  | s, env :: rest =>
    let r := tick cfg env s
    if r.returned then [r] else r :: run cfg r.state rest

/-- The state after the passes made for a list of inputs. -/
def run_state (cfg : Config) (s : State) (envs : List Env) : State :=
  match (run cfg s envs).getLast? with
  | some r => r.state
  | none => s

/-! ## Predicates used in the statements -/

/-- The running flags and the process handle agree: the two flags are not both
set, and both are clear exactly when the handle is null. -/
def consistent (s : State) : Prop :=
  ¬ (s.m_bDefault_gfx_running = true ∧ s.m_bScience_gfx_running = true) ∧
  ((s.m_bDefault_gfx_running = false ∧ s.m_bScience_gfx_running = false) ↔
    s.m_hGraphicsApplication = 0)

instance (s : State) : Decidable (consistent s) := by
  unfold consistent
  infer_instance

/-- A spawn that reports success has made a process id available. -/
def gives_handle (o : SpawnOutcome) : Prop := o.retval = 0 → o.id ≠ 0

instance (o : SpawnOutcome) : Decidable (gives_handle o) := by
  unfold gives_handle
  infer_instance

/-- Every spawn of the pass that reports success has made a process id available. -/
def well_behaved (env : Env) : Prop :=
  gives_handle env.spawn_default_switch ∧ gives_handle env.spawn_science ∧
    gives_handle env.spawn_default_fallback

instance (env : Env) : Decidable (well_behaved env) := by
  unfold well_behaved
  infer_instance

/-- Is the action a terminate call on the science graphics. -/
def Action.isScienceTerminate : Action → Bool
  | Action.terminate_screensaver _ => true
  | _ => false

/-- History of a run: after a pass, a terminate call has been made on the
science graphics process whose handle is still held (in this pass, or in an
earlier one with the handle held ever since). -/
def terminate_sent (before : Bool) (r : TickResult) : Bool :=
  decide (r.state.m_hGraphicsApplication ≠ 0) &&
    (before || r.actions.any Action.isScienceTerminate)

/-- The history `terminate_sent` at the end of a run. -/
def terminate_pending (rs : List TickResult) : Bool :=
  rs.foldl terminate_sent false

/-- The state with `suspend_reason` replaced. -/
def with_suspend_reason (r : Nat) (s : State) : State :=
  { s with suspend_reason := r }

/-- The inputs of a pass with the suspend reason reported by the client replaced. -/
def with_reported_reason (r : Nat) (env : Env) : Env :=
  { env with tasks_suspend_reason := r }

/-- The state after the passes made for a list of inputs, none of which ends
the thread. -/
def after_passes (cfg : Config) : State → List Env → State
  | s, [] => s
  | s, env :: rest => after_passes cfg (tick cfg env s).state rest

/-- A stretch of passes inside the science phase in which the default saver is
not launched: each pass starts in the science phase with the science period
not over, does not end the thread, and makes no launch call for the default
saver. -/
def science_goes_on (cfg : Config) : State → List Env → Bool
  | _, [] => true
  | s, env :: rest =>
    decide (s.ss_phase = SS_PHASE.SCIENCE_SS_PHASE) &&
    decide (env.dtime - s.science_phase_start_time ≤ cfg.m_fGFXSciencePeriod) &&
    !(tick cfg env s).returned &&
    decide (Action.launch_default_screensaver ∉ (tick cfg env s).actions) &&
    science_goes_on cfg (tick cfg env s).state rest

/-- A stretch of passes inside the default phase: each pass starts and ends in
the default phase and does not end the thread. -/
def default_goes_on (cfg : Config) : State → List Env → Bool
  | _, [] => true
  | s, env :: rest =>
    decide (s.ss_phase = SS_PHASE.DEFAULT_SS_PHASE) &&
    !(tick cfg env s).returned &&
    decide ((tick cfg env s).state.ss_phase = SS_PHASE.DEFAULT_SS_PHASE) &&
    default_goes_on cfg (tick cfg env s).state rest

/-- The exclusion in force when `get_random_graphics_app` draws: the excluded
task, or none when the first count found no task and a task was excluded
(lines 154-157). -/
def effective_exclude (incompat : List String) (res : List RESULT)
    (exclude : Option RESULT) : Option RESULT :=
  if (count_active_graphic_apps incompat res exclude).2 = 0 ∧ exclude.isSome = true then none
  else exclude

/-- The eligible tasks of a vector, in its order: those with graphics that are
not the same task as `avoid` and whose path is not in the list of incompatible
applications. -/
def eligible_tasks (incompat : List String) (avoid : Option RESULT)
    (res : List RESULT) : List RESULT :=
  res.filter (fun t => decide (t.graphics_exec_path ≠ "") && !is_same_task (some t) avoid &&
    decide (t.graphics_exec_path ∉ incompat))

/-- The test of lines 703-704: the default saver exists, the phase is the
science phase, the default period is positive and the science period is over. -/
def science_period_over (cfg : Config) (now : Int) (s : State) : Bool :=
  s.m_bDefault_ss_exists && decide (s.ss_phase = SS_PHASE.SCIENCE_SS_PHASE) &&
    decide (cfg.m_fGFXDefaultPeriod > 0) && decide (s.science_phase_start_time ≠ 0) &&
    decide (now - s.science_phase_start_time > cfg.m_fGFXSciencePeriod)

/-- A request for the default saver is not pending while the default saver runs. -/
def request_sound (s : State) : Prop :=
  s.m_bDefault_gfx_running = true → s.switch_to_default_gfx = false

instance (s : State) : Decidable (request_sound s) := by
  unfold request_sound
  infer_instance

/-- The default saver is disabled: it is marked as not existing, no launch of
it is requested, it does not run, and the phase is the science phase. -/
def default_disabled (s : State) : Prop :=
  s.m_bDefault_ss_exists = false ∧ s.switch_to_default_gfx = false ∧
    s.m_bDefault_gfx_running = false ∧ s.ss_phase = SS_PHASE.SCIENCE_SS_PHASE

instance (s : State) : Decidable (default_disabled s) := by
  unfold default_disabled
  infer_instance

/-- A pass in which the default saver stays out of use: after it the default
saver is marked as not existing, the phase is the science phase, and the pass
made no launch call for the default saver. -/
def without_default (r : TickResult) : Prop :=
  r.state.m_bDefault_ss_exists = false ∧ r.state.ss_phase = SS_PHASE.SCIENCE_SS_PHASE ∧
    Action.launch_default_screensaver ∉ r.actions

instance (r : TickResult) : Decidable (without_default r) := by
  unfold without_default
  infer_instance

/-- Every spawn attempted in the pass fails. -/
def launches_fail (env : Env) : Prop :=
  env.spawn_default_switch.retval ≠ 0 ∧ env.spawn_science.retval ≠ 0 ∧
    env.spawn_default_fallback.retval ≠ 0

instance (env : Env) : Decidable (launches_fail env) := by
  unfold launches_fail
  infer_instance

/-- The state a pass reconciles from: the state after the marks of the other
thread, the link test and the refresh of the client state and of the task
list (lines 672-700). -/
def observed (env : Env) (s : State) : State := (refresh env (other_thread env s)).1

/-- The pass reaches the reconciliation: the thread is not told to quit,
blanking is not due, and the refresh takes no `continue`. -/
def reconciles (cfg : Config) (env : Env) (s : State) : Prop :=
  (other_thread env s).m_bQuitDataManagementProc = false ∧ blank_due cfg env = false ∧
    (refresh env (other_thread env s)).2 = true

instance (cfg : Config) (env : Env) (s : State) : Decidable (reconciles cfg env s) := by
  unfold reconciles
  infer_instance

/-- No graphics process is held or recorded and no launch of the default saver
is requested. -/
def nothing_shown (s : State) : Prop :=
  s.m_hGraphicsApplication = 0 ∧ s.m_bScience_gfx_running = false ∧
    s.m_bDefault_gfx_running = false ∧ s.graphics_app_result_ptr = none ∧
    s.switch_to_default_gfx = false

instance (s : State) : Decidable (nothing_shown s) := by
  unfold nothing_shown
  infer_instance

/-- The state with which a pass reaches line 749: after the refresh steps, the
two phase tests and the suspend test. -/
def entering (cfg : Config) (env : Env) (s : State) : State :=
  suspend_check cfg (phase_evaluation cfg env.dtime (observed env s))

/-- The state with which a pass reaches the liveness test of line 940. -/
def before_liveness (cfg : Config) (env : Env) (s : State) : State :=
  (science_phase cfg env (switch_to_default env (entering cfg env s)).1).1

/-- The test of line 833: `last_change_time` is set, the change period is
positive, and more than the change period has passed since. -/
def change_due (cfg : Config) (now : Int) (s : State) : Bool :=
  decide (s.last_change_time ≠ 0) && decide (cfg.m_fGFXChangePeriod > 0) &&
    decide (now - s.last_change_time > cfg.m_fGFXChangePeriod)

/-- The timers that the tests of lines 704, 721 and 833 read are set: the start
of the default phase in the default phase, the start of the science phase in
the science phase while the default saver exists, and the time of the last
change while science graphics runs. -/
def timers_set (s : State) : Prop :=
  (s.ss_phase = SS_PHASE.DEFAULT_SS_PHASE → s.default_phase_start_time ≠ 0) ∧
  (s.ss_phase = SS_PHASE.SCIENCE_SS_PHASE → s.m_bDefault_ss_exists = true →
    s.science_phase_start_time ≠ 0) ∧
  (s.m_bScience_gfx_running = true → s.last_change_time ≠ 0)

instance (s : State) : Decidable (timers_set s) := by
  unfold timers_set
  infer_instance

/-- The clock never reads 0 in the passes of the list. -/
def clock_set (envs : List Env) : Prop := ∀ e ∈ envs, e.dtime ≠ 0

instance (envs : List Env) : Decidable (clock_set envs) := by
  unfold clock_set
  infer_instance

/-- The test of lines 720-723: the phase is the default phase, the link is
connected, the science period is positive, the start of the default phase is
set and the default period, shortened by the accumulated duration, is over. -/
def default_period_over (cfg : Config) (now : Int) (s : State) : Bool :=
  decide (s.ss_phase = SS_PHASE.DEFAULT_SS_PHASE) && s.m_bConnected &&
    decide (cfg.m_fGFXSciencePeriod > 0) && decide (s.default_phase_start_time ≠ 0) &&
    decide (now - s.default_phase_start_time + s.default_saver_duration_in_science_phase >
      cfg.m_fGFXDefaultPeriod)

/-- The pass makes the transition from the default phase to the science phase:
it reaches the phase tests and the second one fires. -/
def science_transition (cfg : Config) (env : Env) (s : State) : Prop :=
  reconciles cfg env s ∧
    default_period_over cfg env.dtime (to_default_phase cfg env.dtime (observed env s)) = true

instance (cfg : Config) (env : Env) (s : State) : Decidable (science_transition cfg env s) := by
  unfold science_transition
  infer_instance

/-- The clock never goes backwards: each pass of the list reads a time that is
not before the time read by the pass before it (`last` at the start), and its
read of line 871 is not before that time. -/
def clock_never_backwards : Int → List Env → Bool
  | _, [] => true
  | last, env :: rest =>
    decide (last ≤ env.dtime) && decide (env.dtime ≤ env.dtime_after_kill) &&
      clock_never_backwards env.dtime rest

/-- The time read last after the passes of the list. -/
def clock_end : Int → List Env → Int
  | last, [] => last
  | _, env :: rest => clock_end env.dtime rest

/-- The accumulated duration is not negative, and the start time of the
default saver inside the science phase, when set, is not after `last`. -/
def accumulator_sound (last : Int) (s : State) : Prop :=
  s.default_saver_duration_in_science_phase ≥ 0 ∧
  (s.default_saver_start_time_in_science_phase ≠ 0 →
    s.default_saver_start_time_in_science_phase ≤ last)

instance (last : Int) (s : State) : Decidable (accumulator_sound last s) := by
  unfold accumulator_sound
  infer_instance

/-- Lines 857-861: from the state `s` the call of `get_random_graphics_app` at
line 861 is reached: the test of line 857 holds and the test of line 858
fails. -/
def pick_and_launch_calls_selector (cfg : Config) (s : State) : Bool :=
  decide ((s.m_bDefault_gfx_running ∨ s.m_hGraphicsApplication = 0) ∧
    s.graphics_app_result_ptr = none) && !suspended cfg s.suspend_reason

/-- The pass calls `get_random_graphics_app` (its only call is at line 861):
the pass reaches the reconciliation, the test of line 783 holds, and line 861
is reached after the steps of lines 796-852. -/
def calls_selector (cfg : Config) (env : Env) (s : State) : Bool :=
  decide (reconciles cfg env s) &&
    (decide ((switch_to_default env (entering cfg env s)).1.ss_phase =
        SS_PHASE.SCIENCE_SS_PHASE) &&
      !(switch_to_default env (entering cfg env s)).1.switch_to_default_gfx &&
      pick_and_launch_calls_selector cfg
        (check_running_science cfg env.dtime (switch_to_default env (entering cfg env s)).1).1)

/-- Lines 857-866: from the state `s` the call of `terminate_default_screensaver`
at line 866 is reached: line 861 is reached, `get_random_graphics_app` returns
a task (line 864) and the default saver is running (line 865). -/
def pick_and_launch_kills_default (cfg : Config) (env : Env) (s : State) : Bool :=
  pick_and_launch_calls_selector cfg s &&
    (get_random_graphics_app s.m_vIncompatibleGfxApps s.results s.previous_result_ptr
      env.rand).2.isSome &&
    s.m_bDefault_gfx_running

/-- The pass reaches the call of `terminate_default_screensaver` at line 866:
it reaches the reconciliation, the test of line 783 holds, and line 866 is
reached after the steps of lines 796-852. -/
def kills_default_for_task (cfg : Config) (env : Env) (s : State) : Bool :=
  decide (reconciles cfg env s) &&
    (decide ((switch_to_default env (entering cfg env s)).1.ss_phase =
        SS_PHASE.SCIENCE_SS_PHASE) &&
      !(switch_to_default env (entering cfg env s)).1.switch_to_default_gfx &&
      pick_and_launch_kills_default cfg env
        (check_running_science cfg env.dtime (switch_to_default env (entering cfg env s)).1).1)

/-! ## Concrete inputs used in examples -/

/-- A configuration with the values of BOINC: `SUSPEND_REASON_CPU_THROTTLE` is
64, `SUSPEND_REASON_CPU_USAGE` is 1024, `ERR_CONNECT & 0xff` is 149; default
period 120, science period 600, change period 300; no blanking. -/
def exampleConfig : Config :=
  { gIsCatalina := false
    SUSPEND_REASON_CPU_THROTTLE := 64
    SUSPEND_REASON_CPU_USAGE := 1024
    DEFAULT_GFX_CANT_CONNECT := 149
    m_fGFXDefaultPeriod := 120
    m_fGFXSciencePeriod := 600
    m_fGFXChangePeriod := 300
    m_dwBlankScreen := false
    m_dwBlankTime := 0 }

/-- The same configuration on the `gIsCatalina` path. -/
def catalinaConfig : Config := { exampleConfig with gIsCatalina := true }

/-- A task with a graphics application. -/
def taskA : RESULT :=
  { name := "wu_a", project_url := "http://a.example/", graphics_exec_path := "/gfx/a",
    slot_path := "/slots/0", slot := 0 }

/-- A second task with a graphics application. -/
def taskB : RESULT :=
  { name := "wu_b", project_url := "http://b.example/", graphics_exec_path := "/gfx/b",
    slot_path := "/slots/1", slot := 1 }

/-- A pass at time `now` in which the link is up, the client reports `tasks`
and the suspend reason `reason`, every spawn succeeds with a fresh process id,
and the graphics process, if any, is still running.  A terminate call takes
less than the unit of time: the read of line 871 gives `now` too. -/
def calmEnv (now : Int) (reason : Nat) (tasks : List RESULT) : Env :=
  { quit_requested := false
    marked := []
    time0 := now
    dtime := now
    dtime_after_kill := now
    rpc_up_at_retry := true
    rpc_up_at_failure := false
    get_state_retval := 0
    tasks_retval := 0
    tasks_suspend_reason := reason
    tasks_results := tasks
    rand := 0
    spawn_default_switch := { retval := 0, id := 101 }
    spawn_science := { retval := 0, id := 102 }
    spawn_default_fallback := { retval := 0, id := 103 }
    shmem_pid := 1
    waitpid_p := 0
    waitpid_exitstatus := 0 }

/-- The same pass, in which the graphics process is found to have exited with
status `status`. -/
def exitEnv (now : Int) (reason : Nat) (tasks : List RESULT) (status : Int) : Env :=
  { calmEnv now reason tasks with shmem_pid := 0, waitpid_p := -1, waitpid_exitstatus := status }

/-- A pass at time `now` like `calmEnv` in which the terminate call of line 866
returns at time `after`, the value read at line 871. -/
def slowKillEnv (now after : Int) (reason : Nat) (tasks : List RESULT) : Env :=
  { calmEnv now reason tasks with dtime_after_kill := after }

/-- The state at entry of the loop at time 1000 with the default saver on disk
and the link up. -/
def entryState : State := DataManagementProc_entry true 1000 true true

/-- A pass on the `gIsCatalina` path in which the `runfullscreen` RPC for the
chosen task returns 0 but no process id shows up in the shared word during
the 800 polls of `launch_screensaver`. -/
def pidTimeoutEnv (now : Int) (tasks : List RESULT) : Env :=
  { calmEnv now 0 tasks with spawn_science := { retval := 0, id := 0 } }

/-- The configuration of the phase accounting scenario: default period 60,
science period 120; no rotation of science graphics. -/
def phaseConfig : Config :=
  { exampleConfig with
    m_fGFXDefaultPeriod := 60, m_fGFXSciencePeriod := 120, m_fGFXChangePeriod := 0 }

/-- The phase accounting scenario, with the loop entered at time 1000: the state
after the pass at time 1070, in which no task has graphics and the default
saver is launched as a fallback inside the science phase. -/
def fallbackState : State :=
  (tick phaseConfig (calmEnv 1070 0 []) (DataManagementProc_entry true 1000 true true)).state

/-- A task whose graphics application is marked incompatible in the examples. -/
def taskX : RESULT :=
  { name := "wu_x", project_url := "http://x.example/", graphics_exec_path := "/gfx/x",
    slot_path := "/slots/2", slot := 2 }

/-- A task without a graphics application. -/
def taskN : RESULT :=
  { name := "wu_n", project_url := "http://n.example/", graphics_exec_path := "",
    slot_path := "/slots/3", slot := 3 }

/-- A pass in which `waitpid` reports that the process 103 has exited with the
status `DEFAULT_GFX_CANT_CONNECT` of the example configuration. -/
def cantConnectEnv (now : Int) : Env :=
  { calmEnv now 0 [] with waitpid_p := 103, waitpid_exitstatus := 149 }

/-- The state after the first pass of a session in which no task has graphics:
the default saver runs as process 103, launched by the coordinator as a
fallback inside the science phase. -/
def defaultShownState : State := (tick exampleConfig (calmEnv 1001 0 []) entryState).state

/-- The phase accounting scenario after the pass at time 1100: task A has
graphics, the default saver running since 1070 is terminated and seen to end;
30 seconds are accumulated. -/
def carriedState : State := (tick phaseConfig (exitEnv 1100 0 [taskA] 0) fallbackState).state

/-- The phase accounting scenario after the pass at time 1101, in which the
graphics of task A is launched. -/
def scienceShownState : State := (tick phaseConfig (calmEnv 1101 0 [taskA]) carriedState).state

/-- A pass at time `now` like `calmEnv` in which every spawn fails. -/
def failEnv (now : Int) (reason : Nat) (tasks : List RESULT) : Env :=
  { calmEnv now reason tasks with
    spawn_default_switch := { retval := -1, id := 0 }
    spawn_science := { retval := -1, id := 0 }
    spawn_default_fallback := { retval := -1, id := 0 } }

/-- The state at entry of the loop at time 1000 with no default saver on disk
and the link up. -/
def entryStateNoDefault : State := DataManagementProc_init false 1000 entryState


/-- The state after the first pass of a session with tasks A and B in the
vector: the graphics of task A runs as process 102, launched at time 1001. -/
def rotationState : State :=
  after_passes exampleConfig (DataManagementProc_init true 1000 entryState)
    [calmEnv 1001 0 [taskA, taskB]]

/-- The state after the first pass of a session with task A in the vector: the
graphics of task A runs as process 102. -/
def scienceRunningState : State :=
  after_passes exampleConfig (DataManagementProc_init true 1000 entryState)
    [calmEnv 1001 0 [taskA]]

/-- The phase accounting scenario with the default saver still running: the
state after the pass at time 1001, in which no task has graphics and the
default saver is launched as process 103 inside the science phase. -/
def defaultRunningState : State :=
  after_passes phaseConfig (DataManagementProc_init true 1000 entryState) [calmEnv 1001 0 []]

/-- The phase accounting scenario with 99 seconds accumulated: the default
saver runs inside the science phase from 1001 to 1100, when task A gets
graphics; the graphics of task A is launched at 1101 as process 102. -/
def accumulatedState : State :=
  after_passes phaseConfig (DataManagementProc_init true 1000 entryState)
    [calmEnv 1001 0 [], exitEnv 1100 0 [taskA] 0, calmEnv 1101 0 [taskA]]
/-! ## Facts about counting and random choice -/

theorem is_same_task_none (a : Option RESULT) : is_same_task a none = false := by
  cases a <;> rfl

theorem candidate_none (r : RESULT) :
    candidate none r = decide (r.graphics_exec_path ≠ "") := by
  simp [candidate, is_same_task_none]

theorem count_mem (incompat : List String) (ex : Option RESULT) (res : List RESULT)
    (r : RESULT) (h : r ∈ (count_active_graphic_apps incompat res ex).1) : r ∈ res := by
  induction res with
  | nil => simp [count_active_graphic_apps] at h
  | cons x xs ih =>
    simp only [count_active_graphic_apps] at h
    split at h
    · rcases List.mem_cons.mp h with h1 | h1
      · simp [h1]
      · exact List.mem_cons_of_mem _ (ih h1)
    · split at h
      · rcases List.mem_cons.mp h with h1 | h1
        · simp [h1]
        · exact List.mem_cons_of_mem _ (ih h1)
      · split at h
        · exact List.mem_cons_of_mem _ (ih h)
        · rcases List.mem_cons.mp h with h1 | h1
          · simp [h1]
          · exact List.mem_cons_of_mem _ (ih h1)

/-- Every candidate left in the vector by a count is compatible. -/
theorem count_candidate_compatible (incompat : List String) (ex : Option RESULT)
    (res : List RESULT) (r : RESULT)
    (h : r ∈ (count_active_graphic_apps incompat res ex).1) (hc : candidate ex r = true) :
    isIncompatible incompat r.graphics_exec_path = false := by
  induction res with
  | nil => simp [count_active_graphic_apps] at h
  | cons x xs ih =>
    simp only [count_active_graphic_apps] at h
    simp only [candidate, Bool.and_eq_true, decide_eq_true_eq, Bool.not_eq_true'] at hc
    split at h
    · rcases List.mem_cons.mp h with h1 | h1
      · subst h1; exact absurd ‹_› hc.1
      · exact ih h1
    · split at h
      · rcases List.mem_cons.mp h with h1 | h1
        · subst h1; simp_all
        · exact ih h1
      · split at h
        · exact ih h
        · rcases List.mem_cons.mp h with h1 | h1
          · subst h1; simp_all
          · exact ih h1

/-- The count equals the number of candidates left in the vector. -/
theorem count_eq_candidates (incompat : List String) (ex : Option RESULT)
    (res : List RESULT) :
    (count_active_graphic_apps incompat res ex).2 =
      ((count_active_graphic_apps incompat res ex).1.filter (candidate ex)).length := by
  induction res with
  | nil => simp [count_active_graphic_apps]
  | cons x xs ih =>
    simp only [count_active_graphic_apps]
    split
    · rename_i h1
      rw [List.filter_cons]
      simp [candidate, h1]
      simpa [candidate] using ih
    · split
      · rename_i h1 h2
        rw [List.filter_cons]
        simp [candidate, h1, h2]
        simpa [candidate] using ih
      · split
        · simpa using ih
        · rename_i h1 h2 h3
          rw [List.filter_cons]
          simp [candidate, h1, h2]
          simpa [candidate] using ih

/-- The count is the number of tasks of the vector that have graphics, are not
the excluded task and are not marked incompatible. -/
theorem count_eq_filter (incompat : List String) (ex : Option RESULT) (res : List RESULT) :
    (count_active_graphic_apps incompat res ex).2 =
      (res.filter (fun r => candidate ex r &&
        !isIncompatible incompat r.graphics_exec_path)).length := by
  induction res with
  | nil => simp [count_active_graphic_apps]
  | cons x xs ih =>
    simp only [count_active_graphic_apps]
    rw [List.filter_cons]
    split
    · rename_i h1
      simp [candidate, h1]
      simpa [candidate] using ih
    · split
      · rename_i h1 h2
        simp [candidate, h1, h2]
        simpa [candidate] using ih
      · split
        · rename_i h1 h2 h3
          simp [candidate, h1, h2, h3]
          simpa [candidate] using ih
        · rename_i h1 h2 h3
          simp [candidate, h1, h2, h3]
          simpa [candidate] using ih

/-- The vector after a count: the tasks that were not erased. -/
theorem count_fst_eq_filter (incompat : List String) (ex : Option RESULT)
    (res : List RESULT) :
    (count_active_graphic_apps incompat res ex).1 =
      res.filter (fun r => !(candidate ex r &&
        isIncompatible incompat r.graphics_exec_path)) := by
  induction res with
  | nil => simp [count_active_graphic_apps]
  | cons x xs ih =>
    simp only [count_active_graphic_apps]
    rw [List.filter_cons]
    split
    · rename_i h1
      simp [candidate, h1]
      simpa [candidate] using ih
    · split
      · rename_i h1 h2
        simp [candidate, h1, h2]
        simpa [candidate] using ih
      · split
        · rename_i h1 h2 h3
          simp [candidate, h1, h2, h3]
          simpa [candidate] using ih
        · rename_i h1 h2 h3
          simp [candidate, h1, h2, h3]
          simpa [candidate] using ih

theorem count_pos_iff (incompat : List String) (ex : Option RESULT) (res : List RESULT) :
    0 < (count_active_graphic_apps incompat res ex).2 ↔
      ∃ r ∈ res, candidate ex r = true ∧
        isIncompatible incompat r.graphics_exec_path = false := by
  rw [count_eq_filter, List.length_pos]
  constructor
  · intro hne
    obtain ⟨r, hr⟩ := List.exists_mem_of_ne_nil _ hne
    rw [List.mem_filter] at hr
    exact ⟨r, hr.1, by simpa using hr.2⟩
  · rintro ⟨r, hr, h1, h2⟩
    exact List.ne_nil_of_mem (List.mem_filter.mpr ⟨hr, by simp [h1, h2]⟩)

/-- A compatible task stays in the vector. -/
theorem mem_count_of_compatible (incompat : List String) (ex : Option RESULT)
    (res : List RESULT) (r : RESULT) (hr : r ∈ res)
    (hc : isIncompatible incompat r.graphics_exec_path = false) :
    r ∈ (count_active_graphic_apps incompat res ex).1 := by
  rw [count_fst_eq_filter, List.mem_filter]
  exact ⟨hr, by simp [hc]⟩

/-- What the search loop returns is a candidate of the vector. -/
theorem find_chosen_sound (avoid : Option RESULT) (sel : Nat) (l : List RESULT) (cur : Nat)
    (t : RESULT) (h : find_chosen avoid sel l cur = some t) :
    t ∈ l ∧ candidate avoid t = true := by
  induction l generalizing cur with
  | nil => simp [find_chosen] at h
  | cons x xs ih =>
    simp only [find_chosen] at h
    split at h
    · exact ⟨List.mem_cons_of_mem _ (ih cur h).1, (ih cur h).2⟩
    · split at h
      · exact ⟨List.mem_cons_of_mem _ (ih cur h).1, (ih cur h).2⟩
      · split at h
        · rename_i h1 h2 h3
          injection h with h
          subst h
          exact ⟨List.mem_cons_self _ _, by simp [candidate, h1, h2]⟩
        · exact ⟨List.mem_cons_of_mem _ (ih _ h).1, (ih _ h).2⟩

/-- The search loop finds a task when the selection lies within the number of
candidates still ahead. -/
theorem find_chosen_complete (avoid : Option RESULT) (sel : Nat) (l : List RESULT)
    (cur : Nat) (h1 : cur < sel) (h2 : sel ≤ cur + (l.filter (candidate avoid)).length) :
    ∃ t, find_chosen avoid sel l cur = some t := by
  induction l generalizing cur with
  | nil => simp at h2; omega
  | cons x xs ih =>
    simp only [find_chosen]
    rw [List.filter_cons] at h2
    split
    · rename_i h3
      simp [candidate, h3] at h2
      exact ih cur h1 h2
    · split
      · rename_i h3 h4
        simp [candidate, h3, h4] at h2
        exact ih cur h1 h2
      · rename_i h3 h4
        simp [candidate, h3, h4] at h2
        split
        · exact ⟨x, rfl⟩
        · rename_i h5
          exact ih (cur + 1) (by omega) (by omega)

/-- The random choice when the first count is zero and a task was excluded:
the count is repeated without exclusion. -/
theorem get_random_recount (incompat : List String) (res : List RESULT)
    (exclude : Option RESULT) (rnd : Nat)
    (h0 : (count_active_graphic_apps incompat res exclude).2 = 0)
    (hex : exclude.isSome = true) :
    get_random_graphics_app incompat res exclude rnd =
      let counted := count_active_graphic_apps incompat
        (count_active_graphic_apps incompat res exclude).1 none
      if counted.2 = 0 then (counted.1, none)
      else (counted.1, find_chosen none (rnd % counted.2 + 1) counted.1 0) := by
  simp [get_random_graphics_app, h0, hex]

/-- The random choice when the first count stands. -/
theorem get_random_plain (incompat : List String) (res : List RESULT)
    (exclude : Option RESULT) (rnd : Nat)
    (h0 : (count_active_graphic_apps incompat res exclude).2 ≠ 0 ∨ exclude = none) :
    get_random_graphics_app incompat res exclude rnd =
      let counted := count_active_graphic_apps incompat res exclude
      if counted.2 = 0 then (counted.1, none)
      else (counted.1, find_chosen exclude (rnd % counted.2 + 1) counted.1 0) := by
  rcases h0 with h0 | h0
  · simp [get_random_graphics_app, h0]
  · simp [get_random_graphics_app, h0]

/-- Summary of `get_random_graphics_app`: what a returned task satisfies. -/
theorem get_random_sound (incompat : List String) (res : List RESULT)
    (exclude : Option RESULT) (rnd : Nat) (t : RESULT)
    (h : (get_random_graphics_app incompat res exclude rnd).2 = some t) :
    t ∈ res ∧ t ∈ (get_random_graphics_app incompat res exclude rnd).1 ∧
      t.graphics_exec_path ≠ "" ∧
      isIncompatible incompat t.graphics_exec_path = false ∧
      (0 < (count_active_graphic_apps incompat res exclude).2 →
        is_same_task (some t) exclude = false) := by
  by_cases hre : (count_active_graphic_apps incompat res exclude).2 = 0 ∧
      exclude.isSome = true
  · rw [get_random_recount _ _ _ _ hre.1 hre.2] at h ⊢
    simp only at h ⊢
    split at h
    · simp at h
    · have hs := find_chosen_sound _ _ _ _ _ h
      have hm := count_mem _ _ _ _ hs.1
      rename_i hne
      refine ⟨count_mem _ _ _ _ hm, by simpa [hne] using hs.1, ?_,
        count_candidate_compatible _ _ _ _ hs.1 hs.2, ?_⟩
      · have := hs.2; simp [candidate_none] at this; exact this
      · intro hpos; omega
  · have hre2 : (count_active_graphic_apps incompat res exclude).2 ≠ 0 ∨ exclude = none := by
      by_cases h0 : (count_active_graphic_apps incompat res exclude).2 = 0
      · right
        cases exclude with
        | none => rfl
        | some e => exact absurd ⟨h0, rfl⟩ hre
      · left; exact h0
    rw [get_random_plain _ _ _ _ hre2] at h ⊢
    simp only at h ⊢
    split at h
    · simp at h
    · have hs := find_chosen_sound _ _ _ _ _ h
      rename_i hne
      refine ⟨count_mem _ _ _ _ hs.1, by simpa [hne] using hs.1, ?_,
        count_candidate_compatible _ _ _ _ hs.1 hs.2, ?_⟩
      · have := hs.2; simp [candidate] at this; exact this.1
      · intro _; have := hs.2; simp [candidate] at this; exact this.2

/-- Summary of `get_random_graphics_app`: a task is returned exactly when the
vector holds a task with graphics that is not marked incompatible. -/
theorem get_random_none_iff (incompat : List String) (res : List RESULT)
    (exclude : Option RESULT) (rnd : Nat) :
    (get_random_graphics_app incompat res exclude rnd).2 = none ↔
      ∀ t ∈ res, displayable incompat t = false := by
  have key : ∀ (l : List RESULT) (av : Option RESULT),
      (count_active_graphic_apps incompat l av).2 ≠ 0 →
      (find_chosen av (rnd % (count_active_graphic_apps incompat l av).2 + 1)
        (count_active_graphic_apps incompat l av).1 0) ≠ none := by
    intro l av hne hfc
    have hlt : rnd % (count_active_graphic_apps incompat l av).2 <
        (count_active_graphic_apps incompat l av).2 := Nat.mod_lt _ (Nat.pos_of_ne_zero hne)
    obtain ⟨t, ht⟩ := find_chosen_complete av
      (rnd % (count_active_graphic_apps incompat l av).2 + 1)
      (count_active_graphic_apps incompat l av).1 0 (by omega)
      (by rw [← count_eq_candidates]; omega)
    rw [ht] at hfc
    exact Option.noConfusion hfc
  by_cases hre : (count_active_graphic_apps incompat res exclude).2 = 0 ∧
      exclude.isSome = true
  · rw [get_random_recount _ _ _ _ hre.1 hre.2]
    simp only
    split
    · rename_i h2
      simp only [true_iff]
      intro t ht
      by_contra hd
      have hd2 : t.graphics_exec_path ≠ "" ∧
          isIncompatible incompat t.graphics_exec_path = false := by
        simpa [displayable] using hd
      have hm := mem_count_of_compatible incompat exclude res t ht hd2.2
      have hpos := (count_pos_iff incompat none _).mpr
        ⟨t, hm, by simp [candidate_none, hd2.1], hd2.2⟩
      omega
    · rename_i h2
      constructor
      · intro hfc; exact absurd hfc (key _ _ h2)
      · intro hall
        exfalso
        obtain ⟨t, ht, hc, hi⟩ := (count_pos_iff incompat none _).mp (Nat.pos_of_ne_zero h2)
        have := hall t (count_mem _ _ _ _ ht)
        simp [candidate_none] at hc
        simp [displayable, hc, hi] at this
  · have hre2 : (count_active_graphic_apps incompat res exclude).2 ≠ 0 ∨ exclude = none := by
      by_cases h0 : (count_active_graphic_apps incompat res exclude).2 = 0
      · right
        cases exclude with
        | none => rfl
        | some e => exact absurd ⟨h0, rfl⟩ hre
      · left; exact h0
    rw [get_random_plain _ _ _ _ hre2]
    simp only
    split
    · rename_i h2
      simp only [true_iff]
      have hex : exclude = none := by
        rcases hre2 with h | h
        · exact absurd h2 h
        · exact h
      subst hex
      intro t ht
      by_contra hd
      have hd2 : t.graphics_exec_path ≠ "" ∧
          isIncompatible incompat t.graphics_exec_path = false := by
        simpa [displayable] using hd
      have hpos := (count_pos_iff incompat none res).mpr
        ⟨t, ht, by simp [candidate_none, hd2.1], hd2.2⟩
      omega
    · rename_i h2
      constructor
      · intro hfc; exact absurd hfc (key _ _ h2)
      · intro hall
        exfalso
        obtain ⟨t, ht, hc, hi⟩ := (count_pos_iff incompat exclude res).mp
          (Nat.pos_of_ne_zero h2)
        have := hall t ht
        simp [candidate] at hc
        simp [displayable, hc.1, hi] at this

/-! ## Facts about the blocks of a pass -/

theorem terminate_screensaver_cases (running : Bool) (h : Int) :
    terminate_screensaver running h = [] ∨
      (h ≠ 0 ∧ running = true ∧
        terminate_screensaver running h = [Action.terminate_screensaver h]) := by
  unfold terminate_screensaver terminate_v6_screensaver
  by_cases h0 : h = 0
  · left; simp [h0]
  · cases running
    · left; simp
    · right; simp [h0]

theorem terminate_default_screensaver_cases (h : Int) :
    terminate_default_screensaver h = [] ∨
      (h ≠ 0 ∧ terminate_default_screensaver h = [Action.terminate_default_screensaver h]) := by
  unfold terminate_default_screensaver terminate_v6_screensaver
  by_cases h0 : h = 0
  · left; simp [h0]
  · right; simp [h0]

/-- What `switch_to_default` can do: nothing, one launch of the default saver,
or one terminate of the science graphics, after which the request stands. -/
theorem switch_to_default_cases (env : Env) (s : State) :
    (switch_to_default env s = (s, [])) ∨
    ((switch_to_default env s).2 = [Action.launch_default_screensaver] ∧
      s.switch_to_default_gfx = true ∧ s.m_bScience_gfx_running = false ∧
      s.m_bDefault_gfx_running = false ∧
      (switch_to_default env s).1 =
        launch_default env.spawn_default_switch env.dtime
          (decide (s.ss_phase = SS_PHASE.SCIENCE_SS_PHASE))
          { s with switch_to_default_gfx := false }) ∨
    (s.switch_to_default_gfx = true ∧ s.m_bScience_gfx_running = true ∧
      (switch_to_default env s).1.switch_to_default_gfx = true ∧
      ((switch_to_default env s).2 = [] ∨
        (s.m_hGraphicsApplication ≠ 0 ∧
        (switch_to_default env s).2 =
          [Action.terminate_screensaver s.m_hGraphicsApplication])) ∧
      (switch_to_default env s).1 =
        { after_terminate s with previous_result_ptr := none }) := by
  unfold switch_to_default
  by_cases h1 : s.switch_to_default_gfx = true
  · by_cases h2 : s.m_bScience_gfx_running = true
    · by_cases h3 : s.m_hGraphicsApplication ≠ 0 ∨ s.previous_result_ptr.isSome = true
      · right; right
        simp only [h1, h2, h3, if_true]
        refine ⟨trivial, trivial, ?_, ?_, trivial⟩
        · unfold after_terminate; split <;> simp [h1]
        · rcases terminate_screensaver_cases true s.m_hGraphicsApplication with h | h
          · left; exact h
          · right; exact ⟨h.1, h.2.2⟩
      · left; simp [h1, h2, h3]
    · by_cases h3 : s.m_bDefault_gfx_running = true
      · left; simp [h1, h2, h3]
      · right; left
        simp [h1, h2, h3]
  · left; simp [h1]


/-- Fields that `locate_current_task` leaves alone. -/
theorem locate_current_task_frame (s : State) :
    ∃ g p, locate_current_task s =
      { s with graphics_app_result_ptr := g, previous_result_ptr := p } ∧
      (g = none → p = s.previous_result_ptr) ∧ (g.isSome → p.isSome) := by
  unfold locate_current_task
  cases find_current_task s.previous_result_ptr s.results with
  | none => exact ⟨none, s.previous_result_ptr, rfl, fun _ => rfl, by simp⟩
  | some t => exact ⟨some t, some t, rfl, by simp, by simp⟩

/-- The effect of `task_finished`. -/
theorem task_finished_cases (s : State) :
    (task_finished s = (s, []) ∧
      ¬ (s.graphics_app_result_ptr = none ∧ s.m_hGraphicsApplication ≠ 0)) ∨
    (s.graphics_app_result_ptr = none ∧ s.m_hGraphicsApplication ≠ 0 ∧
      (task_finished s).1 = { s with previous_result_ptr := none } ∧
      (task_finished s).2 =
        terminate_screensaver s.m_bScience_gfx_running s.m_hGraphicsApplication) := by
  unfold task_finished
  by_cases h : s.graphics_app_result_ptr = none ∧ s.m_hGraphicsApplication ≠ 0
  · right
    refine ⟨h.1, h.2, ?_, ?_⟩
    · simp only [h, ne_eq, not_false_eq_true, and_self, if_true]
      unfold after_terminate
      simp [h.2]
    · simp only [h, ne_eq, not_false_eq_true, and_self, if_true]
  · left
    exact ⟨by simp only [h, if_false], h⟩

/-- The effect of `change_check`. -/
theorem change_check_cases (cfg : Config) (now : Int) (s : State) :
    ∃ res lct running g,
      (change_check cfg now s).1 =
        { s with results := res, last_change_time := lct, m_bScience_gfx_running := running,
                 graphics_app_result_ptr := g } ∧
      (running = true → s.m_bScience_gfx_running = true) ∧
      (s.m_hGraphicsApplication ≠ 0 → running = s.m_bScience_gfx_running ∧
        g = s.graphics_app_result_ptr) ∧
      (s.m_hGraphicsApplication = 0 → running = s.m_bScience_gfx_running ∨ running = false) ∧
      ((change_check cfg now s).2 = [] ∨
        (change_check cfg now s).2 =
          terminate_screensaver s.m_bScience_gfx_running s.m_hGraphicsApplication) := by
  by_cases h1 : s.last_change_time ≠ 0 ∧ cfg.m_fGFXChangePeriod > 0 ∧
      now - s.last_change_time > cfg.m_fGFXChangePeriod
  · by_cases h2 : (count_active_graphic_apps s.m_vIncompatibleGfxApps s.results
        s.previous_result_ptr).2 > 0
    · by_cases h3 : s.m_hGraphicsApplication = 0
      · refine ⟨(count_active_graphic_apps s.m_vIncompatibleGfxApps s.results
          s.previous_result_ptr).1, now, false, none, ?_, by simp, by simp [h3], by simp, ?_⟩
        · simp [change_check, h1, h2, after_terminate, h3]
        · right; simp [change_check, h1, h2]
      · refine ⟨(count_active_graphic_apps s.m_vIncompatibleGfxApps s.results
          s.previous_result_ptr).1, now, s.m_bScience_gfx_running,
          s.graphics_app_result_ptr, ?_, by simp, by simp, by simp, ?_⟩
        · simp [change_check, h1, h2, after_terminate, h3]
        · right; simp [change_check, h1, h2]
    · refine ⟨(count_active_graphic_apps s.m_vIncompatibleGfxApps s.results
          s.previous_result_ptr).1, now, s.m_bScience_gfx_running,
          s.graphics_app_result_ptr, ?_, by simp, by simp, by simp, ?_⟩
      · simp [change_check, h1, h2]
      · left; simp [change_check, h1, h2]
  · refine ⟨s.results, s.last_change_time, s.m_bScience_gfx_running,
      s.graphics_app_result_ptr, ?_, by simp, by simp, by simp, ?_⟩
    · simp [change_check, h1]
    · left; simp [change_check, h1]

/-- The effect of `check_running_science`: it touches five fields, makes at
most two terminate calls, both on the handle held, and keeps the previous-task
record unless it makes a terminate call. -/
theorem check_running_science_cases (cfg : Config) (now : Int) (s : State) :
    ∃ res lct running g p,
      (check_running_science cfg now s).1 =
        { s with results := res, last_change_time := lct, m_bScience_gfx_running := running,
                 graphics_app_result_ptr := g, previous_result_ptr := p } ∧
      (running = true → s.m_bScience_gfx_running = true) ∧
      (s.m_hGraphicsApplication ≠ 0 → running = s.m_bScience_gfx_running) ∧
      (∀ a ∈ (check_running_science cfg now s).2,
        a = Action.terminate_screensaver s.m_hGraphicsApplication ∧
          s.m_hGraphicsApplication ≠ 0 ∧ s.m_bScience_gfx_running = true) ∧
      (check_running_science cfg now s).2.length ≤ 2 ∧
      (s.m_bScience_gfx_running = true → s.m_hGraphicsApplication ≠ 0 →
        p.isSome = true ∨
          Action.terminate_screensaver s.m_hGraphicsApplication ∈
            (check_running_science cfg now s).2) ∧
      (s.m_bScience_gfx_running = false → check_running_science cfg now s = (s, [])) := by
  by_cases hS : s.m_bScience_gfx_running = true
  · by_cases hh : s.m_hGraphicsApplication ≠ 0 ∨ s.graphics_app_result_ptr.isSome = true
    · obtain ⟨g0, p0, hloc, hg0, hp0⟩ := locate_current_task_frame s
      have hcr : check_running_science cfg now s =
          ((change_check cfg now (task_finished (locate_current_task s)).1).1,
            (task_finished (locate_current_task s)).2 ++
              (change_check cfg now (task_finished (locate_current_task s)).1).2) := by
        simp [check_running_science, hS, hh]
      rw [hcr]
      have htS : ∀ l : List Action,
          (l = [] ∨ l = terminate_screensaver s.m_bScience_gfx_running s.m_hGraphicsApplication) →
          (∀ a ∈ l, a = Action.terminate_screensaver s.m_hGraphicsApplication ∧
            s.m_hGraphicsApplication ≠ 0 ∧ s.m_bScience_gfx_running = true) ∧ l.length ≤ 1 := by
        intro l hl
        rcases hl with hl | hl
        · subst hl; simp
        · rcases terminate_screensaver_cases s.m_bScience_gfx_running s.m_hGraphicsApplication
            with h | h
          · rw [hl, h]; simp
          · rw [hl, h.2.2]; simp [h.1, h.2.1]
      have hloc_h : (locate_current_task s).m_hGraphicsApplication = s.m_hGraphicsApplication := by
        rw [hloc]
      have hloc_S : (locate_current_task s).m_bScience_gfx_running = s.m_bScience_gfx_running := by
        rw [hloc]
      have hloc_g : (locate_current_task s).graphics_app_result_ptr = g0 := by rw [hloc]
      obtain ⟨res, lct, running, g, hcc, hr1, hr2, _, hacts⟩ :=
        change_check_cases cfg now (task_finished (locate_current_task s)).1
      rcases task_finished_cases (locate_current_task s) with ⟨htf, hcond⟩ | ⟨hg, hh2, htf1, htf2⟩
      · -- no terminate for a finished task
        have htf1 : (task_finished (locate_current_task s)).1 = locate_current_task s := by
          rw [htf]
        have htf2 : (task_finished (locate_current_task s)).2 = [] := by rw [htf]
        rw [htf2]
        rw [htf1] at hcc hr1 hr2 hacts ⊢
        rw [hloc_S] at hr1 hr2 hacts
        rw [hloc_h] at hr2 hacts hcond
        rw [hloc_g] at hcond
        have hA := htS _ hacts
        refine ⟨res, lct, running, g, p0, ?_, hr1, ?_, ?_, ?_, ?_, ?_⟩
        · rw [hcc, hloc]
        · intro h0; exact (hr2 h0).1
        · intro a ha; simp only [List.nil_append] at ha; exact hA.1 a ha
        · simp only [List.nil_append]; have := hA.2; omega
        · intro _ h0
          left
          by_cases hgn : g0 = none
          · exact absurd ⟨hgn, h0⟩ hcond
          · apply hp0
            cases g0 with
            | none => exact absurd rfl hgn
            | some x => rfl
        · intro hf; rw [hf] at hS; exact absurd hS (by simp)
      · -- the task is gone: terminate
        have htf_S : (task_finished (locate_current_task s)).1.m_bScience_gfx_running =
            s.m_bScience_gfx_running := by rw [htf1, hloc]
        have htf_h : (task_finished (locate_current_task s)).1.m_hGraphicsApplication =
            s.m_hGraphicsApplication := by rw [htf1, hloc]
        rw [htf_S] at hr1 hr2 hacts
        rw [htf_h] at hr2 hacts
        rw [hloc_S, hloc_h] at htf2
        have hA := htS _ hacts
        have hB := htS _ (Or.inr htf2)
        refine ⟨res, lct, running, g, none, ?_, hr1, ?_, ?_, ?_, ?_, ?_⟩
        · rw [hcc, htf1, hloc]
        · intro h0; exact (hr2 h0).1
        · intro a ha
          rcases List.mem_append.mp ha with h | h
          · exact hB.1 a h
          · exact hA.1 a h
        · rw [List.length_append]; have := hA.2; have := hB.2; omega
        · intro _ h0
          right
          apply List.mem_append_left
          rw [htf2]
          rcases terminate_screensaver_cases s.m_bScience_gfx_running s.m_hGraphicsApplication
            with h | h
          · simp [terminate_screensaver, terminate_v6_screensaver, hS, h0] at h
          · rw [h.2.2]; simp
        · intro hf; rw [hf] at hS; exact absurd hS (by simp)
    · have hcr0 : check_running_science cfg now s = (s, []) := by
        simp [check_running_science, hS, hh]
      rw [hcr0]
      refine ⟨s.results, s.last_change_time, s.m_bScience_gfx_running,
        s.graphics_app_result_ptr, s.previous_result_ptr, rfl, by simp, by simp, by simp,
        by simp, ?_, by simp⟩
      intro _ h0; exact absurd (Or.inl h0) hh
  · have hcr0 : check_running_science cfg now s = (s, []) := by
      simp [check_running_science, hS]
    rw [hcr0]
    refine ⟨s.results, s.last_change_time, s.m_bScience_gfx_running,
      s.graphics_app_result_ptr, s.previous_result_ptr, rfl, by simp, by simp, by simp,
      by simp, ?_, by simp⟩
    intro h; exact absurd h hS


/-- The effect of `none_chosen`. -/
theorem none_chosen_cases (s : State) :
    (s.m_bDefault_gfx_running = true ∧ none_chosen s = s) ∨
    (s.m_bDefault_gfx_running = false ∧
      none_chosen s = { s with m_bErrorMode := true,
                               switch_to_default_gfx :=
                                 s.m_bDefault_ss_exists || s.switch_to_default_gfx }) := by
  unfold none_chosen SetError
  cases hD : s.m_bDefault_gfx_running
  · right
    cases hE : s.m_bDefault_ss_exists <;> simp [hE]
  · left; simp

/-- The four ways `pick_and_launch` can go: the guard of line 857 fails; no
task is chosen; a task is chosen while the default saver runs, which is then
terminated; a task is chosen and its graphics application is launched. -/
theorem pick_and_launch_cases (cfg : Config) (env : Env) (s : State) :
    (pick_and_launch cfg env s = (s, []) ∧
      ¬ ((s.m_bDefault_gfx_running = true ∨ s.m_hGraphicsApplication = 0) ∧
        s.graphics_app_result_ptr = none)) ∨
    ((s.m_bDefault_gfx_running = true ∨ s.m_hGraphicsApplication = 0) ∧
      s.graphics_app_result_ptr = none ∧
      ∃ res p, pick_and_launch cfg env s =
        (none_chosen { s with results := res, graphics_app_result_ptr := none,
                              previous_result_ptr := p }, [])) ∨
    (s.m_bDefault_gfx_running = true ∧ s.graphics_app_result_ptr = none ∧
      suspended cfg s.suspend_reason = false ∧
      ∃ rp, (get_random_graphics_app s.m_vIncompatibleGfxApps s.results
          s.previous_result_ptr env.rand).2 = some rp ∧
        pick_and_launch cfg env s =
          ({ s with
              results := (get_random_graphics_app s.m_vIncompatibleGfxApps s.results
                s.previous_result_ptr env.rand).1
              graphics_app_result_ptr := some rp
              previous_result_ptr := none
              killing_default_gfx := true
              default_saver_duration_in_science_phase :=
                if s.default_saver_start_time_in_science_phase ≠ 0 then
                  s.default_saver_duration_in_science_phase +
                    (env.dtime_after_kill - s.default_saver_start_time_in_science_phase)
                else s.default_saver_duration_in_science_phase
              default_saver_start_time_in_science_phase := 0 },
            terminate_default_screensaver s.m_hGraphicsApplication)) ∨
    (s.m_bDefault_gfx_running = false ∧ s.m_hGraphicsApplication = 0 ∧
      s.graphics_app_result_ptr = none ∧
      suspended cfg s.suspend_reason = false ∧
      ∃ rp, (get_random_graphics_app s.m_vIncompatibleGfxApps s.results
          s.previous_result_ptr env.rand).2 = some rp ∧
        (pick_and_launch cfg env s).2 = [Action.launch_screensaver rp] ∧
        (((launch_screensaver env.spawn_science rp 0).1 ≠ 0 ∧
          (pick_and_launch cfg env s).1 =
            { s with
              results := (get_random_graphics_app s.m_vIncompatibleGfxApps s.results
                s.previous_result_ptr env.rand).1
              m_hGraphicsApplication := 0
              previous_result_ptr := none
              graphics_app_result_ptr := none
              m_bScience_gfx_running := false }) ∨
         ((launch_screensaver env.spawn_science rp 0).1 = 0 ∧
          (pick_and_launch cfg env s).1 =
            { s with
              results := (get_random_graphics_app s.m_vIncompatibleGfxApps s.results
                s.previous_result_ptr env.rand).1
              m_bErrorMode := false
              m_hrError := SCRAPPERR.BOINCSCREENSAVERLOADING
              m_hGraphicsApplication := (launch_screensaver env.spawn_science rp 0).2
              graphics_app_result_ptr := some rp
              last_change_time := env.dtime
              m_bScience_gfx_running := true
              previous_result_ptr := some rp }))) := by
  by_cases hg : (s.m_bDefault_gfx_running = true ∨ s.m_hGraphicsApplication = 0) ∧
      s.graphics_app_result_ptr = none
  · right
    by_cases hsus : suspended cfg s.suspend_reason = true
    · left
      refine ⟨hg.1, hg.2, s.results, s.previous_result_ptr, ?_⟩
      simp [pick_and_launch, hg, hsus]
    · have hsus2 : suspended cfg s.suspend_reason = false := by simpa using hsus
      cases hsel : (get_random_graphics_app s.m_vIncompatibleGfxApps s.results
          s.previous_result_ptr env.rand).2 with
      | none =>
        left
        refine ⟨hg.1, hg.2, (get_random_graphics_app s.m_vIncompatibleGfxApps s.results
          s.previous_result_ptr env.rand).1, none, ?_⟩
        simp [pick_and_launch, hg, hsus2, hsel]
      | some rp =>
        right
        cases hD : s.m_bDefault_gfx_running
        · right
          have h0 : s.m_hGraphicsApplication = 0 := by
            rcases hg.1 with h | h
            · rw [hD] at h; exact absurd h (by simp)
            · exact h
          refine ⟨rfl, h0, hg.2, hsus2, rp, rfl, ?_, ?_⟩
          · by_cases hl : (launch_screensaver env.spawn_science rp 0).1 = 0
            · simp [pick_and_launch, hg, hsus2, hsel, hD, show_chosen, h0, hl]
            · simp [pick_and_launch, hg, hsus2, hsel, hD, show_chosen, h0, hl]
          · by_cases hl : (launch_screensaver env.spawn_science rp 0).1 = 0
            · right
              refine ⟨hl, ?_⟩
              simp [pick_and_launch, hg, hsus2, hsel, hD, show_chosen, h0, hl, SetError]
            · left
              refine ⟨hl, ?_⟩
              simp [pick_and_launch, hg, hsus2, hsel, hD, show_chosen, h0, hl]
        · left
          refine ⟨rfl, hg.2, hsus2, rp, rfl, ?_⟩
          simp [pick_and_launch, hg, hsus2, hsel, hD, show_chosen]
  · left
    exact ⟨by simp [pick_and_launch, hg], hg⟩


/-- The two outcomes of `launch_default`. -/
theorem launch_default_cases (o : SpawnOutcome) (now : Int) (in_science : Bool) (s : State) :
    (o.retval ≠ 0 ∧
      launch_default o now in_science s =
        { s with m_bErrorMode := true, m_hrError := SCRAPPERR.CANTLAUNCHDEFAULTGFXAPP,
                 m_hGraphicsApplication := 0, previous_result_ptr := none,
                 graphics_app_result_ptr := none, m_bDefault_gfx_running := false }) ∨
    (o.retval = 0 ∧
      launch_default o now in_science s =
        { s with m_bErrorMode := false, m_hrError := SCRAPPERR.BOINCSCREENSAVERLOADING,
                 m_hGraphicsApplication := if o.id ≠ 0 then o.id else s.m_hGraphicsApplication,
                 m_bDefault_gfx_running := true,
                 default_saver_start_time_in_science_phase :=
                   if in_science then now else s.default_saver_start_time_in_science_phase }) := by
  by_cases h : o.retval = 0
  · right; exact ⟨h, by simp [launch_default, launch_default_screensaver, spawn, h, SetError]⟩
  · left; exact ⟨h, by simp [launch_default, launch_default_screensaver, spawn, h, SetError]⟩

/-- The three ways `fallback_to_default` can go. -/
theorem fallback_to_default_cases (env : Env) (s : State) :
    (s.switch_to_default_gfx = false ∧ fallback_to_default env s = (s, [])) ∨
    (s.switch_to_default_gfx = true ∧ s.m_bDefault_gfx_running = true ∧
      fallback_to_default env s = ({ s with switch_to_default_gfx := false }, [])) ∨
    (s.switch_to_default_gfx = true ∧ s.m_bDefault_gfx_running = false ∧
      fallback_to_default env s =
        (launch_default env.spawn_default_fallback env.dtime true
          { s with switch_to_default_gfx := false }, [Action.launch_default_screensaver])) := by
  cases h1 : s.switch_to_default_gfx
  · left; exact ⟨rfl, by simp [fallback_to_default, h1]⟩
  · right
    cases h2 : s.m_bDefault_gfx_running
    · right; exact ⟨rfl, rfl, by simp [fallback_to_default, h1, h2]⟩
    · left; exact ⟨rfl, rfl, by simp [fallback_to_default, h1, h2]⟩

/-- The calls made by lines 854-934 when they are entered with no request for
the default saver: none, one launch of a chosen task, one terminate of the
default saver, or one launch of the default saver.  A launch needs a null
handle. -/
theorem pick_then_fallback_actions (cfg : Config) (env : Env) (s : State)
    (hsw : s.switch_to_default_gfx = false) :
    (pick_and_launch cfg env s).2 ++
        (fallback_to_default env (pick_and_launch cfg env s).1).2 = [] ∨
    (∃ rp, (pick_and_launch cfg env s).2 ++
        (fallback_to_default env (pick_and_launch cfg env s).1).2 =
          [Action.launch_screensaver rp] ∧
      s.m_hGraphicsApplication = 0 ∧ s.m_bDefault_gfx_running = false ∧
      (get_random_graphics_app s.m_vIncompatibleGfxApps s.results
        s.previous_result_ptr env.rand).2 = some rp) ∨
    ((pick_and_launch cfg env s).2 ++
        (fallback_to_default env (pick_and_launch cfg env s).1).2 =
          [Action.terminate_default_screensaver s.m_hGraphicsApplication] ∧
      s.m_hGraphicsApplication ≠ 0 ∧ s.m_bDefault_gfx_running = true) ∨
    ((pick_and_launch cfg env s).2 ++
        (fallback_to_default env (pick_and_launch cfg env s).1).2 =
          [Action.launch_default_screensaver] ∧
      s.m_hGraphicsApplication = 0 ∧ s.m_bDefault_gfx_running = false) := by
  rcases pick_and_launch_cases cfg env s with ⟨hpk, _⟩ | ⟨hg1, hg2, res, p, hpk⟩ |
    ⟨hD, hg, hsus, rp, hsel, hpk⟩ | ⟨hD, h0, hg, hsus, rp, hsel, hacts, hst⟩
  · left
    rw [hpk]
    simp [fallback_to_default, hsw]
  · rw [hpk]
    rcases none_chosen_cases
      { s with results := res, graphics_app_result_ptr := none, previous_result_ptr := p }
      with ⟨hD, hn⟩ | ⟨hD, hn⟩
    · left
      rw [hn]
      simp [fallback_to_default, hsw]
    · rw [hn]
      simp only at hD
      have h0 : s.m_hGraphicsApplication = 0 := by
        rcases hg1 with h | h
        · rw [hD] at h; exact absurd h (by simp)
        · exact h
      cases hE : s.m_bDefault_ss_exists
      · left
        simp [fallback_to_default, hsw, hE]
      · right; right; right
        refine ⟨?_, h0, hD⟩
        simp [fallback_to_default, hsw, hE, hD]
  · rw [hpk]
    rcases terminate_default_screensaver_cases s.m_hGraphicsApplication with h | ⟨h0, h⟩
    · left
      rw [h]
      simp [fallback_to_default, hsw]
    · right; right; left
      refine ⟨?_, h0, hD⟩
      rw [h]
      simp [fallback_to_default, hsw]
  · right; left
    refine ⟨rp, ?_, h0, hD, hsel⟩
    rw [hacts]
    have hsw2 : (pick_and_launch cfg env s).1.switch_to_default_gfx = false := by
      rcases hst with ⟨_, h⟩ | ⟨_, h⟩
      · rw [h]; exact hsw
      · rw [h]; exact hsw
    simp [fallback_to_default, hsw2]


/-- The calls of the science phase: first the terminate calls of lines 796-852,
all on the handle held, then the calls of lines 854-934. -/
theorem science_phase_actions (cfg : Config) (env : Env) (s : State) :
    ∃ T X, (science_phase cfg env s).2 = T ++ X ∧
      (∀ a ∈ T, a = Action.terminate_screensaver s.m_hGraphicsApplication ∧
        s.m_hGraphicsApplication ≠ 0 ∧ s.m_bScience_gfx_running = true) ∧
      T.length ≤ 2 ∧
      (X = [] ∨
       (∃ rp, X = [Action.launch_screensaver rp] ∧ s.m_hGraphicsApplication = 0 ∧
          s.m_bDefault_gfx_running = false ∧
          isIncompatible s.m_vIncompatibleGfxApps rp.graphics_exec_path = false ∧
          ∃ res ex, (get_random_graphics_app s.m_vIncompatibleGfxApps res ex env.rand).2 =
            some rp) ∨
       (X = [Action.terminate_default_screensaver s.m_hGraphicsApplication] ∧
          s.m_hGraphicsApplication ≠ 0 ∧ s.m_bDefault_gfx_running = true) ∨
       (X = [Action.launch_default_screensaver] ∧ s.m_hGraphicsApplication = 0 ∧
          s.m_bDefault_gfx_running = false)) := by
  by_cases hen : s.ss_phase = SS_PHASE.SCIENCE_SS_PHASE ∧ ¬ s.switch_to_default_gfx = true
  · have hsp : (science_phase cfg env s).2 =
        (check_running_science cfg env.dtime s).2 ++
          ((pick_and_launch cfg env (check_running_science cfg env.dtime s).1).2 ++
            (fallback_to_default env
              (pick_and_launch cfg env (check_running_science cfg env.dtime s).1).1).2) := by
      simp [science_phase, hen]
    obtain ⟨res, lct, running, g, p, hcr, _, _, hT, hlen, _, _⟩ :=
      check_running_science_cases cfg env.dtime s
    have e_h : (check_running_science cfg env.dtime s).1.m_hGraphicsApplication =
        s.m_hGraphicsApplication := by rw [hcr]
    have e_D : (check_running_science cfg env.dtime s).1.m_bDefault_gfx_running =
        s.m_bDefault_gfx_running := by rw [hcr]
    have e_i : (check_running_science cfg env.dtime s).1.m_vIncompatibleGfxApps =
        s.m_vIncompatibleGfxApps := by rw [hcr]
    have e_sw : (check_running_science cfg env.dtime s).1.switch_to_default_gfx = false := by
      rw [hcr]; simpa using hen.2
    refine ⟨_, _, hsp, hT, hlen, ?_⟩
    rcases pick_then_fallback_actions cfg env (check_running_science cfg env.dtime s).1 e_sw
      with h | ⟨rp, h, h0, hD, hsel⟩ | ⟨h, h0, hD⟩ | ⟨h, h0, hD⟩
    · left; exact h
    · right; left
      rw [e_h] at h0
      rw [e_D] at hD
      rw [e_i] at hsel
      exact ⟨rp, h, h0, hD, (get_random_sound _ _ _ _ _ hsel).2.2.2.1, _, _, hsel⟩
    · right; right; left
      rw [e_h] at h h0
      rw [e_D] at hD
      exact ⟨h, h0, hD⟩
    · right; right; right
      rw [e_h] at h0
      rw [e_D] at hD
      exact ⟨h, h0, hD⟩
  · refine ⟨[], [], ?_, by simp, by simp, Or.inl rfl⟩
    simp only [science_phase, if_neg hen, List.append_nil]

/-- Entered with a request for the default saver, or outside the science
phase, the science phase block does nothing. -/
theorem science_phase_skip (cfg : Config) (env : Env) (s : State)
    (h : s.switch_to_default_gfx = true ∨ s.ss_phase ≠ SS_PHASE.SCIENCE_SS_PHASE) :
    science_phase cfg env s = (s, []) := by
  unfold science_phase
  rcases h with h | h
  · simp [h]
  · simp [h]

/-- Fields that the two phase tests can change. -/
theorem phase_evaluation_frame (cfg : Config) (now : Int) (s : State) :
    ∃ sw ph dps sps dur st, phase_evaluation cfg now s =
      { s with switch_to_default_gfx := sw, ss_phase := ph, default_phase_start_time := dps,
               science_phase_start_time := sps,
               default_saver_duration_in_science_phase := dur,
               default_saver_start_time_in_science_phase := st } := by
  have h1 : ∃ sw ph dps sps dur st, to_default_phase cfg now s =
      { s with switch_to_default_gfx := sw, ss_phase := ph, default_phase_start_time := dps,
               science_phase_start_time := sps,
               default_saver_duration_in_science_phase := dur,
               default_saver_start_time_in_science_phase := st } := by
    unfold to_default_phase
    split
    · split
      · exact ⟨_, _, _, _, _, _, rfl⟩
      · exact ⟨_, _, _, _, _, _, rfl⟩
    · exact ⟨_, _, _, _, _, _, rfl⟩
  have h2 : ∀ t : State, ∃ sw ph dps sps dur st, to_science_phase cfg now t =
      { t with switch_to_default_gfx := sw, ss_phase := ph, default_phase_start_time := dps,
               science_phase_start_time := sps,
               default_saver_duration_in_science_phase := dur,
               default_saver_start_time_in_science_phase := st } := by
    intro t
    unfold to_science_phase
    split
    · split
      · exact ⟨_, _, _, _, _, _, rfl⟩
      · exact ⟨_, _, _, _, _, _, rfl⟩
    · exact ⟨_, _, _, _, _, _, rfl⟩
  obtain ⟨sw, ph, dps, sps, dur, st, e1⟩ := h1
  obtain ⟨sw2, ph2, dps2, sps2, dur2, st2, e2⟩ := h2 (to_default_phase cfg now s)
  refine ⟨sw2, ph2, dps2, sps2, dur2, st2, ?_⟩
  unfold phase_evaluation
  rw [e2, e1]

/-- Fields that the suspend test can change. -/
theorem suspend_check_frame (cfg : Config) (s : State) :
    ∃ m sw, suspend_check cfg s = { s with m_bErrorMode := m, switch_to_default_gfx := sw } := by
  unfold suspend_check SetError
  by_cases h1 : suspended cfg s.suspend_reason = true
  · by_cases h2 : s.m_bDefault_gfx_running = true
    · rw [if_pos h1, if_neg (by simp [h2])]
      exact ⟨s.m_bErrorMode, s.switch_to_default_gfx, rfl⟩
    · rw [if_pos h1, if_pos h2]
      by_cases h3 : s.m_bDefault_ss_exists = true
      · exact ⟨true, true, by simp only [h3, if_true]⟩
      · exact ⟨true, s.switch_to_default_gfx, by simp only [h3]; rfl⟩
  · rw [if_neg h1]
    exact ⟨s.m_bErrorMode, s.switch_to_default_gfx, rfl⟩

/-- Fields that the phase tests and the suspend test can change. -/
theorem before_switch_frame (cfg : Config) (now : Int) (s : State) :
    ∃ m sw ph dps sps dur st, suspend_check cfg (phase_evaluation cfg now s) =
      { s with m_bErrorMode := m, switch_to_default_gfx := sw, ss_phase := ph,
               default_phase_start_time := dps, science_phase_start_time := sps,
               default_saver_duration_in_science_phase := dur,
               default_saver_start_time_in_science_phase := st } := by
  obtain ⟨sw, ph, dps, sps, dur, st, e1⟩ := phase_evaluation_frame cfg now s
  obtain ⟨m, sw2, e2⟩ := suspend_check_frame cfg (phase_evaluation cfg now s)
  exact ⟨m, sw2, ph, dps, sps, dur, st, by rw [e2, e1]⟩

/-- The calls of `reconcile`, in terms of the state `s1` that `switch_to_default`
is entered with: at most one launch of the default saver first, then terminate
calls on the handle held, then at most one further call; a launch needs a
null handle before it. -/
theorem reconcile_actions (cfg : Config) (env : Env) (s : State) :
    ∃ L T X, (reconcile cfg env s).2 = L ++ (T ++ X) ∧
      (L = [] ∨ (L = [Action.launch_default_screensaver] ∧ T = [] ∧
        s.m_bScience_gfx_running = false ∧ s.m_bDefault_gfx_running = false)) ∧
      (∀ a ∈ T, a.isTerminate = true ∧ s.m_bScience_gfx_running = true) ∧
      T.length ≤ 2 ∧
      (X = [] ∨
       (∃ rp, X = [Action.launch_screensaver rp] ∧ T = [] ∧
          isIncompatible s.m_vIncompatibleGfxApps rp.graphics_exec_path = false ∧
          ∃ res ex, (get_random_graphics_app s.m_vIncompatibleGfxApps res ex env.rand).2 =
            some rp) ∨
       (∃ pid, X = [Action.terminate_default_screensaver pid] ∧
          (T = [] ∨ s.m_bDefault_gfx_running = true)) ∨
       (X = [Action.launch_default_screensaver] ∧ T = [])) := by
  obtain ⟨m, sw, ph, dps, sps, dur, st, hpre⟩ := before_switch_frame cfg env.dtime s
  have hrec : (reconcile cfg env s).2 =
      (switch_to_default env (suspend_check cfg (phase_evaluation cfg env.dtime s))).2 ++
        (science_phase cfg env
          (switch_to_default env (suspend_check cfg (phase_evaluation cfg env.dtime s))).1).2 := by
    simp [reconcile]
  rw [hrec]
  have e_S : (suspend_check cfg (phase_evaluation cfg env.dtime s)).m_bScience_gfx_running =
      s.m_bScience_gfx_running := by rw [hpre]
  have e_D : (suspend_check cfg (phase_evaluation cfg env.dtime s)).m_bDefault_gfx_running =
      s.m_bDefault_gfx_running := by rw [hpre]
  have e_i : (suspend_check cfg (phase_evaluation cfg env.dtime s)).m_vIncompatibleGfxApps =
      s.m_vIncompatibleGfxApps := by rw [hpre]
  generalize suspend_check cfg (phase_evaluation cfg env.dtime s) = s1 at e_S e_D e_i
  rcases switch_to_default_cases env s1 with hsw | ⟨hact, _, hS, hD, hst⟩ |
    ⟨_, hS, hsw, hact, _⟩
  · -- nothing done for the request
    rw [hsw]
    obtain ⟨T, X, hsp, hT, hlen, hX⟩ := science_phase_actions cfg env s1
    refine ⟨[], T, X, by simp [hsp], Or.inl rfl, ?_, hlen, ?_⟩
    · intro a ha
      obtain ⟨h1, _, h3⟩ := hT a ha
      exact ⟨by rw [h1]; rfl, by rw [← e_S]; exact h3⟩
    · have hTnil : s1.m_hGraphicsApplication = 0 → T = [] := by
        intro h0
        cases T with
        | nil => rfl
        | cons a _ => exact absurd h0 (hT a (List.mem_cons_self _ _)).2.1
      rcases hX with h | ⟨rp, h, h0, _, hc, hsel⟩ | ⟨h, _, hD⟩ | ⟨h, h0, _⟩
      · left; exact h
      · right; left
        rw [e_i] at hc hsel
        exact ⟨rp, h, hTnil h0, hc, hsel⟩
      · right; right; left
        exact ⟨_, h, Or.inr (by rw [← e_D]; exact hD)⟩
      · right; right; right
        exact ⟨h, hTnil h0⟩
  · -- the default saver is launched
    rw [hact]
    obtain ⟨T, X, hsp, hT, hlen, hX⟩ :=
      science_phase_actions cfg env (switch_to_default env s1).1
    have e2_S : (switch_to_default env s1).1.m_bScience_gfx_running = false := by
      rw [hst]
      rcases launch_default_cases env.spawn_default_switch env.dtime
        (decide (s1.ss_phase = SS_PHASE.SCIENCE_SS_PHASE))
        { s1 with switch_to_default_gfx := false } with ⟨_, h⟩ | ⟨_, h⟩
      · rw [h]; exact hS
      · rw [h]; exact hS
    have e2_i : (switch_to_default env s1).1.m_vIncompatibleGfxApps =
        s.m_vIncompatibleGfxApps := by
      rw [hst]
      rcases launch_default_cases env.spawn_default_switch env.dtime
        (decide (s1.ss_phase = SS_PHASE.SCIENCE_SS_PHASE))
        { s1 with switch_to_default_gfx := false } with ⟨_, h⟩ | ⟨_, h⟩
      · rw [h]; exact e_i
      · rw [h]; exact e_i
    have hTnil : T = [] := by
      cases T with
      | nil => rfl
      | cons a _ =>
        have := (hT a (List.mem_cons_self _ _)).2.2
        rw [e2_S] at this
        exact absurd this (by simp)
    refine ⟨[Action.launch_default_screensaver], T, X, by rw [hsp],
      Or.inr ⟨rfl, hTnil, by rw [← e_S]; exact hS, by rw [← e_D]; exact hD⟩, ?_, hlen, ?_⟩
    · intro a ha; rw [hTnil] at ha; exact absurd ha (List.not_mem_nil _)
    · rcases hX with h | ⟨rp, h, _, _, hc, hsel⟩ | ⟨h, _, _⟩ | ⟨h, _, _⟩
      · left; exact h
      · right; left
        rw [e2_i] at hc hsel
        exact ⟨rp, h, hTnil, hc, hsel⟩
      · right; right; left
        exact ⟨_, h, Or.inl hTnil⟩
      · right; right; right
        exact ⟨h, hTnil⟩
  · -- the science graphics is terminated, the request stands
    rw [science_phase_skip cfg env _ (Or.inl hsw)]
    refine ⟨[], (switch_to_default env s1).2, [], by simp, Or.inl rfl, ?_, ?_, Or.inl rfl⟩
    · intro a ha
      rcases hact with h | ⟨_, h⟩
      · rw [h] at ha; exact absurd ha (List.not_mem_nil _)
      · rw [h] at ha
        simp only [List.mem_singleton] at ha
        exact ⟨by rw [ha]; rfl, by rw [← e_S]; exact hS⟩
    · rcases hact with h | ⟨_, h⟩
      · rw [h]; simp
      · rw [h]; simp


/-! ## Facts about a whole pass -/

/-- Fields that the refresh of lines 672-700 can change. -/
theorem refresh_frame (env : Env) (s : State) :
    ∃ c rc sr res, (refresh env s).1 =
      { s with m_bConnected := c, m_bResetCoreState := rc, suspend_reason := sr,
               results := res } := by
  have hH : ∀ (up : Bool) (t : State), ∃ c rc, HandleRPCError up t =
      { t with m_bConnected := c, m_bResetCoreState := rc } := fun up t => ⟨_, _, rfl⟩
  have key : ∀ t : State, (∃ c rc, t = { s with m_bConnected := c, m_bResetCoreState := rc }) →
      ∃ c rc sr res,
        (if t.m_bConnected = true then
          if t.m_bResetCoreState = true ∧ env.get_state_retval ≠ 0 then
            (HandleRPCError env.rpc_up_at_failure t, false)
          else
            let s2 := if t.m_bResetCoreState = true then
              { t with m_bResetCoreState := false } else t
            let s3 := { s2 with suspend_reason := env.tasks_suspend_reason,
                                results := env.tasks_results }
            if env.tasks_retval ≠ 0 then
              ({ HandleRPCError env.rpc_up_at_failure s3 with m_bResetCoreState := true }, false)
            else (s3, true)
        else ({ t with results := [] }, true)).1 =
        { s with m_bConnected := c, m_bResetCoreState := rc, suspend_reason := sr,
                 results := res } := by
    rintro t ⟨c, rc, rfl⟩
    simp only []
    split
    · split
      · exact ⟨_, _, _, _, rfl⟩
      · split
        · split
          · exact ⟨_, _, _, _, rfl⟩
          · exact ⟨_, _, _, _, rfl⟩
        · split
          · exact ⟨_, _, _, _, rfl⟩
          · exact ⟨_, _, _, _, rfl⟩
    · exact ⟨_, _, _, _, rfl⟩
  unfold refresh
  simp only []
  split
  · exact key _ (hH _ _)
  · exact key s ⟨_, _, rfl⟩

/-- The four ways a pass can go. -/
theorem tick_cases (cfg : Config) (env : Env) (s : State) :
    ((other_thread env s).m_bQuitDataManagementProc = true ∧
      tick cfg env s = stop_thread (other_thread env s)) ∨
    ((other_thread env s).m_bQuitDataManagementProc = false ∧ blank_due cfg env = true ∧
      tick cfg env s =
        { state := { SetError false SCRAPPERR.SCREENSAVERBLANKED (other_thread env s) with
                     m_bQuitDataManagementProc := true }
          actions := []
          returned := false }) ∨
    ((other_thread env s).m_bQuitDataManagementProc = false ∧ blank_due cfg env = false ∧
      (refresh env (other_thread env s)).2 = false ∧
      tick cfg env s =
        { state := (refresh env (other_thread env s)).1, actions := [], returned := false }) ∨
    ((other_thread env s).m_bQuitDataManagementProc = false ∧ blank_due cfg env = false ∧
      (refresh env (other_thread env s)).2 = true ∧
      tick cfg env s =
        { state := (reconcile cfg env (refresh env (other_thread env s)).1).1
          actions := (reconcile cfg env (refresh env (other_thread env s)).1).2
          returned := false }) := by
  unfold tick
  simp only []
  cases hq : (other_thread env s).m_bQuitDataManagementProc
  · right
    cases hb : blank_due cfg env
    · right
      cases hr : (refresh env (other_thread env s)).2
      · left; simp
      · right; simp
    · left; simp
  · left; simp

/-- Fields that `other_thread` changes. -/
theorem other_thread_frame (env : Env) (s : State) :
    other_thread env s =
      { s with
        m_vIncompatibleGfxApps := env.marked.foldl markAsIncompatible s.m_vIncompatibleGfxApps
        m_bQuitDataManagementProc := s.m_bQuitDataManagementProc || env.quit_requested } :=
  rfl

/-- The calls made when the thread stops. -/
theorem stop_thread_actions (s : State) :
    (stop_thread s).actions = [] ∨
    ((stop_thread s).actions = [Action.terminate_screensaver s.m_hGraphicsApplication] ∧
      s.m_bScience_gfx_running = true ∧ s.m_bDefault_gfx_running = false) ∨
    ((stop_thread s).actions = [Action.terminate_default_screensaver s.m_hGraphicsApplication] ∧
      s.m_bDefault_gfx_running = true) := by
  unfold stop_thread
  split
  · cases hD : s.m_bDefault_gfx_running
    · simp only [Bool.false_eq_true, if_false]
      rcases terminate_screensaver_cases s.m_bScience_gfx_running s.m_hGraphicsApplication
        with h | ⟨_, hS, h⟩
      · left; exact h
      · right; left; exact ⟨h, hS, trivial⟩
    · simp only [if_true]
      rcases terminate_default_screensaver_cases s.m_hGraphicsApplication with h | ⟨_, h⟩
      · left; exact h
      · right; right; exact ⟨h, trivial⟩
  · left; rfl

/-- The calls of a pass: at most one launch of the default saver first, then
terminate calls on the science graphics, then at most one further call; a
launch is never preceded by a terminate call. -/
theorem tick_actions (cfg : Config) (env : Env) (s : State) :
    ∃ L T X, (tick cfg env s).actions = L ++ (T ++ X) ∧
      (L = [] ∨ (L = [Action.launch_default_screensaver] ∧ T = [] ∧
        s.m_bScience_gfx_running = false ∧ s.m_bDefault_gfx_running = false)) ∧
      (∀ a ∈ T, a.isTerminate = true ∧ s.m_bScience_gfx_running = true) ∧
      T.length ≤ 2 ∧
      (X = [] ∨
       (∃ rp, X = [Action.launch_screensaver rp] ∧ T = [] ∧
          isIncompatible (env.marked.foldl markAsIncompatible s.m_vIncompatibleGfxApps)
            rp.graphics_exec_path = false ∧
          ∃ res ex, (get_random_graphics_app
            (env.marked.foldl markAsIncompatible s.m_vIncompatibleGfxApps)
            res ex env.rand).2 = some rp) ∨
       (∃ pid, X = [Action.terminate_default_screensaver pid] ∧
          (T = [] ∨ s.m_bDefault_gfx_running = true)) ∨
       (X = [Action.launch_default_screensaver] ∧ T = [])) := by
  rcases tick_cases cfg env s with ⟨_, ht⟩ | ⟨_, _, ht⟩ | ⟨_, _, _, ht⟩ | ⟨_, _, _, ht⟩
  · rw [ht]
    rcases stop_thread_actions (other_thread env s) with h | ⟨h, hS, _⟩ | ⟨h, _⟩
    · exact ⟨[], [], [], by rw [h]; rfl, Or.inl rfl, by simp, by simp, Or.inl rfl⟩
    · refine ⟨[], [Action.terminate_screensaver (other_thread env s).m_hGraphicsApplication],
        [], by rw [h]; rfl, Or.inl rfl, ?_, by simp, Or.inl rfl⟩
      intro a ha
      rw [List.mem_singleton] at ha
      exact ⟨by rw [ha]; rfl, hS⟩
    · exact ⟨[], [], [Action.terminate_default_screensaver
          (other_thread env s).m_hGraphicsApplication], by rw [h]; rfl, Or.inl rfl,
        by intro a ha; exact absurd ha (List.not_mem_nil _), by simp,
        Or.inr (Or.inr (Or.inl ⟨_, rfl, Or.inl rfl⟩))⟩
  · rw [ht]
    exact ⟨[], [], [], rfl, Or.inl rfl, by intro a ha; exact absurd ha (List.not_mem_nil _),
      by simp, Or.inl rfl⟩
  · rw [ht]
    exact ⟨[], [], [], rfl, Or.inl rfl, by intro a ha; exact absurd ha (List.not_mem_nil _),
      by simp, Or.inl rfl⟩
  · rw [ht]
    obtain ⟨c, rc, sr, res, hr⟩ := refresh_frame env (other_thread env s)
    have e_S : (refresh env (other_thread env s)).1.m_bScience_gfx_running =
        s.m_bScience_gfx_running := by rw [hr]; rfl
    have e_D : (refresh env (other_thread env s)).1.m_bDefault_gfx_running =
        s.m_bDefault_gfx_running := by rw [hr]; rfl
    have e_i : (refresh env (other_thread env s)).1.m_vIncompatibleGfxApps =
        env.marked.foldl markAsIncompatible s.m_vIncompatibleGfxApps := by rw [hr]; rfl
    obtain ⟨L, T, X, h1, h2, h3, h4, h5⟩ :=
      reconcile_actions cfg env (refresh env (other_thread env s)).1
    rw [e_S, e_D] at h2
    rw [e_D, e_i] at h5
    refine ⟨L, T, X, h1, h2, ?_, h4, h5⟩
    intro a ha
    have := h3 a ha
    rw [e_S] at this
    exact this


/-! ## The running flags and the handle -/

theorem consistent_congr (s t : State)
    (hS : t.m_bScience_gfx_running = s.m_bScience_gfx_running)
    (hD : t.m_bDefault_gfx_running = s.m_bDefault_gfx_running)
    (hh : t.m_hGraphicsApplication = s.m_hGraphicsApplication) (hc : consistent s) :
    consistent t := by
  unfold consistent at hc ⊢
  rw [hS, hD, hh]
  exact hc

theorem consistent_idle (t : State) (hS : t.m_bScience_gfx_running = false)
    (hD : t.m_bDefault_gfx_running = false) (hh : t.m_hGraphicsApplication = 0) :
    consistent t := by
  unfold consistent
  rw [hS, hD, hh]
  simp

theorem consistent_science (t : State) (hS : t.m_bScience_gfx_running = true)
    (hD : t.m_bDefault_gfx_running = false) (hh : t.m_hGraphicsApplication ≠ 0) :
    consistent t := by
  unfold consistent
  rw [hS, hD]
  simp [hh]

theorem consistent_default (t : State) (hS : t.m_bScience_gfx_running = false)
    (hD : t.m_bDefault_gfx_running = true) (hh : t.m_hGraphicsApplication ≠ 0) :
    consistent t := by
  unfold consistent
  rw [hS, hD]
  simp [hh]

theorem consistent_handle_of_science (s : State) (hc : consistent s)
    (hS : s.m_bScience_gfx_running = true) :
    s.m_hGraphicsApplication ≠ 0 ∧ s.m_bDefault_gfx_running = false := by
  unfold consistent at hc
  rw [hS] at hc
  constructor
  · intro h0
    have := hc.2.mpr h0
    simp at this
  · cases hD : s.m_bDefault_gfx_running
    · rfl
    · rw [hD] at hc; simp at hc

theorem consistent_null_handle (s : State) (hc : consistent s)
    (h0 : s.m_hGraphicsApplication = 0) :
    s.m_bScience_gfx_running = false ∧ s.m_bDefault_gfx_running = false := by
  unfold consistent at hc
  have := hc.2.mpr h0
  exact ⟨this.2, this.1⟩

theorem consistent_handle_of_default (s : State) (hc : consistent s)
    (hD : s.m_bDefault_gfx_running = true) :
    s.m_hGraphicsApplication ≠ 0 ∧ s.m_bScience_gfx_running = false := by
  unfold consistent at hc
  rw [hD] at hc
  constructor
  · intro h0
    have := hc.2.mpr h0
    simp at this
  · cases hS : s.m_bScience_gfx_running
    · rfl
    · rw [hS] at hc; simp at hc

/-- A launch of the default saver from a state with no graphics keeps the
flags and the handle in agreement and does not set `m_bScience_gfx_running`. -/
theorem launch_default_consistent (o : SpawnOutcome) (now : Int) (b : Bool) (s : State)
    (ho : gives_handle o) (hS : s.m_bScience_gfx_running = false) :
    consistent (launch_default o now b s) ∧
      (launch_default o now b s).m_bScience_gfx_running = false := by
  rcases launch_default_cases o now b s with ⟨_, h⟩ | ⟨hr, h⟩
  · rw [h]
    exact ⟨consistent_idle _ hS rfl rfl, hS⟩
  · rw [h]
    refine ⟨consistent_default _ hS rfl ?_, hS⟩
    have := ho hr
    simp [this]

/-- The three ways the liveness check can go: no handle; the process still
runs; the process has exited and the handle and the flags are cleared. -/
theorem liveness_check_cases (cfg : Config) (env : Env) (s : State) :
    (s.m_hGraphicsApplication = 0 ∧ liveness_check cfg env s = s) ∨
    (s.m_hGraphicsApplication ≠ 0 ∧
      (HasProcessExited cfg env s.m_hGraphicsApplication s.exit_status).1 = false ∧
      liveness_check cfg env s =
        { s with exit_status :=
            (HasProcessExited cfg env s.m_hGraphicsApplication s.exit_status).2 }) ∨
    (s.m_hGraphicsApplication ≠ 0 ∧
      (HasProcessExited cfg env s.m_hGraphicsApplication s.exit_status).1 = true ∧
      ∃ ex ph k, liveness_check cfg env s =
        { s with
          m_bErrorMode := true
          m_hrError := SCRAPPERR.BOINCNOGRAPHICSAPPSEXECUTING
          m_bDefault_ss_exists := ex
          ss_phase := ph
          killing_default_gfx := k
          exit_status := (HasProcessExited cfg env s.m_hGraphicsApplication s.exit_status).2
          m_hGraphicsApplication := 0
          graphics_app_result_ptr := none
          m_bDefault_gfx_running := false
          m_bScience_gfx_running := false }) := by
  by_cases h0 : s.m_hGraphicsApplication = 0
  · left; exact ⟨h0, by simp [liveness_check, h0]⟩
  · right
    cases hx : (HasProcessExited cfg env s.m_hGraphicsApplication s.exit_status).1
    · left; exact ⟨h0, rfl, by simp [liveness_check, h0, hx]⟩
    · right
      refine ⟨h0, rfl, ?_⟩
      cases hD : s.m_bDefault_gfx_running
      · exact ⟨s.m_bDefault_ss_exists, s.ss_phase, s.killing_default_gfx,
          by simp [liveness_check, h0, hx, hD, SetError]⟩
      · cases hk : s.killing_default_gfx
        · by_cases hcode : (HasProcessExited cfg env s.m_hGraphicsApplication s.exit_status).2 =
              cfg.DEFAULT_GFX_CANT_CONNECT
          · exact ⟨false, SS_PHASE.SCIENCE_SS_PHASE, false,
              by simp [liveness_check, h0, hx, hD, hk, hcode, SetError]⟩
          · exact ⟨false, SS_PHASE.SCIENCE_SS_PHASE, false,
              by simp [liveness_check, h0, hx, hD, hk, hcode, SetError]⟩
        · exact ⟨s.m_bDefault_ss_exists, s.ss_phase, false,
            by simp [liveness_check, h0, hx, hD, hk, SetError]⟩

/-- The liveness check keeps the flags and the handle in agreement; it can only
clear `m_bScience_gfx_running`, and it leaves the previous-task record alone. -/
theorem liveness_check_inv (cfg : Config) (env : Env) (s : State) (hc : consistent s) :
    consistent (liveness_check cfg env s) ∧
      ((liveness_check cfg env s).m_bScience_gfx_running = true →
        s.m_bScience_gfx_running = true) ∧
      (liveness_check cfg env s).previous_result_ptr = s.previous_result_ptr ∧
      ((liveness_check cfg env s).m_hGraphicsApplication = s.m_hGraphicsApplication ∨
        (liveness_check cfg env s).m_hGraphicsApplication = 0) := by
  rcases liveness_check_cases cfg env s with ⟨_, h⟩ | ⟨_, _, h⟩ | ⟨_, _, ex, ph, k, h⟩
  · rw [h]
    exact ⟨hc, fun h => h, rfl, Or.inl rfl⟩
  · rw [h]
    exact ⟨consistent_congr s _ rfl rfl rfl hc, fun h => h, rfl, Or.inl rfl⟩
  · rw [h]
    exact ⟨consistent_idle _ rfl rfl rfl, by intro h; exact absurd h (by simp), rfl,
      Or.inr rfl⟩

/-- Acting on the request for the default saver keeps the flags and the handle
in agreement; the previous-task record of running science graphics is kept
unless a terminate call is made. -/
theorem switch_to_default_inv (env : Env) (s : State) (hc : consistent s)
    (hw : gives_handle env.spawn_default_switch) :
    consistent (switch_to_default env s).1 ∧
      ((s.m_bScience_gfx_running = true → s.previous_result_ptr.isSome = true) →
        (switch_to_default env s).1.m_bScience_gfx_running = true →
        ((switch_to_default env s).1.previous_result_ptr.isSome = true ∧
          (switch_to_default env s).1.switch_to_default_gfx = s.switch_to_default_gfx ∧
          (switch_to_default env s).2 = []) ∨
        ((switch_to_default env s).1.switch_to_default_gfx = true ∧
          ∃ a ∈ (switch_to_default env s).2, a.isScienceTerminate = true)) := by
  rcases switch_to_default_cases env s with h | ⟨_, _, hS, _, hst⟩ | ⟨_, hS, hsw, hact, hst⟩
  · rw [h]
    exact ⟨hc, fun hP h2 => Or.inl ⟨hP h2, rfl, rfl⟩⟩
  · have := launch_default_consistent env.spawn_default_switch env.dtime
      (decide (s.ss_phase = SS_PHASE.SCIENCE_SS_PHASE))
      { s with switch_to_default_gfx := false } hw hS
    rw [hst]
    refine ⟨this.1, ?_⟩
    intro _ h2
    rw [this.2] at h2
    exact absurd h2 (by simp)
  · have hh := (consistent_handle_of_science s hc hS).1
    have hat : after_terminate s = s := by
      unfold after_terminate
      rw [if_neg hh]
    refine ⟨?_, ?_⟩
    · rw [hst, hat]
      exact consistent_congr s _ rfl rfl rfl hc
    · intro _ _
      right
      refine ⟨hsw, ?_⟩
      rcases hact with h | ⟨_, h⟩
      · exfalso
        have : (switch_to_default env s).2 =
            [Action.terminate_screensaver s.m_hGraphicsApplication] := by
          simp [switch_to_default, ‹s.switch_to_default_gfx = true›, hS, hh,
            terminate_screensaver, terminate_v6_screensaver]
        rw [h] at this
        exact absurd this (by simp)
      · rw [h]
        exact ⟨_, List.mem_singleton_self _, rfl⟩

/-- With no request for the default saver, `fallback_to_default` does nothing. -/
theorem fallback_to_default_idle (env : Env) (s : State)
    (h : s.switch_to_default_gfx = false) : fallback_to_default env s = (s, []) := by
  simp [fallback_to_default, h]

/-- The science phase block keeps the flags and the handle in agreement; the
previous-task record of running science graphics is set unless a terminate
call is made on it. -/
theorem science_phase_inv (cfg : Config) (env : Env) (s : State) (hc : consistent s)
    (hw : well_behaved env) :
    consistent (science_phase cfg env s).1 ∧
      ((s.m_bScience_gfx_running = true → s.previous_result_ptr.isSome = true) →
        (science_phase cfg env s).1.m_bScience_gfx_running = true →
        (science_phase cfg env s).1.previous_result_ptr.isSome = true ∨
        ∃ a ∈ (science_phase cfg env s).2, a.isScienceTerminate = true) := by
  by_cases hen : s.ss_phase = SS_PHASE.SCIENCE_SS_PHASE ∧ ¬ s.switch_to_default_gfx = true
  · have hsw : s.switch_to_default_gfx = false := by simpa using hen.2
    have hsp : science_phase cfg env s =
        ((fallback_to_default env
            (pick_and_launch cfg env (check_running_science cfg env.dtime s).1).1).1,
          (check_running_science cfg env.dtime s).2 ++
            (pick_and_launch cfg env (check_running_science cfg env.dtime s).1).2 ++
            (fallback_to_default env
              (pick_and_launch cfg env (check_running_science cfg env.dtime s).1).1).2) := by
      simp [science_phase, hen]
    rw [hsp]
    obtain ⟨res, lct, running, g, p, hcr, hr1, hr2, hT, _, hprev, hidle⟩ :=
      check_running_science_cases cfg env.dtime s
    cases hS : s.m_bScience_gfx_running
    · -- no science graphics is running
      rw [hidle hS]
      simp only [List.nil_append]
      rcases pick_and_launch_cases cfg env s with ⟨hpk, _⟩ | ⟨hg1, _, res2, p2, hpk⟩ |
        ⟨hD, _, _, rp, _, hpk⟩ | ⟨hD, h0, _, _, rp, hsel, hacts, hst⟩
      · rw [hpk, fallback_to_default_idle env s hsw]
        exact ⟨hc, fun _ h => by rw [hS] at h; exact absurd h (by simp)⟩
      · rcases none_chosen_cases
          { s with results := res2, graphics_app_result_ptr := none, previous_result_ptr := p2 }
          with ⟨hD, hn⟩ | ⟨hD, hn⟩
        · rw [hn] at hpk
          have hsw2 : (pick_and_launch cfg env s).1.switch_to_default_gfx = false := by
            rw [hpk]; exact hsw
          rw [fallback_to_default_idle env _ hsw2, hpk]
          exact ⟨consistent_congr s _ rfl rfl rfl hc,
            fun _ h => by rw [hS] at h; exact absurd h (by simp)⟩
        · rw [hn] at hpk
          have hD2 : s.m_bDefault_gfx_running = false := hD
          have h0 : s.m_hGraphicsApplication = 0 := by
            rcases hg1 with h | h
            · rw [hD2] at h; exact absurd h (by simp)
            · exact h
          have e_S : (pick_and_launch cfg env s).1.m_bScience_gfx_running = false := by
            rw [hpk]; exact hS
          have e_D : (pick_and_launch cfg env s).1.m_bDefault_gfx_running = false := by
            rw [hpk]; exact hD2
          have e_h : (pick_and_launch cfg env s).1.m_hGraphicsApplication = 0 := by
            rw [hpk]; exact h0
          rcases fallback_to_default_cases env (pick_and_launch cfg env s).1
            with ⟨_, hf⟩ | ⟨_, _, hf⟩ | ⟨_, _, hf⟩
          · rw [hf]
            exact ⟨consistent_idle _ e_S e_D e_h,
              fun _ h => by rw [e_S] at h; exact absurd h (by simp)⟩
          · rw [hf]
            exact ⟨consistent_idle _ e_S e_D e_h,
              fun _ h => by rw [e_S] at h; exact absurd h (by simp)⟩
          · rw [hf]
            have := launch_default_consistent env.spawn_default_fallback env.dtime true
              { (pick_and_launch cfg env s).1 with switch_to_default_gfx := false } hw.2.2 e_S
            exact ⟨this.1, fun _ h => by rw [this.2] at h; exact absurd h (by simp)⟩
      · have hsw2 : (pick_and_launch cfg env s).1.switch_to_default_gfx = false := by
          rw [hpk]; exact hsw
        rw [fallback_to_default_idle env _ hsw2, hpk]
        exact ⟨consistent_congr s _ rfl rfl rfl hc,
          fun _ h => by rw [hS] at h; exact absurd h (by simp)⟩
      · have hsw2 : (pick_and_launch cfg env s).1.switch_to_default_gfx = false := by
          rcases hst with ⟨_, h⟩ | ⟨_, h⟩
          · rw [h]; exact hsw
          · rw [h]; exact hsw
        rw [fallback_to_default_idle env _ hsw2]
        rcases hst with ⟨_, h⟩ | ⟨hl, h⟩
        · rw [h]
          exact ⟨consistent_idle _ rfl hD rfl, fun _ h => absurd h (by simp)⟩
        · rw [h]
          refine ⟨consistent_science _ rfl hD ?_, fun _ _ => Or.inl rfl⟩
          have hpath := (get_random_sound _ _ _ _ _ hsel).2.2.1
          simp only [launch_screensaver, spawn, hpath, ne_eq, not_false_eq_true, if_true] at hl ⊢
          have := hw.2.1 hl
          simp [this]
    · -- science graphics is running: lines 854-934 do nothing
      obtain ⟨hh, hD⟩ := consistent_handle_of_science s hc hS
      have hrun : running = true := by rw [hr2 hh, hS]
      have hpk : pick_and_launch cfg env (check_running_science cfg env.dtime s).1 =
          ((check_running_science cfg env.dtime s).1, []) := by
        rcases pick_and_launch_cases cfg env (check_running_science cfg env.dtime s).1 with
          ⟨h, _⟩ | ⟨hg1, _, _⟩ | ⟨hD2, _⟩ | ⟨_, h0, _⟩
        · exact h
        · rw [hcr] at hg1
          rcases hg1 with h | h
          · rw [hD] at h; exact absurd h (by simp)
          · exact absurd h hh
        · rw [hcr] at hD2
          rw [hD] at hD2; exact absurd hD2 (by simp)
        · rw [hcr] at h0
          exact absurd h0 hh
      rw [hpk]
      have hsw2 : (check_running_science cfg env.dtime s).1.switch_to_default_gfx = false := by
        rw [hcr]; exact hsw
      rw [fallback_to_default_idle env _ hsw2]
      simp only [List.append_nil]
      constructor
      · rw [hcr]
        exact consistent_science _ hrun hD hh
      · intro _ _
        rcases hprev hS hh with h | h
        · left; rw [hcr]; exact h
        · right; exact ⟨_, h, rfl⟩
  · rw [science_phase]
    rw [if_neg hen]
    exact ⟨hc, fun hP h => Or.inl (hP h)⟩

/-- The part of a pass after the task refresh keeps the flags and the handle in
agreement; the previous-task record of running science graphics is set unless
a terminate call is made on it. -/
theorem reconcile_inv (cfg : Config) (env : Env) (s : State) (hc : consistent s)
    (hw : well_behaved env) :
    consistent (reconcile cfg env s).1 ∧
      ((s.m_bScience_gfx_running = true → s.previous_result_ptr.isSome = true) →
        (reconcile cfg env s).1.m_bScience_gfx_running = true →
        (reconcile cfg env s).1.previous_result_ptr.isSome = true ∨
        ∃ a ∈ (reconcile cfg env s).2, a.isScienceTerminate = true) := by
  obtain ⟨m, sw, ph, dps, sps, dur, st, hpre⟩ := before_switch_frame cfg env.dtime s
  have hrec : reconcile cfg env s =
      (liveness_check cfg env (science_phase cfg env
          (switch_to_default env (suspend_check cfg (phase_evaluation cfg env.dtime s))).1).1,
        (switch_to_default env (suspend_check cfg (phase_evaluation cfg env.dtime s))).2 ++
          (science_phase cfg env
            (switch_to_default env
              (suspend_check cfg (phase_evaluation cfg env.dtime s))).1).2) := by
    simp [reconcile]
  rw [hrec]
  have e_S : (suspend_check cfg (phase_evaluation cfg env.dtime s)).m_bScience_gfx_running =
      s.m_bScience_gfx_running := by rw [hpre]
  have e_D : (suspend_check cfg (phase_evaluation cfg env.dtime s)).m_bDefault_gfx_running =
      s.m_bDefault_gfx_running := by rw [hpre]
  have e_h : (suspend_check cfg (phase_evaluation cfg env.dtime s)).m_hGraphicsApplication =
      s.m_hGraphicsApplication := by rw [hpre]
  have e_p : (suspend_check cfg (phase_evaluation cfg env.dtime s)).previous_result_ptr =
      s.previous_result_ptr := by rw [hpre]
  have hc1 := consistent_congr s _ e_S e_D e_h hc
  generalize suspend_check cfg (phase_evaluation cfg env.dtime s) = s1 at e_S e_D e_h e_p hc1
  obtain ⟨hc2, hq2⟩ := switch_to_default_inv env s1 hc1 hw.1
  obtain ⟨hc3, hq3⟩ := science_phase_inv cfg env (switch_to_default env s1).1 hc2 hw
  obtain ⟨hc4, hS4, hp4, _⟩ := liveness_check_inv cfg env
    (science_phase cfg env (switch_to_default env s1).1).1 hc3
  refine ⟨hc4, ?_⟩
  intro hP hS
  have hP1 : s1.m_bScience_gfx_running = true → s1.previous_result_ptr.isSome = true := by
    rw [e_S, e_p]; exact hP
  simp only at hS ⊢
  rw [hp4]
  have hS3 := hS4 hS
  by_cases hS2 : (switch_to_default env s1).1.m_bScience_gfx_running = true
  · rcases hq2 hP1 hS2 with ⟨hp, _, _⟩ | ⟨hsw, a, ha, hat⟩
    · rcases hq3 (fun _ => hp) hS3 with h | ⟨a, ha, hat⟩
      · left; exact h
      · right; exact ⟨a, List.mem_append_right _ ha, hat⟩
    · right
      exact ⟨a, List.mem_append_left _ ha, hat⟩
  · rcases hq3 (fun h => absurd h hS2) hS3 with h | ⟨a, ha, hat⟩
    · left; exact h
    · right; exact ⟨a, List.mem_append_right _ ha, hat⟩

/-- A pass that does not end the thread keeps the flags and the handle in
agreement, given spawns that deliver a process id when they report success;
the previous-task record of running science graphics is set unless a
terminate call is made on it. -/
theorem tick_inv (cfg : Config) (env : Env) (s : State) (hc : consistent s)
    (hw : well_behaved env) (hret : (tick cfg env s).returned = false) :
    consistent (tick cfg env s).state ∧
      ((s.m_bScience_gfx_running = true → s.previous_result_ptr.isSome = true) →
        (tick cfg env s).state.m_bScience_gfx_running = true →
        (tick cfg env s).state.previous_result_ptr.isSome = true ∨
        ∃ a ∈ (tick cfg env s).actions, a.isScienceTerminate = true) := by
  obtain ⟨c, rc, sr, res, hr⟩ := refresh_frame env (other_thread env s)
  have e_S : (refresh env (other_thread env s)).1.m_bScience_gfx_running =
      s.m_bScience_gfx_running := by rw [hr]; rfl
  have e_D : (refresh env (other_thread env s)).1.m_bDefault_gfx_running =
      s.m_bDefault_gfx_running := by rw [hr]; rfl
  have e_h : (refresh env (other_thread env s)).1.m_hGraphicsApplication =
      s.m_hGraphicsApplication := by rw [hr]; rfl
  have e_p : (refresh env (other_thread env s)).1.previous_result_ptr =
      s.previous_result_ptr := by rw [hr]; rfl
  rcases tick_cases cfg env s with ⟨_, ht⟩ | ⟨_, _, ht⟩ | ⟨_, _, _, ht⟩ | ⟨_, _, _, ht⟩
  · rw [ht] at hret
    exfalso
    unfold stop_thread at hret
    split at hret <;> simp at hret
  · rw [ht]
    exact ⟨consistent_congr s _ rfl rfl rfl hc, fun hP h => Or.inl (hP h)⟩
  · rw [ht]
    refine ⟨consistent_congr s _ e_S e_D e_h hc, ?_⟩
    intro hP h
    simp only at h ⊢
    rw [e_S] at h
    rw [e_p]
    exact Or.inl (hP h)
  · rw [ht]
    obtain ⟨h1, h2⟩ := reconcile_inv cfg env (refresh env (other_thread env s)).1
      (consistent_congr s _ e_S e_D e_h hc) hw
    refine ⟨h1, ?_⟩
    intro hP
    apply h2
    rw [e_S, e_p]
    exact hP


/-! ## Independence of the suspend reason -/

theorem after_terminate_sr (r : Nat) (s : State) :
    after_terminate (with_suspend_reason r s) = with_suspend_reason r (after_terminate s) := by
  unfold after_terminate with_suspend_reason
  simp only []
  split <;> rfl

theorem launch_default_sr (o : SpawnOutcome) (now : Int) (b : Bool) (r : Nat) (s : State) :
    launch_default o now b (with_suspend_reason r s) =
      with_suspend_reason r (launch_default o now b s) := by
  unfold launch_default with_suspend_reason SetError
  simp only []
  split <;> rfl

theorem to_default_phase_sr (cfg : Config) (now : Int) (r : Nat) (s : State) :
    to_default_phase cfg now (with_suspend_reason r s) =
      with_suspend_reason r (to_default_phase cfg now s) := by
  unfold to_default_phase with_suspend_reason
  simp only []
  split
  · split <;> rfl
  · rfl

theorem to_science_phase_sr (cfg : Config) (now : Int) (r : Nat) (s : State) :
    to_science_phase cfg now (with_suspend_reason r s) =
      with_suspend_reason r (to_science_phase cfg now s) := by
  unfold to_science_phase with_suspend_reason
  simp only []
  split
  · split <;> rfl
  · rfl

theorem switch_to_default_sr (env : Env) (r : Nat) (s : State) :
    switch_to_default env (with_suspend_reason r s) =
      (with_suspend_reason r (switch_to_default env s).1, (switch_to_default env s).2) := by
  unfold switch_to_default
  have e1 : (with_suspend_reason r s).switch_to_default_gfx = s.switch_to_default_gfx := rfl
  have e2 : (with_suspend_reason r s).m_bScience_gfx_running = s.m_bScience_gfx_running := rfl
  have e3 : (with_suspend_reason r s).m_hGraphicsApplication = s.m_hGraphicsApplication := rfl
  have e4 : (with_suspend_reason r s).previous_result_ptr = s.previous_result_ptr := rfl
  have e5 : (with_suspend_reason r s).m_bDefault_gfx_running = s.m_bDefault_gfx_running := rfl
  have e6 : (with_suspend_reason r s).ss_phase = s.ss_phase := rfl
  rw [e1, e2, e3, e4, e5, e6]
  split
  · split
    · split
      · rw [after_terminate_sr]; rfl
      · rfl
    · split
      · simp only []
        rw [← launch_default_sr]; rfl
      · rfl
  · rfl

theorem locate_current_task_sr (r : Nat) (s : State) :
    locate_current_task (with_suspend_reason r s) =
      with_suspend_reason r (locate_current_task s) := by
  unfold locate_current_task
  have e1 : (with_suspend_reason r s).previous_result_ptr = s.previous_result_ptr := rfl
  have e2 : (with_suspend_reason r s).results = s.results := rfl
  rw [e1, e2]
  split <;> rfl

theorem task_finished_sr (r : Nat) (s : State) :
    task_finished (with_suspend_reason r s) =
      (with_suspend_reason r (task_finished s).1, (task_finished s).2) := by
  unfold task_finished
  have e1 : (with_suspend_reason r s).graphics_app_result_ptr = s.graphics_app_result_ptr := rfl
  have e2 : (with_suspend_reason r s).m_hGraphicsApplication = s.m_hGraphicsApplication := rfl
  have e3 : (with_suspend_reason r s).m_bScience_gfx_running = s.m_bScience_gfx_running := rfl
  rw [e1, e2, e3]
  split
  · simp only []
    rw [← after_terminate_sr]; rfl
  · rfl

theorem change_check_sr (cfg : Config) (now : Int) (r : Nat) (s : State) :
    change_check cfg now (with_suspend_reason r s) =
      (with_suspend_reason r (change_check cfg now s).1, (change_check cfg now s).2) := by
  unfold change_check
  have e1 : (with_suspend_reason r s).last_change_time = s.last_change_time := rfl
  have e2 : (with_suspend_reason r s).m_vIncompatibleGfxApps = s.m_vIncompatibleGfxApps := rfl
  have e3 : (with_suspend_reason r s).results = s.results := rfl
  have e4 : (with_suspend_reason r s).previous_result_ptr = s.previous_result_ptr := rfl
  rw [e1, e2, e3, e4]
  split
  · simp only []
    split
    · have := after_terminate_sr r { s with results := (count_active_graphic_apps
        s.m_vIncompatibleGfxApps s.results s.previous_result_ptr).1 }
      unfold with_suspend_reason at this ⊢
      simp only [] at this ⊢
      rw [this]
    · rfl
  · rfl

theorem check_running_science_sr (cfg : Config) (now : Int) (r : Nat) (s : State) :
    check_running_science cfg now (with_suspend_reason r s) =
      (with_suspend_reason r (check_running_science cfg now s).1,
        (check_running_science cfg now s).2) := by
  unfold check_running_science
  have e1 : (with_suspend_reason r s).graphics_app_result_ptr = s.graphics_app_result_ptr := rfl
  have e2 : (with_suspend_reason r s).m_hGraphicsApplication = s.m_hGraphicsApplication := rfl
  have e3 : (with_suspend_reason r s).m_bScience_gfx_running = s.m_bScience_gfx_running := rfl
  rw [e1, e2, e3]
  split
  · split
    · simp only []
      rw [locate_current_task_sr, task_finished_sr, change_check_sr]
    · rfl
  · rfl

theorem none_chosen_sr (r : Nat) (s : State) :
    none_chosen (with_suspend_reason r s) = with_suspend_reason r (none_chosen s) := by
  unfold none_chosen SetError
  have e1 : (with_suspend_reason r s).m_bDefault_gfx_running = s.m_bDefault_gfx_running := rfl
  rw [e1]
  split
  · simp only []
    have e2 : (with_suspend_reason r s).m_bDefault_ss_exists = s.m_bDefault_ss_exists := rfl
    unfold with_suspend_reason
    simp only []
    split <;> rfl
  · rfl

theorem show_chosen_sr (env : Env) (rp : RESULT) (r : Nat) (s : State) :
    show_chosen env rp (with_suspend_reason r s) =
      (with_suspend_reason r (show_chosen env rp s).1, (show_chosen env rp s).2) := by
  unfold show_chosen SetError
  have e1 : (with_suspend_reason r s).m_bDefault_gfx_running = s.m_bDefault_gfx_running := rfl
  have e2 : (with_suspend_reason r s).m_hGraphicsApplication = s.m_hGraphicsApplication := rfl
  rw [e1, e2]
  split
  · rfl
  · simp only []
    split <;> rfl

theorem pick_and_launch_sr (cfg : Config) (env : Env) (r : Nat) (s : State)
    (hr : suspended cfg r = false) (hs : suspended cfg s.suspend_reason = false) :
    pick_and_launch cfg env (with_suspend_reason r s) =
      (with_suspend_reason r (pick_and_launch cfg env s).1, (pick_and_launch cfg env s).2) := by
  unfold pick_and_launch
  have e1 : (with_suspend_reason r s).m_bDefault_gfx_running = s.m_bDefault_gfx_running := rfl
  have e2 : (with_suspend_reason r s).m_hGraphicsApplication = s.m_hGraphicsApplication := rfl
  have e3 : (with_suspend_reason r s).graphics_app_result_ptr = s.graphics_app_result_ptr := rfl
  have e4 : (with_suspend_reason r s).suspend_reason = r := rfl
  have e5 : (with_suspend_reason r s).m_vIncompatibleGfxApps = s.m_vIncompatibleGfxApps := rfl
  have e6 : (with_suspend_reason r s).results = s.results := rfl
  have e7 : (with_suspend_reason r s).previous_result_ptr = s.previous_result_ptr := rfl
  rw [e1, e2, e3, e4, e5, e6, e7, hr, hs]
  split
  · simp only [Bool.false_eq_true, if_false]
    cases hsel : (get_random_graphics_app s.m_vIncompatibleGfxApps s.results
        s.previous_result_ptr env.rand).2 with
    | none =>
      simp only []
      have := none_chosen_sr r { s with
        results := (get_random_graphics_app s.m_vIncompatibleGfxApps s.results
          s.previous_result_ptr env.rand).1
        graphics_app_result_ptr := none
        previous_result_ptr := none }
      unfold with_suspend_reason at this ⊢
      simp only [] at this ⊢
      rw [this]
    | some rp =>
      simp only []
      have := show_chosen_sr env rp r { s with
        results := (get_random_graphics_app s.m_vIncompatibleGfxApps s.results
          s.previous_result_ptr env.rand).1
        graphics_app_result_ptr := some rp
        previous_result_ptr := none }
      unfold with_suspend_reason at this ⊢
      simp only [] at this ⊢
      rw [this]
  · rfl

theorem fallback_to_default_sr (env : Env) (r : Nat) (s : State) :
    fallback_to_default env (with_suspend_reason r s) =
      (with_suspend_reason r (fallback_to_default env s).1, (fallback_to_default env s).2) := by
  unfold fallback_to_default
  have e1 : (with_suspend_reason r s).switch_to_default_gfx = s.switch_to_default_gfx := rfl
  have e2 : (with_suspend_reason r s).m_bDefault_gfx_running = s.m_bDefault_gfx_running := rfl
  rw [e1]
  split
  · simp only []
    rw [e2]
    split
    · rw [← launch_default_sr]; rfl
    · rfl
  · rfl

/-- A block that commutes with replacing the suspend reason leaves it alone. -/
theorem suspend_reason_kept (f : State → State)
    (h : ∀ r s, f (with_suspend_reason r s) = with_suspend_reason r (f s)) (s : State) :
    (f s).suspend_reason = s.suspend_reason := by
  have := h s.suspend_reason s
  have e : with_suspend_reason s.suspend_reason s = s := rfl
  rw [e] at this
  rw [this]
  rfl

theorem science_phase_sr (cfg : Config) (env : Env) (r : Nat) (s : State)
    (hr : suspended cfg r = false) (hs : suspended cfg s.suspend_reason = false) :
    science_phase cfg env (with_suspend_reason r s) =
      (with_suspend_reason r (science_phase cfg env s).1, (science_phase cfg env s).2) := by
  unfold science_phase
  have e1 : (with_suspend_reason r s).ss_phase = s.ss_phase := rfl
  have e2 : (with_suspend_reason r s).switch_to_default_gfx = s.switch_to_default_gfx := rfl
  rw [e1, e2]
  split
  · simp only []
    have hk : (check_running_science cfg env.dtime s).1.suspend_reason = s.suspend_reason :=
      suspend_reason_kept (fun t => (check_running_science cfg env.dtime t).1)
        (fun r t => by simp only [check_running_science_sr]) s
    rw [check_running_science_sr, pick_and_launch_sr cfg env r _ hr (by rw [hk]; exact hs),
      fallback_to_default_sr]
  · rfl

theorem liveness_check_sr (cfg : Config) (env : Env) (r : Nat) (s : State) :
    liveness_check cfg env (with_suspend_reason r s) =
      with_suspend_reason r (liveness_check cfg env s) := by
  by_cases h0 : s.m_hGraphicsApplication = 0
  · simp [liveness_check, with_suspend_reason, h0]
  · cases hx : (HasProcessExited cfg env s.m_hGraphicsApplication s.exit_status).1
    · simp [liveness_check, with_suspend_reason, h0, hx]
    · cases hD : s.m_bDefault_gfx_running
      · simp [liveness_check, with_suspend_reason, SetError, h0, hx, hD]
      · cases hk : s.killing_default_gfx
        · by_cases hcode : (HasProcessExited cfg env s.m_hGraphicsApplication s.exit_status).2 =
              cfg.DEFAULT_GFX_CANT_CONNECT
          · simp [liveness_check, with_suspend_reason, SetError, h0, hx, hD, hk, hcode]
          · simp [liveness_check, with_suspend_reason, SetError, h0, hx, hD, hk, hcode]
        · simp [liveness_check, with_suspend_reason, SetError, h0, hx, hD, hk]

theorem suspend_check_sr (cfg : Config) (r : Nat) (s : State)
    (hr : suspended cfg r = false) (hs : suspended cfg s.suspend_reason = false) :
    suspend_check cfg (with_suspend_reason r s) = with_suspend_reason r (suspend_check cfg s) := by
  unfold suspend_check
  have e4 : (with_suspend_reason r s).suspend_reason = r := rfl
  rw [e4, hr, hs]
  rfl

theorem phase_evaluation_sr (cfg : Config) (now : Int) (r : Nat) (s : State) :
    phase_evaluation cfg now (with_suspend_reason r s) =
      with_suspend_reason r (phase_evaluation cfg now s) := by
  unfold phase_evaluation
  rw [to_default_phase_sr, to_science_phase_sr]

/-- When neither the old nor the new suspend reason counts as a suspension, the
part of a pass after the task refresh does the same whatever the reason. -/
theorem reconcile_sr (cfg : Config) (env : Env) (r : Nat) (s : State)
    (hr : suspended cfg r = false) (hs : suspended cfg s.suspend_reason = false) :
    reconcile cfg env (with_suspend_reason r s) =
      (with_suspend_reason r (reconcile cfg env s).1, (reconcile cfg env s).2) := by
  unfold reconcile
  simp only []
  have hk1 : (phase_evaluation cfg env.dtime s).suspend_reason = s.suspend_reason :=
    suspend_reason_kept (phase_evaluation cfg env.dtime)
      (fun r t => phase_evaluation_sr cfg env.dtime r t) s
  have hs1 : suspended cfg (phase_evaluation cfg env.dtime s).suspend_reason = false := by
    rw [hk1]; exact hs
  have hk2 : (suspend_check cfg (phase_evaluation cfg env.dtime s)).suspend_reason =
      s.suspend_reason := by
    rw [← hk1]
    unfold suspend_check
    rw [hs1]
    rfl
  have hk3 : (switch_to_default env
      (suspend_check cfg (phase_evaluation cfg env.dtime s))).1.suspend_reason =
      s.suspend_reason := by
    rw [← hk2]
    exact suspend_reason_kept (fun t => (switch_to_default env t).1)
      (fun r t => by simp only [switch_to_default_sr]) _
  rw [phase_evaluation_sr, suspend_check_sr cfg r _ hr hs1, switch_to_default_sr,
    science_phase_sr cfg env r _ hr (by rw [hk3]; exact hs), liveness_check_sr]

theorem suspended_zero (cfg : Config) : suspended cfg 0 = false := by
  simp [suspended]

/-- A reason whose set bits all lie within `CPU_THROTTLE | CPU_USAGE` does not
count as a suspension. -/
theorem suspended_of_within_mask (cfg : Config) (r : Nat)
    (h : r &&& (cfg.SUSPEND_REASON_CPU_THROTTLE ||| cfg.SUSPEND_REASON_CPU_USAGE) = r) :
    suspended cfg r = false := by
  unfold suspended
  by_cases h0 : r = 0
  · simp [h0]
  · rw [h]
    simp [h0]

theorem refresh_sr (env : Env) (r : Nat) (s : State) :
    refresh (with_reported_reason r env) (with_suspend_reason r s) =
      (with_suspend_reason r
          (refresh (with_reported_reason 0 env) (with_suspend_reason 0 s)).1,
        (refresh (with_reported_reason 0 env) (with_suspend_reason 0 s)).2) ∧
    (refresh (with_reported_reason 0 env) (with_suspend_reason 0 s)).1.suspend_reason = 0 := by
  cases hc : s.m_bConnected <;> cases hu : env.rpc_up_at_retry <;>
    cases hrc : s.m_bResetCoreState <;>
    by_cases hg : env.get_state_retval = 0 <;>
    by_cases ht : env.tasks_retval = 0 <;>
    simp [refresh, HandleRPCError, with_suspend_reason, with_reported_reason, hc, hu, hrc,
      hg, ht]

theorem stop_thread_sr (r : Nat) (s : State) :
    stop_thread (with_suspend_reason r s) =
      { state := with_suspend_reason r (stop_thread s).state
        actions := (stop_thread s).actions
        returned := (stop_thread s).returned } := by
  unfold stop_thread
  have e1 : (with_suspend_reason r s).graphics_app_result_ptr = s.graphics_app_result_ptr := rfl
  have e2 : (with_suspend_reason r s).m_hGraphicsApplication = s.m_hGraphicsApplication := rfl
  have e3 : (with_suspend_reason r s).m_bScience_gfx_running = s.m_bScience_gfx_running := rfl
  have e4 : (with_suspend_reason r s).m_bDefault_gfx_running = s.m_bDefault_gfx_running := rfl
  rw [e1, e2, e3, e4]
  split <;> rfl

/-- A pass with a suspend reason that does not count as a suspension does what
the same pass does with suspend reason 0. -/
theorem tick_sr (cfg : Config) (env : Env) (s : State) (r : Nat)
    (hr : suspended cfg r = false) :
    tick cfg (with_reported_reason r env) (with_suspend_reason r s) =
      { state := with_suspend_reason r
          (tick cfg (with_reported_reason 0 env) (with_suspend_reason 0 s)).state
        actions := (tick cfg (with_reported_reason 0 env) (with_suspend_reason 0 s)).actions
        returned :=
          (tick cfg (with_reported_reason 0 env) (with_suspend_reason 0 s)).returned } := by
  have eo : other_thread (with_reported_reason r env) (with_suspend_reason r s) =
      with_suspend_reason r
        (other_thread (with_reported_reason 0 env) (with_suspend_reason 0 s)) := rfl
  have eb : blank_due cfg (with_reported_reason r env) =
      blank_due cfg (with_reported_reason 0 env) := rfl
  have er := refresh_sr env r
    (other_thread (with_reported_reason 0 env) (with_suspend_reason 0 s))
  have eo2 : with_suspend_reason 0
      (other_thread (with_reported_reason 0 env) (with_suspend_reason 0 s)) =
      other_thread (with_reported_reason 0 env) (with_suspend_reason 0 s) := rfl
  rw [eo2] at er
  obtain ⟨er1, er2⟩ := er
  unfold tick
  simp only []
  rw [eo, eb, er1]
  have eq : (with_suspend_reason r
      (other_thread (with_reported_reason 0 env)
        (with_suspend_reason 0 s))).m_bQuitDataManagementProc =
      (other_thread (with_reported_reason 0 env)
        (with_suspend_reason 0 s)).m_bQuitDataManagementProc := rfl
  rw [eq]
  split
  · rw [stop_thread_sr]
  · split
    · rfl
    · simp only []
      split
      · rw [reconcile_sr cfg _ r _ hr (by rw [er2]; exact suspended_zero cfg)]
        rfl
      · rfl


/-! ## The phase clock -/

/-- What `switch_to_default` does to the phase clock: the phase, the phase start
times and the accumulated duration are kept; the default saver may get
launched, and then, inside the science phase, its start time is `now`. -/
theorem switch_to_default_clock (env : Env) (s : State) :
    (switch_to_default env s).1.ss_phase = s.ss_phase ∧
    (switch_to_default env s).1.default_phase_start_time = s.default_phase_start_time ∧
    (switch_to_default env s).1.science_phase_start_time = s.science_phase_start_time ∧
    (switch_to_default env s).1.default_saver_duration_in_science_phase =
      s.default_saver_duration_in_science_phase ∧
    (((switch_to_default env s).1.m_bDefault_gfx_running = s.m_bDefault_gfx_running ∧
      (switch_to_default env s).1.default_saver_start_time_in_science_phase =
        s.default_saver_start_time_in_science_phase) ∨
     (s.m_bDefault_gfx_running = false ∧
      (switch_to_default env s).2 = [Action.launch_default_screensaver] ∧
      (s.ss_phase = SS_PHASE.SCIENCE_SS_PHASE →
        (switch_to_default env s).1.default_saver_start_time_in_science_phase = env.dtime))) ∧
    (∀ pid, Action.terminate_default_screensaver pid ∉ (switch_to_default env s).2) := by
  rcases switch_to_default_cases env s with h | ⟨hact, _, _, hD, hst⟩ | ⟨_, _, _, hact, hst⟩
  · rw [h]
    exact ⟨rfl, rfl, rfl, rfl, Or.inl ⟨rfl, rfl⟩, fun pid hm => absurd hm (List.not_mem_nil _)⟩
  · rw [hact, hst]
    rcases launch_default_cases env.spawn_default_switch env.dtime
      (decide (s.ss_phase = SS_PHASE.SCIENCE_SS_PHASE))
      { s with switch_to_default_gfx := false } with ⟨_, h⟩ | ⟨_, h⟩
    · rw [h]
      exact ⟨rfl, rfl, rfl, rfl, Or.inl ⟨hD.symm, rfl⟩, fun pid hm => by simp at hm⟩
    · rw [h]
      refine ⟨rfl, rfl, rfl, rfl, Or.inr ⟨hD, rfl, ?_⟩, fun pid hm => by simp at hm⟩
      intro hph
      simp [hph]
  · rw [hst]
    have hfr : ∀ t : State, (after_terminate t).ss_phase = t.ss_phase ∧
        (after_terminate t).default_phase_start_time = t.default_phase_start_time ∧
        (after_terminate t).science_phase_start_time = t.science_phase_start_time ∧
        (after_terminate t).default_saver_duration_in_science_phase =
          t.default_saver_duration_in_science_phase ∧
        (after_terminate t).m_bDefault_gfx_running = t.m_bDefault_gfx_running ∧
        (after_terminate t).default_saver_start_time_in_science_phase =
          t.default_saver_start_time_in_science_phase := by
      intro t
      unfold after_terminate
      split <;> exact ⟨rfl, rfl, rfl, rfl, rfl, rfl⟩
    obtain ⟨f1, f2, f3, f4, f5, f6⟩ := hfr s
    refine ⟨f1, f2, f3, f4, Or.inl ⟨f5, f6⟩, ?_⟩
    intro pid hm
    rcases hact with h | ⟨_, h⟩
    · rw [h] at hm; exact absurd hm (List.not_mem_nil _)
    · rw [h] at hm; simp at hm

/-- What the science phase block does to the phase clock: the phase and the
phase start times are kept; the accumulated duration is kept, unless the
default saver was running and is terminated to make room for a chosen task,
in which case the time since its start is added. -/
theorem science_phase_clock (cfg : Config) (env : Env) (s : State) :
    (science_phase cfg env s).1.ss_phase = s.ss_phase ∧
    (science_phase cfg env s).1.default_phase_start_time = s.default_phase_start_time ∧
    (science_phase cfg env s).1.science_phase_start_time = s.science_phase_start_time ∧
    ((science_phase cfg env s).1.default_saver_duration_in_science_phase =
        s.default_saver_duration_in_science_phase ∨
      (s.m_bDefault_gfx_running = true ∧ s.ss_phase = SS_PHASE.SCIENCE_SS_PHASE ∧
        s.default_saver_start_time_in_science_phase ≠ 0 ∧
        (science_phase cfg env s).1.default_saver_duration_in_science_phase =
          s.default_saver_duration_in_science_phase +
            (env.dtime_after_kill - s.default_saver_start_time_in_science_phase))) ∧
    ((∃ pid, Action.terminate_default_screensaver pid ∈ (science_phase cfg env s).2) →
      (science_phase cfg env s).1.default_saver_duration_in_science_phase =
        if s.default_saver_start_time_in_science_phase ≠ 0 then
          s.default_saver_duration_in_science_phase +
            (env.dtime_after_kill - s.default_saver_start_time_in_science_phase)
        else s.default_saver_duration_in_science_phase) := by
  by_cases hen : s.ss_phase = SS_PHASE.SCIENCE_SS_PHASE ∧ ¬ s.switch_to_default_gfx = true
  · have hsw : s.switch_to_default_gfx = false := by simpa using hen.2
    have hsp : science_phase cfg env s =
        ((fallback_to_default env
            (pick_and_launch cfg env (check_running_science cfg env.dtime s).1).1).1,
          (check_running_science cfg env.dtime s).2 ++
            (pick_and_launch cfg env (check_running_science cfg env.dtime s).1).2 ++
            (fallback_to_default env
              (pick_and_launch cfg env (check_running_science cfg env.dtime s).1).1).2) := by
      simp [science_phase, hen]
    rw [hsp]
    obtain ⟨res, lct, running, g, p, hcr, _, _, hT, _, _, _⟩ :=
      check_running_science_cases cfg env.dtime s
    -- the clock after the check of running science graphics
    have c_ph : (check_running_science cfg env.dtime s).1.ss_phase = s.ss_phase := by rw [hcr]
    have c_dp : (check_running_science cfg env.dtime s).1.default_phase_start_time =
        s.default_phase_start_time := by rw [hcr]
    have c_sp : (check_running_science cfg env.dtime s).1.science_phase_start_time =
        s.science_phase_start_time := by rw [hcr]
    have c_du : (check_running_science cfg env.dtime s).1.default_saver_duration_in_science_phase
        = s.default_saver_duration_in_science_phase := by rw [hcr]
    have c_st : (check_running_science cfg env.dtime s).1.default_saver_start_time_in_science_phase
        = s.default_saver_start_time_in_science_phase := by rw [hcr]
    have c_D : (check_running_science cfg env.dtime s).1.m_bDefault_gfx_running =
        s.m_bDefault_gfx_running := by rw [hcr]
    have c_sw : (check_running_science cfg env.dtime s).1.switch_to_default_gfx = false := by
      rw [hcr]; exact hsw
    have hTn : ∀ pid, Action.terminate_default_screensaver pid ∉
        (check_running_science cfg env.dtime s).2 := by
      intro pid hm
      have := (hT _ hm).1
      exact Action.noConfusion this
    generalize check_running_science cfg env.dtime s = cr at *
    -- the clock after the launch of the default saver as a fallback
    have hfb : ∀ t : State,
        (fallback_to_default env t).1.ss_phase = t.ss_phase ∧
        (fallback_to_default env t).1.default_phase_start_time = t.default_phase_start_time ∧
        (fallback_to_default env t).1.science_phase_start_time = t.science_phase_start_time ∧
        (fallback_to_default env t).1.default_saver_duration_in_science_phase =
          t.default_saver_duration_in_science_phase ∧
        (∀ pid, Action.terminate_default_screensaver pid ∉ (fallback_to_default env t).2) := by
      intro t
      rcases fallback_to_default_cases env t with ⟨_, h⟩ | ⟨_, _, h⟩ | ⟨_, _, h⟩
      · rw [h]; exact ⟨rfl, rfl, rfl, rfl, fun pid hm => absurd hm (List.not_mem_nil _)⟩
      · rw [h]; exact ⟨rfl, rfl, rfl, rfl, fun pid hm => absurd hm (List.not_mem_nil _)⟩
      · rw [h]
        rcases launch_default_cases env.spawn_default_fallback env.dtime true
          { t with switch_to_default_gfx := false } with ⟨_, h2⟩ | ⟨_, h2⟩
        · rw [h2]; exact ⟨rfl, rfl, rfl, rfl, fun pid hm => by simp at hm⟩
        · rw [h2]; exact ⟨rfl, rfl, rfl, rfl, fun pid hm => by simp at hm⟩
    obtain ⟨f_ph, f_dp, f_sp, f_du, f_nt⟩ := hfb (pick_and_launch cfg env cr.1).1
    simp only []
    rw [f_ph, f_dp, f_sp, f_du]
    have hmem : (∃ pid, Action.terminate_default_screensaver pid ∈
        cr.2 ++ (pick_and_launch cfg env cr.1).2 ++
          (fallback_to_default env (pick_and_launch cfg env cr.1).1).2) →
        ∃ pid, Action.terminate_default_screensaver pid ∈ (pick_and_launch cfg env cr.1).2 := by
      rintro ⟨pid, hm⟩
      rcases List.mem_append.mp hm with h | h
      · rcases List.mem_append.mp h with h | h
        · exact absurd h (hTn pid)
        · exact ⟨pid, h⟩
      · exact absurd h (f_nt pid)
    rcases pick_and_launch_cases cfg env cr.1 with ⟨hpk, _⟩ | ⟨_, _, res2, p2, hpk⟩ |
      ⟨hD, _, _, rp, _, hpk⟩ | ⟨_, _, _, _, rp, _, hacts, hst⟩
    · have k_ph : (pick_and_launch cfg env cr.1).1.ss_phase = cr.1.ss_phase := by rw [hpk]
      have k_dp : (pick_and_launch cfg env cr.1).1.default_phase_start_time =
          cr.1.default_phase_start_time := by rw [hpk]
      have k_sp : (pick_and_launch cfg env cr.1).1.science_phase_start_time =
          cr.1.science_phase_start_time := by rw [hpk]
      have k_du : (pick_and_launch cfg env cr.1).1.default_saver_duration_in_science_phase =
          cr.1.default_saver_duration_in_science_phase := by rw [hpk]
      rw [k_ph, k_dp, k_sp, k_du]
      refine ⟨c_ph, c_dp, c_sp, Or.inl c_du, ?_⟩
      intro hex
      obtain ⟨pid, hm⟩ := hmem hex
      rw [hpk] at hm
      exact absurd hm (List.not_mem_nil _)
    · have k_ph : (pick_and_launch cfg env cr.1).1.ss_phase = cr.1.ss_phase := by
        rw [hpk]
        rcases none_chosen_cases { cr.1 with results := res2, graphics_app_result_ptr := none,
                                             previous_result_ptr := p2 } with ⟨_, h⟩ | ⟨_, h⟩
        · rw [h]
        · rw [h]
      have k_dp : (pick_and_launch cfg env cr.1).1.default_phase_start_time =
          cr.1.default_phase_start_time := by
        rw [hpk]
        rcases none_chosen_cases { cr.1 with results := res2, graphics_app_result_ptr := none,
                                             previous_result_ptr := p2 } with ⟨_, h⟩ | ⟨_, h⟩
        · rw [h]
        · rw [h]
      have k_sp : (pick_and_launch cfg env cr.1).1.science_phase_start_time =
          cr.1.science_phase_start_time := by
        rw [hpk]
        rcases none_chosen_cases { cr.1 with results := res2, graphics_app_result_ptr := none,
                                             previous_result_ptr := p2 } with ⟨_, h⟩ | ⟨_, h⟩
        · rw [h]
        · rw [h]
      have k_du : (pick_and_launch cfg env cr.1).1.default_saver_duration_in_science_phase =
          cr.1.default_saver_duration_in_science_phase := by
        rw [hpk]
        rcases none_chosen_cases { cr.1 with results := res2, graphics_app_result_ptr := none,
                                             previous_result_ptr := p2 } with ⟨_, h⟩ | ⟨_, h⟩
        · rw [h]
        · rw [h]
      rw [k_ph, k_dp, k_sp, k_du]
      refine ⟨c_ph, c_dp, c_sp, Or.inl c_du, ?_⟩
      intro hex
      obtain ⟨pid, hm⟩ := hmem hex
      rw [hpk] at hm
      exact absurd hm (List.not_mem_nil _)
    · have k_ph : (pick_and_launch cfg env cr.1).1.ss_phase = cr.1.ss_phase := by rw [hpk]
      have k_dp : (pick_and_launch cfg env cr.1).1.default_phase_start_time =
          cr.1.default_phase_start_time := by rw [hpk]
      have k_sp : (pick_and_launch cfg env cr.1).1.science_phase_start_time =
          cr.1.science_phase_start_time := by rw [hpk]
      have k_du : (pick_and_launch cfg env cr.1).1.default_saver_duration_in_science_phase =
          if s.default_saver_start_time_in_science_phase ≠ 0 then
            s.default_saver_duration_in_science_phase +
              (env.dtime_after_kill - s.default_saver_start_time_in_science_phase)
          else s.default_saver_duration_in_science_phase := by
        rw [hpk]
        simp only []
        rw [c_du, c_st]
      rw [k_ph, k_dp, k_sp, k_du]
      rw [c_D] at hD
      refine ⟨c_ph, c_dp, c_sp, ?_, fun _ => rfl⟩
      by_cases h0 : s.default_saver_start_time_in_science_phase = 0
      · left; simp [h0]
      · right; exact ⟨hD, hen.1, h0, by simp [h0]⟩
    · have k : (pick_and_launch cfg env cr.1).1.ss_phase = cr.1.ss_phase ∧
          (pick_and_launch cfg env cr.1).1.default_phase_start_time =
            cr.1.default_phase_start_time ∧
          (pick_and_launch cfg env cr.1).1.science_phase_start_time =
            cr.1.science_phase_start_time ∧
          (pick_and_launch cfg env cr.1).1.default_saver_duration_in_science_phase =
            cr.1.default_saver_duration_in_science_phase := by
        rcases hst with ⟨_, h⟩ | ⟨_, h⟩
        · rw [h]; exact ⟨rfl, rfl, rfl, rfl⟩
        · rw [h]; exact ⟨rfl, rfl, rfl, rfl⟩
      obtain ⟨k_ph, k_dp, k_sp, k_du⟩ := k
      rw [k_ph, k_dp, k_sp, k_du]
      refine ⟨c_ph, c_dp, c_sp, Or.inl c_du, ?_⟩
      intro hex
      obtain ⟨pid, hm⟩ := hmem hex
      rw [hacts] at hm
      simp at hm
  · have hsk : science_phase cfg env s = (s, []) := by
      unfold science_phase
      rw [if_neg hen]
    rw [hsk]
    refine ⟨rfl, rfl, rfl, Or.inl rfl, ?_⟩
    rintro ⟨pid, hm⟩
    exact absurd hm (List.not_mem_nil _)

/-- Inside the science phase, with the science period not over, the phase tests
change nothing. -/
theorem phase_evaluation_science_goes_on (cfg : Config) (now : Int) (s : State)
    (hph : s.ss_phase = SS_PHASE.SCIENCE_SS_PHASE)
    (hper : now - s.science_phase_start_time ≤ cfg.m_fGFXSciencePeriod) :
    phase_evaluation cfg now s = s := by
  have h1 : to_default_phase cfg now s = s := by
    unfold to_default_phase
    split
    · rw [if_neg]
      intro h
      omega
    · rfl
  unfold phase_evaluation
  rw [h1]
  unfold to_science_phase
  rw [if_neg]
  rw [hph]
  simp

/-- The second phase test either leaves the state alone or ends in the science phase. -/
theorem to_science_phase_cases (cfg : Config) (now : Int) (t : State) :
    to_science_phase cfg now t = t ∨
      (to_science_phase cfg now t).ss_phase = SS_PHASE.SCIENCE_SS_PHASE := by
  unfold to_science_phase
  split
  · split
    · right; rfl
    · left; rfl
  · left; rfl

/-- The first phase test either leaves the state alone or starts the default
phase now, adding to the accumulated duration only when the default saver is
running. -/
theorem to_default_phase_cases (cfg : Config) (now : Int) (s : State) :
    to_default_phase cfg now s = s ∨
      ((to_default_phase cfg now s).ss_phase = SS_PHASE.DEFAULT_SS_PHASE ∧
        (to_default_phase cfg now s).default_phase_start_time = now ∧
        (s.m_bDefault_gfx_running = false →
          (to_default_phase cfg now s).default_saver_duration_in_science_phase =
            s.default_saver_duration_in_science_phase)) := by
  unfold to_default_phase
  split
  · split
    · right
      refine ⟨rfl, rfl, ?_⟩
      intro hD
      simp [hD]
    · left; rfl
  · left; rfl

/-- The phase tests started in the science phase and ended in the default
phase: the default phase starts now, and the accumulated duration is kept when
the default saver is not running. -/
theorem phase_evaluation_to_default (cfg : Config) (now : Int) (s : State)
    (hph : s.ss_phase = SS_PHASE.SCIENCE_SS_PHASE)
    (hD : s.m_bDefault_gfx_running = false)
    (hres : (phase_evaluation cfg now s).ss_phase = SS_PHASE.DEFAULT_SS_PHASE) :
    (phase_evaluation cfg now s).default_phase_start_time = now ∧
      (phase_evaluation cfg now s).default_saver_duration_in_science_phase =
        s.default_saver_duration_in_science_phase := by
  unfold phase_evaluation at hres ⊢
  rcases to_science_phase_cases cfg now (to_default_phase cfg now s) with h | h
  · rw [h] at hres ⊢
    rcases to_default_phase_cases cfg now s with h2 | ⟨_, h3, h4⟩
    · rw [h2, hph] at hres
      exact SS_PHASE.noConfusion hres
    · exact ⟨h3, h4 hD⟩
  · rw [h] at hres
    exact SS_PHASE.noConfusion hres

/-- The phase tests in the default phase: the science phase starts exactly when
the link is up, the science period is positive, and the time in the default
phase plus the accumulated duration exceeds the default period; otherwise the
clock is left alone. -/
theorem phase_evaluation_in_default (cfg : Config) (now : Int) (s : State)
    (hph : s.ss_phase = SS_PHASE.DEFAULT_SS_PHASE) :
    ((phase_evaluation cfg now s).ss_phase = SS_PHASE.SCIENCE_SS_PHASE ↔
      (s.m_bConnected = true ∧ cfg.m_fGFXSciencePeriod > 0 ∧
        s.default_phase_start_time ≠ 0 ∧
        now - s.default_phase_start_time + s.default_saver_duration_in_science_phase >
          cfg.m_fGFXDefaultPeriod)) ∧
    ((phase_evaluation cfg now s).ss_phase = SS_PHASE.DEFAULT_SS_PHASE →
      phase_evaluation cfg now s = s) := by
  have h1 : to_default_phase cfg now s = s := by
    unfold to_default_phase
    rw [if_neg]
    rw [hph]
    simp
  unfold phase_evaluation
  rw [h1]
  unfold to_science_phase
  by_cases ha : s.ss_phase = SS_PHASE.DEFAULT_SS_PHASE ∧ s.m_bConnected = true ∧
      cfg.m_fGFXSciencePeriod > 0
  · rw [if_pos ha]
    by_cases hb : s.default_phase_start_time ≠ 0 ∧
        now - s.default_phase_start_time + s.default_saver_duration_in_science_phase >
          cfg.m_fGFXDefaultPeriod
    · rw [if_pos hb]
      refine ⟨⟨fun _ => ⟨ha.2.1, ha.2.2, hb.1, hb.2⟩, fun _ => rfl⟩, ?_⟩
      intro h
      exact SS_PHASE.noConfusion h
    · rw [if_neg hb]
      refine ⟨⟨?_, fun h => absurd ⟨h.2.2.1, h.2.2.2⟩ hb⟩, fun _ => rfl⟩
      intro h
      rw [hph] at h
      exact SS_PHASE.noConfusion h
  · rw [if_neg ha]
    refine ⟨⟨?_, fun h => absurd ⟨hph, h.1, h.2.1⟩ ha⟩, fun _ => rfl⟩
    intro h
    rw [hph] at h
    exact SS_PHASE.noConfusion h

/-- What the part of a pass after the task refresh does to the phase clock, in
terms of the state `p` left by the phase tests. -/
theorem reconcile_clock (cfg : Config) (env : Env) (s : State) :
    (reconcile cfg env s).1.default_phase_start_time =
      (phase_evaluation cfg env.dtime s).default_phase_start_time ∧
    (reconcile cfg env s).1.science_phase_start_time =
      (phase_evaluation cfg env.dtime s).science_phase_start_time ∧
    ((reconcile cfg env s).1.ss_phase = (phase_evaluation cfg env.dtime s).ss_phase ∨
      (reconcile cfg env s).1.ss_phase = SS_PHASE.SCIENCE_SS_PHASE) ∧
    ((reconcile cfg env s).1.default_saver_duration_in_science_phase =
        (phase_evaluation cfg env.dtime s).default_saver_duration_in_science_phase ∨
      ((phase_evaluation cfg env.dtime s).m_bDefault_gfx_running = true ∧
        (phase_evaluation cfg env.dtime s).ss_phase = SS_PHASE.SCIENCE_SS_PHASE ∧
        (phase_evaluation cfg env.dtime s).default_saver_start_time_in_science_phase ≠ 0 ∧
        (reconcile cfg env s).1.default_saver_duration_in_science_phase =
          (phase_evaluation cfg env.dtime s).default_saver_duration_in_science_phase +
            (env.dtime_after_kill -
              (phase_evaluation cfg env.dtime s).default_saver_start_time_in_science_phase)) ∨
      ((phase_evaluation cfg env.dtime s).m_bDefault_gfx_running = false ∧
        (phase_evaluation cfg env.dtime s).ss_phase = SS_PHASE.SCIENCE_SS_PHASE ∧
        Action.launch_default_screensaver ∈ (reconcile cfg env s).2 ∧
        (reconcile cfg env s).1.default_saver_duration_in_science_phase =
          (phase_evaluation cfg env.dtime s).default_saver_duration_in_science_phase +
            (env.dtime_after_kill - env.dtime))) ∧
    ((phase_evaluation cfg env.dtime s).m_bDefault_gfx_running = true →
      (∃ pid, Action.terminate_default_screensaver pid ∈ (reconcile cfg env s).2) →
      (reconcile cfg env s).1.default_saver_duration_in_science_phase =
        if (phase_evaluation cfg env.dtime s).default_saver_start_time_in_science_phase ≠ 0
        then (phase_evaluation cfg env.dtime s).default_saver_duration_in_science_phase +
          (env.dtime_after_kill -
            (phase_evaluation cfg env.dtime s).default_saver_start_time_in_science_phase)
        else (phase_evaluation cfg env.dtime s).default_saver_duration_in_science_phase) := by
  have hrec : reconcile cfg env s =
      (liveness_check cfg env (science_phase cfg env
          (switch_to_default env (suspend_check cfg (phase_evaluation cfg env.dtime s))).1).1,
        (switch_to_default env (suspend_check cfg (phase_evaluation cfg env.dtime s))).2 ++
          (science_phase cfg env
            (switch_to_default env
              (suspend_check cfg (phase_evaluation cfg env.dtime s))).1).2) := by
    simp [reconcile]
  rw [hrec]
  generalize phase_evaluation cfg env.dtime s = p
  obtain ⟨m, sw, hsc⟩ := suspend_check_frame cfg p
  have a_ph : (suspend_check cfg p).ss_phase = p.ss_phase := by rw [hsc]
  have a_dp : (suspend_check cfg p).default_phase_start_time = p.default_phase_start_time := by
    rw [hsc]
  have a_sp : (suspend_check cfg p).science_phase_start_time = p.science_phase_start_time := by
    rw [hsc]
  have a_du : (suspend_check cfg p).default_saver_duration_in_science_phase =
      p.default_saver_duration_in_science_phase := by rw [hsc]
  have a_st : (suspend_check cfg p).default_saver_start_time_in_science_phase =
      p.default_saver_start_time_in_science_phase := by rw [hsc]
  have a_D : (suspend_check cfg p).m_bDefault_gfx_running = p.m_bDefault_gfx_running := by
    rw [hsc]
  generalize suspend_check cfg p = s1 at a_ph a_dp a_sp a_du a_st a_D
  obtain ⟨b_ph, b_dp, b_sp, b_du, b_alt, b_nt⟩ := switch_to_default_clock env s1
  obtain ⟨c_ph, c_dp, c_sp, c_du, c_fold⟩ :=
    science_phase_clock cfg env (switch_to_default env s1).1
  generalize hs2 : switch_to_default env s1 = s2 at *
  generalize hs3 : science_phase cfg env s2.1 = s3 at *
  have l_clock : (liveness_check cfg env s3.1).default_phase_start_time =
        s3.1.default_phase_start_time ∧
      (liveness_check cfg env s3.1).science_phase_start_time =
        s3.1.science_phase_start_time ∧
      (liveness_check cfg env s3.1).default_saver_duration_in_science_phase =
        s3.1.default_saver_duration_in_science_phase ∧
      ((liveness_check cfg env s3.1).ss_phase = s3.1.ss_phase ∨
        (liveness_check cfg env s3.1).ss_phase = SS_PHASE.SCIENCE_SS_PHASE) := by
    rcases liveness_check_cases cfg env s3.1 with ⟨_, h⟩ | ⟨_, _, h⟩ | ⟨h0, hx, ex, ph, k, h⟩
    · rw [h]; exact ⟨rfl, rfl, rfl, Or.inl rfl⟩
    · rw [h]; exact ⟨rfl, rfl, rfl, Or.inl rfl⟩
    · refine ⟨by rw [h], by rw [h], by rw [h], ?_⟩
      unfold liveness_check
      simp only [h0, hx, ne_eq, not_false_eq_true, if_true, SetError]
      split
      · split
        · right; split <;> rfl
        · left; rfl
      · left; rfl
  obtain ⟨l_dp, l_sp, l_du, l_ph⟩ := l_clock
  simp only []
  rw [l_dp, l_sp, l_du, c_dp, c_sp, b_dp, b_sp, a_dp, a_sp]
  refine ⟨rfl, rfl, ?_, ?_, ?_⟩
  · rcases l_ph with h | h
    · left; rw [h, c_ph, b_ph, a_ph]
    · right; exact h
  · rcases c_du with h | ⟨hD2, hph2, hne, h⟩
    · left; rw [h, b_du, a_du]
    · rw [b_ph, a_ph] at hph2
      rcases b_alt with ⟨hD, hst⟩ | ⟨hD1, hl, hst⟩
      · right; left
        rw [hD, a_D] at hD2
        rw [hst, b_du, a_du, a_st] at h
        rw [hst, a_st] at hne
        exact ⟨hD2, hph2, hne, h⟩
      · right; right
        rw [hst (by rw [a_ph]; exact hph2), b_du, a_du] at h
        rw [a_D] at hD1
        exact ⟨hD1, hph2, List.mem_append_left _ (by rw [hl]; exact List.mem_singleton_self _),
          h⟩
  · intro hD hex
    have hex2 : ∃ pid, Action.terminate_default_screensaver pid ∈ s3.2 := by
      obtain ⟨pid, hm⟩ := hex
      rcases List.mem_append.mp hm with h | h
      · exact absurd h (b_nt pid)
      · exact ⟨pid, h⟩
    have := c_fold hex2
    rcases b_alt with ⟨_, hst⟩ | ⟨hD1, _, _⟩
    · rw [hst, b_du, a_du, a_st] at this
      exact this
    · rw [a_D, hD] at hD1
      exact absurd hD1 (by simp)

/-- A pass that does not end the thread either skips the reconciliation, making
no call and leaving the phase clock alone, or reconciles from a state with the
phase clock it started with. -/
theorem tick_skip_or_reconcile (cfg : Config) (env : Env) (s : State)
    (hret : (tick cfg env s).returned = false) :
    ((tick cfg env s).actions = [] ∧
      (tick cfg env s).state.ss_phase = s.ss_phase ∧
      (tick cfg env s).state.default_phase_start_time = s.default_phase_start_time ∧
      (tick cfg env s).state.science_phase_start_time = s.science_phase_start_time ∧
      (tick cfg env s).state.default_saver_duration_in_science_phase =
        s.default_saver_duration_in_science_phase) ∨
    ((refresh env (other_thread env s)).1.ss_phase = s.ss_phase ∧
      (refresh env (other_thread env s)).1.default_phase_start_time =
        s.default_phase_start_time ∧
      (refresh env (other_thread env s)).1.science_phase_start_time =
        s.science_phase_start_time ∧
      (refresh env (other_thread env s)).1.default_saver_duration_in_science_phase =
        s.default_saver_duration_in_science_phase ∧
      (refresh env (other_thread env s)).1.default_saver_start_time_in_science_phase =
        s.default_saver_start_time_in_science_phase ∧
      (refresh env (other_thread env s)).1.m_bDefault_gfx_running = s.m_bDefault_gfx_running ∧
      (tick cfg env s).state = (reconcile cfg env (refresh env (other_thread env s)).1).1 ∧
      (tick cfg env s).actions = (reconcile cfg env (refresh env (other_thread env s)).1).2) := by
  obtain ⟨c, rc, sr, res, hr⟩ := refresh_frame env (other_thread env s)
  have e_ph : (refresh env (other_thread env s)).1.ss_phase = s.ss_phase := by rw [hr]; rfl
  have e_dp : (refresh env (other_thread env s)).1.default_phase_start_time =
      s.default_phase_start_time := by rw [hr]; rfl
  have e_sp : (refresh env (other_thread env s)).1.science_phase_start_time =
      s.science_phase_start_time := by rw [hr]; rfl
  have e_du : (refresh env (other_thread env s)).1.default_saver_duration_in_science_phase =
      s.default_saver_duration_in_science_phase := by rw [hr]; rfl
  have e_st : (refresh env (other_thread env s)).1.default_saver_start_time_in_science_phase =
      s.default_saver_start_time_in_science_phase := by rw [hr]; rfl
  have e_D : (refresh env (other_thread env s)).1.m_bDefault_gfx_running =
      s.m_bDefault_gfx_running := by rw [hr]; rfl
  rcases tick_cases cfg env s with ⟨_, ht⟩ | ⟨_, _, ht⟩ | ⟨_, _, _, ht⟩ | ⟨_, _, _, ht⟩
  · rw [ht] at hret
    exfalso
    unfold stop_thread at hret
    split at hret <;> simp at hret
  · left
    rw [ht]
    exact ⟨rfl, rfl, rfl, rfl, rfl⟩
  · left
    rw [ht]
    exact ⟨rfl, e_ph, e_dp, e_sp, e_du⟩
  · right
    rw [ht]
    exact ⟨e_ph, e_dp, e_sp, e_du, e_st, e_D, rfl, rfl⟩

/-- A pass that starts and ends in the default phase keeps the start of the
phase and the accumulated duration. -/
theorem tick_default_goes_on (cfg : Config) (env : Env) (s : State)
    (hph : s.ss_phase = SS_PHASE.DEFAULT_SS_PHASE)
    (hret : (tick cfg env s).returned = false)
    (hres : (tick cfg env s).state.ss_phase = SS_PHASE.DEFAULT_SS_PHASE) :
    (tick cfg env s).state.default_phase_start_time = s.default_phase_start_time ∧
      (tick cfg env s).state.default_saver_duration_in_science_phase =
        s.default_saver_duration_in_science_phase := by
  rcases tick_skip_or_reconcile cfg env s hret with ⟨_, _, h2, _, h4⟩ |
    ⟨r_ph, r_dp, _, r_du, _, _, hstate, _⟩
  · exact ⟨h2, h4⟩
  · obtain ⟨q_dp, _, q_ph, q_du, _⟩ :=
      reconcile_clock cfg env (refresh env (other_thread env s)).1
    rw [hstate] at hres ⊢
    have hp : (phase_evaluation cfg env.dtime (refresh env (other_thread env s)).1).ss_phase =
        SS_PHASE.DEFAULT_SS_PHASE := by
      rcases q_ph with h | h
      · rw [← h]; exact hres
      · rw [h] at hres; exact SS_PHASE.noConfusion hres
    have hpe := (phase_evaluation_in_default cfg env.dtime
      (refresh env (other_thread env s)).1 (by rw [r_ph, hph])).2 hp
    rw [hpe] at q_dp q_du
    refine ⟨by rw [q_dp, r_dp], ?_⟩
    rcases q_du with h | ⟨_, h, _⟩ | ⟨_, h, _⟩
    · rw [h, r_du]
    · rw [r_ph, hph] at h
      exact SS_PHASE.noConfusion h
    · rw [r_ph, hph] at h
      exact SS_PHASE.noConfusion h

/-- A stretch of passes inside the default phase keeps the start of the phase
and the accumulated duration. -/
theorem default_goes_on_keeps (cfg : Config) (envs : List Env) :
    ∀ s : State, s.ss_phase = SS_PHASE.DEFAULT_SS_PHASE →
      default_goes_on cfg s envs = true →
      (after_passes cfg s envs).ss_phase = SS_PHASE.DEFAULT_SS_PHASE ∧
        (after_passes cfg s envs).default_phase_start_time = s.default_phase_start_time ∧
        (after_passes cfg s envs).default_saver_duration_in_science_phase =
          s.default_saver_duration_in_science_phase := by
  induction envs with
  | nil => intro s hph _; exact ⟨hph, rfl, rfl⟩
  | cons env rest ih =>
    intro s hph hgo
    simp only [default_goes_on, Bool.and_eq_true, decide_eq_true_eq, Bool.not_eq_true'] at hgo
    obtain ⟨⟨⟨_, hret⟩, hres⟩, hrest⟩ := hgo
    obtain ⟨t_dp, t_du⟩ := tick_default_goes_on cfg env s hph hret hres
    obtain ⟨i1, i2, i3⟩ := ih (tick cfg env s).state hres hrest
    exact ⟨i1, by rw [← t_dp]; exact i2, by rw [← t_du]; exact i3⟩

/-! ## The accumulated duration across launches and transitions -/

/-- The steps of the reconciliation, written out. -/
theorem reconcile_eq (cfg : Config) (env : Env) (s : State) :
    reconcile cfg env s =
      (liveness_check cfg env
        (science_phase cfg env
          (switch_to_default env
            (suspend_check cfg (phase_evaluation cfg env.dtime s))).1).1,
       (switch_to_default env (suspend_check cfg (phase_evaluation cfg env.dtime s))).2 ++
        (science_phase cfg env
          (switch_to_default env
            (suspend_check cfg (phase_evaluation cfg env.dtime s))).1).2) := by
  simp [reconcile]

/-- A pass that makes a launch call is a pass that reconciles. -/
theorem tick_launch_reconciles (cfg : Config) (env : Env) (s : State)
    (h : ∃ a ∈ (tick cfg env s).actions, a.isLaunch = true) :
    (other_thread env s).m_bQuitDataManagementProc = false ∧ blank_due cfg env = false ∧
    (refresh env (other_thread env s)).2 = true ∧
    tick cfg env s =
      { state := (reconcile cfg env (refresh env (other_thread env s)).1).1
        actions := (reconcile cfg env (refresh env (other_thread env s)).1).2
        returned := false } := by
  obtain ⟨a, ha, hl⟩ := h
  rcases tick_cases cfg env s with ⟨_, ht⟩ | ⟨_, _, ht⟩ | ⟨_, _, _, ht⟩ | ⟨h1, h2, h3, ht⟩
  · exfalso
    rw [ht] at ha
    rcases stop_thread_actions (other_thread env s) with h | ⟨h, _⟩ | ⟨h, _⟩
    · rw [h] at ha; exact absurd ha (List.not_mem_nil _)
    · rw [h] at ha
      rw [List.mem_singleton.mp ha] at hl
      exact Bool.noConfusion hl
    · rw [h] at ha
      rw [List.mem_singleton.mp ha] at hl
      exact Bool.noConfusion hl
  · rw [ht] at ha; exact absurd ha (List.not_mem_nil _)
  · rw [ht] at ha; exact absurd ha (List.not_mem_nil _)
  · exact ⟨h1, h2, h3, ht⟩

/-- The liveness test leaves the accumulated duration alone. -/
theorem liveness_check_acc (cfg : Config) (env : Env) (s : State) :
    (liveness_check cfg env s).default_saver_duration_in_science_phase =
      s.default_saver_duration_in_science_phase := by
  rcases liveness_check_cases cfg env s with ⟨_, h⟩ | ⟨_, _, h⟩ | ⟨_, _, ex, ph, k, h⟩ <;>
    rw [h]

/-- The first phase test when the science period is over. -/
theorem to_default_phase_fired (cfg : Config) (now : Int) (s : State)
    (h : science_period_over cfg now s = true) :
    to_default_phase cfg now s =
      { s with
        switch_to_default_gfx :=
          if ¬ s.m_bDefault_gfx_running then true else s.switch_to_default_gfx
        ss_phase := SS_PHASE.DEFAULT_SS_PHASE
        default_phase_start_time := now
        science_phase_start_time := 0
        default_saver_duration_in_science_phase :=
          if s.m_bDefault_gfx_running ∧ s.default_saver_start_time_in_science_phase ≠ 0 then
            s.default_saver_duration_in_science_phase +
              (now - s.default_saver_start_time_in_science_phase)
          else s.default_saver_duration_in_science_phase
        default_saver_start_time_in_science_phase := 0 } := by
  simp only [science_period_over, Bool.and_eq_true, decide_eq_true_eq] at h
  obtain ⟨⟨⟨⟨h1, h2⟩, h3⟩, h4⟩, h5⟩ := h
  unfold to_default_phase
  rw [if_pos ⟨h1, h2, h3⟩, if_pos ⟨h4, h5⟩]

/-- The first phase test when the science period is not over. -/
theorem to_default_phase_idle (cfg : Config) (now : Int) (s : State)
    (h : science_period_over cfg now s = false) :
    to_default_phase cfg now s = s := by
  unfold to_default_phase
  split
  · rename_i h1
    split
    · rename_i h2
      exfalso
      have : science_period_over cfg now s = true := by
        simp only [science_period_over, Bool.and_eq_true, decide_eq_true_eq]
        exact ⟨⟨⟨⟨h1.1, h1.2.1⟩, h1.2.2⟩, h2.1⟩, h2.2⟩
      rw [h] at this
      exact Bool.noConfusion this
    · rfl
  · rfl

/-- The second phase test either leaves the state alone or starts the science
phase from the default phase, clearing the accumulated duration and the
request for the default saver. -/
theorem to_science_phase_fired (cfg : Config) (now : Int) (t : State) :
    to_science_phase cfg now t = t ∨
      (t.ss_phase = SS_PHASE.DEFAULT_SS_PHASE ∧
        (to_science_phase cfg now t).ss_phase = SS_PHASE.SCIENCE_SS_PHASE ∧
        (to_science_phase cfg now t).default_saver_duration_in_science_phase = 0 ∧
        (to_science_phase cfg now t).switch_to_default_gfx = false ∧
        (to_science_phase cfg now t).science_phase_start_time = now) := by
  unfold to_science_phase
  split
  · rename_i h
    split
    · right; exact ⟨h.1, rfl, rfl, rfl, rfl⟩
    · left; rfl
  · left; rfl

/-- The accumulated duration after phase tests that end in the science phase:
kept when the tests change nothing, cleared when they start the science
phase. -/
theorem phase_evaluation_acc (cfg : Config) (now : Int) (r : State)
    (h : (phase_evaluation cfg now r).ss_phase = SS_PHASE.SCIENCE_SS_PHASE) :
    (phase_evaluation cfg now r).default_saver_duration_in_science_phase =
      if science_period_over cfg now r = true ∨ r.ss_phase = SS_PHASE.DEFAULT_SS_PHASE then 0
      else r.default_saver_duration_in_science_phase := by
  unfold phase_evaluation at h ⊢
  cases hf : science_period_over cfg now r
  · rw [to_default_phase_idle cfg now r hf] at h ⊢
    rcases to_science_phase_fired cfg now r with h1 | ⟨h0, _, h2, _⟩
    · rw [h1] at h ⊢
      rw [if_neg]
      rintro (h3 | h3)
      · exact Bool.noConfusion h3
      · rw [h] at h3; exact SS_PHASE.noConfusion h3
    · rw [h2, if_pos (Or.inr h0)]
  · have e := to_default_phase_fired cfg now r hf
    rw [if_pos (Or.inl rfl)]
    rcases to_science_phase_fired cfg now (to_default_phase cfg now r) with h1 | ⟨_, _, h2, _⟩
    · rw [h1, e] at h
      exact SS_PHASE.noConfusion h
    · exact h2

/-- A reconciliation that launches science graphics: the phase tests ended in
the science phase, and nothing after them changed the accumulated duration. -/
theorem reconcile_science_launch (cfg : Config) (env : Env) (s : State) (rp : RESULT)
    (h : Action.launch_screensaver rp ∈ (reconcile cfg env s).2) :
    (phase_evaluation cfg env.dtime s).ss_phase = SS_PHASE.SCIENCE_SS_PHASE ∧
    (reconcile cfg env s).1.default_saver_duration_in_science_phase =
      (phase_evaluation cfg env.dtime s).default_saver_duration_in_science_phase := by
  rw [reconcile_eq] at h ⊢
  simp only at h ⊢
  generalize phase_evaluation cfg env.dtime s = p at *
  obtain ⟨m, sw, hsc⟩ := suspend_check_frame cfg p
  have a_ph : (suspend_check cfg p).ss_phase = p.ss_phase := by rw [hsc]
  have a_du : (suspend_check cfg p).default_saver_duration_in_science_phase =
      p.default_saver_duration_in_science_phase := by rw [hsc]
  generalize suspend_check cfg p = s1 at *
  obtain ⟨b_ph, _, _, b_du, _, _⟩ := switch_to_default_clock env s1
  have hL : Action.launch_screensaver rp ∉ (switch_to_default env s1).2 := by
    rcases switch_to_default_cases env s1 with h0 | ⟨h0, _⟩ | ⟨_, _, _, h0, _⟩
    · rw [h0]; exact List.not_mem_nil _
    · rw [h0]; simp
    · rcases h0 with h0 | ⟨_, h0⟩ <;> rw [h0] <;> simp
  generalize switch_to_default env s1 = s2 at *
  have hX : Action.launch_screensaver rp ∈ (science_phase cfg env s2.1).2 :=
    (List.mem_append.mp h).resolve_left hL
  have hph : s2.1.ss_phase = SS_PHASE.SCIENCE_SS_PHASE := by
    by_contra hne
    rw [science_phase_skip cfg env s2.1 (Or.inr hne)] at hX
    exact absurd hX (List.not_mem_nil _)
  obtain ⟨T, X, hTX, hT, _, hXc⟩ := science_phase_actions cfg env s2.1
  have hD : s2.1.m_bDefault_gfx_running = false := by
    rw [hTX] at hX
    rcases List.mem_append.mp hX with hx | hx
    · exact Action.noConfusion (hT _ hx).1
    · rcases hXc with h0 | ⟨rp2, _, _, hD, _⟩ | ⟨h1, _⟩ | ⟨h1, _⟩
      · rw [h0] at hx; exact absurd hx (List.not_mem_nil _)
      · exact hD
      · rw [h1] at hx; simp at hx
      · rw [h1] at hx; simp at hx
  obtain ⟨_, _, _, c_du, _⟩ := science_phase_clock cfg env s2.1
  have hacc : (science_phase cfg env s2.1).1.default_saver_duration_in_science_phase =
      s2.1.default_saver_duration_in_science_phase := by
    rcases c_du with h0 | ⟨h0, _⟩
    · exact h0
    · rw [hD] at h0; exact Bool.noConfusion h0
  rw [liveness_check_acc, hacc, b_du, a_du]
  exact ⟨by rw [← a_ph, ← b_ph]; exact hph, rfl⟩

/-- The refresh steps of a pass leave the phase clock and the test of the
science period alone. -/
theorem refresh_clock (cfg : Config) (env : Env) (s : State) :
    (refresh env (other_thread env s)).1.ss_phase = s.ss_phase ∧
    (refresh env (other_thread env s)).1.default_saver_duration_in_science_phase =
      s.default_saver_duration_in_science_phase ∧
    (refresh env (other_thread env s)).1.default_saver_start_time_in_science_phase =
      s.default_saver_start_time_in_science_phase ∧
    (refresh env (other_thread env s)).1.m_bDefault_gfx_running = s.m_bDefault_gfx_running ∧
    science_period_over cfg env.dtime (refresh env (other_thread env s)).1 =
      science_period_over cfg env.dtime s := by
  obtain ⟨c, rc, sr, res, hr⟩ := refresh_frame env (other_thread env s)
  rw [hr, other_thread_frame]
  exact ⟨rfl, rfl, rfl, rfl, rfl⟩

/-- The phase tests started in the science phase and ended in the default
phase: the default phase starts now, and the time the default saver has been
running inside the science phase is added to the accumulated duration. -/
theorem phase_evaluation_to_default_acc (cfg : Config) (now : Int) (s : State)
    (hph : s.ss_phase = SS_PHASE.SCIENCE_SS_PHASE)
    (hres : (phase_evaluation cfg now s).ss_phase = SS_PHASE.DEFAULT_SS_PHASE) :
    (phase_evaluation cfg now s).default_phase_start_time = now ∧
      (phase_evaluation cfg now s).default_saver_duration_in_science_phase =
        if s.m_bDefault_gfx_running = true ∧ s.default_saver_start_time_in_science_phase ≠ 0
        then s.default_saver_duration_in_science_phase +
          (now - s.default_saver_start_time_in_science_phase)
        else s.default_saver_duration_in_science_phase := by
  unfold phase_evaluation at hres ⊢
  cases hf : science_period_over cfg now s
  · rw [to_default_phase_idle cfg now s hf] at hres
    rcases to_science_phase_fired cfg now s with h1 | ⟨h0, _⟩
    · rw [h1, hph] at hres; exact SS_PHASE.noConfusion hres
    · rw [hph] at h0; exact SS_PHASE.noConfusion h0
  · have e := to_default_phase_fired cfg now s hf
    rcases to_science_phase_fired cfg now (to_default_phase cfg now s) with h1 | ⟨_, h2, _⟩
    · rw [h1, e]
      exact ⟨rfl, rfl⟩
    · rw [h2] at hres; exact SS_PHASE.noConfusion hres


/-! ## The request for the default saver and its disabling -/

/-- The phase tests: the existence mark and the running flag are kept, a
request stays sound, and nothing changes once the default saver is disabled. -/
theorem phase_evaluation_request (cfg : Config) (now : Int) (s : State) :
    (phase_evaluation cfg now s).m_bDefault_ss_exists = s.m_bDefault_ss_exists ∧
    (phase_evaluation cfg now s).m_bDefault_gfx_running = s.m_bDefault_gfx_running ∧
    (request_sound s → request_sound (phase_evaluation cfg now s)) ∧
    (default_disabled s → phase_evaluation cfg now s = s) := by
  obtain ⟨sw, ph, dps, sps, dur, st, hfr⟩ := phase_evaluation_frame cfg now s
  have e1 : (phase_evaluation cfg now s).m_bDefault_ss_exists = s.m_bDefault_ss_exists := by
    rw [hfr]
  have e2 : (phase_evaluation cfg now s).m_bDefault_gfx_running = s.m_bDefault_gfx_running := by
    rw [hfr]
  refine ⟨e1, e2, ?_, ?_⟩
  · intro hs hD
    rw [e2] at hD
    have hsw := hs hD
    unfold phase_evaluation
    rcases to_science_phase_fired cfg now (to_default_phase cfg now s) with h | ⟨_, _, _, h, _⟩
    · rw [h]
      cases hf : science_period_over cfg now s
      · rw [to_default_phase_idle cfg now s hf]; exact hsw
      · rw [to_default_phase_fired cfg now s hf]
        simp only [hD, not_true_eq_false, if_false]
        exact hsw
    · exact h
  · rintro ⟨h1, _, _, h4⟩
    have hf : science_period_over cfg now s = false := by
      simp [science_period_over, h1]
    unfold phase_evaluation
    rw [to_default_phase_idle cfg now s hf]
    rcases to_science_phase_fired cfg now s with h | ⟨h, _⟩
    · exact h
    · rw [h4] at h; exact SS_PHASE.noConfusion h

/-- The suspend test: the request is raised only when the default saver exists
and is not running. -/
theorem suspend_check_request (cfg : Config) (s : State) :
    (suspend_check cfg s).m_bDefault_ss_exists = s.m_bDefault_ss_exists ∧
    (suspend_check cfg s).m_bDefault_gfx_running = s.m_bDefault_gfx_running ∧
    (suspend_check cfg s).ss_phase = s.ss_phase ∧
    ((suspend_check cfg s).switch_to_default_gfx = s.switch_to_default_gfx ∨
      (s.m_bDefault_gfx_running = false ∧ s.m_bDefault_ss_exists = true ∧
        (suspend_check cfg s).switch_to_default_gfx = true)) := by
  unfold suspend_check SetError
  cases hsus : suspended cfg s.suspend_reason
  · simp
  · cases hD : s.m_bDefault_gfx_running
    · cases hE : s.m_bDefault_ss_exists <;> simp [hE]
    · simp [hD]

/-- The switch to the default saver: a launch call is made only on request with
the default saver not running, and clears the request. -/
theorem switch_to_default_request (env : Env) (s : State) :
    (switch_to_default env s).1.m_bDefault_ss_exists = s.m_bDefault_ss_exists ∧
    (switch_to_default env s).1.ss_phase = s.ss_phase ∧
    (((switch_to_default env s).1.m_bDefault_gfx_running = s.m_bDefault_gfx_running ∧
        (switch_to_default env s).1.switch_to_default_gfx = s.switch_to_default_gfx ∧
        Action.launch_default_screensaver ∉ (switch_to_default env s).2) ∨
      (s.m_bDefault_gfx_running = false ∧ s.switch_to_default_gfx = true ∧
        (switch_to_default env s).1.switch_to_default_gfx = false)) := by
  rcases switch_to_default_cases env s with h | ⟨_, h1, _, h2, h⟩ | ⟨_, _, _, ha, h⟩
  · rw [h]
    exact ⟨rfl, rfl, Or.inl ⟨rfl, rfl, List.not_mem_nil _⟩⟩
  · rw [h]
    rcases launch_default_cases env.spawn_default_switch env.dtime
      (decide (s.ss_phase = SS_PHASE.SCIENCE_SS_PHASE))
      { s with switch_to_default_gfx := false } with ⟨_, hl⟩ | ⟨_, hl⟩ <;>
    · rw [hl]
      exact ⟨rfl, rfl, Or.inr ⟨h2, h1, rfl⟩⟩
  · have hfr : (switch_to_default env s).1.m_bDefault_ss_exists = s.m_bDefault_ss_exists ∧
        (switch_to_default env s).1.ss_phase = s.ss_phase ∧
        (switch_to_default env s).1.m_bDefault_gfx_running = s.m_bDefault_gfx_running ∧
        (switch_to_default env s).1.switch_to_default_gfx = s.switch_to_default_gfx := by
      rw [h]
      unfold after_terminate
      split <;> exact ⟨rfl, rfl, rfl, rfl⟩
    refine ⟨hfr.1, hfr.2.1, Or.inl ⟨hfr.2.2.1, hfr.2.2.2, ?_⟩⟩
    rcases ha with h0 | ⟨_, h0⟩ <;> rw [h0] <;> simp

/-- The choice of a task: the request is raised only when the default saver
exists and is not running; no launch call for the default saver is made. -/
theorem pick_and_launch_request (cfg : Config) (env : Env) (s : State) :
    (pick_and_launch cfg env s).1.m_bDefault_ss_exists = s.m_bDefault_ss_exists ∧
    (pick_and_launch cfg env s).1.ss_phase = s.ss_phase ∧
    (pick_and_launch cfg env s).1.m_bDefault_gfx_running = s.m_bDefault_gfx_running ∧
    ((pick_and_launch cfg env s).1.switch_to_default_gfx = s.switch_to_default_gfx ∨
      (s.m_bDefault_gfx_running = false ∧ s.m_bDefault_ss_exists = true ∧
        (pick_and_launch cfg env s).1.switch_to_default_gfx = true)) ∧
    Action.launch_default_screensaver ∉ (pick_and_launch cfg env s).2 := by
  rcases pick_and_launch_cases cfg env s with ⟨h, _⟩ | ⟨_, _, res, p, h⟩ |
    ⟨_, _, _, rp, _, h⟩ | ⟨_, _, _, _, rp, _, ha, h⟩
  · rw [h]
    exact ⟨rfl, rfl, rfl, Or.inl rfl, List.not_mem_nil _⟩
  · rw [h]
    rcases none_chosen_cases { s with results := res, graphics_app_result_ptr := none,
                                      previous_result_ptr := p } with ⟨_, hn⟩ | ⟨hD, hn⟩
    · rw [hn]
      exact ⟨rfl, rfl, rfl, Or.inl rfl, List.not_mem_nil _⟩
    · rw [hn]
      refine ⟨rfl, rfl, rfl, ?_, List.not_mem_nil _⟩
      cases hE : s.m_bDefault_ss_exists
      · left; simp [hE]
      · right; exact ⟨hD, rfl, by simp [hE]⟩
  · rw [h]
    refine ⟨rfl, rfl, rfl, Or.inl rfl, ?_⟩
    rcases terminate_default_screensaver_cases s.m_hGraphicsApplication with h0 | ⟨_, h0⟩ <;>
      rw [h0] <;> simp
  · have hact : Action.launch_default_screensaver ∉ (pick_and_launch cfg env s).2 := by
      rw [ha]; simp
    rcases h with ⟨_, h⟩ | ⟨_, h⟩ <;>
    · rw [h]
      exact ⟨rfl, rfl, rfl, Or.inl rfl, hact⟩

/-- The fallback to the default saver: the request is cleared; a launch call is
made only on request with the default saver not running. -/
theorem fallback_to_default_request (env : Env) (s : State) :
    (fallback_to_default env s).1.m_bDefault_ss_exists = s.m_bDefault_ss_exists ∧
    (fallback_to_default env s).1.ss_phase = s.ss_phase ∧
    (s.switch_to_default_gfx = false → fallback_to_default env s = (s, [])) ∧
    (fallback_to_default env s).1.switch_to_default_gfx = false ∧
    ((fallback_to_default env s).1.m_bDefault_gfx_running = s.m_bDefault_gfx_running ∨
      (s.m_bDefault_gfx_running = false ∧ s.switch_to_default_gfx = true)) := by
  rcases fallback_to_default_cases env s with ⟨h1, h⟩ | ⟨h1, _, h⟩ | ⟨h1, hD, h⟩
  · rw [h]
    exact ⟨rfl, rfl, fun _ => rfl, h1, Or.inl rfl⟩
  · rw [h]
    refine ⟨rfl, rfl, ?_, rfl, Or.inl rfl⟩
    intro h0; rw [h1] at h0; exact Bool.noConfusion h0
  · rw [h]
    rcases launch_default_cases env.spawn_default_fallback env.dtime true
      { s with switch_to_default_gfx := false } with ⟨_, hl⟩ | ⟨_, hl⟩ <;>
    · rw [hl]
      refine ⟨rfl, rfl, ?_, rfl, Or.inr ⟨hD, h1⟩⟩
      intro h0; rw [h1] at h0; exact Bool.noConfusion h0

/-- The science phase when it is entered, written out. -/
theorem science_phase_eq (cfg : Config) (env : Env) (s : State)
    (hph : s.ss_phase = SS_PHASE.SCIENCE_SS_PHASE) (hsw : s.switch_to_default_gfx = false) :
    science_phase cfg env s =
      ((fallback_to_default env
          (pick_and_launch cfg env (check_running_science cfg env.dtime s).1).1).1,
        (check_running_science cfg env.dtime s).2 ++
          (pick_and_launch cfg env (check_running_science cfg env.dtime s).1).2 ++
          (fallback_to_default env
            (pick_and_launch cfg env (check_running_science cfg env.dtime s).1).1).2) := by
  simp [science_phase, hph, hsw]

/-- A launch call of the fallback is made on request with the default saver
not running. -/
theorem fallback_to_default_launch (env : Env) (s : State)
    (h : Action.launch_default_screensaver ∈ (fallback_to_default env s).2) :
    s.switch_to_default_gfx = true ∧ s.m_bDefault_gfx_running = false := by
  rcases fallback_to_default_cases env s with ⟨_, h0⟩ | ⟨_, _, h0⟩ | ⟨h1, hD, _⟩
  · rw [h0] at h; exact absurd h (List.not_mem_nil _)
  · rw [h0] at h; exact absurd h (List.not_mem_nil _)
  · exact ⟨h1, hD⟩

/-- The science phase: it is skipped, or it ends with no request pending; the
default saver is launched only when it exists and is not running. -/
theorem science_phase_request (cfg : Config) (env : Env) (s : State) :
    (science_phase cfg env s).1.m_bDefault_ss_exists = s.m_bDefault_ss_exists ∧
    (science_phase cfg env s).1.ss_phase = s.ss_phase ∧
    (science_phase cfg env s = (s, []) ∨
      (science_phase cfg env s).1.switch_to_default_gfx = false) ∧
    (((science_phase cfg env s).1.m_bDefault_gfx_running = s.m_bDefault_gfx_running ∧
        Action.launch_default_screensaver ∉ (science_phase cfg env s).2) ∨
      (s.m_bDefault_gfx_running = false ∧ s.m_bDefault_ss_exists = true)) := by
  by_cases hen : s.ss_phase = SS_PHASE.SCIENCE_SS_PHASE ∧ s.switch_to_default_gfx = false
  · rw [science_phase_eq cfg env s hen.1 hen.2]
    simp only
    obtain ⟨res, lct, running, g, p, hcr, _, _, hT, _, _, _⟩ :=
      check_running_science_cases cfg env.dtime s
    have c_ex : (check_running_science cfg env.dtime s).1.m_bDefault_ss_exists =
        s.m_bDefault_ss_exists := by rw [hcr]
    have c_ph : (check_running_science cfg env.dtime s).1.ss_phase = s.ss_phase := by rw [hcr]
    have c_D : (check_running_science cfg env.dtime s).1.m_bDefault_gfx_running =
        s.m_bDefault_gfx_running := by rw [hcr]
    have c_sw : (check_running_science cfg env.dtime s).1.switch_to_default_gfx =
        s.switch_to_default_gfx := by rw [hcr]
    have c_act : Action.launch_default_screensaver ∉ (check_running_science cfg env.dtime s).2 :=
      fun hm => Action.noConfusion (hT _ hm).1
    generalize check_running_science cfg env.dtime s = cr at *
    obtain ⟨p_ex, p_ph, p_D, p_sw, p_act⟩ := pick_and_launch_request cfg env cr.1
    generalize pick_and_launch cfg env cr.1 = pk at *
    obtain ⟨f_ex, f_ph, f_idle, f_sw, f_D⟩ := fallback_to_default_request env pk.1
    refine ⟨by rw [f_ex, p_ex, c_ex], by rw [f_ph, p_ph, c_ph], Or.inr f_sw, ?_⟩
    rcases p_sw with h | ⟨h1, h2, _⟩
    · left
      have hsw : pk.1.switch_to_default_gfx = false := by rw [h, c_sw]; exact hen.2
      rw [f_idle hsw]
      refine ⟨by rw [p_D, c_D], ?_⟩
      intro hm
      rcases List.mem_append.mp hm with hm | hm
      · rcases List.mem_append.mp hm with hm | hm
        · exact c_act hm
        · exact p_act hm
      · exact absurd hm (List.not_mem_nil _)
    · right
      exact ⟨by rw [← c_D]; exact h1, by rw [← c_ex]; exact h2⟩
  · have hsk : science_phase cfg env s = (s, []) := by
      apply science_phase_skip
      by_cases h1 : s.ss_phase = SS_PHASE.SCIENCE_SS_PHASE
      · left
        cases hsw : s.switch_to_default_gfx
        · exact absurd ⟨h1, hsw⟩ hen
        · rfl
      · right; exact h1
    rw [hsk]
    exact ⟨rfl, rfl, Or.inl rfl, Or.inl ⟨rfl, List.not_mem_nil _⟩⟩

/-- The liveness test: it keeps the request; it marks the default saver as not
existing only when the default saver was running, and then forces the science
phase. -/
theorem liveness_check_request (cfg : Config) (env : Env) (s : State) :
    (liveness_check cfg env s).switch_to_default_gfx = s.switch_to_default_gfx ∧
    ((liveness_check cfg env s).m_bDefault_gfx_running = s.m_bDefault_gfx_running ∨
      (liveness_check cfg env s).m_bDefault_gfx_running = false) ∧
    (((liveness_check cfg env s).m_bDefault_ss_exists = s.m_bDefault_ss_exists ∧
        (liveness_check cfg env s).ss_phase = s.ss_phase) ∨
      (s.m_bDefault_gfx_running = true ∧
        (liveness_check cfg env s).m_bDefault_ss_exists = false ∧
        (liveness_check cfg env s).ss_phase = SS_PHASE.SCIENCE_SS_PHASE ∧
        (liveness_check cfg env s).m_bDefault_gfx_running = false)) := by
  rcases liveness_check_cases cfg env s with ⟨_, h⟩ | ⟨_, _, h⟩ | ⟨h0, hx, ex, ph, k, h⟩
  · rw [h]; exact ⟨rfl, Or.inl rfl, Or.inl ⟨rfl, rfl⟩⟩
  · rw [h]; exact ⟨rfl, Or.inl rfl, Or.inl ⟨rfl, rfl⟩⟩
  · refine ⟨by rw [h], Or.inr (by rw [h]), ?_⟩
    have hD' : (liveness_check cfg env s).m_bDefault_gfx_running = false := by rw [h]
    unfold liveness_check at hD' ⊢
    simp only [h0, hx, ne_eq, not_false_eq_true, if_true, SetError] at hD' ⊢
    cases hD : s.m_bDefault_gfx_running
    · left
      simp
    · cases hk : s.killing_default_gfx
      · right
        refine ⟨rfl, ?_, ?_, ?_⟩
        · simp [hD, hk]
        · simp [hD, hk]
        · simp
      · left
        simp [hD, hk]

/-- The invariant of the request and of the disabling. -/
theorem reconcile_request (cfg : Config) (env : Env) (s : State) (hs : request_sound s)
    (hd : s.m_bDefault_ss_exists = false → default_disabled s) :
    request_sound (reconcile cfg env s).1 ∧
    ((reconcile cfg env s).1.m_bDefault_ss_exists = false →
      default_disabled (reconcile cfg env s).1) ∧
    (s.m_bDefault_ss_exists = false →
      Action.launch_default_screensaver ∉ (reconcile cfg env s).2) := by
  rw [reconcile_eq]
  simp only
  obtain ⟨a_ex, a_D, a_rs, a_dis⟩ := phase_evaluation_request cfg env.dtime s
  have a_rs := a_rs hs
  have a_hd : (phase_evaluation cfg env.dtime s).m_bDefault_ss_exists = false →
      default_disabled (phase_evaluation cfg env.dtime s) := by
    intro h
    rw [a_ex] at h
    rw [a_dis (hd h)]
    exact hd h
  generalize phase_evaluation cfg env.dtime s = p at *
  obtain ⟨b_ex, b_D, b_ph, b_sw⟩ := suspend_check_request cfg p
  have b_rs : request_sound (suspend_check cfg p) := by
    intro hD
    rcases b_sw with h | ⟨h, _⟩
    · rw [h]; exact a_rs (by rw [← b_D]; exact hD)
    · rw [b_D, h] at hD; exact Bool.noConfusion hD
  have b_hd : (suspend_check cfg p).m_bDefault_ss_exists = false →
      default_disabled (suspend_check cfg p) := by
    intro h
    obtain ⟨h1, h2, h3, h4⟩ := a_hd (by rw [← b_ex]; exact h)
    refine ⟨h, ?_, by rw [b_D]; exact h3, by rw [b_ph]; exact h4⟩
    rcases b_sw with h5 | ⟨_, h5, _⟩
    · rw [h5]; exact h2
    · rw [h1] at h5; exact Bool.noConfusion h5
  generalize suspend_check cfg p = s1 at *
  obtain ⟨c_ex, c_ph, c_alt⟩ := switch_to_default_request env s1
  have c_rs : request_sound (switch_to_default env s1).1 := by
    intro hD
    rcases c_alt with ⟨h1, h2, _⟩ | ⟨_, _, h⟩
    · rw [h2]; exact b_rs (by rw [← h1]; exact hD)
    · exact h
  have c_hd : (switch_to_default env s1).1.m_bDefault_ss_exists = false →
      default_disabled (switch_to_default env s1).1 ∧
        Action.launch_default_screensaver ∉ (switch_to_default env s1).2 := by
    intro h
    obtain ⟨h1, h2, h3, h4⟩ := b_hd (by rw [← c_ex]; exact h)
    rcases c_alt with ⟨h5, h6, h7⟩ | ⟨_, h5, _⟩
    · exact ⟨⟨h, by rw [h6]; exact h2, by rw [h5]; exact h3, by rw [c_ph]; exact h4⟩, h7⟩
    · rw [h2] at h5; exact Bool.noConfusion h5
  generalize switch_to_default env s1 = s2 at *
  obtain ⟨d_ex, d_ph, d_sw, d_alt⟩ := science_phase_request cfg env s2.1
  have d_rs : request_sound (science_phase cfg env s2.1).1 := by
    intro hD
    rcases d_sw with h | h
    · rw [h] at hD ⊢; exact c_rs hD
    · exact h
  have d_hd : (science_phase cfg env s2.1).1.m_bDefault_ss_exists = false →
      default_disabled (science_phase cfg env s2.1).1 ∧
        Action.launch_default_screensaver ∉ (science_phase cfg env s2.1).2 := by
    intro h
    have h0 : s2.1.m_bDefault_ss_exists = false := by rw [← d_ex]; exact h
    obtain ⟨⟨h1, h2, h3, h4⟩, _⟩ := c_hd h0
    rcases d_alt with ⟨h5, h6⟩ | ⟨_, h5⟩
    · refine ⟨⟨h, ?_, by rw [h5]; exact h3, by rw [d_ph]; exact h4⟩, h6⟩
      rcases d_sw with h7 | h7
      · rw [h7]; exact h2
      · exact h7
    · rw [h0] at h5; exact Bool.noConfusion h5
  generalize hs3 : science_phase cfg env s2.1 = s3 at *
  obtain ⟨e_sw, e_D, e_alt⟩ := liveness_check_request cfg env s3.1
  refine ⟨?_, ?_, ?_⟩
  · intro hD
    rw [e_sw]
    rcases e_D with h | h
    · exact d_rs (by rw [← h]; exact hD)
    · rw [h] at hD; exact Bool.noConfusion hD
  · intro h
    rcases e_alt with ⟨h1, h2⟩ | ⟨h1, _, h3, h4⟩
    · obtain ⟨⟨_, g2, g3, g4⟩, _⟩ := d_hd (by rw [← h1]; exact h)
      refine ⟨h, by rw [e_sw]; exact g2, ?_, by rw [h2]; exact g4⟩
      rcases e_D with h5 | h5
      · rw [h5]; exact g3
      · exact h5
    · exact ⟨h, by rw [e_sw]; exact d_rs h1, h4, h3⟩
  · intro h hm
    have h1 : s1.m_bDefault_ss_exists = false := by rw [b_ex, a_ex]; exact h
    have h2 : s2.1.m_bDefault_ss_exists = false := by rw [c_ex]; exact h1
    have h3 : s3.1.m_bDefault_ss_exists = false := by rw [d_ex]; exact h2
    rcases List.mem_append.mp hm with hm | hm
    · exact (c_hd h2).2 hm
    · exact (d_hd h3).2 hm

/-- The two invariants depend on four fields only. -/
theorem request_congr (s t : State)
    (h1 : t.m_bDefault_ss_exists = s.m_bDefault_ss_exists)
    (h2 : t.switch_to_default_gfx = s.switch_to_default_gfx)
    (h3 : t.m_bDefault_gfx_running = s.m_bDefault_gfx_running)
    (h4 : t.ss_phase = s.ss_phase) :
    (request_sound s → request_sound t) ∧ (default_disabled s → default_disabled t) := by
  unfold request_sound default_disabled
  rw [h1, h2, h3, h4]
  exact ⟨id, id⟩

/-- A pass keeps the request sound; once the default saver is marked as not
existing it is disabled, and a pass that starts with the default saver
disabled leaves it out of use. -/
theorem tick_request (cfg : Config) (env : Env) (s : State) (hs : request_sound s)
    (hd : s.m_bDefault_ss_exists = false → default_disabled s) :
    request_sound (tick cfg env s).state ∧
    ((tick cfg env s).state.m_bDefault_ss_exists = false →
      default_disabled (tick cfg env s).state) ∧
    (s.m_bDefault_ss_exists = false → without_default (tick cfg env s)) := by
  have key : ∀ r : TickResult,
      r.state.m_bDefault_ss_exists = s.m_bDefault_ss_exists →
      r.state.switch_to_default_gfx = s.switch_to_default_gfx →
      r.state.m_bDefault_gfx_running = s.m_bDefault_gfx_running →
      r.state.ss_phase = s.ss_phase →
      Action.launch_default_screensaver ∉ r.actions →
      request_sound r.state ∧
        (r.state.m_bDefault_ss_exists = false → default_disabled r.state) ∧
        (s.m_bDefault_ss_exists = false → without_default r) := by
    intro r h1 h2 h3 h4 h5
    obtain ⟨k1, k2⟩ := request_congr s r.state h1 h2 h3 h4
    refine ⟨k1 hs, fun h => k2 (hd (by rw [← h1]; exact h)), fun h => ?_⟩
    have := k2 (hd h)
    exact ⟨this.1, this.2.2.2, h5⟩
  obtain ⟨c, rc, sr, res, hr⟩ := refresh_frame env (other_thread env s)
  have r1 : (refresh env (other_thread env s)).1.m_bDefault_ss_exists =
      s.m_bDefault_ss_exists := by rw [hr, other_thread_frame]
  have r2 : (refresh env (other_thread env s)).1.switch_to_default_gfx =
      s.switch_to_default_gfx := by rw [hr, other_thread_frame]
  have r3 : (refresh env (other_thread env s)).1.m_bDefault_gfx_running =
      s.m_bDefault_gfx_running := by rw [hr, other_thread_frame]
  have r4 : (refresh env (other_thread env s)).1.ss_phase = s.ss_phase := by
    rw [hr, other_thread_frame]
  rcases tick_cases cfg env s with ⟨_, ht⟩ | ⟨_, _, ht⟩ | ⟨_, _, _, ht⟩ | ⟨_, _, _, ht⟩
  · rw [ht]
    have hfr : (stop_thread (other_thread env s)).state.m_bDefault_ss_exists =
          s.m_bDefault_ss_exists ∧
        (stop_thread (other_thread env s)).state.switch_to_default_gfx =
          s.switch_to_default_gfx ∧
        (stop_thread (other_thread env s)).state.m_bDefault_gfx_running =
          s.m_bDefault_gfx_running ∧
        (stop_thread (other_thread env s)).state.ss_phase = s.ss_phase := by
      unfold stop_thread
      split <;> exact ⟨rfl, rfl, rfl, rfl⟩
    refine key _ hfr.1 hfr.2.1 hfr.2.2.1 hfr.2.2.2 ?_
    rcases stop_thread_actions (other_thread env s) with h | ⟨h, _⟩ | ⟨h, _⟩ <;>
      rw [h] <;> simp
  · rw [ht]
    exact key _ rfl rfl rfl rfl (List.not_mem_nil _)
  · rw [ht]
    exact key _ r1 r2 r3 r4 (List.not_mem_nil _)
  · rw [ht]
    obtain ⟨k1, k2⟩ := request_congr s (refresh env (other_thread env s)).1 r1 r2 r3 r4
    obtain ⟨q1, q2, q3⟩ := reconcile_request cfg env (refresh env (other_thread env s)).1
      (k1 hs) (fun h => k2 (hd (by rw [← r1]; exact h)))
    refine ⟨q1, q2, fun h => ?_⟩
    have h0 : (refresh env (other_thread env s)).1.m_bDefault_ss_exists = false := by
      rw [r1]; exact h
    have hdd := k2 (hd h)
    have hpe := (phase_evaluation_request cfg env.dtime
      (refresh env (other_thread env s)).1).2.2.2 hdd
    have hex : (reconcile cfg env (refresh env (other_thread env s)).1).1.m_bDefault_ss_exists =
        false := by
      rw [reconcile_eq]
      simp only
      rcases (liveness_check_request cfg env _).2.2 with ⟨h1, _⟩ | ⟨_, h1, _⟩
      · rw [h1, (science_phase_request cfg env _).1, (switch_to_default_request env _).1,
          (suspend_check_request cfg _).1, hpe]
        exact h0
      · exact h1
    have := q2 hex
    exact ⟨hex, this.2.2.2, q3 h0⟩

/-- Once the default saver is disabled, every later pass leaves it out of use. -/
theorem run_without_default (cfg : Config) (envs : List Env) :
    ∀ s : State, request_sound s → default_disabled s →
      ∀ r ∈ run cfg s envs, without_default r := by
  induction envs with
  | nil =>
    intro s _ _ r hr
    simp [run] at hr
  | cons env rest ih =>
    intro s hs hd r hr
    obtain ⟨t1, t2, t3⟩ := tick_request cfg env s hs (fun _ => hd)
    have hw := t3 hd.1
    simp only [run] at hr
    split at hr
    · rw [List.mem_singleton.mp hr]; exact hw
    · rcases List.mem_cons.mp hr with h | h
      · rw [h]; exact hw
      · exact ih _ t1 (t2 hw.1) r h

/-- In a run, every pass that follows one after which the default saver is
marked as not existing leaves the default saver out of use. -/
theorem run_request (cfg : Config) (envs : List Env) :
    ∀ s : State, request_sound s → (s.m_bDefault_ss_exists = false → default_disabled s) →
      (run cfg s envs).Pairwise
        (fun a b => a.state.m_bDefault_ss_exists = false → without_default b) := by
  induction envs with
  | nil =>
    intro s _ _
    simp [run]
  | cons env rest ih =>
    intro s hs hd
    obtain ⟨t1, t2, _⟩ := tick_request cfg env s hs hd
    simp only [run]
    split
    · exact List.pairwise_singleton _ _
    · refine List.Pairwise.cons ?_ (ih _ t1 t2)
      intro b hb hex
      exact run_without_default cfg rest _ t1 (t2 hex) b hb


/-! ## Failed launches -/

/-- A failed launch of the default saver. -/
theorem launch_default_failed (o : SpawnOutcome) (now : Int) (b : Bool) (s : State)
    (h : o.retval ≠ 0) :
    launch_default o now b s =
      { s with m_bErrorMode := true, m_hrError := SCRAPPERR.CANTLAUNCHDEFAULTGFXAPP,
               m_hGraphicsApplication := 0, previous_result_ptr := none,
               graphics_app_result_ptr := none, m_bDefault_gfx_running := false } := by
  rcases launch_default_cases o now b s with ⟨_, h1⟩ | ⟨h0, _⟩
  · exact h1
  · exact absurd h0 h

/-- The science phase block when every launch fails: if it makes a launch call,
or starts with no process held or recorded, it ends with nothing shown; and
a science launch is made only when the client is not suspended and the vector
holds a task that can be displayed. -/
theorem science_phase_failed (cfg : Config) (env : Env) (t : State) (hc : consistent t)
    (hf : launches_fail env) (hph : t.ss_phase = SS_PHASE.SCIENCE_SS_PHASE)
    (hsw : t.switch_to_default_gfx = false)
    (h : (∃ a ∈ (science_phase cfg env t).2, a.isLaunch = true) ∨
      (t.m_hGraphicsApplication = 0 ∧ t.graphics_app_result_ptr = none)) :
    nothing_shown (science_phase cfg env t).1 ∧
    (science_phase cfg env t).1.m_bDefault_ss_exists = t.m_bDefault_ss_exists ∧
    (∀ rp, Action.launch_screensaver rp ∈ (science_phase cfg env t).2 →
      suspended cfg t.suspend_reason = false ∧
        ∃ x ∈ t.results, displayable t.m_vIncompatibleGfxApps x = true) := by
  have h0 : t.m_hGraphicsApplication = 0 := by
    rcases h with ⟨a, ha, hl⟩ | ⟨h0, _⟩
    · obtain ⟨T, X, hTX, hT, _, hX⟩ := science_phase_actions cfg env t
      rw [hTX] at ha
      rcases List.mem_append.mp ha with hx | hx
      · have := (hT a hx).1
        rw [this] at hl
        exact Bool.noConfusion hl
      · rcases hX with hX | ⟨rp, _, h0, _⟩ | ⟨hX, _⟩ | ⟨_, h0, _⟩
        · rw [hX] at hx; exact absurd hx (List.not_mem_nil _)
        · exact h0
        · rw [hX] at hx
          rw [List.mem_singleton.mp hx] at hl
          exact Bool.noConfusion hl
        · exact h0
    · exact h0
  obtain ⟨hS, hD⟩ := consistent_null_handle t hc h0
  obtain ⟨_, _, _, _, _, _, _, _, _, _, _, hcr⟩ := check_running_science_cases cfg env.dtime t
  have hsp : science_phase cfg env t =
      ((fallback_to_default env (pick_and_launch cfg env t).1).1,
        (pick_and_launch cfg env t).2 ++
          (fallback_to_default env (pick_and_launch cfg env t).1).2) := by
    rw [science_phase_eq cfg env t hph hsw, hcr hS]
    simp
  rw [hsp] at h ⊢
  simp only at h ⊢
  rcases pick_and_launch_cases cfg env t with ⟨hpk, hng⟩ | ⟨_, hg, res, p, hpk⟩ |
    ⟨hD2, _⟩ | ⟨_, _, hg, hsus, rp, hsel, hact, hst⟩
  · -- the guard of line 857 fails
    exfalso
    rw [hpk] at h
    simp only at h
    rw [fallback_to_default_idle env t hsw] at h
    rcases h with ⟨a, ha, _⟩ | ⟨_, hg⟩
    · simp at ha
    · exact hng ⟨Or.inr h0, hg⟩
  · -- no task is chosen
    rw [hpk]
    simp only [List.nil_append]
    have hn : ∃ m sw, none_chosen
        { t with results := res, graphics_app_result_ptr := none, previous_result_ptr := p } =
        { t with results := res, graphics_app_result_ptr := none, previous_result_ptr := p, m_bErrorMode := m, switch_to_default_gfx := sw } := by
      rcases none_chosen_cases
        { t with results := res, graphics_app_result_ptr := none, previous_result_ptr := p }
        with ⟨_, hn⟩ | ⟨_, hn⟩
      · exact ⟨t.m_bErrorMode, t.switch_to_default_gfx, by rw [hn]⟩
      · exact ⟨true, t.m_bDefault_ss_exists || t.switch_to_default_gfx, by rw [hn]⟩
    obtain ⟨m, sw, hn⟩ := hn
    rw [hn]
    rcases fallback_to_default_cases env
      { t with results := res, graphics_app_result_ptr := none, previous_result_ptr := p, m_bErrorMode := m, switch_to_default_gfx := sw }
      with ⟨h1, hfb⟩ | ⟨_, h2, _⟩ | ⟨_, _, hfb⟩
    · rw [hfb]
      refine ⟨⟨h0, hS, hD, rfl, h1⟩, rfl, ?_⟩
      intro rp hm
      exact absurd hm (List.not_mem_nil _)
    · have : t.m_bDefault_gfx_running = true := h2
      rw [hD] at this
      exact Bool.noConfusion this
    · rw [hfb, launch_default_failed _ _ _ _ hf.2.2]
      refine ⟨⟨rfl, hS, rfl, rfl, rfl⟩, rfl, ?_⟩
      intro rp hm
      simp at hm
  · -- a task is chosen while the default saver runs
    rw [hD] at hD2
    exact Bool.noConfusion hD2
  · -- a task is chosen and its graphics application is launched
    obtain ⟨hin, _, hpath, hcomp, _⟩ := get_random_sound _ _ _ _ _ hsel
    have hfail : (launch_screensaver env.spawn_science rp 0).1 ≠ 0 := by
      simp only [launch_screensaver, spawn, if_pos hpath]
      exact hf.2.1
    have hst2 : (pick_and_launch cfg env t).1 =
        { t with
          results := (get_random_graphics_app t.m_vIncompatibleGfxApps t.results
            t.previous_result_ptr env.rand).1
          m_hGraphicsApplication := 0
          previous_result_ptr := none
          graphics_app_result_ptr := none
          m_bScience_gfx_running := false } := by
      rcases hst with ⟨_, h1⟩ | ⟨h1, _⟩
      · exact h1
      · exact absurd h1 hfail
    have hsw2 : (pick_and_launch cfg env t).1.switch_to_default_gfx = false := by
      rw [hst2]; exact hsw
    rw [fallback_to_default_idle env _ hsw2, hact, hst2]
    refine ⟨⟨rfl, rfl, hD, rfl, hsw⟩, rfl, ?_⟩
    intro rp2 _
    refine ⟨hsus, rp, hin, ?_⟩
    simp [displayable, hpath, hcomp]

/-- With a null handle the liveness test does nothing. -/
theorem liveness_check_null (cfg : Config) (env : Env) (s : State)
    (h : s.m_hGraphicsApplication = 0) : liveness_check cfg env s = s := by
  rcases liveness_check_cases cfg env s with ⟨_, h1⟩ | ⟨h0, _⟩ | ⟨h0, _⟩
  · exact h1
  · exact absurd h h0
  · exact absurd h h0

/-- A science phase block that makes a launch call is not skipped. -/
theorem science_phase_launch_entered (cfg : Config) (env : Env) (t : State)
    (h : ∃ a ∈ (science_phase cfg env t).2, a.isLaunch = true) :
    t.ss_phase = SS_PHASE.SCIENCE_SS_PHASE ∧ t.switch_to_default_gfx = false := by
  obtain ⟨a, ha, _⟩ := h
  constructor
  · by_contra hne
    rw [science_phase_skip cfg env t (Or.inr hne)] at ha
    exact absurd ha (List.not_mem_nil _)
  · cases hsw : t.switch_to_default_gfx
    · rfl
    · rw [science_phase_skip cfg env t (Or.inl hsw)] at ha
      exact absurd ha (List.not_mem_nil _)

/-- The reconciliation when every launch fails: if it makes a science launch,
or a launch of the default saver and ends in the science phase, then it ends
in the science phase with nothing shown; and a science launch is made only
when the client is not suspended and the vector holds a task that can be
displayed. -/
theorem reconcile_failed (cfg : Config) (env : Env) (o : State) (hc : consistent o)
    (hf : launches_fail env)
    (hl : (∃ rp, Action.launch_screensaver rp ∈ (reconcile cfg env o).2) ∨
      (Action.launch_default_screensaver ∈ (reconcile cfg env o).2 ∧
        (reconcile cfg env o).1.ss_phase = SS_PHASE.SCIENCE_SS_PHASE)) :
    nothing_shown (reconcile cfg env o).1 ∧
    (reconcile cfg env o).1.ss_phase = SS_PHASE.SCIENCE_SS_PHASE ∧
    ((reconcile cfg env o).1.m_bDefault_ss_exists = true → o.m_bDefault_ss_exists = true) ∧
    (∀ rp, Action.launch_screensaver rp ∈ (reconcile cfg env o).2 →
      suspended cfg o.suspend_reason = false ∧
        ∃ x ∈ o.results, displayable o.m_vIncompatibleGfxApps x = true) := by
  rw [reconcile_eq] at hl ⊢
  simp only at hl ⊢
  obtain ⟨m, sw, ph, dps, sps, dur, st, hfr⟩ := before_switch_frame cfg env.dtime o
  have a_c : consistent (suspend_check cfg (phase_evaluation cfg env.dtime o)) := by
    apply consistent_congr o _ _ _ _ hc <;> rw [hfr]
  have a_sr : (suspend_check cfg (phase_evaluation cfg env.dtime o)).suspend_reason =
      o.suspend_reason := by rw [hfr]
  have a_res : (suspend_check cfg (phase_evaluation cfg env.dtime o)).results = o.results := by
    rw [hfr]
  have a_inc : (suspend_check cfg (phase_evaluation cfg env.dtime o)).m_vIncompatibleGfxApps =
      o.m_vIncompatibleGfxApps := by rw [hfr]
  have a_ex : (suspend_check cfg (phase_evaluation cfg env.dtime o)).m_bDefault_ss_exists =
      o.m_bDefault_ss_exists := by rw [hfr]
  generalize suspend_check cfg (phase_evaluation cfg env.dtime o) = s1 at *
  -- what the science phase block gives from a state `t` it enters
  have fin : ∀ t : State, consistent t → t.ss_phase = SS_PHASE.SCIENCE_SS_PHASE →
      t.switch_to_default_gfx = false →
      ((∃ a ∈ (science_phase cfg env t).2, a.isLaunch = true) ∨
        (t.m_hGraphicsApplication = 0 ∧ t.graphics_app_result_ptr = none)) →
      t.suspend_reason = o.suspend_reason → t.results = o.results →
      t.m_vIncompatibleGfxApps = o.m_vIncompatibleGfxApps →
      t.m_bDefault_ss_exists = o.m_bDefault_ss_exists →
      nothing_shown (liveness_check cfg env (science_phase cfg env t).1) ∧
      (liveness_check cfg env (science_phase cfg env t).1).ss_phase =
        SS_PHASE.SCIENCE_SS_PHASE ∧
      ((liveness_check cfg env (science_phase cfg env t).1).m_bDefault_ss_exists = true →
        o.m_bDefault_ss_exists = true) ∧
      (∀ rp, Action.launch_screensaver rp ∈ (science_phase cfg env t).2 →
        suspended cfg o.suspend_reason = false ∧
          ∃ x ∈ o.results, displayable o.m_vIncompatibleGfxApps x = true) := by
    intro t tc tph tsw th tsr tres tinc tex
    obtain ⟨k1, k2, k3⟩ := science_phase_failed cfg env t tc hf tph tsw th
    rw [liveness_check_null cfg env _ k1.1]
    refine ⟨k1, by rw [(science_phase_request cfg env t).2.1]; exact tph, ?_, ?_⟩
    · intro h; rw [k2, tex] at h; exact h
    · intro rp hm
      have := k3 rp hm
      rw [tsr, tres, tinc] at this
      exact this
  rcases switch_to_default_cases env s1 with h0 | ⟨hL, h1, h2, h3, hst⟩ | ⟨h1, _, h3, hL, _⟩
  · -- nothing is done on the request
    rw [h0] at hl ⊢
    simp only [List.nil_append] at hl ⊢
    have hX : ∃ a ∈ (science_phase cfg env s1).2, a.isLaunch = true := by
      rcases hl with ⟨rp, hm⟩ | ⟨hm, _⟩
      · exact ⟨_, hm, rfl⟩
      · exact ⟨_, hm, rfl⟩
    obtain ⟨tph, tsw⟩ := science_phase_launch_entered cfg env s1 hX
    exact fin s1 a_c tph tsw (Or.inl hX) a_sr a_res a_inc a_ex
  · -- the default saver is launched on the request
    have hst2 := hst
    rw [launch_default_failed _ _ _ _ hf.1] at hst2
    have t_h : (switch_to_default env s1).1.m_hGraphicsApplication = 0 := by rw [hst2]
    have t_g : (switch_to_default env s1).1.graphics_app_result_ptr = none := by rw [hst2]
    have t_S : (switch_to_default env s1).1.m_bScience_gfx_running = false := by
      rw [hst2]; exact h2
    have t_D : (switch_to_default env s1).1.m_bDefault_gfx_running = false := by rw [hst2]
    have t_sw : (switch_to_default env s1).1.switch_to_default_gfx = false := by rw [hst2]
    have t_sr : (switch_to_default env s1).1.suspend_reason = o.suspend_reason := by
      rw [hst2]; exact a_sr
    have t_res : (switch_to_default env s1).1.results = o.results := by rw [hst2]; exact a_res
    have t_inc : (switch_to_default env s1).1.m_vIncompatibleGfxApps =
        o.m_vIncompatibleGfxApps := by rw [hst2]; exact a_inc
    have t_ex : (switch_to_default env s1).1.m_bDefault_ss_exists = o.m_bDefault_ss_exists := by
      rw [hst2]; exact a_ex
    rw [hL] at hl ⊢
    generalize (switch_to_default env s1).1 = t at *
    have tph : t.ss_phase = SS_PHASE.SCIENCE_SS_PHASE := by
      by_contra hne
      rw [science_phase_skip cfg env t (Or.inr hne), liveness_check_null cfg env t t_h] at hl
      rcases hl with ⟨rp, hm⟩ | ⟨_, hm⟩
      · simp at hm
      · exact hne hm
    obtain ⟨k1, k2, k3, k4⟩ := fin t (consistent_idle t t_S t_D t_h) tph t_sw
      (Or.inr ⟨t_h, t_g⟩) t_sr t_res t_inc t_ex
    refine ⟨k1, k2, k3, ?_⟩
    intro rp hm
    rcases List.mem_append.mp hm with hm | hm
    · simp at hm
    · exact k4 rp hm
  · -- the science graphics is terminated on the request
    exfalso
    rw [science_phase_skip cfg env _ (Or.inl h3)] at hl
    simp only [List.append_nil] at hl
    rcases hL with hL | ⟨_, hL⟩ <;> rw [hL] at hl <;> simp at hl


/-- The suspend test when the client is not suspended. -/
theorem suspend_check_idle (cfg : Config) (s : State)
    (h : suspended cfg s.suspend_reason = false) : suspend_check cfg s = s := by
  simp [suspend_check, h]

/-- The suspend test when the client is suspended, the default saver exists
and is not running: the default saver is requested. -/
theorem suspend_check_suspended (cfg : Config) (s : State)
    (h : suspended cfg s.suspend_reason = true) (hD : s.m_bDefault_gfx_running = false)
    (hE : s.m_bDefault_ss_exists = true) :
    (suspend_check cfg s).switch_to_default_gfx = true ∧
    (suspend_check cfg s).m_bScience_gfx_running = s.m_bScience_gfx_running ∧
    (suspend_check cfg s).m_bDefault_gfx_running = false := by
  simp [suspend_check, h, hD, hE, SetError]

/-- A request for the default saver with nothing running leads to a launch. -/
theorem switch_to_default_launches (env : Env) (s : State)
    (h1 : s.switch_to_default_gfx = true) (h2 : s.m_bScience_gfx_running = false)
    (h3 : s.m_bDefault_gfx_running = false) :
    (switch_to_default env s).2 = [Action.launch_default_screensaver] := by
  simp [switch_to_default, h1, h2, h3]

/-- Without a request the switch to the default saver does nothing. -/
theorem switch_to_default_idle (env : Env) (s : State)
    (h : s.switch_to_default_gfx = false) : switch_to_default env s = (s, []) := by
  simp [switch_to_default, h]

/-- A request for the default saver in the science phase block with the
default saver not running leads to a launch. -/
theorem fallback_to_default_launches (env : Env) (s : State)
    (h1 : s.switch_to_default_gfx = true) (h3 : s.m_bDefault_gfx_running = false) :
    (fallback_to_default env s).2 = [Action.launch_default_screensaver] := by
  simp [fallback_to_default, h1, h3]

/-- With nothing shown and the client not suspended, the science phase block
launches the graphics of a task of the vector that can be displayed, or the
default saver if it exists. -/
theorem pick_then_fallback_launches (cfg : Config) (env : Env) (s : State)
    (hn : nothing_shown s) (hsus : suspended cfg s.suspend_reason = false) :
    ((∃ x ∈ s.results, displayable s.m_vIncompatibleGfxApps x = true) →
      ∃ rp, (pick_and_launch cfg env s).2 = [Action.launch_screensaver rp]) ∧
    (s.m_bDefault_ss_exists = true →
      ∃ a ∈ (pick_and_launch cfg env s).2 ++
          (fallback_to_default env (pick_and_launch cfg env s).1).2, a.isLaunch = true) := by
  obtain ⟨h0, hS, hD, hg, hsw⟩ := hn
  have hguard : (s.m_bDefault_gfx_running = true ∨ s.m_hGraphicsApplication = 0) ∧
      s.graphics_app_result_ptr = none := ⟨Or.inr h0, hg⟩
  cases hsel : (get_random_graphics_app s.m_vIncompatibleGfxApps s.results
      s.previous_result_ptr env.rand).2 with
  | none =>
    have hall := (get_random_none_iff _ _ _ _).mp hsel
    refine ⟨?_, ?_⟩
    · rintro ⟨x, hx, hd⟩
      rw [hall x hx] at hd
      exact Bool.noConfusion hd
    · intro hE
      have hpk : (pick_and_launch cfg env s).2 = [] ∧
          (pick_and_launch cfg env s).1.switch_to_default_gfx = true ∧
          (pick_and_launch cfg env s).1.m_bDefault_gfx_running = false := by
        simp [pick_and_launch, h0, hg, hsus, hsel, none_chosen, hD, hE, SetError]
      rw [hpk.1, fallback_to_default_launches env _ hpk.2.1 hpk.2.2]
      exact ⟨_, List.mem_singleton_self _, rfl⟩
  | some rp =>
    have hact : (pick_and_launch cfg env s).2 = [Action.launch_screensaver rp] := by
      by_cases hl : (launch_screensaver env.spawn_science rp 0).1 = 0
      · simp [pick_and_launch, hguard, hsus, hsel, hD, show_chosen, h0, hl]
      · simp [pick_and_launch, hguard, hsus, hsel, hD, show_chosen, h0, hl]
    refine ⟨fun _ => ⟨rp, hact⟩, fun _ => ?_⟩
    rw [hact]
    exact ⟨_, List.mem_append_left _ (List.mem_singleton_self _), rfl⟩

/-- The reconciliation from a state with nothing shown, in the science phase
with the science period not over: a launch call is made when the default
saver exists, and a science launch is made when the client is not suspended
and the vector holds a task that can be displayed. -/
theorem reconcile_retry (cfg : Config) (env : Env) (o : State) (hn : nothing_shown o)
    (hph : o.ss_phase = SS_PHASE.SCIENCE_SS_PHASE)
    (hper : env.dtime - o.science_phase_start_time ≤ cfg.m_fGFXSciencePeriod) :
    (o.m_bDefault_ss_exists = true → ∃ a ∈ (reconcile cfg env o).2, a.isLaunch = true) ∧
    (suspended cfg o.suspend_reason = false →
      (∃ x ∈ o.results, displayable o.m_vIncompatibleGfxApps x = true) →
      ∃ rp, Action.launch_screensaver rp ∈ (reconcile cfg env o).2) := by
  rw [reconcile_eq]
  simp only
  rw [phase_evaluation_science_goes_on cfg env.dtime o hph hper]
  cases hsus : suspended cfg o.suspend_reason
  · rw [suspend_check_idle cfg o hsus, switch_to_default_idle env o hn.2.2.2.2]
    simp only [List.nil_append]
    obtain ⟨_, _, _, _, _, _, _, _, _, _, _, hcr⟩ :=
      check_running_science_cases cfg env.dtime o
    rw [science_phase_eq cfg env o hph hn.2.2.2.2, hcr hn.2.1]
    simp only [List.nil_append]
    obtain ⟨k1, k2⟩ := pick_then_fallback_launches cfg env o hn hsus
    refine ⟨k2, fun _ hx => ?_⟩
    obtain ⟨rp, hrp⟩ := k1 hx
    exact ⟨rp, by rw [hrp]; exact List.mem_append_left _ (List.mem_singleton_self _)⟩
  · refine ⟨fun hE => ?_, fun h => Bool.noConfusion h⟩
    obtain ⟨k1, k2, k3⟩ := suspend_check_suspended cfg o hsus hn.2.2.1 hE
    rw [switch_to_default_launches env _ k1 (by rw [k2]; exact hn.2.1) k3]
    exact ⟨_, List.mem_append_left _ (List.mem_singleton_self _), rfl⟩


/-- A pass that reaches the reconciliation. -/
theorem tick_of_reconciles (cfg : Config) (env : Env) (s : State)
    (h : reconciles cfg env s) :
    tick cfg env s =
      { state := (reconcile cfg env (observed env s)).1
        actions := (reconcile cfg env (observed env s)).2
        returned := false } := by
  obtain ⟨h1, h2, h3⟩ := h
  rcases tick_cases cfg env s with ⟨k, _⟩ | ⟨_, k, _⟩ | ⟨_, _, k, _⟩ | ⟨_, _, _, ht⟩
  · rw [h1] at k; exact Bool.noConfusion k
  · rw [h2] at k; exact Bool.noConfusion k
  · rw [h3] at k; exact Bool.noConfusion k
  · exact ht

/-- What the refresh steps of a pass keep. -/
theorem observed_frame (env : Env) (s : State) :
    (observed env s).m_hGraphicsApplication = s.m_hGraphicsApplication ∧
    (observed env s).m_bScience_gfx_running = s.m_bScience_gfx_running ∧
    (observed env s).m_bDefault_gfx_running = s.m_bDefault_gfx_running ∧
    (observed env s).graphics_app_result_ptr = s.graphics_app_result_ptr ∧
    (observed env s).switch_to_default_gfx = s.switch_to_default_gfx ∧
    (observed env s).ss_phase = s.ss_phase ∧
    (observed env s).science_phase_start_time = s.science_phase_start_time ∧
    (observed env s).m_bDefault_ss_exists = s.m_bDefault_ss_exists := by
  unfold observed
  obtain ⟨c, rc, sr, res, hr⟩ := refresh_frame env (other_thread env s)
  rw [hr, other_thread_frame]
  exact ⟨rfl, rfl, rfl, rfl, rfl, rfl, rfl, rfl⟩

/-- A reconciliation that launches the default saver and ends in the default
phase ends with no request pending. -/
theorem reconcile_default_launched (cfg : Config) (env : Env) (o : State)
    (hl : Action.launch_default_screensaver ∈ (reconcile cfg env o).2)
    (hph : (reconcile cfg env o).1.ss_phase = SS_PHASE.DEFAULT_SS_PHASE) :
    (reconcile cfg env o).1.switch_to_default_gfx = false := by
  rw [reconcile_eq] at hl hph ⊢
  simp only at hl hph ⊢
  generalize suspend_check cfg (phase_evaluation cfg env.dtime o) = s1 at *
  obtain ⟨_, _, c_alt⟩ := switch_to_default_request env s1
  generalize switch_to_default env s1 = s2 at *
  obtain ⟨e_sw, _, e_alt⟩ := liveness_check_request cfg env (science_phase cfg env s2.1).1
  have hph2 : (science_phase cfg env s2.1).1.ss_phase = SS_PHASE.DEFAULT_SS_PHASE := by
    rcases e_alt with ⟨_, h⟩ | ⟨_, _, h, _⟩
    · rw [← h]; exact hph
    · rw [h] at hph; exact SS_PHASE.noConfusion hph
  rw [(science_phase_request cfg env s2.1).2.1] at hph2
  have hsk : science_phase cfg env s2.1 = (s2.1, []) :=
    science_phase_skip cfg env s2.1 (Or.inr (by rw [hph2]; exact fun h => SS_PHASE.noConfusion h))
  rw [e_sw, hsk]
  rw [hsk] at hl
  simp only [List.append_nil] at hl
  rcases c_alt with ⟨_, _, h⟩ | ⟨_, _, h⟩
  · exact absurd hl h
  · exact h

/-- A reconciliation in the default phase, with no request pending and the
client not suspended, that ends in the default phase makes no call. -/
theorem reconcile_default_quiet (cfg : Config) (env : Env) (o : State)
    (hph : o.ss_phase = SS_PHASE.DEFAULT_SS_PHASE) (hsw : o.switch_to_default_gfx = false)
    (hsus : suspended cfg o.suspend_reason = false)
    (hres : (reconcile cfg env o).1.ss_phase = SS_PHASE.DEFAULT_SS_PHASE) :
    (reconcile cfg env o).2 = [] := by
  obtain ⟨_, _, q_ph, _, _⟩ := reconcile_clock cfg env o
  have hp : (phase_evaluation cfg env.dtime o).ss_phase = SS_PHASE.DEFAULT_SS_PHASE := by
    rcases q_ph with h | h
    · rw [← h]; exact hres
    · rw [h] at hres; exact SS_PHASE.noConfusion hres
  have hpe := (phase_evaluation_in_default cfg env.dtime o hph).2 hp
  rw [reconcile_eq]
  simp only
  rw [hpe, suspend_check_idle cfg o hsus, switch_to_default_idle env o hsw,
    science_phase_skip cfg env o (Or.inr (by rw [hph]; exact fun h => SS_PHASE.noConfusion h))]
  rfl



/-! ## The selector (claims C2, C3, C4) -/

/-- C2: for every snapshot, every non-null `exclude` and every random value, if
the snapshot holds a task with a non-empty `graphics_exec_path` that is not in
the incompatibility list and is not the same task (name, project_url) as
`exclude`, then `get_random_graphics_app` returns a task of the snapshot that
is not the same task as `exclude`. -/
theorem C2_other_task_is_chosen (incompat : List String) (res : List RESULT)
    (exclude : RESULT) (rnd : Nat)
    (h : ∃ t ∈ res, t.graphics_exec_path ≠ "" ∧
      isIncompatible incompat t.graphics_exec_path = false ∧
      is_same_task (some t) (some exclude) = false) :
    ∃ t, (get_random_graphics_app incompat res (some exclude) rnd).2 = some t ∧
      t ∈ res ∧ is_same_task (some t) (some exclude) = false := by
  obtain ⟨t0, ht0, hp, hi, hs⟩ := h
  have hpos : 0 < (count_active_graphic_apps incompat res (some exclude)).2 :=
    (count_pos_iff incompat (some exclude) res).mpr ⟨t0, ht0, by simp [candidate, hp, hs], hi⟩
  cases hsel : (get_random_graphics_app incompat res (some exclude) rnd).2 with
  | none =>
    have := (get_random_none_iff incompat res (some exclude) rnd).mp hsel t0 ht0
    simp [displayable, hp, hi] at this
  | some t =>
    have hsound := get_random_sound incompat res (some exclude) rnd t hsel
    exact ⟨t, rfl, hsound.1, hsound.2.2.2.2 hpos⟩

/-- Witness for C2: with tasks A and B in the snapshot and A excluded, B is chosen. -/
theorem C2_other_task_is_chosen_witness :
    (∃ t ∈ [taskA, taskB], t.graphics_exec_path ≠ "" ∧
      isIncompatible [] t.graphics_exec_path = false ∧
      is_same_task (some t) (some taskA) = false) ∧
    ∃ t, (get_random_graphics_app [] [taskA, taskB] (some taskA) 7).2 = some t ∧
      t ∈ [taskA, taskB] ∧ is_same_task (some t) (some taskA) = false :=
  ⟨⟨taskB, by decide, by decide, by decide, by decide⟩,
    C2_other_task_is_chosen [] [taskA, taskB] taskA 7
      ⟨taskB, by decide, by decide, by decide, by decide⟩⟩

/-- C3: for every snapshot, `exclude` and random value, `get_random_graphics_app`
returns none exactly when the snapshot holds no task with a non-empty
`graphics_exec_path` outside the incompatibility list, whatever `exclude` is;
and when such tasks exist but all of them are the same task as `exclude`, one
of them is returned. -/
theorem C3_none_only_without_graphics (incompat : List String) (res : List RESULT)
    (exclude : Option RESULT) (rnd : Nat) :
    ((get_random_graphics_app incompat res exclude rnd).2 = none ↔
      ∀ t ∈ res, t.graphics_exec_path = "" ∨
        isIncompatible incompat t.graphics_exec_path = true) ∧
    ((∃ t ∈ res, t.graphics_exec_path ≠ "" ∧
        isIncompatible incompat t.graphics_exec_path = false) →
      (∀ t ∈ res, t.graphics_exec_path ≠ "" →
        isIncompatible incompat t.graphics_exec_path = false →
        is_same_task (some t) exclude = true) →
      ∃ t, (get_random_graphics_app incompat res exclude rnd).2 = some t ∧ t ∈ res ∧
        t.graphics_exec_path ≠ "" ∧ isIncompatible incompat t.graphics_exec_path = false ∧
        is_same_task (some t) exclude = true) := by
  have hiff : (get_random_graphics_app incompat res exclude rnd).2 = none ↔
      ∀ t ∈ res, t.graphics_exec_path = "" ∨
        isIncompatible incompat t.graphics_exec_path = true := by
    rw [get_random_none_iff]
    constructor
    · intro h t ht
      have := h t ht
      by_cases hp : t.graphics_exec_path = ""
      · left; exact hp
      · right; simpa [displayable, hp] using this
    · intro h t ht
      rcases h t ht with hp | hi
      · simp [displayable, hp]
      · simp [displayable, hi]
  refine ⟨hiff, ?_⟩
  rintro ⟨t0, ht0, hp0, hi0⟩ hall
  cases hsel : (get_random_graphics_app incompat res exclude rnd).2 with
  | none =>
    rcases hiff.mp hsel t0 ht0 with h | h
    · exact absurd h hp0
    · rw [hi0] at h; exact absurd h (by simp)
  | some t =>
    have hsound := get_random_sound incompat res exclude rnd t hsel
    exact ⟨t, rfl, hsound.1, hsound.2.2.1, hsound.2.2.2.1,
      hall t hsound.1 hsound.2.2.1 hsound.2.2.2.1⟩

/-- Witness for C3: with only task A in the snapshot and A excluded, A is chosen. -/
theorem C3_none_only_without_graphics_witness :
    (get_random_graphics_app [] [taskA] (some taskA) 5).2 = some taskA := by
  obtain ⟨t, h1, h2, _⟩ := (C3_none_only_without_graphics [] [taskA] (some taskA) 5).2
    ⟨taskA, by decide, by decide, by decide⟩ (by decide)
  rw [h1]
  simp only [List.mem_singleton] at h2
  rw [h2]

/-- C4: the task returned by `get_random_graphics_app` has a `graphics_exec_path`
that is not in the incompatibility list given to the call; and every task a
pass hands to `launch_screensaver` was returned by `get_random_graphics_app`
for the list in force during the pass, and is not in that list. -/
theorem C4_launched_task_is_compatible :
    (∀ (incompat : List String) (res : List RESULT) (exclude : Option RESULT) (rnd : Nat)
        (t : RESULT),
      (get_random_graphics_app incompat res exclude rnd).2 = some t →
        isIncompatible incompat t.graphics_exec_path = false) ∧
    (∀ (cfg : Config) (env : Env) (s : State) (rp : RESULT),
      Action.launch_screensaver rp ∈ (tick cfg env s).actions →
        isIncompatible (env.marked.foldl markAsIncompatible s.m_vIncompatibleGfxApps)
          rp.graphics_exec_path = false ∧
        ∃ res exclude, (get_random_graphics_app
          (env.marked.foldl markAsIncompatible s.m_vIncompatibleGfxApps)
          res exclude env.rand).2 = some rp) := by
  constructor
  · intro incompat res exclude rnd t h
    exact (get_random_sound incompat res exclude rnd t h).2.2.2.1
  · intro cfg env s rp hmem
    obtain ⟨L, T, X, hact, hL, hT, _, hX⟩ := tick_actions cfg env s
    rw [hact] at hmem
    rcases List.mem_append.mp hmem with h | h
    · rcases hL with hL | ⟨hL, _⟩
      · rw [hL] at h; exact absurd h (List.not_mem_nil _)
      · rw [hL] at h
        simp at h
    · rcases List.mem_append.mp h with h | h
      · have := (hT _ h).1
        simp [Action.isTerminate] at this
      · rcases hX with hX | ⟨rp2, hX, _, hc, hsel⟩ | ⟨pid, hX, _⟩ | ⟨hX, _⟩
        · rw [hX] at h; exact absurd h (List.not_mem_nil _)
        · rw [hX] at h
          simp only [List.mem_singleton] at h
          injection h with h
          subst h
          exact ⟨hc, hsel⟩
        · rw [hX] at h; simp at h
        · rw [hX] at h; simp at h

/-- Witness for C4: the first pass launches task A, which is not marked incompatible. -/
theorem C4_launched_task_is_compatible_witness :
    Action.launch_screensaver taskA ∈
        (tick exampleConfig (calmEnv 1001 0 [taskA]) entryState).actions ∧
      isIncompatible
        ((calmEnv 1001 0 [taskA]).marked.foldl markAsIncompatible
          entryState.m_vIncompatibleGfxApps) taskA.graphics_exec_path = false :=
  ⟨by decide,
    (C4_launched_task_is_compatible.2 exampleConfig (calmEnv 1001 0 [taskA]) entryState taskA
      (by decide)).1⟩


/-! ## Calls per pass (claims C5, C6) -/

/-- C5, counterexample: a run from the entry state in which the third pass makes
two calls.  Pass 1 launches the graphics of task A; pass 2, with
`suspend_reason` 4, terminates it and sees it exit, leaving the request for
the default saver standing; pass 3, no longer suspended, launches the default
saver (line 765) and in the same pass terminates it (line 867) because task A
can be shown. -/
theorem C5_counterexample :
    (tick exampleConfig (calmEnv 1003 0 [taskA])
      (run_state exampleConfig entryState
        [calmEnv 1001 0 [taskA], exitEnv 1002 4 [taskA] 0])).actions =
      [Action.launch_default_screensaver, Action.terminate_default_screensaver 101] ∧
    ¬ ((tick exampleConfig (calmEnv 1003 0 [taskA])
      (run_state exampleConfig entryState
        [calmEnv 1001 0 [taskA], exitEnv 1002 4 [taskA] 0])).actions.length ≤ 1) := by
  decide

/-- C5, amended: in every pass, for every state and every behaviour of the
external calls, the number of launch calls plus the number of terminate calls
that act on a process is at most three, and at most two when the pass starts
with `m_bScience_gfx_running` and `m_bDefault_gfx_running` not both set. -/
theorem C5_at_most_two_calls (cfg : Config) (env : Env) (s : State) :
    (tick cfg env s).actions.length ≤ 3 ∧
    (¬ (s.m_bScience_gfx_running = true ∧ s.m_bDefault_gfx_running = true) →
      (tick cfg env s).actions.length ≤ 2) := by
  obtain ⟨L, T, X, hact, hL, hT, hlen, hX⟩ := tick_actions cfg env s
  have hXlen : X.length ≤ 1 := by
    rcases hX with h | ⟨_, h, _⟩ | ⟨_, h, _⟩ | ⟨h, _⟩ <;> rw [h] <;> simp
  rw [hact, List.length_append, List.length_append]
  constructor
  · rcases hL with h | ⟨h, hTn, _⟩
    · rw [h]; simp; omega
    · rw [h, hTn]; simp; omega
  · intro hnot
    rcases hL with h | ⟨h, hTn, _⟩
    · rw [h]
      simp only [List.length_nil, zero_add]
      cases T with
      | nil => simp; omega
      | cons a rest =>
        have hS := (hT a (List.mem_cons_self _ _)).2
        have hXnil : X = [] := by
          rcases hX with h | ⟨_, _, h, _⟩ | ⟨_, _, h⟩ | ⟨_, h⟩
          · exact h
          · exact absurd h (List.cons_ne_nil _ _)
          · rcases h with h | h
            · exact absurd h (List.cons_ne_nil _ _)
            · exact absurd ⟨hS, h⟩ hnot
          · exact absurd h (List.cons_ne_nil _ _)
        rw [hXnil]
        simpa using hlen
    · rw [h, hTn]; simp; omega

/-- Witness for C5: the pass of the counterexample starts with neither flag set
and makes exactly two calls. -/
theorem C5_at_most_two_calls_witness :
    ¬ ((run_state exampleConfig entryState
          [calmEnv 1001 0 [taskA], exitEnv 1002 4 [taskA] 0]).m_bScience_gfx_running = true ∧
        (run_state exampleConfig entryState
          [calmEnv 1001 0 [taskA], exitEnv 1002 4 [taskA] 0]).m_bDefault_gfx_running = true) ∧
    (tick exampleConfig (calmEnv 1003 0 [taskA])
      (run_state exampleConfig entryState
        [calmEnv 1001 0 [taskA], exitEnv 1002 4 [taskA] 0])).actions.length ≤ 2 :=
  ⟨by decide,
    (C5_at_most_two_calls exampleConfig (calmEnv 1003 0 [taskA])
      (run_state exampleConfig entryState
        [calmEnv 1001 0 [taskA], exitEnv 1002 4 [taskA] 0])).2 (by decide)⟩

/-- C6: in every pass, for every state and every behaviour of the external calls,
no launch call (science or default) comes after a terminate call that acted on
a process in the same pass. -/
theorem C6_no_launch_after_terminate (cfg : Config) (env : Env) (s : State) :
    (tick cfg env s).actions.Pairwise
      (fun a b => ¬ (a.isTerminate = true ∧ b.isLaunch = true)) := by
  obtain ⟨L, T, X, hact, hL, hT, _, hX⟩ := tick_actions cfg env s
  rw [hact]
  have hLl : ∀ a ∈ L, a.isTerminate = false := by
    intro a ha
    rcases hL with h | ⟨h, _⟩
    · rw [h] at ha; exact absurd ha (List.not_mem_nil _)
    · rw [h] at ha
      simp only [List.mem_singleton] at ha
      rw [ha]; rfl
  have hTl : ∀ a ∈ T, a.isLaunch = false := by
    intro a ha
    have := (hT a ha).1
    cases a <;> simp_all [Action.isTerminate, Action.isLaunch]
  have hXl : T ≠ [] → ∀ a ∈ X, a.isLaunch = false := by
    intro hne a ha
    rcases hX with h | ⟨_, _, h, _⟩ | ⟨_, h, _⟩ | ⟨_, h⟩
    · rw [h] at ha; exact absurd ha (List.not_mem_nil _)
    · exact absurd h hne
    · rw [h] at ha
      simp only [List.mem_singleton] at ha
      rw [ha]; rfl
    · exact absurd h hne
  have hXp : X.Pairwise (fun a b => ¬ (a.isTerminate = true ∧ b.isLaunch = true)) := by
    rcases hX with h | ⟨_, h, _⟩ | ⟨_, h, _⟩ | ⟨h, _⟩ <;> rw [h] <;> simp
  rw [List.pairwise_append, List.pairwise_append]
  refine ⟨?_, ⟨?_, hXp, ?_⟩, ?_⟩
  · rcases hL with h | ⟨h, _⟩ <;> rw [h] <;> simp
  · rw [List.pairwise_iff_forall_sublist]
    intro a b hab
    have hb : b ∈ T := (hab.subset (List.mem_cons_of_mem _ (List.mem_singleton_self _)))
    intro hc
    rw [hTl b hb] at hc
    exact absurd hc.2 (by simp)
  · intro a ha b hb hc
    rw [hXl (List.ne_nil_of_mem ha) b hb] at hc
    exact absurd hc.2 (by simp)
  · intro a ha b _ hc
    rw [hLl a ha] at hc
    exact absurd hc.1 (by simp)


/-! ## Invariants of a run (claims C1, C7) -/

/-- The state at entry of the loop has no graphics and no handle. -/
theorem entry_consistent (file_exists : Bool) (now : Int) (connected reset_core : Bool) :
    consistent (DataManagementProc_entry file_exists now connected reset_core) :=
  consistent_idle _ rfl rfl rfl

/-- The first pass of a run. -/
theorem run_cons (cfg : Config) (s : State) (env : Env) (rest : List Env) :
    run cfg s (env :: rest) =
      if (tick cfg env s).returned then [tick cfg env s]
      else tick cfg env s :: run cfg (tick cfg env s).state rest := by
  simp [run]

/-- With spawns that deliver a process id whenever they report success, every
pass of a run that starts with the flags and the handle in agreement, and
does not end the thread, leaves them in agreement: at most one of
`m_bDefault_gfx_running` and `m_bScience_gfx_running` is set, and both are
clear exactly when the handle is null. -/
theorem run_consistent (cfg : Config) (envs : List Env) :
    ∀ (s : State), consistent s → (∀ e ∈ envs, well_behaved e) →
      ∀ r ∈ run cfg s envs, r.returned = false → consistent r.state := by
  induction envs with
  | nil => intro s _ _ r hr; simp [run] at hr
  | cons env rest ih =>
    intro s hc hw r hr hret
    rw [run_cons] at hr
    have hw0 : well_behaved env := hw env (List.mem_cons_self _ _)
    by_cases h0 : (tick cfg env s).returned = true
    · rw [if_pos h0] at hr
      simp only [List.mem_singleton] at hr
      rw [hr, h0] at hret
      exact absurd hret (by simp)
    · rw [if_neg h0] at hr
      have h0f : (tick cfg env s).returned = false := by simpa using h0
      have hc1 := (tick_inv cfg env s hc hw0 h0f).1
      rcases List.mem_cons.mp hr with h | h
      · rw [h]; exact hc1
      · exact ih _ hc1 (fun e he => hw e (List.mem_cons_of_mem _ he)) r h hret

/-- One pass with its history: the flags and the handle stay in agreement, and
running science graphics has its previous-task record set or has been sent a
terminate call. -/
theorem tick_record_or_terminate (cfg : Config) (env : Env) (s : State) (b : Bool)
    (hc : consistent s) (hw : well_behaved env)
    (hJ : s.m_bScience_gfx_running = true →
      s.previous_result_ptr.isSome = true ∨ b = true)
    (hret : (tick cfg env s).returned = false) :
    consistent (tick cfg env s).state ∧
      ((tick cfg env s).state.m_bScience_gfx_running = true →
        (tick cfg env s).state.previous_result_ptr.isSome = true ∨
          terminate_sent b (tick cfg env s) = true) := by
  obtain ⟨hc1, himp⟩ := tick_inv cfg env s hc hw hret
  refine ⟨hc1, ?_⟩
  intro hS
  have hh := (consistent_handle_of_science _ hc1 hS).1
  by_cases hP : s.m_bScience_gfx_running = true → s.previous_result_ptr.isSome = true
  · rcases himp hP hS with h | ⟨a, ha, hat⟩
    · left; exact h
    · right
      have hany : (tick cfg env s).actions.any Action.isScienceTerminate = true :=
        List.any_eq_true.mpr ⟨a, ha, hat⟩
      simp [terminate_sent, hh, hany]
  · right
    have hb : b = true := by
      by_cases hS0 : s.m_bScience_gfx_running = true
      · rcases hJ hS0 with h | h
        · exact absurd (fun _ => h) hP
        · exact h
      · exact absurd (fun h => absurd h hS0) hP
    simp [terminate_sent, hh, hb]

/-- The history at the end of a run that starts with history `b`. -/
theorem run_record_or_terminate (cfg : Config) (envs : List Env) :
    ∀ (s : State) (b : Bool), consistent s → (∀ e ∈ envs, well_behaved e) →
      (s.m_bScience_gfx_running = true → s.previous_result_ptr.isSome = true ∨ b = true) →
      ∀ r, (run cfg s envs).getLast? = some r → r.returned = false →
        r.state.m_bScience_gfx_running = true →
        r.state.previous_result_ptr.isSome = true ∨
          (run cfg s envs).foldl terminate_sent b = true := by
  induction envs with
  | nil => intro s b _ _ _ r hr; simp [run] at hr
  | cons env rest ih =>
    intro s b hc hw hJ r hr hret hS
    rw [run_cons] at hr ⊢
    have hw0 : well_behaved env := hw env (List.mem_cons_self _ _)
    by_cases h0 : (tick cfg env s).returned = true
    · rw [if_pos h0] at hr
      simp only [List.getLast?_singleton, Option.some.injEq] at hr
      rw [← hr, h0] at hret
      exact absurd hret (by simp)
    · rw [if_neg h0] at hr ⊢
      have h0f : (tick cfg env s).returned = false := by simpa using h0
      obtain ⟨hc1, hJ1⟩ := tick_record_or_terminate cfg env s b hc hw0 hJ h0f
      simp only [List.foldl_cons]
      cases hrest : run cfg (tick cfg env s).state rest with
      | nil =>
        rw [hrest] at hr
        simp only [List.getLast?_singleton, Option.some.injEq] at hr
        rw [← hr] at hS ⊢
        simpa using hJ1 hS
      | cons r1 tl =>
        rw [hrest] at hr
        have hlast : (run cfg (tick cfg env s).state rest).getLast? = some r := by
          rw [hrest]
          rw [List.getLast?_cons_cons] at hr
          exact hr
        have := ih (tick cfg env s).state (terminate_sent b (tick cfg env s)) hc1
          (fun e he => hw e (List.mem_cons_of_mem _ he)) hJ1 r hlast hret hS
        rw [hrest] at this
        exact this

/-- C1, the code at the failing input: on the `gIsCatalina` path, a first pass
in which the launch RPC returns 0 but no process id appears within the 800
polls ends with `m_bScience_gfx_running` set and a null handle, and the next
pass leaves it so. -/
theorem C1_flag_set_with_null_handle :
    (tick catalinaConfig (pidTimeoutEnv 1001 [taskA]) entryState).returned = false ∧
    (tick catalinaConfig (pidTimeoutEnv 1001 [taskA]) entryState).state.m_bScience_gfx_running
      = true ∧
    (tick catalinaConfig (pidTimeoutEnv 1001 [taskA]) entryState).state.m_hGraphicsApplication
      = 0 ∧
    ¬ consistent (tick catalinaConfig (pidTimeoutEnv 1001 [taskA]) entryState).state ∧
    ¬ consistent (run_state catalinaConfig entryState
      [pidTimeoutEnv 1001 [taskA], calmEnv 1002 0 [taskA]]) := by
  decide

/-- C7, counterexample: a run from the entry state.  Pass 1 launches the graphics
of task A; in pass 2 the client is suspended with reason 4, the science
graphics is terminated to make room for the default saver (line 753) and the
record is cleared (line 760), while the process is not yet seen to exit.
After pass 2 `m_bScience_gfx_running` is set and `previous_result_ptr` is null. -/
theorem C7_counterexample :
    (run_state exampleConfig entryState
      [calmEnv 1001 0 [taskA], calmEnv 1002 4 [taskA]]).m_bScience_gfx_running = true ∧
    (run_state exampleConfig entryState
      [calmEnv 1001 0 [taskA], calmEnv 1002 4 [taskA]]).previous_result_ptr = none := by
  decide

/-- C7, amended: for every sequence of passes from the entry state in which
every spawn that reports success delivers a process id, after each pass that
does not end the thread `m_bScience_gfx_running` implies that
`previous_result_ptr` is set or that a terminate call has been made on the
science graphics process still held (its exit not yet observed). -/
theorem C7_record_set_or_terminate_sent (cfg : Config) (file_exists : Bool) (now : Int)
    (connected reset_core : Bool) (envs : List Env)
    (hw : ∀ e ∈ envs, well_behaved e) (r : TickResult)
    (hlast : (run cfg (DataManagementProc_entry file_exists now connected reset_core)
      envs).getLast? = some r)
    (hret : r.returned = false) (hS : r.state.m_bScience_gfx_running = true) :
    r.state.previous_result_ptr.isSome = true ∨
      terminate_pending
        (run cfg (DataManagementProc_entry file_exists now connected reset_core) envs)
        = true :=
  run_record_or_terminate cfg envs _ false (entry_consistent _ _ _ _) hw
    (fun h => absurd h (by simp [DataManagementProc_entry])) r hlast hret hS

/-- Witness for C7: the run of the counterexample. -/
theorem C7_record_set_or_terminate_sent_witness :
    (tick exampleConfig (calmEnv 1002 4 [taskA])
        (run_state exampleConfig entryState [calmEnv 1001 0 [taskA]])
      ).state.previous_result_ptr.isSome = true ∨
    terminate_pending
      (run exampleConfig (DataManagementProc_entry true 1000 true true)
        [calmEnv 1001 0 [taskA], calmEnv 1002 4 [taskA]]) = true :=
  C7_record_set_or_terminate_sent exampleConfig true 1000 true true
    [calmEnv 1001 0 [taskA], calmEnv 1002 4 [taskA]] (by decide)
    (tick exampleConfig (calmEnv 1002 4 [taskA])
        (run_state exampleConfig entryState [calmEnv 1001 0 [taskA]]))
    (by decide) (by decide) (by decide)


/-! ## Suspension (claims C8, C9) -/

/-- C8, counterexample: with `SUSPEND_REASON_CPU_THROTTLE` = 64 and
`SUSPEND_REASON_CPU_USAGE` = 1024, the suspend reason 68 has bit 4 set outside
the two and also carries `CPU_THROTTLE`.  In the state reached after the first
pass of a run (science graphics running, default saver on disk and not
running, error mode off) the suspend step with reason 68 neither requests the
default saver nor sets the error mode, and the whole pass makes no call. -/
theorem C8_counterexample :
    (68 : Nat) &&& (exampleConfig.SUSPEND_REASON_CPU_THROTTLE |||
      exampleConfig.SUSPEND_REASON_CPU_USAGE) ≠ 68 ∧
    (with_suspend_reason 68 (run_state exampleConfig entryState
      [calmEnv 1001 0 [taskA]])).m_bDefault_gfx_running = false ∧
    (with_suspend_reason 68 (run_state exampleConfig entryState
      [calmEnv 1001 0 [taskA]])).m_bDefault_ss_exists = true ∧
    (suspend_check exampleConfig (with_suspend_reason 68 (run_state exampleConfig entryState
      [calmEnv 1001 0 [taskA]]))).switch_to_default_gfx = false ∧
    (suspend_check exampleConfig (with_suspend_reason 68 (run_state exampleConfig entryState
      [calmEnv 1001 0 [taskA]]))).m_bErrorMode = false ∧
    (tick exampleConfig (calmEnv 1002 68 [taskA]) (run_state exampleConfig entryState
      [calmEnv 1001 0 [taskA]])).actions = [] ∧
    (tick exampleConfig (calmEnv 1002 68 [taskA]) (run_state exampleConfig entryState
      [calmEnv 1001 0 [taskA]])).state.switch_to_default_gfx = false := by
  decide

/-- C8, amended: for every non-zero `suspend_reason` that carries neither
`CPU_THROTTLE` nor `CPU_USAGE`, in a pass where default graphics is not running
and the default saver exists, the suspend step requests the default saver
(`switch_to_default_gfx` becomes true) and sets the error mode to true, keeping
the error code; a `suspend_reason` that carries `CPU_THROTTLE` or `CPU_USAGE`
makes the suspend step change nothing. -/
theorem C8_suspend_requests_default (cfg : Config) (s : State) :
    (s.suspend_reason ≠ 0 →
      s.suspend_reason &&&
        (cfg.SUSPEND_REASON_CPU_THROTTLE ||| cfg.SUSPEND_REASON_CPU_USAGE) = 0 →
      s.m_bDefault_gfx_running = false → s.m_bDefault_ss_exists = true →
      (suspend_check cfg s).switch_to_default_gfx = true ∧
        (suspend_check cfg s).m_bErrorMode = true ∧
        (suspend_check cfg s).m_hrError = s.m_hrError) ∧
    (s.suspend_reason &&&
        (cfg.SUSPEND_REASON_CPU_THROTTLE ||| cfg.SUSPEND_REASON_CPU_USAGE) ≠ 0 →
      suspend_check cfg s = s) := by
  constructor
  · intro h1 h2 h3 h4
    have hs : suspended cfg s.suspend_reason = true := by simp [suspended, h1, h2]
    simp [suspend_check, hs, h3, h4, SetError]
  · intro h
    have hs : suspended cfg s.suspend_reason = false := by simp [suspended, h]
    simp [suspend_check, hs]

/-- Witness for C8: with suspend reason 4 the state of the counterexample gets
the request for the default saver and the error mode; with 68 it is left alone. -/
theorem C8_suspend_requests_default_witness :
    ((suspend_check exampleConfig (with_suspend_reason 4 (run_state exampleConfig entryState
        [calmEnv 1001 0 [taskA]]))).switch_to_default_gfx = true ∧
      (suspend_check exampleConfig (with_suspend_reason 4 (run_state exampleConfig entryState
        [calmEnv 1001 0 [taskA]]))).m_bErrorMode = true ∧
      (suspend_check exampleConfig (with_suspend_reason 4 (run_state exampleConfig entryState
        [calmEnv 1001 0 [taskA]]))).m_hrError =
        (with_suspend_reason 4 (run_state exampleConfig entryState
          [calmEnv 1001 0 [taskA]])).m_hrError) ∧
    suspend_check exampleConfig (with_suspend_reason 68 (run_state exampleConfig entryState
        [calmEnv 1001 0 [taskA]])) =
      with_suspend_reason 68 (run_state exampleConfig entryState [calmEnv 1001 0 [taskA]]) :=
  ⟨(C8_suspend_requests_default exampleConfig (with_suspend_reason 4
      (run_state exampleConfig entryState [calmEnv 1001 0 [taskA]]))).1
      (by decide) (by decide) (by decide) (by decide),
    (C8_suspend_requests_default exampleConfig (with_suspend_reason 68
      (run_state exampleConfig entryState [calmEnv 1001 0 [taskA]]))).2 (by decide)⟩

/-- C9: for every state and every `suspend_reason` whose set bits all lie within
`CPU_THROTTLE | CPU_USAGE`, a pass behaves exactly as the same pass with
`suspend_reason` 0: the same calls are made, the thread ends or goes on alike,
and the resulting states are equal (the variable `suspend_reason` itself
apart, which holds the value given); so every terminate call of the pass is
also made with `suspend_reason` 0. -/
theorem C9_throttle_and_usage_are_ignored (cfg : Config) (env : Env) (s : State) (r : Nat)
    (h : r &&& (cfg.SUSPEND_REASON_CPU_THROTTLE ||| cfg.SUSPEND_REASON_CPU_USAGE) = r) :
    (tick cfg (with_reported_reason r env) (with_suspend_reason r s)).actions =
      (tick cfg (with_reported_reason 0 env) (with_suspend_reason 0 s)).actions ∧
    (tick cfg (with_reported_reason r env) (with_suspend_reason r s)).returned =
      (tick cfg (with_reported_reason 0 env) (with_suspend_reason 0 s)).returned ∧
    (tick cfg (with_reported_reason r env) (with_suspend_reason r s)).state =
      with_suspend_reason r
        (tick cfg (with_reported_reason 0 env) (with_suspend_reason 0 s)).state ∧
    (∀ a ∈ (tick cfg (with_reported_reason r env) (with_suspend_reason r s)).actions,
      a.isTerminate = true →
      a ∈ (tick cfg (with_reported_reason 0 env) (with_suspend_reason 0 s)).actions) := by
  have key := tick_sr cfg env s r (suspended_of_within_mask cfg r h)
  rw [key]
  exact ⟨rfl, rfl, rfl, fun a ha _ => ha⟩

/-- Witness for C9: suspend reason 64 (`CPU_THROTTLE`) while science graphics is
running and the change period is over. -/
theorem C9_throttle_and_usage_are_ignored_witness :
    (64 : Nat) &&& (exampleConfig.SUSPEND_REASON_CPU_THROTTLE |||
      exampleConfig.SUSPEND_REASON_CPU_USAGE) = 64 ∧
    (tick exampleConfig (with_reported_reason 64 (calmEnv 1400 0 [taskA, taskB]))
      (with_suspend_reason 64 (run_state exampleConfig entryState
        [calmEnv 1001 0 [taskA]]))).actions =
    (tick exampleConfig (with_reported_reason 0 (calmEnv 1400 0 [taskA, taskB]))
      (with_suspend_reason 0 (run_state exampleConfig entryState
        [calmEnv 1001 0 [taskA]]))).actions :=
  ⟨by decide,
    (C9_throttle_and_usage_are_ignored exampleConfig (calmEnv 1400 0 [taskA, taskB])
      (run_state exampleConfig entryState [calmEnv 1001 0 [taskA]]) 64 (by decide)).1⟩

/-! ## The selector in detail (claims C18, C19, C20) -/

/-- The linear search of `isIncompatible` is membership in the list. -/
theorem isIncompatible_eq_mem (incompat : List String) (p : String) :
    isIncompatible incompat p = decide (p ∈ incompat) := by
  induction incompat with
  | nil => simp [isIncompatible]
  | cons x xs ih =>
    simp only [isIncompatible]
    split
    · rename_i h; simp [h]
    · rename_i h
      rw [ih]
      have h2 : ¬ p = x := fun e => h e.symm
      simp [h2]

/-- The eligible tasks, written with the tests of the code. -/
theorem eligible_tasks_eq (incompat : List String) (avoid : Option RESULT)
    (res : List RESULT) :
    eligible_tasks incompat avoid res =
      res.filter (fun t => candidate avoid t &&
        !isIncompatible incompat t.graphics_exec_path) := by
  unfold eligible_tasks
  apply List.filter_congr
  intro t _
  simp [candidate, isIncompatible_eq_mem]

/-- A count erases no eligible task. -/
theorem eligible_after_count (incompat : List String) (ex av : Option RESULT)
    (res : List RESULT) :
    eligible_tasks incompat av (count_active_graphic_apps incompat res ex).1 =
      eligible_tasks incompat av res := by
  rw [eligible_tasks_eq, eligible_tasks_eq, count_fst_eq_filter, List.filter_filter]
  apply List.filter_congr
  intro t _
  cases candidate av t <;> cases candidate ex t <;>
    cases isIncompatible incompat t.graphics_exec_path <;> rfl

/-- After a count, the candidates left in the vector are the eligible tasks. -/
theorem candidates_after_count (incompat : List String) (av : Option RESULT)
    (res : List RESULT) :
    (count_active_graphic_apps incompat res av).1.filter (candidate av) =
      eligible_tasks incompat av res := by
  rw [eligible_tasks_eq, count_fst_eq_filter, List.filter_filter]
  apply List.filter_congr
  intro t _
  cases candidate av t <;> cases isIncompatible incompat t.graphics_exec_path <;> rfl

/-- The count is the number of eligible tasks. -/
theorem count_eq_eligible (incompat : List String) (av : Option RESULT) (res : List RESULT) :
    (count_active_graphic_apps incompat res av).2 = (eligible_tasks incompat av res).length := by
  rw [eligible_tasks_eq, count_eq_filter]

/-- The search loop returns the candidate at position `sel - cur` (counted
from 1) among the candidates of the vector. -/
theorem find_chosen_eq (avoid : Option RESULT) (sel : Nat) (l : List RESULT) (cur : Nat)
    (h : cur < sel) :
    find_chosen avoid sel l cur = (l.filter (candidate avoid))[sel - cur - 1]? := by
  induction l generalizing cur with
  | nil => simp [find_chosen]
  | cons x xs ih =>
    simp only [find_chosen]
    rw [List.filter_cons]
    split
    · rename_i h1
      simp only [candidate, h1, ne_eq, not_true_eq_false, decide_False, Bool.false_and,
        Bool.false_eq_true, if_false]
      exact ih cur h
    · split
      · rename_i h1 h2
        simp only [candidate, h2, Bool.not_true, Bool.and_false, Bool.false_eq_true, if_false]
        exact ih cur h
      · rename_i h1 h2
        have hc : candidate avoid x = true := by simp [candidate, h1, h2]
        rw [if_pos hc]
        split
        · rename_i h3
          have : sel - cur - 1 = 0 := by omega
          rw [this]
          simp
        · rename_i h3
          have : sel - cur - 1 = (sel - (cur + 1) - 1) + 1 := by omega
          rw [this, List.getElem?_cons_succ]
          exact ih (cur + 1) (by omega)

/-- The random choice, written over the eligible tasks of the vector. -/
theorem get_random_eq (incompat : List String) (res : List RESULT)
    (exclude : Option RESULT) (rnd : Nat) :
    (count_active_graphic_apps incompat
        (count_active_graphic_apps incompat res exclude).1
        (effective_exclude incompat res exclude)).2 =
      (eligible_tasks incompat (effective_exclude incompat res exclude) res).length ∧
    (get_random_graphics_app incompat res exclude rnd).1.filter
        (candidate (effective_exclude incompat res exclude)) =
      eligible_tasks incompat (effective_exclude incompat res exclude) res ∧
    ((eligible_tasks incompat (effective_exclude incompat res exclude) res).length ≠ 0 →
      (get_random_graphics_app incompat res exclude rnd).2 =
        (eligible_tasks incompat (effective_exclude incompat res exclude) res)[rnd %
          (eligible_tasks incompat (effective_exclude incompat res exclude) res).length]?) := by
  by_cases hre : (count_active_graphic_apps incompat res exclude).2 = 0 ∧
      exclude.isSome = true
  · have hav : effective_exclude incompat res exclude = none := by
      simp [effective_exclude, hre]
    rw [hav, get_random_recount _ _ _ _ hre.1 hre.2]
    have hc : (count_active_graphic_apps incompat
        (count_active_graphic_apps incompat res exclude).1 none).2 =
        (eligible_tasks incompat none res).length := by
      rw [count_eq_eligible, eligible_after_count]
    have hl : (count_active_graphic_apps incompat
        (count_active_graphic_apps incompat res exclude).1 none).1.filter (candidate none) =
        eligible_tasks incompat none res := by
      rw [candidates_after_count, eligible_after_count]
    refine ⟨hc, ?_, ?_⟩
    · simp only
      split <;> exact hl
    · intro hne
      simp only
      rw [if_neg (by rw [hc]; exact hne), hc]
      simp only
      rw [find_chosen_eq _ _ _ _ (by omega), hl]
      simp
  · have hav : effective_exclude incompat res exclude = exclude := by
      simp only [effective_exclude]
      rw [if_neg hre]
    have hre2 : (count_active_graphic_apps incompat res exclude).2 ≠ 0 ∨ exclude = none := by
      by_cases h0 : (count_active_graphic_apps incompat res exclude).2 = 0
      · right
        cases exclude with
        | none => rfl
        | some e => exact absurd ⟨h0, rfl⟩ hre
      · left; exact h0
    rw [hav, get_random_plain _ _ _ _ hre2]
    have hc : (count_active_graphic_apps incompat res exclude).2 =
        (eligible_tasks incompat exclude res).length := count_eq_eligible _ _ _
    have hl := candidates_after_count incompat exclude res
    refine ⟨?_, ?_, ?_⟩
    · rw [count_eq_eligible, eligible_after_count]
    · simp only
      split <;> exact hl
    · intro hne
      simp only
      rw [if_neg (by rw [hc]; exact hne), hc]
      simp only
      rw [find_chosen_eq _ _ _ _ (by omega), hl]
      simp

/-- C18: let `avoid` be the exclusion in force (the excluded task, or none after
the fallback) and `C` the number of eligible tasks, which is the count the
code computes.  If `C > 0` then, for every random value `r`,
`get_random_graphics_app` returns the task at position `(r mod C) + 1` among
the tasks of the vector it searches that have graphics and are not the same
task as `avoid`; these are the eligible tasks of the vector it was given, in
the same order.  The result is never none, and every eligible task is
returned for some random value. -/
theorem C18_kth_eligible_task_is_chosen (incompat : List String) (res : List RESULT)
    (exclude : Option RESULT) (r : Nat)
    (hC : 0 < (eligible_tasks incompat (effective_exclude incompat res exclude) res).length) :
    (count_active_graphic_apps incompat res (effective_exclude incompat res exclude)).2 =
      (eligible_tasks incompat (effective_exclude incompat res exclude) res).length ∧
    (get_random_graphics_app incompat res exclude r).2 =
      ((get_random_graphics_app incompat res exclude r).1.filter
        (fun t => decide (t.graphics_exec_path ≠ "") &&
          !is_same_task (some t) (effective_exclude incompat res exclude)))[r %
        (eligible_tasks incompat (effective_exclude incompat res exclude) res).length]? ∧
    (get_random_graphics_app incompat res exclude r).2 =
      (eligible_tasks incompat (effective_exclude incompat res exclude) res)[r %
        (eligible_tasks incompat (effective_exclude incompat res exclude) res).length]? ∧
    (get_random_graphics_app incompat res exclude r).2 ≠ none ∧
    (∀ t ∈ eligible_tasks incompat (effective_exclude incompat res exclude) res,
      ∃ r2, (get_random_graphics_app incompat res exclude r2).2 = some t) := by
  have hne : (eligible_tasks incompat (effective_exclude incompat res exclude) res).length ≠ 0 :=
    by omega
  obtain ⟨_, h2, h3⟩ := get_random_eq incompat res exclude r
  have h3 := h3 hne
  have hlt : r % (eligible_tasks incompat (effective_exclude incompat res exclude) res).length <
      (eligible_tasks incompat (effective_exclude incompat res exclude) res).length :=
    Nat.mod_lt _ hC
  refine ⟨count_eq_eligible _ _ _, ?_, h3, ?_, ?_⟩
  · have e : (fun t : RESULT => decide (t.graphics_exec_path ≠ "") &&
          !is_same_task (some t) (effective_exclude incompat res exclude)) =
        candidate (effective_exclude incompat res exclude) := by
      funext t
      rfl
    rw [e, h2]
    exact h3
  · rw [h3, List.getElem?_eq_getElem hlt]
    exact Option.noConfusion
  · intro t ht
    obtain ⟨i, hi, rfl⟩ := List.getElem_of_mem ht
    refine ⟨i, ?_⟩
    rw [(get_random_eq incompat res exclude i).2.2 hne, Nat.mod_eq_of_lt hi,
      List.getElem?_eq_getElem hi]

/-- Witness for C18: the vector holds a task marked incompatible, a task
without graphics and the tasks A and B; nothing is excluded and `rand()`
returns 3.  There are two eligible tasks and the second one, B, is chosen. -/
theorem C18_kth_eligible_task_is_chosen_witness :
    (eligible_tasks ["/gfx/x"] (effective_exclude ["/gfx/x"] [taskX, taskN, taskA, taskB] none)
        [taskX, taskN, taskA, taskB]) = [taskA, taskB] ∧
    (get_random_graphics_app ["/gfx/x"] [taskX, taskN, taskA, taskB] none 3).2 = some taskB :=
  ⟨by decide,
    ((C18_kth_eligible_task_is_chosen ["/gfx/x"] [taskX, taskN, taskA, taskB] none 3
      (by decide)).2.2.1).trans (by decide)⟩

/-- C19: `count_active_graphic_apps` returns the number of tasks of the vector
that have a non-empty `graphics_exec_path`, are not the same task as
`exclude`, and whose path is not in the list of incompatible applications;
with no task excluded it is the number of tasks with a non-empty path that is
not in the list. -/
theorem C19_count_is_number_of_eligible_tasks (incompat : List String) (res : List RESULT)
    (exclude : Option RESULT) :
    (count_active_graphic_apps incompat res exclude).2 =
      (res.filter (fun t => decide (t.graphics_exec_path ≠ "") &&
        !is_same_task (some t) exclude &&
        decide (t.graphics_exec_path ∉ incompat))).length ∧
    (count_active_graphic_apps incompat res none).2 =
      (res.filter (fun t => decide (t.graphics_exec_path ≠ "") &&
        decide (t.graphics_exec_path ∉ incompat))).length := by
  refine ⟨count_eq_eligible incompat exclude res, ?_⟩
  rw [count_eq_eligible]
  unfold eligible_tasks
  congr 1
  apply List.filter_congr
  intro t _
  simp [is_same_task_none]

/-- Counterexample for C20: task A is excluded and its graphics application is
in the list of incompatible applications; after the count task A is still in
the vector. -/
theorem C20_counterexample :
    taskA.graphics_exec_path ∈ ["/gfx/a"] ∧
    taskA ∈ (count_active_graphic_apps ["/gfx/a"] [taskA, taskB] (some taskA)).1 := by
  decide

/-- C20 (amended): after `count_active_graphic_apps` returns, the vector holds
the tasks it held before, in their order, without those that have a non-empty
`graphics_exec_path`, are not the same task as `exclude`, and whose path is in
the list of incompatible applications. -/
theorem C20_counted_incompatible_tasks_are_erased (incompat : List String)
    (res : List RESULT) (exclude : Option RESULT) :
    (count_active_graphic_apps incompat res exclude).1 =
      res.filter (fun t => !(decide (t.graphics_exec_path ≠ "") &&
        !is_same_task (some t) exclude &&
        decide (t.graphics_exec_path ∈ incompat))) := by
  rw [count_fst_eq_filter]
  apply List.filter_congr
  intro t _
  simp [candidate, isIncompatible_eq_mem]


/-! ## Error report, start of the loop and the terminate functions
(claims C13, C15, C16) -/

/-- The entry state used in the examples is what lines 546-626 compute, for any
object that holds no process and has not been told to quit. -/
theorem init_eq_entry (file_exists : Bool) (now : Int) (m : State) :
    DataManagementProc_init file_exists now m =
      { DataManagementProc_entry file_exists now m.m_bConnected m.m_bResetCoreState with
        m_hGraphicsApplication := m.m_hGraphicsApplication
        m_bQuitDataManagementProc := m.m_bQuitDataManagementProc
        m_bDataManagementProcStopped := m.m_bDataManagementProcStopped
        results := m.results } := by
  cases file_exists <;> rfl

/-- C13: the default saver runs as process 103, launched by the coordinator and
not being killed by it, and in the pass at time 1002 `waitpid` reports that it
has exited with the status `DEFAULT_GFX_CANT_CONNECT`.  The pass stores the
code `DEFAULTGFXAPPCANTCONNECT` at line 952 and then, at line 963, the code
`BOINCNOGRAPHICSAPPSEXECUTING`, which is the code the pass ends with. -/
theorem C13_cant_connect_code_is_overwritten :
    defaultShownState.m_bDefault_gfx_running = true ∧
    defaultShownState.killing_default_gfx = false ∧
    defaultShownState.m_hGraphicsApplication = 103 ∧
    HasProcessExited exampleConfig (cantConnectEnv 1002) 103 defaultShownState.exit_status =
      (true, exampleConfig.DEFAULT_GFX_CANT_CONNECT) ∧
    (tick exampleConfig (cantConnectEnv 1002) defaultShownState).state.m_bErrorMode = true ∧
    (tick exampleConfig (cantConnectEnv 1002) defaultShownState).state.m_hrError =
      SCRAPPERR.BOINCNOGRAPHICSAPPSEXECUTING ∧
    (tick exampleConfig (cantConnectEnv 1002) defaultShownState).state.m_bDefault_ss_exists =
      false := by
  decide

/-- C15: whatever the configuration file holds, whatever else the object holds
and whether or not the default saver is on disk, the loop is entered in the
science phase with no launch of the default saver requested: line 583 clears
`m_bShow_default_ss_first` before line 617 tests it.  This holds in
particular when the file sets `default_ss_first` and the default saver is on
disk. -/
theorem C15_loop_always_begins_in_science_phase (d1 d2 d3 : Int)
    (file : Option (List ConfigTag)) (file_exists : Bool) (now : Int) (m : State) :
    (GetDefaultDisplayPeriods d1 d2 d3
      (some [ConfigTag.default_ss_first true])).Show_default_ss_first = true ∧
    (DataManagementProc_init true now
      (configuredObject (GetDefaultDisplayPeriods d1 d2 d3
        (some [ConfigTag.default_ss_first true])) m)).ss_phase = SS_PHASE.SCIENCE_SS_PHASE ∧
    (DataManagementProc_init file_exists now
      (configuredObject (GetDefaultDisplayPeriods d1 d2 d3 file) m)).ss_phase =
        SS_PHASE.SCIENCE_SS_PHASE ∧
    (DataManagementProc_init file_exists now
      (configuredObject (GetDefaultDisplayPeriods d1 d2 d3 file) m)).switch_to_default_gfx =
        false ∧
    (DataManagementProc_init file_exists now
      (configuredObject (GetDefaultDisplayPeriods d1 d2 d3 file) m)).science_phase_start_time =
        now := by
  refine ⟨rfl, rfl, ?_, ?_, ?_⟩ <;> cases file_exists <;> rfl

/-- Counterexample for C16: the science graphics runs as process 102 and the
default saver as process 103; each terminate function is called with the
process seen to end in the first round of the poll loop, and returns with the
handle it was given. -/
theorem C16_counterexample :
    (terminate_screensaver_ref exampleConfig
      { stop_retval := 0, switcher_retval := 0, exit_seen_at := some 0 } true 102
      ).graphics_application = 102 ∧
    (terminate_default_screensaver_ref exampleConfig
      { stop_retval := 0, switcher_retval := 0, exit_seen_at := some 0 } 103
      ).graphics_application = 103 := by
  decide

/-- C16 (amended): when `terminate_screensaver` or `terminate_default_screensaver`
returns, the handle passed to it has the value it had at the call, whether or
not the process was seen to end; a handle that is not null is cleared by the
liveness test of the pass in which `HasProcessExited` answers true. -/
theorem C16_terminate_leaves_the_handle (cfg : Config) (k : KillOutcome) (running : Bool)
    (graphics_application : Int) (env : Env) (s : State) :
    (terminate_screensaver_ref cfg k running graphics_application).graphics_application =
      graphics_application ∧
    (terminate_default_screensaver_ref cfg k graphics_application).graphics_application =
      graphics_application ∧
    ((liveness_check cfg env s).m_hGraphicsApplication =
      if (HasProcessExited cfg env s.m_hGraphicsApplication s.exit_status).1 = true then 0
      else s.m_hGraphicsApplication) := by
  have hv : ∀ g : Int, (terminate_v6_screensaver_ref cfg k g).graphics_application = g := by
    intro g
    unfold terminate_v6_screensaver_ref
    split <;> split <;> rfl
  refine ⟨?_, ?_, ?_⟩
  · unfold terminate_screensaver_ref
    split
    · split
      · exact hv graphics_application
      · rfl
    · rfl
  · unfold terminate_default_screensaver_ref
    split
    · rfl
    · exact hv graphics_application
  · rcases liveness_check_cases cfg env s with ⟨h0, h⟩ | ⟨h0, h1, h⟩ | h
    · rw [h, h0]; simp
    · rw [h, if_neg (by rw [h1]; simp)]
    · obtain ⟨_, h1, ex, ph, k2, h⟩ := h
      rw [h, if_pos h1]


/-! ## The accumulated duration (claims C11, C12) -/

/-- Counterexample for C11: in the phase accounting scenario the pass at time
1101 launches the graphics of task A, the launch succeeds, and the accumulated
duration after the pass is 30. -/
theorem C11_counterexample :
    (tick phaseConfig (calmEnv 1101 0 [taskA]) carriedState).actions =
      [Action.launch_screensaver taskA] ∧
    (launch_screensaver (calmEnv 1101 0 [taskA]).spawn_science taskA
      carriedState.m_hGraphicsApplication).1 = 0 ∧
    (tick phaseConfig (calmEnv 1101 0 [taskA]) carriedState).state.m_bScience_gfx_running =
      true ∧
    (tick phaseConfig (calmEnv 1101 0 [taskA])
      carriedState).state.default_saver_duration_in_science_phase = 30 := by
  decide

/-- C11 (amended): after a pass in which a science launch is made, whether or
not it succeeds, the accumulated duration is the one the phase tests of the
pass left: 0 when the pass starts the science phase (it started in the default
phase, or the science period was over and both transitions were made), and
the value before the pass otherwise. -/
theorem C11_launch_keeps_accumulated_time (cfg : Config) (env : Env) (s : State)
    (rp : RESULT) (h : Action.launch_screensaver rp ∈ (tick cfg env s).actions) :
    (tick cfg env s).state.default_saver_duration_in_science_phase =
      if science_period_over cfg env.dtime s = true ∨ s.ss_phase = SS_PHASE.DEFAULT_SS_PHASE
      then 0 else s.default_saver_duration_in_science_phase := by
  obtain ⟨_, _, _, ht⟩ := tick_launch_reconciles cfg env s ⟨_, h, rfl⟩
  rw [ht] at h ⊢
  simp only at h ⊢
  obtain ⟨hph, hacc⟩ := reconcile_science_launch cfg env _ rp h
  obtain ⟨r1, r2, _, _, r5⟩ := refresh_clock cfg env s
  rw [hacc, phase_evaluation_acc cfg env.dtime _ hph, r5, r1, r2]

/-- Witness for C11: the pass at time 1101 of the phase accounting scenario
starts in the science phase 101 seconds after its start, with 30 seconds
accumulated, and launches the graphics of task A; 30 seconds are accumulated
after it. -/
theorem C11_launch_keeps_accumulated_time_witness :
    carriedState.default_saver_duration_in_science_phase = 30 ∧
    (tick phaseConfig (calmEnv 1101 0 [taskA])
      carriedState).state.default_saver_duration_in_science_phase = 30 :=
  ⟨by decide,
    (C11_launch_keeps_accumulated_time phaseConfig (calmEnv 1101 0 [taskA]) carriedState taskA
      (by decide)).trans (by decide)⟩

/-- Counterexample for C12: in the phase accounting scenario the pass at time
1121 starts in the science phase and ends in the default phase, and the
accumulated duration after the pass is 30. -/
theorem C12_counterexample :
    scienceShownState.ss_phase = SS_PHASE.SCIENCE_SS_PHASE ∧
    (tick phaseConfig (exitEnv 1121 0 [taskA] 0) scienceShownState).state.ss_phase =
      SS_PHASE.DEFAULT_SS_PHASE ∧
    (tick phaseConfig (exitEnv 1121 0 [taskA] 0)
      scienceShownState).state.default_saver_duration_in_science_phase = 30 := by
  decide

/-- C12 (amended): a pass that starts in the science phase and ends in the
default phase does not clear the accumulated duration: after the pass it is
the value before the pass, increased by the time since
`default_saver_start_time_in_science_phase` when the default saver is running
and that time is set.  The default phase starts at the time of the pass. -/
theorem C12_transition_keeps_accumulated_time (cfg : Config) (env : Env) (s : State)
    (hph : s.ss_phase = SS_PHASE.SCIENCE_SS_PHASE)
    (hres : (tick cfg env s).state.ss_phase = SS_PHASE.DEFAULT_SS_PHASE) :
    (tick cfg env s).returned = false ∧
    (tick cfg env s).state.default_phase_start_time = env.dtime ∧
    (tick cfg env s).state.default_saver_duration_in_science_phase =
      if s.m_bDefault_gfx_running = true ∧ s.default_saver_start_time_in_science_phase ≠ 0
      then s.default_saver_duration_in_science_phase +
        (env.dtime - s.default_saver_start_time_in_science_phase)
      else s.default_saver_duration_in_science_phase := by
  obtain ⟨r_ph, r_du, r_st, r_D, _⟩ := refresh_clock cfg env s
  rcases tick_cases cfg env s with ⟨_, ht⟩ | ⟨_, _, ht⟩ | ⟨_, _, _, ht⟩ | ⟨_, _, _, ht⟩
  · exfalso
    rw [ht] at hres
    have : (stop_thread (other_thread env s)).state.ss_phase = s.ss_phase := by
      unfold stop_thread
      split <;> rfl
    rw [this, hph] at hres
    exact SS_PHASE.noConfusion hres
  · exfalso
    rw [ht] at hres
    have : s.ss_phase = SS_PHASE.DEFAULT_SS_PHASE := hres
    rw [hph] at this
    exact SS_PHASE.noConfusion this
  · exfalso
    rw [ht] at hres
    have : (refresh env (other_thread env s)).1.ss_phase = SS_PHASE.DEFAULT_SS_PHASE := hres
    rw [r_ph, hph] at this
    exact SS_PHASE.noConfusion this
  · rw [ht] at hres ⊢
    simp only at hres ⊢
    obtain ⟨q_dp, _, q_ph, q_du, _⟩ :=
      reconcile_clock cfg env (refresh env (other_thread env s)).1
    have hp : (phase_evaluation cfg env.dtime (refresh env (other_thread env s)).1).ss_phase =
        SS_PHASE.DEFAULT_SS_PHASE := by
      rcases q_ph with h | h
      · rw [← h]; exact hres
      · rw [h] at hres; exact SS_PHASE.noConfusion hres
    obtain ⟨e1, e2⟩ := phase_evaluation_to_default_acc cfg env.dtime
      (refresh env (other_thread env s)).1 (by rw [r_ph, hph]) hp
    refine ⟨trivial, by rw [q_dp, e1], ?_⟩
    rcases q_du with h | ⟨_, h, _⟩ | ⟨_, h, _⟩
    · rw [h, e2, r_du, r_st, r_D]
    · rw [hp] at h
      exact SS_PHASE.noConfusion h
    · rw [hp] at h
      exact SS_PHASE.noConfusion h

/-- Witness for C12: the default saver runs as a fallback since time 1070 and
the science period of 120 seconds, started at 1000, ends while it runs; the
pass at time 1121 starts the default phase with 1121 - 1070 = 51 seconds
accumulated. -/
theorem C12_transition_keeps_accumulated_time_witness :
    fallbackState.ss_phase = SS_PHASE.SCIENCE_SS_PHASE ∧
    (tick phaseConfig (calmEnv 1121 0 []) fallbackState).state.ss_phase =
      SS_PHASE.DEFAULT_SS_PHASE ∧
    (tick phaseConfig (calmEnv 1121 0 [])
      fallbackState).state.default_saver_duration_in_science_phase = 51 :=
  ⟨by decide, by decide,
    ((C12_transition_keeps_accumulated_time phaseConfig (calmEnv 1121 0 []) fallbackState
      (by decide) (by decide)).2.2).trans (by decide)⟩


/-! ## The disabled default saver (claim C14) -/

/-- C14: in every session, whatever the object holds when the thread starts:
when the default saver is not on disk, every pass ends with the default saver
marked as not existing and in the science phase, and makes no launch call for
the default saver; and every pass that follows a pass after which the default
saver is marked as not existing, for whatever reason, does the same. -/
theorem C14_default_saver_stays_disabled (cfg : Config) (file_exists : Bool) (now : Int)
    (m : State) (envs : List Env) :
    (file_exists = false →
      ∀ r ∈ run cfg (DataManagementProc_init file_exists now m) envs, without_default r) ∧
    (run cfg (DataManagementProc_init file_exists now m) envs).Pairwise
      (fun a b => a.state.m_bDefault_ss_exists = false → without_default b) := by
  have hs : request_sound (DataManagementProc_init file_exists now m) := by
    intro hD
    cases file_exists <;> exact Bool.noConfusion hD
  have hd : (DataManagementProc_init file_exists now m).m_bDefault_ss_exists = false →
      default_disabled (DataManagementProc_init file_exists now m) := by
    intro h
    cases file_exists
    · exact ⟨rfl, rfl, rfl, rfl⟩
    · exact Bool.noConfusion h
  refine ⟨fun hf => ?_, run_request cfg envs _ hs hd⟩
  apply run_without_default cfg envs _ hs
  apply hd
  rw [hf]
  rfl


/-! ## Failed launches (claim C17) -/

/-- Counterexample for C17: the science period of 600 seconds, started at 1000,
is over at the pass at time 1601, which starts the default phase and calls
`launch_default_screensaver`; the launch fails.  The pass at time 1602 finds
the same client state, the same (empty) vector and the default phase, and
makes no call; the coordinator is still in the loop. -/
theorem C17_counterexample :
    (tick exampleConfig (failEnv 1601 0 []) entryState).actions =
      [Action.launch_default_screensaver] ∧
    (launch_default_screensaver (failEnv 1601 0 []).spawn_default_switch 0).1 ≠ 0 ∧
    (tick exampleConfig (failEnv 1601 0 []) entryState).returned = false ∧
    (tick exampleConfig (failEnv 1601 0 []) entryState).state.ss_phase =
      SS_PHASE.DEFAULT_SS_PHASE ∧
    (observed (calmEnv 1602 0 []) (tick exampleConfig (failEnv 1601 0 []) entryState).state
      ).results = (observed (failEnv 1601 0 []) entryState).results ∧
    (observed (calmEnv 1602 0 []) (tick exampleConfig (failEnv 1601 0 []) entryState).state
      ).suspend_reason = (observed (failEnv 1601 0 []) entryState).suspend_reason ∧
    (observed (calmEnv 1602 0 []) (tick exampleConfig (failEnv 1601 0 []) entryState).state
      ).m_bConnected = (observed (failEnv 1601 0 []) entryState).m_bConnected ∧
    (tick exampleConfig (calmEnv 1602 0 [])
      (tick exampleConfig (failEnv 1601 0 []) entryState).state).state.ss_phase =
        SS_PHASE.DEFAULT_SS_PHASE ∧
    (tick exampleConfig (calmEnv 1602 0 [])
      (tick exampleConfig (failEnv 1601 0 []) entryState).state).returned = false ∧
    (tick exampleConfig (calmEnv 1602 0 [])
      (tick exampleConfig (failEnv 1601 0 []) entryState).state).actions = [] := by
  decide


/-- C17 (amended): let every launch attempted in a pass fail, the flags and the
handle being in agreement before it.  If the pass makes a science launch, or
launches the default saver and ends in the science phase with the default
saver marked as existing, then the thread goes on and the next pass, if it
reaches the reconciliation, observes the same suspend reason, vector of tasks
and list of incompatible applications, and finds the science period not over,
makes a launch call again: a science launch after a science launch.  After a
pass that launches the default saver and ends in the default phase, a next
pass that observes no suspension and ends in the default phase makes no
launch call. -/
theorem C17_failed_launch_is_repeated (cfg : Config) (e1 e2 : Env) (s : State)
    (hc : consistent s) (hf : launches_fail e1) :
    (((∃ rp, Action.launch_screensaver rp ∈ (tick cfg e1 s).actions) ∨
        (Action.launch_default_screensaver ∈ (tick cfg e1 s).actions ∧
          (tick cfg e1 s).state.ss_phase = SS_PHASE.SCIENCE_SS_PHASE ∧
          (tick cfg e1 s).state.m_bDefault_ss_exists = true)) →
      reconciles cfg e2 (tick cfg e1 s).state →
      (observed e2 (tick cfg e1 s).state).suspend_reason = (observed e1 s).suspend_reason →
      (observed e2 (tick cfg e1 s).state).results = (observed e1 s).results →
      (observed e2 (tick cfg e1 s).state).m_vIncompatibleGfxApps =
        (observed e1 s).m_vIncompatibleGfxApps →
      e2.dtime - (tick cfg e1 s).state.science_phase_start_time ≤ cfg.m_fGFXSciencePeriod →
      (tick cfg e1 s).returned = false ∧
      (tick cfg e2 (tick cfg e1 s).state).returned = false ∧
      (∃ a ∈ (tick cfg e2 (tick cfg e1 s).state).actions, a.isLaunch = true) ∧
      ((∃ rp, Action.launch_screensaver rp ∈ (tick cfg e1 s).actions) →
        ∃ rp, Action.launch_screensaver rp ∈ (tick cfg e2 (tick cfg e1 s).state).actions)) ∧
    (Action.launch_default_screensaver ∈ (tick cfg e1 s).actions →
      (tick cfg e1 s).state.ss_phase = SS_PHASE.DEFAULT_SS_PHASE →
      suspended cfg (observed e2 (tick cfg e1 s).state).suspend_reason = false →
      (tick cfg e2 (tick cfg e1 s).state).state.ss_phase = SS_PHASE.DEFAULT_SS_PHASE →
      ∀ a ∈ (tick cfg e2 (tick cfg e1 s).state).actions, a.isLaunch = false) := by
  constructor
  · intro hl hgo hsr hres hinc hper
    -- the first pass reconciles
    have hl1 : ∃ a ∈ (tick cfg e1 s).actions, a.isLaunch = true := by
      rcases hl with ⟨rp, hm⟩ | ⟨hm, _⟩
      · exact ⟨_, hm, rfl⟩
      · exact ⟨_, hm, rfl⟩
    have ht1 := tick_of_reconciles cfg e1 s
      ⟨(tick_launch_reconciles cfg e1 s hl1).1, (tick_launch_reconciles cfg e1 s hl1).2.1,
        (tick_launch_reconciles cfg e1 s hl1).2.2.1⟩
    obtain ⟨o_h, o_S, o_D, _⟩ := observed_frame e1 s
    have hc1 : consistent (observed e1 s) := consistent_congr s _ o_S o_D o_h hc
    rw [ht1] at hl hper hgo hsr hres hinc ⊢
    simp only at hl hper hgo hsr hres hinc ⊢
    obtain ⟨k1, k2, _, k4⟩ := reconcile_failed cfg e1 (observed e1 s) hc1 hf
      (by
        rcases hl with h | ⟨h1, h2, _⟩
        · exact Or.inl h
        · exact Or.inr ⟨h1, h2⟩)
    generalize (reconcile cfg e1 (observed e1 s)).1 = s1 at *
    -- the second pass
    rw [tick_of_reconciles cfg e2 s1 hgo]
    simp only
    obtain ⟨p_h, p_S, p_D, p_g, p_sw, p_ph, p_sp, p_ex⟩ := observed_frame e2 s1
    have hn2 : nothing_shown (observed e2 s1) := by
      obtain ⟨n1, n2, n3, n4, n5⟩ := k1
      exact ⟨by rw [p_h]; exact n1, by rw [p_S]; exact n2, by rw [p_D]; exact n3,
        by rw [p_g]; exact n4, by rw [p_sw]; exact n5⟩
    obtain ⟨r1, r2⟩ := reconcile_retry cfg e2 (observed e2 s1) hn2 (by rw [p_ph]; exact k2)
      (by rw [p_sp]; exact hper)
    have hsci : (∃ rp, Action.launch_screensaver rp ∈ (reconcile cfg e1 (observed e1 s)).2) →
        ∃ rp, Action.launch_screensaver rp ∈ (reconcile cfg e2 (observed e2 s1)).2 := by
      rintro ⟨rp, hm⟩
      obtain ⟨g1, g2⟩ := k4 rp hm
      exact r2 (by rw [hsr]; exact g1) (by rw [hres, hinc]; exact g2)
    refine ⟨trivial, trivial, ?_, hsci⟩
    rcases hl with h | ⟨_, _, h⟩
    · obtain ⟨rp, hm⟩ := hsci h
      exact ⟨_, hm, rfl⟩
    · exact r1 (by rw [p_ex]; exact h)
  · intro hl hph hsus hph2 a ha
    cases hla : a.isLaunch
    · rfl
    · exfalso
      have ht1 := tick_of_reconciles cfg e1 s
        ⟨(tick_launch_reconciles cfg e1 s ⟨_, hl, rfl⟩).1,
          (tick_launch_reconciles cfg e1 s ⟨_, hl, rfl⟩).2.1,
          (tick_launch_reconciles cfg e1 s ⟨_, hl, rfl⟩).2.2.1⟩
      have hgo := tick_launch_reconciles cfg e2 (tick cfg e1 s).state ⟨a, ha, hla⟩
      have ht2 := tick_of_reconciles cfg e2 (tick cfg e1 s).state ⟨hgo.1, hgo.2.1, hgo.2.2.1⟩
      rw [ht2] at ha hph2
      simp only at ha hph2
      obtain ⟨_, _, _, _, p_sw, p_ph, _, _⟩ := observed_frame e2 (tick cfg e1 s).state
      have hsw1 : (tick cfg e1 s).state.switch_to_default_gfx = false := by
        rw [ht1] at hl hph ⊢
        exact reconcile_default_launched cfg e1 _ hl hph
      rw [reconcile_default_quiet cfg e2 _ (by rw [p_ph]; exact hph) (by rw [p_sw]; exact hsw1)
        hsus hph2] at ha
      exact absurd ha (List.not_mem_nil _)

/-- Witness for C17: from the entry state, the pass at time 1001 chooses task A
and the launch of its graphics fails; the pass at time 1002 launches the
graphics of task A again.  With no task, the pass at time 1001 launches the
default saver as a fallback in the science phase and the launch fails; the
pass at time 1002 launches the default saver again. -/
theorem C17_failed_launch_is_repeated_witness :
    (tick exampleConfig (failEnv 1001 0 [taskA]) entryState).actions =
      [Action.launch_screensaver taskA] ∧
    (∃ rp, Action.launch_screensaver rp ∈
      (tick exampleConfig (calmEnv 1002 0 [taskA])
        (tick exampleConfig (failEnv 1001 0 [taskA]) entryState).state).actions) ∧
    (tick exampleConfig (failEnv 1001 0 []) entryState).actions =
      [Action.launch_default_screensaver] ∧
    (∃ a ∈ (tick exampleConfig (calmEnv 1002 0 [])
        (tick exampleConfig (failEnv 1001 0 []) entryState).state).actions,
      a.isLaunch = true) :=
  ⟨by decide,
    ((C17_failed_launch_is_repeated exampleConfig (failEnv 1001 0 [taskA])
      (calmEnv 1002 0 [taskA]) entryState (by decide) (by decide)).1
      (Or.inl ⟨taskA, by decide⟩) (by decide) (by decide) (by decide) (by decide)
      (by decide)).2.2.2 ⟨taskA, by decide⟩,
    by decide,
    ((C17_failed_launch_is_repeated exampleConfig (failEnv 1001 0 [])
      (calmEnv 1002 0 []) entryState (by decide) (by decide)).1
      (Or.inr ⟨by decide, by decide, by decide⟩) (by decide) (by decide) (by decide)
      (by decide) (by decide)).2.2.1⟩


/-! ## The timers read by the tests are set -/

/-- The change test when a change is due. -/
theorem change_check_due (cfg : Config) (now : Int) (s : State)
    (h : change_due cfg now s = true) :
    (change_check cfg now s).1.last_change_time = now ∧
    (change_check cfg now s).2 =
      (if (count_active_graphic_apps s.m_vIncompatibleGfxApps s.results
          s.previous_result_ptr).2 > 0
        then terminate_screensaver s.m_bScience_gfx_running s.m_hGraphicsApplication
        else []) := by
  simp only [change_due, Bool.and_eq_true, decide_eq_true_eq] at h
  have h1 : s.last_change_time ≠ 0 ∧ cfg.m_fGFXChangePeriod > 0 ∧
      now - s.last_change_time > cfg.m_fGFXChangePeriod := ⟨h.1.1, h.1.2, h.2⟩
  by_cases h2 : (count_active_graphic_apps s.m_vIncompatibleGfxApps s.results
      s.previous_result_ptr).2 > 0
  · simp [change_check, h1, h2]
  · simp [change_check, h1, h2]

/-- The change test when no change is due. -/
theorem change_check_not_due (cfg : Config) (now : Int) (s : State)
    (h : change_due cfg now s = false) : change_check cfg now s = (s, []) := by
  have h1 : ¬ (s.last_change_time ≠ 0 ∧ cfg.m_fGFXChangePeriod > 0 ∧
      now - s.last_change_time > cfg.m_fGFXChangePeriod) := by
    intro hc
    have : change_due cfg now s = true := by
      simp only [change_due, Bool.and_eq_true, decide_eq_true_eq]
      exact ⟨⟨hc.1, hc.2.1⟩, hc.2.2⟩
    rw [h] at this
    exact Bool.noConfusion this
  simp [change_check, h1]

/-- The lookup and the test of a finished task leave `last_change_time` alone. -/
theorem task_finished_lct (s : State) :
    (task_finished (locate_current_task s)).1.last_change_time = s.last_change_time := by
  obtain ⟨g, p, hl, _⟩ := locate_current_task_frame s
  rcases task_finished_cases (locate_current_task s) with ⟨h, _⟩ | ⟨_, _, h, _⟩
  · rw [h, hl]
  · rw [h, hl]

/-- The check of running science graphics keeps `last_change_time` or sets it
to the time of the pass. -/
theorem check_running_science_lct (cfg : Config) (now : Int) (s : State) :
    (check_running_science cfg now s).1.last_change_time = s.last_change_time ∨
      (check_running_science cfg now s).1.last_change_time = now := by
  unfold check_running_science
  split
  · split
    · simp only
      cases hd : change_due cfg now (task_finished (locate_current_task s)).1
      · rw [change_check_not_due _ _ _ hd]
        left
        exact task_finished_lct s
      · right
        exact (change_check_due _ _ _ hd).1
    · left; rfl
  · left; rfl

/-- The science phase block: science graphics that runs after it was running
before it with the same `last_change_time`, or `last_change_time` is the time
of the pass. -/
theorem science_phase_lct (cfg : Config) (env : Env) (s : State)
    (h : (science_phase cfg env s).1.m_bScience_gfx_running = true) :
    (s.m_bScience_gfx_running = true ∧
      (science_phase cfg env s).1.last_change_time = s.last_change_time) ∨
    (science_phase cfg env s).1.last_change_time = env.dtime := by
  by_cases hen : s.ss_phase = SS_PHASE.SCIENCE_SS_PHASE ∧ s.switch_to_default_gfx = false
  · rw [science_phase_eq cfg env s hen.1 hen.2] at h ⊢
    simp only at h ⊢
    obtain ⟨res, lct, running, g, p, hcr, hrun, _⟩ :=
      check_running_science_cases cfg env.dtime s
    have c_S : (check_running_science cfg env.dtime s).1.m_bScience_gfx_running = true →
        s.m_bScience_gfx_running = true := by
      rw [hcr]; exact hrun
    have c_l := check_running_science_lct cfg env.dtime s
    generalize check_running_science cfg env.dtime s = cr at *
    -- the fallback keeps both fields
    have hfb : ∀ t : State,
        (fallback_to_default env t).1.m_bScience_gfx_running = t.m_bScience_gfx_running ∧
        (fallback_to_default env t).1.last_change_time = t.last_change_time := by
      intro t
      rcases fallback_to_default_cases env t with ⟨_, h0⟩ | ⟨_, _, h0⟩ | ⟨_, _, h0⟩
      · rw [h0]; exact ⟨rfl, rfl⟩
      · rw [h0]; exact ⟨rfl, rfl⟩
      · rw [h0]
        rcases launch_default_cases env.spawn_default_fallback env.dtime true
          { t with switch_to_default_gfx := false } with ⟨_, h2⟩ | ⟨_, h2⟩ <;>
        · rw [h2]; exact ⟨rfl, rfl⟩
    obtain ⟨f_S, f_l⟩ := hfb (pick_and_launch cfg env cr.1).1
    rw [f_S] at h
    rw [f_l]
    -- the choice of a task
    have hpk : ((pick_and_launch cfg env cr.1).1.m_bScience_gfx_running =
          cr.1.m_bScience_gfx_running ∧
        (pick_and_launch cfg env cr.1).1.last_change_time = cr.1.last_change_time) ∨
        (pick_and_launch cfg env cr.1).1.m_bScience_gfx_running = false ∨
        (pick_and_launch cfg env cr.1).1.last_change_time = env.dtime := by
      rcases pick_and_launch_cases cfg env cr.1 with ⟨h0, _⟩ | ⟨_, _, res2, p2, h0⟩ |
        ⟨_, _, _, rp, _, h0⟩ | ⟨_, _, _, _, rp, _, _, h0⟩
      · rw [h0]; exact Or.inl ⟨rfl, rfl⟩
      · rw [h0]
        rcases none_chosen_cases
          { cr.1 with results := res2, graphics_app_result_ptr := none, previous_result_ptr := p2 }
          with ⟨_, hn⟩ | ⟨_, hn⟩ <;>
        · rw [hn]; exact Or.inl ⟨rfl, rfl⟩
      · rw [h0]; exact Or.inl ⟨rfl, rfl⟩
      · rcases h0 with ⟨_, h0⟩ | ⟨_, h0⟩
        · rw [h0]; exact Or.inr (Or.inl rfl)
        · rw [h0]; exact Or.inr (Or.inr rfl)
    rcases hpk with ⟨k1, k2⟩ | k | k
    · rw [k1] at h
      rw [k2]
      rcases c_l with c | c
      · exact Or.inl ⟨c_S h, c⟩
      · exact Or.inr c
    · rw [k] at h; exact Bool.noConfusion h
    · exact Or.inr k
  · have hsk : science_phase cfg env s = (s, []) := by
      apply science_phase_skip
      by_cases h1 : s.ss_phase = SS_PHASE.SCIENCE_SS_PHASE
      · left
        cases hsw : s.switch_to_default_gfx
        · exact absurd ⟨h1, hsw⟩ hen
        · rfl
      · right; exact h1
    rw [hsk] at h ⊢
    exact Or.inl ⟨h, rfl⟩


/-- The phase tests keep the two phase timers set, when the clock does not
read 0. -/
theorem phase_evaluation_timers (cfg : Config) (now : Int) (o : State) (hn : now ≠ 0)
    (hA : o.ss_phase = SS_PHASE.DEFAULT_SS_PHASE → o.default_phase_start_time ≠ 0)
    (hB : o.ss_phase = SS_PHASE.SCIENCE_SS_PHASE → o.m_bDefault_ss_exists = true →
      o.science_phase_start_time ≠ 0) :
    ((phase_evaluation cfg now o).ss_phase = SS_PHASE.DEFAULT_SS_PHASE →
      (phase_evaluation cfg now o).default_phase_start_time ≠ 0) ∧
    ((phase_evaluation cfg now o).ss_phase = SS_PHASE.SCIENCE_SS_PHASE →
      (phase_evaluation cfg now o).m_bDefault_ss_exists = true →
      (phase_evaluation cfg now o).science_phase_start_time ≠ 0) := by
  have hex := (phase_evaluation_request cfg now o).1
  unfold phase_evaluation at hex ⊢
  cases hf : science_period_over cfg now o
  · rw [to_default_phase_idle cfg now o hf] at hex ⊢
    rcases to_science_phase_fired cfg now o with h | ⟨_, h1, _, _, h2⟩
    · rw [h]; exact ⟨hA, hB⟩
    · refine ⟨fun h => ?_, fun _ _ => by rw [h2]; exact hn⟩
      rw [h1] at h; exact SS_PHASE.noConfusion h
  · have e := to_default_phase_fired cfg now o hf
    rcases to_science_phase_fired cfg now (to_default_phase cfg now o) with h | ⟨_, h1, _, _, h2⟩
    · rw [h, e]
      exact ⟨fun _ => hn, fun h => SS_PHASE.noConfusion h⟩
    · refine ⟨fun h => ?_, fun _ _ => by rw [h2]; exact hn⟩
      rw [h1] at h; exact SS_PHASE.noConfusion h

/-- After the phase tests, the reconciliation keeps the existence mark and the
phase, or clears the mark and forces the science phase. -/
theorem reconcile_phase_exists (cfg : Config) (env : Env) (o : State) :
    ((reconcile cfg env o).1.m_bDefault_ss_exists =
        (phase_evaluation cfg env.dtime o).m_bDefault_ss_exists ∧
      (reconcile cfg env o).1.ss_phase = (phase_evaluation cfg env.dtime o).ss_phase) ∨
    ((reconcile cfg env o).1.m_bDefault_ss_exists = false ∧
      (reconcile cfg env o).1.ss_phase = SS_PHASE.SCIENCE_SS_PHASE) := by
  rw [reconcile_eq]
  simp only
  generalize phase_evaluation cfg env.dtime o = p
  obtain ⟨a1, _, a2, _⟩ := suspend_check_request cfg p
  generalize suspend_check cfg p = s1 at *
  obtain ⟨b1, b2, _⟩ := switch_to_default_request env s1
  generalize switch_to_default env s1 = s2 at *
  obtain ⟨c1, c2, _⟩ := science_phase_request cfg env s2.1
  generalize science_phase cfg env s2.1 = s3 at *
  rcases (liveness_check_request cfg env s3.1).2.2 with ⟨d1, d2⟩ | ⟨_, d1, d2, _⟩
  · left
    exact ⟨by rw [d1, c1, b1, a1], by rw [d2, c2, b2, a2]⟩
  · right
    exact ⟨d1, d2⟩

/-- Science graphics that runs after the reconciliation was running before it
with the same `last_change_time`, or `last_change_time` is the time of the
pass. -/
theorem reconcile_lct (cfg : Config) (env : Env) (o : State)
    (h : (reconcile cfg env o).1.m_bScience_gfx_running = true) :
    (o.m_bScience_gfx_running = true ∧
      (reconcile cfg env o).1.last_change_time = o.last_change_time) ∨
    (reconcile cfg env o).1.last_change_time = env.dtime := by
  rw [reconcile_eq] at h ⊢
  simp only at h ⊢
  obtain ⟨m, sw, ph, dps, sps, dur, st, hfr⟩ := before_switch_frame cfg env.dtime o
  have a_S : (suspend_check cfg (phase_evaluation cfg env.dtime o)).m_bScience_gfx_running =
      o.m_bScience_gfx_running := by rw [hfr]
  have a_l : (suspend_check cfg (phase_evaluation cfg env.dtime o)).last_change_time =
      o.last_change_time := by rw [hfr]
  generalize suspend_check cfg (phase_evaluation cfg env.dtime o) = s1 at *
  have b : ((switch_to_default env s1).1.m_bScience_gfx_running = true →
        s1.m_bScience_gfx_running = true) ∧
      (switch_to_default env s1).1.last_change_time = s1.last_change_time := by
    rcases switch_to_default_cases env s1 with h0 | ⟨_, _, _, _, h0⟩ | ⟨_, hS, _, _, h0⟩
    · rw [h0]; exact ⟨id, rfl⟩
    · rw [h0]
      rcases launch_default_cases env.spawn_default_switch env.dtime
        (decide (s1.ss_phase = SS_PHASE.SCIENCE_SS_PHASE))
        { s1 with switch_to_default_gfx := false } with ⟨_, hl⟩ | ⟨_, hl⟩ <;>
      · rw [hl]; exact ⟨id, rfl⟩
    · refine ⟨fun _ => hS, ?_⟩
      rw [h0]
      unfold after_terminate
      split <;> rfl
  obtain ⟨b_S, b_l⟩ := b
  generalize switch_to_default env s1 = s2 at *
  have d : ((liveness_check cfg env (science_phase cfg env s2.1).1).m_bScience_gfx_running =
        true → (science_phase cfg env s2.1).1.m_bScience_gfx_running = true) ∧
      (liveness_check cfg env (science_phase cfg env s2.1).1).last_change_time =
        (science_phase cfg env s2.1).1.last_change_time := by
    rcases liveness_check_cases cfg env (science_phase cfg env s2.1).1 with
      ⟨_, h0⟩ | ⟨_, _, h0⟩ | ⟨_, _, ex, ph, k, h0⟩
    · rw [h0]; exact ⟨id, rfl⟩
    · rw [h0]; exact ⟨id, rfl⟩
    · rw [h0]; exact ⟨fun hc => Bool.noConfusion hc, rfl⟩
  obtain ⟨d_S, d_l⟩ := d
  rw [d_l]
  rcases science_phase_lct cfg env s2.1 (d_S h) with ⟨c1, c2⟩ | c
  · left
    exact ⟨by rw [← a_S]; exact b_S c1, by rw [c2, b_l, a_l]⟩
  · right; exact c

/-- The reconciliation keeps the timers set, when the clock does not read 0. -/
theorem reconcile_timers (cfg : Config) (env : Env) (o : State) (ht : timers_set o)
    (hn : env.dtime ≠ 0) : timers_set (reconcile cfg env o).1 := by
  obtain ⟨hA, hB, hC⟩ := ht
  obtain ⟨pA, pB⟩ := phase_evaluation_timers cfg env.dtime o hn hA hB
  obtain ⟨q_dp, q_sp, _, _, _⟩ := reconcile_clock cfg env o
  refine ⟨?_, ?_, ?_⟩
  · intro h
    rw [q_dp]
    rcases reconcile_phase_exists cfg env o with ⟨_, k⟩ | ⟨_, k⟩
    · exact pA (by rw [← k]; exact h)
    · rw [k] at h; exact SS_PHASE.noConfusion h
  · intro h1 h2
    rw [q_sp]
    rcases reconcile_phase_exists cfg env o with ⟨k1, k2⟩ | ⟨k1, _⟩
    · exact pB (by rw [← k2]; exact h1) (by rw [← k1]; exact h2)
    · rw [k1] at h2; exact Bool.noConfusion h2
  · intro h
    rcases reconcile_lct cfg env o h with ⟨k1, k2⟩ | k
    · rw [k2]; exact hC k1
    · rw [k]; exact hn

/-- A pass keeps the timers set, when the clock does not read 0. -/
theorem tick_timers (cfg : Config) (env : Env) (s : State) (ht : timers_set s)
    (hn : env.dtime ≠ 0) : timers_set (tick cfg env s).state := by
  have key : ∀ t : State, t.ss_phase = s.ss_phase →
      t.default_phase_start_time = s.default_phase_start_time →
      t.science_phase_start_time = s.science_phase_start_time →
      t.m_bDefault_ss_exists = s.m_bDefault_ss_exists →
      t.m_bScience_gfx_running = s.m_bScience_gfx_running →
      t.last_change_time = s.last_change_time → timers_set t := by
    intro t h1 h2 h3 h4 h5 h6
    unfold timers_set
    rw [h1, h2, h3, h4, h5, h6]
    exact ht
  have hobs : timers_set (refresh env (other_thread env s)).1 := by
    obtain ⟨c, rc, sr, res, hr⟩ := refresh_frame env (other_thread env s)
    apply key <;> rw [hr, other_thread_frame]
  rcases tick_cases cfg env s with ⟨_, h⟩ | ⟨_, _, h⟩ | ⟨_, _, _, h⟩ | ⟨_, _, _, h⟩
  · rw [h]
    have hfr : (stop_thread (other_thread env s)).state.ss_phase = s.ss_phase ∧
        (stop_thread (other_thread env s)).state.default_phase_start_time =
          s.default_phase_start_time ∧
        (stop_thread (other_thread env s)).state.science_phase_start_time =
          s.science_phase_start_time ∧
        (stop_thread (other_thread env s)).state.m_bDefault_ss_exists =
          s.m_bDefault_ss_exists ∧
        (stop_thread (other_thread env s)).state.m_bScience_gfx_running =
          s.m_bScience_gfx_running ∧
        (stop_thread (other_thread env s)).state.last_change_time = s.last_change_time := by
      unfold stop_thread
      split <;> exact ⟨rfl, rfl, rfl, rfl, rfl, rfl⟩
    exact key _ hfr.1 hfr.2.1 hfr.2.2.1 hfr.2.2.2.1 hfr.2.2.2.2.1 hfr.2.2.2.2.2
  · rw [h]
    exact key _ rfl rfl rfl rfl rfl rfl
  · rw [h]
    exact hobs
  · rw [h]
    exact reconcile_timers cfg env _ hobs hn

/-- The timers are set in every state of a session, when the clock does not
read 0. -/
theorem after_passes_timers (cfg : Config) (envs : List Env) :
    ∀ s : State, timers_set s → clock_set envs → timers_set (after_passes cfg s envs) := by
  induction envs with
  | nil => intro s hs _; exact hs
  | cons e rest ih =>
    intro s hs hc
    simp only [after_passes]
    apply ih
    · exact tick_timers cfg e s hs (hc e (List.mem_cons_self _ _))
    · intro x hx
      exact hc x (List.mem_cons_of_mem _ hx)

/-- The timers are set when the loop is entered at a time that is not 0. -/
theorem init_timers (file_exists : Bool) (now : Int) (m : State) (hn : now ≠ 0) :
    timers_set (DataManagementProc_init file_exists now m) := by
  cases file_exists
  · exact ⟨fun h => SS_PHASE.noConfusion h, fun _ _ => hn, fun h => Bool.noConfusion h⟩
  · exact ⟨fun h => SS_PHASE.noConfusion h, fun _ _ => hn, fun h => Bool.noConfusion h⟩


/-- More of what the refresh steps of a pass keep. -/
theorem observed_frame_clock (env : Env) (s : State) :
    (observed env s).default_phase_start_time = s.default_phase_start_time ∧
    (observed env s).default_saver_duration_in_science_phase =
      s.default_saver_duration_in_science_phase ∧
    (observed env s).default_saver_start_time_in_science_phase =
      s.default_saver_start_time_in_science_phase ∧
    (observed env s).last_change_time = s.last_change_time ∧
    (observed env s).previous_result_ptr = s.previous_result_ptr ∧
    (observed env s).killing_default_gfx = s.killing_default_gfx ∧
    (observed env s).exit_status = s.exit_status ∧
    (observed env s).m_bErrorMode = s.m_bErrorMode ∧
    (observed env s).m_hrError = s.m_hrError := by
  unfold observed
  obtain ⟨c, rc, sr, res, hr⟩ := refresh_frame env (other_thread env s)
  rw [hr, other_thread_frame]
  exact ⟨rfl, rfl, rfl, rfl, rfl, rfl, rfl, rfl, rfl⟩

/-- The timers are set in the state a pass reconciles from. -/
theorem observed_timers (env : Env) (s : State) (ht : timers_set s) :
    timers_set (observed env s) := by
  obtain ⟨_, o_S, _, _, _, o_ph, o_sp, o_ex⟩ := observed_frame env s
  obtain ⟨o_dp, _, _, o_l, _⟩ := observed_frame_clock env s
  unfold timers_set
  rw [o_S, o_ph, o_sp, o_ex, o_dp, o_l]
  exact ht


/-! ## The accumulated duration does not decrease -/

/-- The second phase test when the default period is over. -/
theorem to_science_phase_over (cfg : Config) (now : Int) (s : State)
    (h : default_period_over cfg now s = true) :
    to_science_phase cfg now s =
      { s with
        ss_phase := SS_PHASE.SCIENCE_SS_PHASE
        default_phase_start_time := 0
        default_saver_duration_in_science_phase := 0
        science_phase_start_time := now
        default_saver_start_time_in_science_phase :=
          if s.m_bDefault_gfx_running then now
          else s.default_saver_start_time_in_science_phase
        switch_to_default_gfx := false } := by
  simp only [default_period_over, Bool.and_eq_true, decide_eq_true_eq] at h
  obtain ⟨⟨⟨⟨h1, h2⟩, h3⟩, h4⟩, h5⟩ := h
  unfold to_science_phase
  rw [if_pos ⟨h1, h2, h3⟩, if_pos ⟨h4, h5⟩]

/-- The second phase test when the default period is not over. -/
theorem to_science_phase_idle (cfg : Config) (now : Int) (s : State)
    (h : default_period_over cfg now s = false) :
    to_science_phase cfg now s = s := by
  unfold to_science_phase
  split
  · rename_i h1
    split
    · rename_i h2
      exfalso
      have : default_period_over cfg now s = true := by
        simp only [default_period_over, Bool.and_eq_true, decide_eq_true_eq]
        exact ⟨⟨⟨⟨h1.1, h1.2.1⟩, h1.2.2⟩, h2.1⟩, h2.2⟩
      rw [h] at this
      exact Bool.noConfusion this
    · rfl
  · rfl

/-- The first phase test does not decrease the accumulated duration, given a
start time that is not after the time of the pass. -/
theorem to_default_phase_mono (cfg : Config) (now : Int) (s : State)
    (hst : s.default_saver_start_time_in_science_phase ≠ 0 →
      s.default_saver_start_time_in_science_phase ≤ now) :
    (to_default_phase cfg now s).default_saver_duration_in_science_phase ≥
      s.default_saver_duration_in_science_phase ∧
    ((to_default_phase cfg now s).default_saver_start_time_in_science_phase ≠ 0 →
      (to_default_phase cfg now s).default_saver_start_time_in_science_phase ≤ now) := by
  cases hf : science_period_over cfg now s
  · rw [to_default_phase_idle cfg now s hf]
    exact ⟨le_refl _, hst⟩
  · rw [to_default_phase_fired cfg now s hf]
    simp only
    refine ⟨?_, fun h => absurd rfl h⟩
    split
    · rename_i h1
      have := hst h1.2
      omega
    · exact le_refl _

/-- The steps of the reconciliation after the phase tests do not decrease the
accumulated duration, given a start time that is not after the time of the
pass. -/
theorem after_phase_tests_mono (cfg : Config) (env : Env) (p : State)
    (hk : env.dtime ≤ env.dtime_after_kill)
    (hst : p.default_saver_start_time_in_science_phase ≠ 0 →
      p.default_saver_start_time_in_science_phase ≤ env.dtime) :
    (liveness_check cfg env (science_phase cfg env
        (switch_to_default env (suspend_check cfg p)).1).1
      ).default_saver_duration_in_science_phase ≥
      p.default_saver_duration_in_science_phase ∧
    ((liveness_check cfg env (science_phase cfg env
        (switch_to_default env (suspend_check cfg p)).1).1
      ).default_saver_start_time_in_science_phase ≠ 0 →
      (liveness_check cfg env (science_phase cfg env
        (switch_to_default env (suspend_check cfg p)).1).1
      ).default_saver_start_time_in_science_phase ≤ env.dtime) := by
  -- the suspend test
  obtain ⟨m, sw, hsc⟩ := suspend_check_frame cfg p
  have a_du : (suspend_check cfg p).default_saver_duration_in_science_phase =
      p.default_saver_duration_in_science_phase := by rw [hsc]
  have a_st : (suspend_check cfg p).default_saver_start_time_in_science_phase =
      p.default_saver_start_time_in_science_phase := by rw [hsc]
  generalize suspend_check cfg p = s1 at *
  -- a launch of the default saver keeps the duration and may set the start time
  have hld : ∀ (o : SpawnOutcome) (b : Bool) (t : State),
      (launch_default o env.dtime b t).default_saver_duration_in_science_phase =
        t.default_saver_duration_in_science_phase ∧
      ((launch_default o env.dtime b t).default_saver_start_time_in_science_phase =
          t.default_saver_start_time_in_science_phase ∨
        (launch_default o env.dtime b t).default_saver_start_time_in_science_phase =
          env.dtime) := by
    intro o b t
    rcases launch_default_cases o env.dtime b t with ⟨_, h⟩ | ⟨_, h⟩
    · rw [h]; exact ⟨rfl, Or.inl rfl⟩
    · rw [h]
      refine ⟨rfl, ?_⟩
      cases b
      · left; rfl
      · right; rfl
  -- the switch to the default saver
  have b : (switch_to_default env s1).1.default_saver_duration_in_science_phase =
        s1.default_saver_duration_in_science_phase ∧
      ((switch_to_default env s1).1.default_saver_start_time_in_science_phase =
          s1.default_saver_start_time_in_science_phase ∨
        (switch_to_default env s1).1.default_saver_start_time_in_science_phase =
          env.dtime) := by
    rcases switch_to_default_cases env s1 with h | ⟨_, _, _, _, h⟩ | ⟨_, _, _, _, h⟩
    · rw [h]; exact ⟨rfl, Or.inl rfl⟩
    · rw [h]
      exact hld _ _ _
    · rw [h]
      unfold after_terminate
      split <;> exact ⟨rfl, Or.inl rfl⟩
  obtain ⟨b_du, b_st⟩ := b
  have hst2 : (switch_to_default env s1).1.default_saver_start_time_in_science_phase ≠ 0 →
      (switch_to_default env s1).1.default_saver_start_time_in_science_phase ≤ env.dtime := by
    rcases b_st with h | h
    · rw [h, a_st]; exact hst
    · rw [h]; exact fun _ => le_refl _
  generalize switch_to_default env s1 = s2 at *
  -- the science phase block
  have c : (science_phase cfg env s2.1).1.default_saver_duration_in_science_phase ≥
        s2.1.default_saver_duration_in_science_phase ∧
      ((science_phase cfg env s2.1).1.default_saver_start_time_in_science_phase ≠ 0 →
        (science_phase cfg env s2.1).1.default_saver_start_time_in_science_phase ≤
          env.dtime) := by
    by_cases hen : s2.1.ss_phase = SS_PHASE.SCIENCE_SS_PHASE ∧
        s2.1.switch_to_default_gfx = false
    · rw [science_phase_eq cfg env s2.1 hen.1 hen.2]
      simp only
      obtain ⟨res, lct, running, g, pp, hcr, _⟩ :=
        check_running_science_cases cfg env.dtime s2.1
      have c_du : (check_running_science cfg env.dtime s2.1).1.default_saver_duration_in_science_phase
          = s2.1.default_saver_duration_in_science_phase := by rw [hcr]
      have c_st :
          (check_running_science cfg env.dtime s2.1).1.default_saver_start_time_in_science_phase
          = s2.1.default_saver_start_time_in_science_phase := by rw [hcr]
      generalize check_running_science cfg env.dtime s2.1 = cr at *
      have hpk : (pick_and_launch cfg env cr.1).1.default_saver_duration_in_science_phase ≥
            cr.1.default_saver_duration_in_science_phase ∧
          ((pick_and_launch cfg env cr.1).1.default_saver_start_time_in_science_phase ≠ 0 →
            (pick_and_launch cfg env cr.1).1.default_saver_start_time_in_science_phase ≤
              env.dtime) := by
        have hcst : cr.1.default_saver_start_time_in_science_phase ≠ 0 →
            cr.1.default_saver_start_time_in_science_phase ≤ env.dtime := by
          rw [c_st]; exact hst2
        rcases pick_and_launch_cases cfg env cr.1 with ⟨h0, _⟩ | ⟨_, _, res2, p2, h0⟩ |
          ⟨_, _, _, rp, _, h0⟩ | ⟨_, _, _, _, rp, _, _, h0⟩
        · rw [h0]; exact ⟨le_refl _, hcst⟩
        · rw [h0]
          rcases none_chosen_cases
            { cr.1 with results := res2, graphics_app_result_ptr := none, previous_result_ptr := p2 }
            with ⟨_, hn⟩ | ⟨_, hn⟩ <;>
          · rw [hn]; exact ⟨le_refl _, hcst⟩
        · rw [h0]
          simp only
          refine ⟨?_, fun h => absurd rfl h⟩
          split
          · rename_i h1
            have := hcst h1
            omega
          · exact le_refl _
        · rcases h0 with ⟨_, h0⟩ | ⟨_, h0⟩ <;>
          · rw [h0]; exact ⟨le_refl _, hcst⟩
      obtain ⟨p_du, p_st⟩ := hpk
      generalize pick_and_launch cfg env cr.1 = pk at *
      have hfb : (fallback_to_default env pk.1).1.default_saver_duration_in_science_phase =
            pk.1.default_saver_duration_in_science_phase ∧
          ((fallback_to_default env pk.1).1.default_saver_start_time_in_science_phase =
              pk.1.default_saver_start_time_in_science_phase ∨
            (fallback_to_default env pk.1).1.default_saver_start_time_in_science_phase =
              env.dtime) := by
        rcases fallback_to_default_cases env pk.1 with ⟨_, h⟩ | ⟨_, _, h⟩ | ⟨_, _, h⟩
        · rw [h]; exact ⟨rfl, Or.inl rfl⟩
        · rw [h]; exact ⟨rfl, Or.inl rfl⟩
        · rw [h]; exact hld _ _ _
      obtain ⟨f_du, f_st⟩ := hfb
      refine ⟨by rw [f_du, ← c_du]; exact p_du, ?_⟩
      rcases f_st with h | h
      · rw [h]; exact p_st
      · rw [h]; exact fun _ => le_refl _
    · have hsk : science_phase cfg env s2.1 = (s2.1, []) := by
        apply science_phase_skip
        by_cases h1 : s2.1.ss_phase = SS_PHASE.SCIENCE_SS_PHASE
        · left
          cases hsw : s2.1.switch_to_default_gfx
          · exact absurd ⟨h1, hsw⟩ hen
          · rfl
        · right; exact h1
      rw [hsk]
      exact ⟨le_refl _, hst2⟩
  obtain ⟨c_du, c_st⟩ := c
  generalize science_phase cfg env s2.1 = s3 at *
  -- the liveness test
  have d : (liveness_check cfg env s3.1).default_saver_duration_in_science_phase =
        s3.1.default_saver_duration_in_science_phase ∧
      (liveness_check cfg env s3.1).default_saver_start_time_in_science_phase =
        s3.1.default_saver_start_time_in_science_phase := by
    rcases liveness_check_cases cfg env s3.1 with ⟨_, h⟩ | ⟨_, _, h⟩ | ⟨_, _, ex, ph, k, h⟩ <;>
    · rw [h]; exact ⟨rfl, rfl⟩
  rw [d.1, d.2]
  refine ⟨?_, c_st⟩
  rw [← a_du, ← b_du]
  exact c_du

/-- The reconciliation keeps the accumulated duration sound, and does not
decrease it unless the second phase test fires. -/
theorem reconcile_mono (cfg : Config) (env : Env) (s : State)
    (hk : env.dtime ≤ env.dtime_after_kill)
    (hacc : s.default_saver_duration_in_science_phase ≥ 0)
    (hst : s.default_saver_start_time_in_science_phase ≠ 0 →
      s.default_saver_start_time_in_science_phase ≤ env.dtime) :
    accumulator_sound env.dtime (reconcile cfg env s).1 ∧
    (default_period_over cfg env.dtime (to_default_phase cfg env.dtime s) = false →
      (reconcile cfg env s).1.default_saver_duration_in_science_phase ≥
        s.default_saver_duration_in_science_phase) := by
  rw [reconcile_eq]
  simp only
  unfold phase_evaluation
  obtain ⟨d_du, d_st⟩ := to_default_phase_mono cfg env.dtime s hst
  generalize to_default_phase cfg env.dtime s = p0 at *
  cases hov : default_period_over cfg env.dtime p0
  · rw [to_science_phase_idle cfg env.dtime p0 hov]
    obtain ⟨a, b⟩ := after_phase_tests_mono cfg env p0 hk d_st
    exact ⟨⟨le_trans hacc (le_trans d_du a), b⟩, fun _ => le_trans d_du a⟩
  · have hp := to_science_phase_over cfg env.dtime p0 hov
    have p_du : (to_science_phase cfg env.dtime p0).default_saver_duration_in_science_phase
        = 0 := by rw [hp]
    have p_st : (to_science_phase cfg env.dtime p0).default_saver_start_time_in_science_phase
        = (if p0.m_bDefault_gfx_running then env.dtime
            else p0.default_saver_start_time_in_science_phase) := by rw [hp]
    have hst3 : (to_science_phase cfg env.dtime p0).default_saver_start_time_in_science_phase
          ≠ 0 →
        (to_science_phase cfg env.dtime p0).default_saver_start_time_in_science_phase ≤
          env.dtime := by
      rw [p_st]
      split
      · exact fun _ => le_refl _
      · exact d_st
    obtain ⟨a, b⟩ := after_phase_tests_mono cfg env (to_science_phase cfg env.dtime p0) hk hst3
    rw [p_du] at a
    exact ⟨⟨a, b⟩, fun h => Bool.noConfusion h⟩

/-- A pass at a time not before the last one keeps the accumulated duration
sound, and does not decrease it unless it makes the transition to the science
phase. -/
theorem tick_mono (cfg : Config) (env : Env) (s : State) (last : Int)
    (hs : accumulator_sound last s) (hl : last ≤ env.dtime)
    (hk : env.dtime ≤ env.dtime_after_kill) :
    accumulator_sound env.dtime (tick cfg env s).state ∧
    (¬ science_transition cfg env s →
      (tick cfg env s).state.default_saver_duration_in_science_phase ≥
        s.default_saver_duration_in_science_phase) := by
  obtain ⟨hacc, hst⟩ := hs
  have hst2 : s.default_saver_start_time_in_science_phase ≠ 0 →
      s.default_saver_start_time_in_science_phase ≤ env.dtime :=
    fun h => le_trans (hst h) hl
  have key : ∀ t : State,
      t.default_saver_duration_in_science_phase = s.default_saver_duration_in_science_phase →
      t.default_saver_start_time_in_science_phase =
        s.default_saver_start_time_in_science_phase →
      accumulator_sound env.dtime t ∧
        t.default_saver_duration_in_science_phase ≥
          s.default_saver_duration_in_science_phase := by
    intro t h1 h2
    unfold accumulator_sound
    rw [h1, h2]
    exact ⟨⟨hacc, hst2⟩, le_refl _⟩
  obtain ⟨_, o_du, o_st, _⟩ := observed_frame_clock env s
  rcases tick_cases cfg env s with ⟨_, h⟩ | ⟨_, _, h⟩ | ⟨_, _, _, h⟩ | ⟨h1, h2, h3, h⟩
  · rw [h]
    have hfr : (stop_thread (other_thread env s)).state.default_saver_duration_in_science_phase
          = s.default_saver_duration_in_science_phase ∧
        (stop_thread (other_thread env s)).state.default_saver_start_time_in_science_phase
          = s.default_saver_start_time_in_science_phase := by
      unfold stop_thread
      split <;> exact ⟨rfl, rfl⟩
    obtain ⟨a, b⟩ := key _ hfr.1 hfr.2
    exact ⟨a, fun _ => b⟩
  · rw [h]
    obtain ⟨a, b⟩ := key _ rfl rfl
    exact ⟨a, fun _ => b⟩
  · rw [h]
    obtain ⟨a, b⟩ := key (observed env s) o_du o_st
    exact ⟨a, fun _ => b⟩
  · rw [h]
    simp only
    have hacc2 : (observed env s).default_saver_duration_in_science_phase ≥ 0 := by
      rw [o_du]; exact hacc
    have hst3 : (observed env s).default_saver_start_time_in_science_phase ≠ 0 →
        (observed env s).default_saver_start_time_in_science_phase ≤ env.dtime := by
      rw [o_st]; exact hst2
    obtain ⟨a, b⟩ := reconcile_mono cfg env (observed env s) hk hacc2 hst3
    refine ⟨a, ?_⟩
    intro hn
    have hov : default_period_over cfg env.dtime
        (to_default_phase cfg env.dtime (observed env s)) = false := by
      cases hv : default_period_over cfg env.dtime
        (to_default_phase cfg env.dtime (observed env s))
      · rfl
      · exact absurd ⟨⟨h1, h2, h3⟩, hv⟩ hn
    have := b hov
    rw [o_du] at this
    exact this

/-- The accumulated duration is sound in every state of a session whose clock
never goes backwards. -/
theorem after_passes_accumulator (cfg : Config) (envs : List Env) :
    ∀ (last : Int) (s : State), accumulator_sound last s →
      clock_never_backwards last envs = true →
      accumulator_sound (clock_end last envs) (after_passes cfg s envs) := by
  induction envs with
  | nil => intro last s hs _; exact hs
  | cons e rest ih =>
    intro last s hs hc
    simp only [clock_never_backwards, Bool.and_eq_true, decide_eq_true_eq] at hc
    simp only [after_passes, clock_end]
    exact ih e.dtime _ (tick_mono cfg e s last hs hc.1.1 hc.1.2).1 hc.2

/-- A clock that never goes backwards over a list of passes and one more. -/
theorem clock_never_backwards_append (envs : List Env) (env : Env) :
    ∀ last : Int, clock_never_backwards last (envs ++ [env]) = true →
      clock_never_backwards last envs = true ∧ clock_end last envs ≤ env.dtime ∧
        env.dtime ≤ env.dtime_after_kill := by
  induction envs with
  | nil =>
    intro last h
    simp only [List.nil_append, clock_never_backwards, Bool.and_true, Bool.and_eq_true,
      decide_eq_true_eq] at h
    exact ⟨rfl, h.1, h.2⟩
  | cons e rest ih =>
    intro last h
    simp only [List.cons_append, clock_never_backwards, Bool.and_eq_true,
      decide_eq_true_eq] at h
    obtain ⟨a, b⟩ := ih e.dtime h.2
    simp only [clock_never_backwards, Bool.and_eq_true, decide_eq_true_eq, clock_end]
    exact ⟨⟨h.1, a⟩, b⟩

/-- The accumulated duration is sound when the loop is entered. -/
theorem init_accumulator (file_exists : Bool) (now : Int) (m : State) :
    accumulator_sound now (DataManagementProc_init file_exists now m) := by
  cases file_exists
  · exact ⟨le_refl _, fun h => absurd rfl h⟩
  · exact ⟨le_refl _, fun h => absurd rfl h⟩


/-! ## Task identity and the lookup of the displayed task (claims C21, C22) -/

/-- C21: `is_same_task` answers true exactly when both tasks are present and
have the same `name` and the same `project_url`; it answers false when either
is absent, does not look at `graphics_exec_path`, `slot_path` or `slot`, and
is symmetric. -/
theorem C21_same_task_is_name_and_url (a b : Option RESULT) (x y : RESULT)
    (g1 g2 p1 p2 : String) (n1 n2 : Int) :
    (is_same_task a b = true ↔
      ∃ u v, a = some u ∧ b = some v ∧ u.name = v.name ∧ u.project_url = v.project_url) ∧
    is_same_task none b = false ∧ is_same_task a none = false ∧
    is_same_task (some { x with graphics_exec_path := g1, slot_path := p1, slot := n1 })
        (some { y with graphics_exec_path := g2, slot_path := p2, slot := n2 }) =
      is_same_task (some x) (some y) ∧
    is_same_task a b = is_same_task b a := by
  refine ⟨?_, rfl, by cases a <;> rfl, ?_, ?_⟩
  · cases a with
    | none => simp [is_same_task]
    | some u =>
      cases b with
      | none => simp [is_same_task]
      | some v =>
        simp only [is_same_task]
        by_cases h1 : u.name = v.name
        · by_cases h2 : u.project_url = v.project_url
          · simp [h1, h2]
          · simp [h1, h2]
        · simp [h1]
  · simp only [is_same_task]
  · cases a with
    | none => cases b <;> rfl
    | some u =>
      cases b with
      | none => rfl
      | some v =>
        simp only [is_same_task]
        by_cases h1 : u.name = v.name
        · by_cases h2 : u.project_url = v.project_url
          · simp [h1, h2]
          · have h3 : ¬ v.project_url = u.project_url := fun e => h2 e.symm
            simp [h1, h2, h3]
        · have h3 : ¬ v.name = u.name := fun e => h1 e.symm
          simp [h1, h3]

/-- The lookup finds the first task of the vector that is the same task as the
record, with everything before it a different task. -/
theorem find_current_task_some (prev : Option RESULT) (res : List RESULT) (t : RESULT)
    (h : find_current_task prev res = some t) :
    is_same_task (some t) prev = true ∧
    ∃ before after, res = before ++ t :: after ∧
      ∀ x ∈ before, is_same_task (some x) prev = false := by
  induction res with
  | nil => simp [find_current_task] at h
  | cons r rest ih =>
    simp only [find_current_task] at h
    split at h
    · rename_i h1
      injection h with h
      subst h
      exact ⟨h1, [], rest, rfl, fun x hx => absurd hx (List.not_mem_nil _)⟩
    · rename_i h1
      obtain ⟨k1, before, after, k2, k3⟩ := ih h
      refine ⟨k1, r :: before, after, by rw [k2]; rfl, ?_⟩
      intro x hx
      rcases List.mem_cons.mp hx with hx | hx
      · rw [hx]; simpa using h1
      · exact k3 x hx

/-- The lookup finds nothing exactly when no task of the vector is the same
task as the record. -/
theorem find_current_task_none (prev : Option RESULT) (res : List RESULT) :
    find_current_task prev res = none ↔ ∀ x ∈ res, is_same_task (some x) prev = false := by
  induction res with
  | nil => simp [find_current_task]
  | cons r rest ih =>
    simp only [find_current_task]
    split
    · rename_i h1
      constructor
      · intro h; exact Option.noConfusion h
      · intro h
        have := h r (List.mem_cons_self _ _)
        rw [h1] at this
        exact Bool.noConfusion this
    · rename_i h1
      rw [ih]
      constructor
      · intro h x hx
        rcases List.mem_cons.mp hx with hx | hx
        · rw [hx]; simpa using h1
        · exact h x hx
      · intro h x hx
        exact h x (List.mem_cons_of_mem _ hx)

/-- C22: when the lookup of lines 799-813 finds a task `t`, the record is
present and `t` has its `name` and `project_url`, `t` is the first task of the
vector with that identity, and after the lookup both the record and
`graphics_app_result_ptr` hold `t`; the lookup finds nothing exactly when no
task of the vector has the identity of the record, and then
`graphics_app_result_ptr` is null and the record is left as it was. -/
theorem C22_lookup_finds_first_same_task (s : State) (t : RESULT) :
    (find_current_task s.previous_result_ptr s.results = some t →
      (∃ p, s.previous_result_ptr = some p ∧ t.name = p.name ∧
        t.project_url = p.project_url) ∧
      (∃ before after, s.results = before ++ t :: after ∧
        ∀ x ∈ before, ∀ p, s.previous_result_ptr = some p →
          ¬ (x.name = p.name ∧ x.project_url = p.project_url)) ∧
      (locate_current_task s).previous_result_ptr = some t ∧
      (locate_current_task s).graphics_app_result_ptr = some t) ∧
    (find_current_task s.previous_result_ptr s.results = none ↔
      ∀ x ∈ s.results, ∀ p, s.previous_result_ptr = some p →
        ¬ (x.name = p.name ∧ x.project_url = p.project_url)) ∧
    (find_current_task s.previous_result_ptr s.results = none →
      (locate_current_task s).graphics_app_result_ptr = none ∧
      (locate_current_task s).previous_result_ptr = s.previous_result_ptr) := by
  have same_iff : ∀ (x : RESULT), is_same_task (some x) s.previous_result_ptr = false ↔
      ∀ p, s.previous_result_ptr = some p →
        ¬ (x.name = p.name ∧ x.project_url = p.project_url) := by
    intro x
    cases hp : s.previous_result_ptr with
    | none => simp [is_same_task]
    | some p =>
      simp only [is_same_task]
      by_cases h1 : x.name = p.name
      · by_cases h2 : x.project_url = p.project_url
        · simp [h1, h2]
        · simp [h1, h2]
      · simp [h1]
  refine ⟨?_, ?_, ?_⟩
  · intro h
    obtain ⟨k1, before, after, k2, k3⟩ := find_current_task_some _ _ _ h
    refine ⟨?_, ⟨before, after, k2, fun x hx => (same_iff x).mp (k3 x hx)⟩, ?_, ?_⟩
    · cases hp : s.previous_result_ptr with
      | none => rw [hp] at k1; simp [is_same_task] at k1
      | some p =>
        rw [hp] at k1
        refine ⟨p, rfl, ?_⟩
        simp only [is_same_task] at k1
        by_cases h1 : t.name = p.name
        · by_cases h2 : t.project_url = p.project_url
          · exact ⟨h1, h2⟩
          · simp [h1, h2] at k1
        · simp [h1] at k1
    · simp [locate_current_task, h]
    · simp [locate_current_task, h]
  · rw [find_current_task_none]
    constructor
    · intro h x hx; exact (same_iff x).mp (h x hx)
    · intro h x hx; exact (same_iff x).mpr (h x hx)
  · intro h
    simp [locate_current_task, h]


/-! ## A pass seen from the state it reaches line 749 with -/

/-- A pass that reaches the reconciliation, in terms of the state it reaches
line 749 with. -/
theorem tick_entering (cfg : Config) (env : Env) (s : State) (hr : reconciles cfg env s) :
    (tick cfg env s).state =
      liveness_check cfg env
        (science_phase cfg env (switch_to_default env (entering cfg env s)).1).1 ∧
    (tick cfg env s).actions =
      (switch_to_default env (entering cfg env s)).2 ++
        (science_phase cfg env (switch_to_default env (entering cfg env s)).1).2 := by
  rw [tick_of_reconciles cfg env s hr, reconcile_eq]
  exact ⟨rfl, rfl⟩

/-- What the refresh steps, the phase tests and the suspend test keep. -/
theorem entering_frame (cfg : Config) (env : Env) (s : State) :
    (entering cfg env s).m_hGraphicsApplication = s.m_hGraphicsApplication ∧
    (entering cfg env s).m_bScience_gfx_running = s.m_bScience_gfx_running ∧
    (entering cfg env s).m_bDefault_gfx_running = s.m_bDefault_gfx_running ∧
    (entering cfg env s).graphics_app_result_ptr = s.graphics_app_result_ptr ∧
    (entering cfg env s).previous_result_ptr = s.previous_result_ptr ∧
    (entering cfg env s).last_change_time = s.last_change_time ∧
    (entering cfg env s).m_bDefault_ss_exists = s.m_bDefault_ss_exists ∧
    (entering cfg env s).exit_status = s.exit_status ∧
    (entering cfg env s).results = (observed env s).results ∧
    (entering cfg env s).m_vIncompatibleGfxApps = (observed env s).m_vIncompatibleGfxApps ∧
    (entering cfg env s).suspend_reason = (observed env s).suspend_reason := by
  obtain ⟨o_h, o_S, o_D, o_g, _, _, _, o_ex⟩ := observed_frame env s
  obtain ⟨_, _, _, o_l, o_p, _, o_x, _⟩ := observed_frame_clock env s
  obtain ⟨m, sw, ph, dps, sps, dur, st, hpre⟩ :=
    before_switch_frame cfg env.dtime (observed env s)
  unfold entering
  rw [hpre]
  exact ⟨o_h, o_S, o_D, o_g, o_p, o_l, o_ex, o_x, rfl, rfl, rfl⟩

/-- The answer of `HasProcessExited` does not depend on the value found in
`exitCode`. -/
theorem HasProcessExited_answer (cfg : Config) (env : Env) (pid x y : Int) :
    (HasProcessExited cfg env pid x).1 = (HasProcessExited cfg env pid y).1 := by
  unfold HasProcessExited
  split
  · split <;> rfl
  · split
    · rfl
    · split <;> rfl

/-- With no science graphics running the test of line 796 does nothing. -/
theorem check_running_science_idle (cfg : Config) (now : Int) (s : State)
    (h : s.m_bScience_gfx_running = false) : check_running_science cfg now s = (s, []) := by
  simp [check_running_science, h]

/-- With nothing shown, the client not suspended and a task chosen, the
graphics of that task is launched. -/
theorem pick_and_launch_hit (cfg : Config) (env : Env) (s : State) (rp : RESULT)
    (hD : s.m_bDefault_gfx_running = false) (h0 : s.m_hGraphicsApplication = 0)
    (hg : s.graphics_app_result_ptr = none)
    (hsus : suspended cfg s.suspend_reason = false)
    (hsel : (get_random_graphics_app s.m_vIncompatibleGfxApps s.results
      s.previous_result_ptr env.rand).2 = some rp) :
    (pick_and_launch cfg env s).2 = [Action.launch_screensaver rp] ∧
    ((launch_screensaver env.spawn_science rp 0).1 ≠ 0 →
      (pick_and_launch cfg env s).1 =
        { s with
          results := (get_random_graphics_app s.m_vIncompatibleGfxApps s.results
            s.previous_result_ptr env.rand).1
          m_hGraphicsApplication := 0
          previous_result_ptr := none
          graphics_app_result_ptr := none
          m_bScience_gfx_running := false }) ∧
    ((launch_screensaver env.spawn_science rp 0).1 = 0 →
      (pick_and_launch cfg env s).1 =
        { s with
          results := (get_random_graphics_app s.m_vIncompatibleGfxApps s.results
            s.previous_result_ptr env.rand).1
          m_bErrorMode := false
          m_hrError := SCRAPPERR.BOINCSCREENSAVERLOADING
          m_hGraphicsApplication := (launch_screensaver env.spawn_science rp 0).2
          graphics_app_result_ptr := some rp
          last_change_time := env.dtime
          m_bScience_gfx_running := true
          previous_result_ptr := some rp }) := by
  rcases pick_and_launch_cases cfg env s with ⟨_, hn⟩ | ⟨_, _, res, p, hp⟩ |
    ⟨hD2, _⟩ | ⟨_, _, _, _, rp2, hsel2, hact, hst⟩
  · exact absurd ⟨Or.inr h0, hg⟩ hn
  · exfalso
    have h2 : (pick_and_launch cfg env s).2 = [Action.launch_screensaver rp] := by
      by_cases hl : (launch_screensaver env.spawn_science rp 0).1 = 0
      · simp [pick_and_launch, hg, hsus, hsel, hD, show_chosen, h0, hl]
      · simp [pick_and_launch, hg, hsus, hsel, hD, show_chosen, h0, hl]
    rw [hp] at h2
    exact List.noConfusion h2
  · rw [hD] at hD2
    exact Bool.noConfusion hD2
  · rw [hsel] at hsel2
    injection hsel2 with e
    subst e
    refine ⟨hact, ?_, ?_⟩
    · intro hl
      rcases hst with ⟨_, k⟩ | ⟨k, _⟩
      · exact k
      · exact absurd k hl
    · intro hl
      rcases hst with ⟨k, _⟩ | ⟨_, k⟩
      · exact absurd hl k
      · exact k

/-- The science phase block from a state with nothing shown, the client not
suspended and a task chosen: one launch call, for the chosen task, and the
state that the launch leaves. -/
theorem science_phase_hit (cfg : Config) (env : Env) (s : State) (rp : RESULT)
    (hph : s.ss_phase = SS_PHASE.SCIENCE_SS_PHASE) (hsw : s.switch_to_default_gfx = false)
    (hS : s.m_bScience_gfx_running = false)
    (hD : s.m_bDefault_gfx_running = false) (h0 : s.m_hGraphicsApplication = 0)
    (hg : s.graphics_app_result_ptr = none)
    (hsus : suspended cfg s.suspend_reason = false)
    (hsel : (get_random_graphics_app s.m_vIncompatibleGfxApps s.results
      s.previous_result_ptr env.rand).2 = some rp) :
    (science_phase cfg env s).2 = [Action.launch_screensaver rp] ∧
    ((launch_screensaver env.spawn_science rp 0).1 ≠ 0 →
      (science_phase cfg env s).1 =
        { s with
          results := (get_random_graphics_app s.m_vIncompatibleGfxApps s.results
            s.previous_result_ptr env.rand).1
          m_hGraphicsApplication := 0
          previous_result_ptr := none
          graphics_app_result_ptr := none
          m_bScience_gfx_running := false }) ∧
    ((launch_screensaver env.spawn_science rp 0).1 = 0 →
      (science_phase cfg env s).1 =
        { s with
          results := (get_random_graphics_app s.m_vIncompatibleGfxApps s.results
            s.previous_result_ptr env.rand).1
          m_bErrorMode := false
          m_hrError := SCRAPPERR.BOINCSCREENSAVERLOADING
          m_hGraphicsApplication := (launch_screensaver env.spawn_science rp 0).2
          graphics_app_result_ptr := some rp
          last_change_time := env.dtime
          m_bScience_gfx_running := true
          previous_result_ptr := some rp }) := by
  rw [science_phase_eq cfg env s hph hsw, check_running_science_idle cfg env.dtime s hS]
  simp only [List.nil_append]
  obtain ⟨k1, k2, k3⟩ := pick_and_launch_hit cfg env s rp hD h0 hg hsus hsel
  have hfb : ∀ u : State, u.switch_to_default_gfx = false →
      fallback_to_default env u = (u, []) := by
    intro u hu
    simp [fallback_to_default, hu]
  have hsw2 : (pick_and_launch cfg env s).1.switch_to_default_gfx = false := by
    by_cases hl : (launch_screensaver env.spawn_science rp 0).1 = 0
    · rw [k3 hl]; exact hsw
    · rw [k2 hl]; exact hsw
  rw [hfb _ hsw2, k1]
  exact ⟨rfl, k2, k3⟩

/-- With a handle held the change rule changes the vector and
`last_change_time` only. -/
theorem change_check_frame (cfg : Config) (now : Int) (s : State)
    (hh : s.m_hGraphicsApplication ≠ 0) :
    ∃ res lct, (change_check cfg now s).1 =
      { s with results := res, last_change_time := lct } := by
  by_cases h1 : s.last_change_time ≠ 0 ∧ cfg.m_fGFXChangePeriod > 0 ∧
      now - s.last_change_time > cfg.m_fGFXChangePeriod
  · refine ⟨(count_active_graphic_apps s.m_vIncompatibleGfxApps s.results
      s.previous_result_ptr).1, now, ?_⟩
    by_cases h2 : (count_active_graphic_apps s.m_vIncompatibleGfxApps s.results
        s.previous_result_ptr).2 > 0
    · simp [change_check, h1, h2, after_terminate, hh]
    · simp [change_check, h1, h2]
  · exact ⟨s.results, s.last_change_time, by simp [change_check, h1]⟩

/-- The switch to the default saver makes no call of `launch_screensaver`. -/
theorem switch_to_default_no_science_launch (env : Env) (s : State) (rp : RESULT) :
    Action.launch_screensaver rp ∉ (switch_to_default env s).2 := by
  intro hm
  rcases switch_to_default_cases env s with h | ⟨h, _⟩ | ⟨_, _, _, h, _⟩
  · rw [h] at hm; exact absurd hm (List.not_mem_nil _)
  · rw [h] at hm; exact Action.noConfusion (List.mem_singleton.mp hm)
  · rcases h with h | ⟨_, h⟩
    · rw [h] at hm; exact absurd hm (List.not_mem_nil _)
    · rw [h] at hm; exact Action.noConfusion (List.mem_singleton.mp hm)

/-- With science graphics running on a held handle and its task gone from the
vector, the test of line 796 makes a terminate call and clears both task
records. -/
theorem check_running_science_gone (cfg : Config) (now : Int) (s : State)
    (hS : s.m_bScience_gfx_running = true) (hh : s.m_hGraphicsApplication ≠ 0)
    (hf : find_current_task s.previous_result_ptr s.results = none) :
    (∃ res lct, (check_running_science cfg now s).1 =
      { s with results := res, last_change_time := lct, graphics_app_result_ptr := none,
               previous_result_ptr := none }) ∧
    Action.terminate_screensaver s.m_hGraphicsApplication ∈
      (check_running_science cfg now s).2 := by
  have hcr : check_running_science cfg now s =
      ((change_check cfg now
          { s with graphics_app_result_ptr := none, previous_result_ptr := none }).1,
        [Action.terminate_screensaver s.m_hGraphicsApplication] ++
          (change_check cfg now
            { s with graphics_app_result_ptr := none, previous_result_ptr := none }).2) := by
    simp [check_running_science, hS, hh, locate_current_task, hf, task_finished,
      after_terminate, terminate_screensaver, terminate_v6_screensaver]
  obtain ⟨res, lct, hc⟩ := change_check_frame cfg now
    { s with graphics_app_result_ptr := none, previous_result_ptr := none } hh
  rw [hcr]
  refine ⟨⟨res, lct, ?_⟩, List.mem_append_left _ (List.mem_singleton_self _)⟩
  simp only
  rw [hc]

/-- With a handle held and the default saver not running nothing is picked. -/
theorem pick_and_launch_held (cfg : Config) (env : Env) (s : State)
    (hD : s.m_bDefault_gfx_running = false) (hh : s.m_hGraphicsApplication ≠ 0) :
    pick_and_launch cfg env s = (s, []) := by
  simp [pick_and_launch, hD, hh]

/-- The liveness test when the process held has exited and the default saver
was not running. -/
theorem liveness_check_exit (cfg : Config) (env : Env) (s : State)
    (hh : s.m_hGraphicsApplication ≠ 0) (hD : s.m_bDefault_gfx_running = false)
    (hx : (HasProcessExited cfg env s.m_hGraphicsApplication s.exit_status).1 = true) :
    liveness_check cfg env s =
      { s with
        m_bErrorMode := true
        m_hrError := SCRAPPERR.BOINCNOGRAPHICSAPPSEXECUTING
        exit_status := (HasProcessExited cfg env s.m_hGraphicsApplication s.exit_status).2
        m_hGraphicsApplication := 0
        graphics_app_result_ptr := none
        m_bDefault_gfx_running := false
        m_bScience_gfx_running := false } := by
  simp [liveness_check, hh, hx, hD, SetError]

/-- With an eligible task in the vector and no task excluded the selector
returns a task. -/
theorem selector_hits (incompat : List String) (res : List RESULT) (rnd : Nat)
    (h : eligible_tasks incompat none res ≠ []) :
    ∃ rp, (get_random_graphics_app incompat res none rnd).2 = some rp := by
  obtain ⟨_, _, k⟩ := get_random_eq incompat res none rnd
  have he : effective_exclude incompat res none = none := by
    simp [effective_exclude]
  rw [he] at k
  have hlen : (eligible_tasks incompat none res).length ≠ 0 := by
    intro h0
    exact h (List.length_eq_zero.mp h0)
  have hlt : rnd % (eligible_tasks incompat none res).length <
      (eligible_tasks incompat none res).length :=
    Nat.mod_lt _ (Nat.pos_of_ne_zero hlen)
  exact ⟨(eligible_tasks incompat none res)[rnd % (eligible_tasks incompat none res).length],
    by rw [k hlen, List.getElem?_eq_getElem hlt]⟩

/-- The suspend test when the client is suspended and the default saver exists
and is not running. -/
theorem suspend_check_requests (cfg : Config) (s : State)
    (h : suspended cfg s.suspend_reason = true) (hD : s.m_bDefault_gfx_running = false)
    (hE : s.m_bDefault_ss_exists = true) :
    suspend_check cfg s = { s with m_bErrorMode := true, switch_to_default_gfx := true } := by
  simp [suspend_check, h, hD, hE, SetError]

/-- A request for the default saver with science graphics running on a held
handle: the science graphics is terminated and the request stands. -/
theorem switch_to_default_terminates (env : Env) (s : State)
    (hsw : s.switch_to_default_gfx = true) (hS : s.m_bScience_gfx_running = true)
    (hh : s.m_hGraphicsApplication ≠ 0) :
    switch_to_default env s =
      ({ s with previous_result_ptr := none },
        [Action.terminate_screensaver s.m_hGraphicsApplication]) := by
  simp [switch_to_default, hsw, hS, hh, after_terminate, terminate_screensaver,
    terminate_v6_screensaver]

/-- What the refresh steps, the phase tests and the suspend test keep, in
terms of the state after the phase tests. -/
theorem phase_evaluation_keeps (cfg : Config) (now : Int) (s : State) :
    (phase_evaluation cfg now s).suspend_reason = s.suspend_reason ∧
    (phase_evaluation cfg now s).m_bDefault_gfx_running = s.m_bDefault_gfx_running ∧
    (phase_evaluation cfg now s).m_bDefault_ss_exists = s.m_bDefault_ss_exists := by
  obtain ⟨sw, ph, dps, sps, dur, st, e1⟩ := phase_evaluation_frame cfg now s
  rw [e1]
  exact ⟨rfl, rfl, rfl⟩

/-- The rest of a pass after a successful launch of the default saver while the
client is suspended: no further call is made and the error pair is kept, when
the process has not exited. -/
theorem default_shown_suspended (cfg : Config) (env : Env) (d : State) {h : Int}
    (hm : d.m_bErrorMode = false) (he : d.m_hrError = SCRAPPERR.BOINCSCREENSAVERLOADING)
    (hh : d.m_hGraphicsApplication = h) (hD : d.m_bDefault_gfx_running = true)
    (hsw : d.switch_to_default_gfx = false) (hS : d.m_bScience_gfx_running = false)
    (hg : d.graphics_app_result_ptr = none)
    (hsus : suspended cfg d.suspend_reason = true)
    (halive : ∀ x, (HasProcessExited cfg env h x).1 = false) :
    [Action.launch_default_screensaver] ++ (science_phase cfg env d).2 =
      [Action.launch_default_screensaver] ∧
    (liveness_check cfg env (science_phase cfg env d).1).m_bDefault_gfx_running = true ∧
    (liveness_check cfg env (science_phase cfg env d).1).m_bErrorMode = false ∧
    (liveness_check cfg env (science_phase cfg env d).1).m_hrError =
      SCRAPPERR.BOINCSCREENSAVERLOADING := by
  have hsp : (science_phase cfg env d).2 = [] ∧
      (science_phase cfg env d).1.m_bErrorMode = false ∧
      (science_phase cfg env d).1.m_hrError = SCRAPPERR.BOINCSCREENSAVERLOADING ∧
      (science_phase cfg env d).1.m_bDefault_gfx_running = true ∧
      (science_phase cfg env d).1.m_hGraphicsApplication = h := by
    by_cases hph : d.ss_phase = SS_PHASE.SCIENCE_SS_PHASE
    · rw [science_phase_eq cfg env d hph hsw, check_running_science_idle cfg env.dtime d hS]
      simp only [List.nil_append]
      have hpk : ∃ res p, pick_and_launch cfg env d =
          ({ d with results := res, graphics_app_result_ptr := none,
                    previous_result_ptr := p }, []) := by
        refine ⟨d.results, d.previous_result_ptr, ?_⟩
        simp [pick_and_launch, hD, hg, hsus, none_chosen]
      obtain ⟨res, p, hpk⟩ := hpk
      have hfb := fallback_to_default_idle env
        { d with results := res, graphics_app_result_ptr := none, previous_result_ptr := p } hsw
      rw [hpk]
      simp only
      rw [hfb]
      exact ⟨rfl, hm, he, hD, hh⟩
    · rw [science_phase_skip cfg env d (Or.inr hph)]
      exact ⟨rfl, hm, he, hD, hh⟩
  obtain ⟨k1, k2, k3, k4, k5⟩ := hsp
  rw [k1]
  generalize (science_phase cfg env d).1 = u at *
  refine ⟨rfl, ?_⟩
  rcases liveness_check_cases cfg env u with ⟨_, h1⟩ | ⟨_, _, h1⟩ | ⟨_, hx, _⟩
  · rw [h1]; exact ⟨k4, k2, k3⟩
  · rw [h1]; exact ⟨k4, k2, k3⟩
  · rw [k5, halive] at hx
    exact Bool.noConfusion hx


/-! ## The accumulated duration is carried through the science phase -/

/-- The liveness test leaves the start time of the default saver inside the
science phase alone. -/
theorem liveness_check_start_time (cfg : Config) (env : Env) (s : State) :
    (liveness_check cfg env s).default_saver_start_time_in_science_phase =
      s.default_saver_start_time_in_science_phase := by
  rcases liveness_check_cases cfg env s with ⟨_, h⟩ | ⟨_, _, h⟩ | ⟨_, _, ex, ph, k, h⟩ <;>
  · rw [h]

/-- The start time of the default saver inside the science phase after the
science phase block: kept, cleared, or set by a launch of the default saver. -/
theorem science_phase_start_time (cfg : Config) (env : Env) (s : State) :
    (science_phase cfg env s).1.default_saver_start_time_in_science_phase =
        s.default_saver_start_time_in_science_phase ∨
    (science_phase cfg env s).1.default_saver_start_time_in_science_phase = 0 ∨
    Action.launch_default_screensaver ∈ (science_phase cfg env s).2 := by
  by_cases hen : s.ss_phase = SS_PHASE.SCIENCE_SS_PHASE ∧ s.switch_to_default_gfx = false
  · rw [science_phase_eq cfg env s hen.1 hen.2]
    simp only
    obtain ⟨res, lct, running, g, pp, hcr, _⟩ := check_running_science_cases cfg env.dtime s
    have c_st :
        (check_running_science cfg env.dtime s).1.default_saver_start_time_in_science_phase
        = s.default_saver_start_time_in_science_phase := by rw [hcr]
    generalize check_running_science cfg env.dtime s = cr at *
    have hpk : (pick_and_launch cfg env cr.1).1.default_saver_start_time_in_science_phase =
          cr.1.default_saver_start_time_in_science_phase ∨
        (pick_and_launch cfg env cr.1).1.default_saver_start_time_in_science_phase = 0 := by
      rcases pick_and_launch_cases cfg env cr.1 with ⟨h0, _⟩ | ⟨_, _, res2, p2, h0⟩ |
        ⟨_, _, _, rp, _, h0⟩ | ⟨_, _, _, _, rp, _, _, h0⟩
      · rw [h0]; exact Or.inl rfl
      · rw [h0]
        rcases none_chosen_cases
          { cr.1 with results := res2, graphics_app_result_ptr := none, previous_result_ptr := p2 }
          with ⟨_, hn⟩ | ⟨_, hn⟩ <;>
        · rw [hn]; exact Or.inl rfl
      · rw [h0]; exact Or.inr rfl
      · rcases h0 with ⟨_, h0⟩ | ⟨_, h0⟩ <;>
        · rw [h0]; exact Or.inl rfl
    generalize pick_and_launch cfg env cr.1 = pk at *
    rcases fallback_to_default_cases env pk.1 with ⟨_, h⟩ | ⟨_, _, h⟩ | ⟨_, _, h⟩
    · rw [h]
      rcases hpk with k | k
      · left; rw [k, c_st]
      · right; left; exact k
    · rw [h]
      rcases hpk with k | k
      · left; exact k.trans c_st
      · right; left; exact k
    · right; right
      rw [h]
      exact List.mem_append_right _ (List.mem_singleton_self _)
  · have hsk : science_phase cfg env s = (s, []) := by
      apply science_phase_skip
      by_cases h1 : s.ss_phase = SS_PHASE.SCIENCE_SS_PHASE
      · left
        cases hsw : s.switch_to_default_gfx
        · exact absurd ⟨h1, hsw⟩ hen
        · rfl
      · right; exact h1
    rw [hsk]
    exact Or.inl rfl

/-- A science phase block that terminates the default saver clears its start
time inside the science phase. -/
theorem science_phase_kill (cfg : Config) (env : Env) (s : State)
    (hk : ∃ pid, Action.terminate_default_screensaver pid ∈ (science_phase cfg env s).2) :
    (science_phase cfg env s).1.default_saver_start_time_in_science_phase = 0 := by
  obtain ⟨pid, hm⟩ := hk
  by_cases hen : s.ss_phase = SS_PHASE.SCIENCE_SS_PHASE ∧ s.switch_to_default_gfx = false
  · rw [science_phase_eq cfg env s hen.1 hen.2] at hm ⊢
    simp only at hm ⊢
    obtain ⟨res, lct, running, g, pp, hcr, _, _, hterm, _⟩ :=
      check_running_science_cases cfg env.dtime s
    have c_sw : (check_running_science cfg env.dtime s).1.switch_to_default_gfx = false := by
      rw [hcr]; exact hen.2
    generalize check_running_science cfg env.dtime s = cr at *
    have hnf : ∀ t : State, Action.terminate_default_screensaver pid ∉
        (fallback_to_default env t).2 := by
      intro t hx
      rcases fallback_to_default_cases env t with ⟨_, h⟩ | ⟨_, _, h⟩ | ⟨_, _, h⟩
      · rw [h] at hx; exact absurd hx (List.not_mem_nil _)
      · rw [h] at hx; exact absurd hx (List.not_mem_nil _)
      · rw [h] at hx; exact Action.noConfusion (List.mem_singleton.mp hx)
    have hpm : Action.terminate_default_screensaver pid ∈ (pick_and_launch cfg env cr.1).2 := by
      rcases List.mem_append.mp hm with h | h
      · rcases List.mem_append.mp h with h | h
        · exact Action.noConfusion (hterm _ h).1
        · exact h
      · exact absurd h (hnf _)
    rcases pick_and_launch_cases cfg env cr.1 with ⟨h0, _⟩ | ⟨_, _, res2, p2, h0⟩ |
      ⟨_, _, _, rp, _, h0⟩ | ⟨_, _, _, _, rp, _, hact, _⟩
    · rw [h0] at hpm; exact absurd hpm (List.not_mem_nil _)
    · rw [h0] at hpm; exact absurd hpm (List.not_mem_nil _)
    · have h1 : (pick_and_launch cfg env cr.1).1.switch_to_default_gfx = false := by
        rw [h0]; exact c_sw
      rw [fallback_to_default_idle env _ h1, h0]
    · rw [hact] at hpm
      exact Action.noConfusion (List.mem_singleton.mp hpm)
  · have hsk : science_phase cfg env s = (s, []) := by
      apply science_phase_skip
      by_cases h1 : s.ss_phase = SS_PHASE.SCIENCE_SS_PHASE
      · left
        cases hsw : s.switch_to_default_gfx
        · exact absurd ⟨h1, hsw⟩ hen
        · rfl
      · right; exact h1
    rw [hsk] at hm
    exact absurd hm (List.not_mem_nil _)

/-- A pass that does not end the thread and makes a call reconciles. -/
theorem tick_reconciles_of_action (cfg : Config) (env : Env) (s : State)
    (hret : (tick cfg env s).returned = false) (a : Action)
    (ha : a ∈ (tick cfg env s).actions) : reconciles cfg env s := by
  rcases tick_cases cfg env s with ⟨_, ht⟩ | ⟨_, _, ht⟩ | ⟨_, _, _, ht⟩ | ⟨h1, h2, h3, _⟩
  · rw [ht] at hret
    exfalso
    unfold stop_thread at hret
    split at hret <;> simp at hret
  · rw [ht] at ha; exact absurd ha (List.not_mem_nil _)
  · rw [ht] at ha; exact absurd ha (List.not_mem_nil _)
  · exact ⟨h1, h2, h3⟩

/-- A pass inside the science phase, with the science period not over, in which
the default saver running since `a` is terminated for a chosen task: the time
from `a` to the read of line 871 is added to the accumulated duration, and the
start time is cleared. -/
theorem tick_default_killed (cfg : Config) (env : Env) (s : State) (a : Int)
    (hph : s.ss_phase = SS_PHASE.SCIENCE_SS_PHASE)
    (hD : s.m_bDefault_gfx_running = true)
    (hst : s.default_saver_start_time_in_science_phase = a) (ha : a ≠ 0)
    (hper : env.dtime - s.science_phase_start_time ≤ cfg.m_fGFXSciencePeriod)
    (hret : (tick cfg env s).returned = false)
    (hact : ∃ pid, Action.terminate_default_screensaver pid ∈ (tick cfg env s).actions) :
    (tick cfg env s).state.ss_phase = SS_PHASE.SCIENCE_SS_PHASE ∧
      (tick cfg env s).state.default_saver_duration_in_science_phase =
        s.default_saver_duration_in_science_phase + (env.dtime_after_kill - a) ∧
      (tick cfg env s).state.default_saver_start_time_in_science_phase = 0 := by
  obtain ⟨pid, hm⟩ := hact
  have hr := tick_reconciles_of_action cfg env s hret _ hm
  obtain ⟨o_h, o_S, o_D, _, _, o_ph, o_sp, _⟩ := observed_frame env s
  obtain ⟨_, o_du, o_st, _⟩ := observed_frame_clock env s
  have hpe := phase_evaluation_science_goes_on cfg env.dtime (observed env s)
    (by rw [o_ph, hph]) (by rw [o_sp]; exact hper)
  obtain ⟨_, _, q_ph, _, q_fold⟩ := reconcile_clock cfg env (observed env s)
  rw [hpe] at q_ph q_fold
  have hst2 : (tick cfg env s).state = (reconcile cfg env (observed env s)).1 := by
    rw [tick_of_reconciles cfg env s hr]
  have hact2 : (tick cfg env s).actions = (reconcile cfg env (observed env s)).2 := by
    rw [tick_of_reconciles cfg env s hr]
  have hf := q_fold (by rw [o_D]; exact hD) ⟨pid, by rw [← hact2]; exact hm⟩
  rw [o_st, o_du, hst, if_pos ha] at hf
  refine ⟨?_, by rw [hst2]; exact hf, ?_⟩
  · rw [hst2]
    rcases q_ph with h | h
    · rw [h, o_ph, hph]
    · exact h
  · obtain ⟨t_st, t_act⟩ := tick_entering cfg env s hr
    rw [t_act] at hm
    rw [t_st, liveness_check_start_time]
    apply science_phase_kill
    rcases List.mem_append.mp hm with h | h
    · exact absurd h ((switch_to_default_clock env _).2.2.2.2.2 pid)
    · exact ⟨pid, h⟩

/-- A pass inside the science phase, with the science period not over and the
start time of the default saver inside the science phase clear, that makes no
launch call for the default saver: it stays in the science phase and keeps the
start of the phase, the accumulated duration and the clear start time. -/
theorem tick_science_quiet (cfg : Config) (env : Env) (s : State)
    (hph : s.ss_phase = SS_PHASE.SCIENCE_SS_PHASE)
    (hst0 : s.default_saver_start_time_in_science_phase = 0)
    (hper : env.dtime - s.science_phase_start_time ≤ cfg.m_fGFXSciencePeriod)
    (hret : (tick cfg env s).returned = false)
    (hnl : Action.launch_default_screensaver ∉ (tick cfg env s).actions) :
    (tick cfg env s).state.ss_phase = SS_PHASE.SCIENCE_SS_PHASE ∧
      (tick cfg env s).state.science_phase_start_time = s.science_phase_start_time ∧
      (tick cfg env s).state.default_saver_duration_in_science_phase =
        s.default_saver_duration_in_science_phase ∧
      (tick cfg env s).state.default_saver_start_time_in_science_phase = 0 := by
  obtain ⟨_, _, _, _, _, o_ph, o_sp, _⟩ := observed_frame env s
  obtain ⟨_, o_du, o_st, _⟩ := observed_frame_clock env s
  rcases tick_cases cfg env s with ⟨_, ht⟩ | ⟨_, _, ht⟩ | ⟨_, _, _, ht⟩ | ⟨h1, h2, h3, _⟩
  · rw [ht] at hret
    exfalso
    unfold stop_thread at hret
    split at hret <;> simp at hret
  · rw [ht]
    exact ⟨hph, rfl, rfl, hst0⟩
  · rw [ht]
    exact ⟨o_ph.trans hph, o_sp, o_du, o_st.trans hst0⟩
  · have hr : reconciles cfg env s := ⟨h1, h2, h3⟩
    obtain ⟨_, q_sp, q_ph, q_du, _⟩ := reconcile_clock cfg env (observed env s)
    have hpe := phase_evaluation_science_goes_on cfg env.dtime (observed env s)
      (by rw [o_ph, hph]) (by rw [o_sp]; exact hper)
    rw [hpe] at q_sp q_ph q_du
    have hstate : (tick cfg env s).state = (reconcile cfg env (observed env s)).1 := by
      rw [tick_of_reconciles cfg env s hr]
    have hacts : (tick cfg env s).actions = (reconcile cfg env (observed env s)).2 := by
      rw [tick_of_reconciles cfg env s hr]
    rw [hacts] at hnl
    rw [hstate]
    refine ⟨?_, by rw [q_sp, o_sp], ?_, ?_⟩
    · rcases q_ph with h | h
      · rw [h, o_ph, hph]
      · exact h
    · rcases q_du with h | ⟨_, _, h, _⟩ | ⟨_, _, h, _⟩
      · rw [h, o_du]
      · rw [o_st, hst0] at h
        exact absurd rfl h
      · exact absurd h hnl
    · rw [reconcile_eq] at hnl ⊢
      simp only at hnl ⊢
      rw [hpe] at hnl ⊢
      rw [liveness_check_start_time]
      obtain ⟨m, sw, hsc⟩ := suspend_check_frame cfg (observed env s)
      have a_st : (suspend_check cfg
          (observed env s)).default_saver_start_time_in_science_phase = 0 := by
        rw [hsc]; exact o_st.trans hst0
      generalize suspend_check cfg (observed env s) = s1 at *
      have b_st : (switch_to_default env s1).1.default_saver_start_time_in_science_phase =
          0 := by
        rcases (switch_to_default_clock env s1).2.2.2.2.1 with ⟨_, h⟩ | ⟨_, h, _⟩
        · rw [h]; exact a_st
        · exfalso
          exact hnl (List.mem_append_left _ (by rw [h]; exact List.mem_singleton_self _))
      rcases science_phase_start_time cfg env (switch_to_default env s1).1 with h | h | h
      · rw [h]; exact b_st
      · exact h
      · exact absurd (List.mem_append_right _ h) hnl

/-- A pass that starts in the science phase with the start time of the default
saver inside the science phase clear and ends in the default phase: the default
phase starts at the time of the pass, and the accumulated duration is kept. -/
theorem tick_to_default_quiet (cfg : Config) (env : Env) (s : State)
    (hph : s.ss_phase = SS_PHASE.SCIENCE_SS_PHASE)
    (hst0 : s.default_saver_start_time_in_science_phase = 0)
    (hret : (tick cfg env s).returned = false)
    (hres : (tick cfg env s).state.ss_phase = SS_PHASE.DEFAULT_SS_PHASE) :
    (tick cfg env s).state.default_phase_start_time = env.dtime ∧
      (tick cfg env s).state.default_saver_duration_in_science_phase =
        s.default_saver_duration_in_science_phase := by
  obtain ⟨_, _, _, _, _, o_ph, _, _⟩ := observed_frame env s
  obtain ⟨_, o_du, o_st, _⟩ := observed_frame_clock env s
  rcases tick_cases cfg env s with ⟨_, ht⟩ | ⟨_, _, ht⟩ | ⟨_, _, _, ht⟩ | ⟨h1, h2, h3, _⟩
  · rw [ht] at hret
    exfalso
    unfold stop_thread at hret
    split at hret <;> simp at hret
  · rw [ht] at hres
    exact absurd (hph.symm.trans hres) (fun h => SS_PHASE.noConfusion h)
  · rw [ht] at hres
    exact absurd ((o_ph.trans hph).symm.trans hres) (fun h => SS_PHASE.noConfusion h)
  · have hr : reconciles cfg env s := ⟨h1, h2, h3⟩
    obtain ⟨q_dp, _, q_ph, q_du, _⟩ := reconcile_clock cfg env (observed env s)
    have hstate : (tick cfg env s).state = (reconcile cfg env (observed env s)).1 := by
      rw [tick_of_reconciles cfg env s hr]
    rw [hstate] at hres ⊢
    have hp : (phase_evaluation cfg env.dtime (observed env s)).ss_phase =
        SS_PHASE.DEFAULT_SS_PHASE := by
      rcases q_ph with h | h
      · rw [← h]; exact hres
      · rw [h] at hres; exact SS_PHASE.noConfusion hres
    -- the first phase test fired and the second did not
    have hpe : (phase_evaluation cfg env.dtime (observed env s)).default_phase_start_time =
          env.dtime ∧
        (phase_evaluation cfg env.dtime
          (observed env s)).default_saver_duration_in_science_phase =
            s.default_saver_duration_in_science_phase := by
      unfold phase_evaluation at hp ⊢
      cases hf : science_period_over cfg env.dtime (observed env s)
      · rw [to_default_phase_idle cfg env.dtime _ hf] at hp ⊢
        rcases to_science_phase_fired cfg env.dtime (observed env s) with h | ⟨_, h, _⟩
        · rw [h, o_ph, hph] at hp
          exact SS_PHASE.noConfusion hp
        · rw [h] at hp
          exact SS_PHASE.noConfusion hp
      · have e := to_default_phase_fired cfg env.dtime (observed env s) hf
        rcases to_science_phase_fired cfg env.dtime
          (to_default_phase cfg env.dtime (observed env s)) with h | ⟨_, h, _⟩
        · rw [h, e]
          refine ⟨rfl, ?_⟩
          simp only
          rw [if_neg, o_du]
          intro hc
          exact hc.2 (o_st.trans hst0)
        · rw [h] at hp
          exact SS_PHASE.noConfusion hp
    refine ⟨by rw [q_dp]; exact hpe.1, ?_⟩
    rcases q_du with h | ⟨_, h, _⟩ | ⟨_, h, _⟩
    · rw [h]; exact hpe.2
    · rw [hp] at h
      exact SS_PHASE.noConfusion h
    · rw [hp] at h
      exact SS_PHASE.noConfusion h

/-- A stretch of passes inside the science phase in which the default saver is
not launched, entered with its start time clear, keeps the accumulated
duration and the clear start time. -/
theorem science_goes_on_keeps (cfg : Config) (envs : List Env) :
    ∀ s : State, s.ss_phase = SS_PHASE.SCIENCE_SS_PHASE →
      s.default_saver_start_time_in_science_phase = 0 →
      science_goes_on cfg s envs = true →
      (after_passes cfg s envs).ss_phase = SS_PHASE.SCIENCE_SS_PHASE ∧
        (after_passes cfg s envs).default_saver_duration_in_science_phase =
          s.default_saver_duration_in_science_phase ∧
        (after_passes cfg s envs).default_saver_start_time_in_science_phase = 0 := by
  induction envs with
  | nil => intro s hph hst _; exact ⟨hph, rfl, hst⟩
  | cons env rest ih =>
    intro s hph hst hgo
    simp only [science_goes_on, Bool.and_eq_true, decide_eq_true_eq, Bool.not_eq_true'] at hgo
    obtain ⟨⟨⟨⟨_, hper⟩, hret⟩, hnl⟩, hrest⟩ := hgo
    obtain ⟨t_ph, _, t_du, t_st⟩ := tick_science_quiet cfg env s hph hst hper hret hnl
    obtain ⟨i1, i2, i3⟩ := ih (tick cfg env s).state t_ph t_st hrest
    exact ⟨i1, by rw [← t_du]; exact i2, i3⟩


/-! ## Phase accounting (claim C10) -/

/-- C10: suppose the default saver runs as a fallback inside a science phase
since time `a`, with nothing accumulated yet, and a pass of the science phase
terminates it to make room for a science launch, `b` being the time read at
line 871 once the terminate call has returned.  Let the science phase go on
for any number of passes in which the default saver is not launched again (the
pass that sees the exit of the default saver and the science launch among
them), let a pass at time `st` then make the SCIENCE to DEFAULT transition,
and let any number of passes stay in the default phase.  Then the accumulated
duration is still `b - a`, the default phase counts from `st`, and, the
science period being positive, in the next pass the phase tests make the
DEFAULT to SCIENCE transition exactly when the link is up and
`now - st > T_default - (b - a)`. -/
theorem C10_carried_time_shortens_default_phase (cfg : Config) (s : State) (a b st : Int)
    (e_b : Env) (mids : List Env) (e_s : Env) (dflts : List Env) (e : Env)
    (hT : cfg.m_fGFXSciencePeriod > 0)
    (h1 : s.ss_phase = SS_PHASE.SCIENCE_SS_PHASE)
    (h2 : s.m_bDefault_gfx_running = true)
    (h3 : s.default_saver_start_time_in_science_phase = a) (ha : a ≠ 0)
    (h4 : s.default_saver_duration_in_science_phase = 0)
    (hb : e_b.dtime_after_kill = b)
    (hb1 : e_b.dtime - s.science_phase_start_time ≤ cfg.m_fGFXSciencePeriod)
    (hb2 : (tick cfg e_b s).returned = false)
    (hb3 : ∃ pid, Action.terminate_default_screensaver pid ∈ (tick cfg e_b s).actions)
    (hm : science_goes_on cfg (tick cfg e_b s).state mids = true)
    (hs2 : e_s.dtime = st) (hs0 : st ≠ 0)
    (hs3 : (tick cfg e_s (after_passes cfg (tick cfg e_b s).state mids)).returned = false)
    (hs4 : (tick cfg e_s (after_passes cfg (tick cfg e_b s).state mids)).state.ss_phase =
      SS_PHASE.DEFAULT_SS_PHASE)
    (hd : default_goes_on cfg
      (tick cfg e_s (after_passes cfg (tick cfg e_b s).state mids)).state dflts = true) :
    (after_passes cfg (tick cfg e_s (after_passes cfg (tick cfg e_b s).state mids)).state
        dflts).ss_phase = SS_PHASE.DEFAULT_SS_PHASE ∧
    (after_passes cfg (tick cfg e_s (after_passes cfg (tick cfg e_b s).state mids)).state
        dflts).default_phase_start_time = st ∧
    (after_passes cfg (tick cfg e_s (after_passes cfg (tick cfg e_b s).state mids)).state
        dflts).default_saver_duration_in_science_phase = b - a ∧
    ((phase_evaluation cfg e.dtime (refresh e (other_thread e
        (after_passes cfg (tick cfg e_s (after_passes cfg (tick cfg e_b s).state mids)).state
          dflts))).1).ss_phase = SS_PHASE.SCIENCE_SS_PHASE ↔
      ((refresh e (other_thread e
        (after_passes cfg (tick cfg e_s (after_passes cfg (tick cfg e_b s).state mids)).state
          dflts))).1.m_bConnected = true ∧
        e.dtime - st > cfg.m_fGFXDefaultPeriod - (b - a))) := by
  -- the pass that terminates the default saver
  obtain ⟨p1, d1, z1⟩ := tick_default_killed cfg e_b s a h1 h2 h3 ha hb1 hb2 hb3
  rw [h4, hb] at d1
  -- the science phase goes on
  obtain ⟨p2, d2, z2⟩ := science_goes_on_keeps cfg mids (tick cfg e_b s).state p1 z1 hm
  rw [d1] at d2
  -- the transition to the default phase
  obtain ⟨t3, d3⟩ := tick_to_default_quiet cfg e_s
    (after_passes cfg (tick cfg e_b s).state mids) p2 z2 hs3 hs4
  rw [d2] at d3
  rw [hs2] at t3
  -- the default phase goes on
  obtain ⟨p4, t4, d4⟩ := default_goes_on_keeps cfg dflts _ hs4 hd
  rw [t3] at t4
  rw [d3] at d4
  refine ⟨p4, t4, by rw [d4]; omega, ?_⟩
  generalize after_passes cfg
    (tick cfg e_s (after_passes cfg (tick cfg e_b s).state mids)).state dflts = s4 at p4 t4 d4
  obtain ⟨c, rc, sr, res, hr⟩ := refresh_frame e (other_thread e s4)
  have e_ph : (refresh e (other_thread e s4)).1.ss_phase = SS_PHASE.DEFAULT_SS_PHASE := by
    rw [hr]; exact p4
  have e_dp : (refresh e (other_thread e s4)).1.default_phase_start_time = st := by
    rw [hr]; exact t4
  have e_du : (refresh e (other_thread e s4)).1.default_saver_duration_in_science_phase =
      0 + (b - a) := by
    rw [hr]; exact d4
  rw [(phase_evaluation_in_default cfg e.dtime (refresh e (other_thread e s4)).1 e_ph).1,
    e_dp, e_du]
  constructor
  · rintro ⟨k1, _, _, k4⟩
    exact ⟨k1, by omega⟩
  · rintro ⟨k1, k3⟩
    exact ⟨k1, hT, hs0, by omega⟩

/-- Witness for C10: the scenario with `T_default` = 60 and `T_science` = 120,
the loop entered at time 1000, the default saver launched as a fallback at
1070.  The pass at 1099 terminates it for the graphics of task A, the
terminate call returning at 1100; the pass at 1101 sees that it has exited and
the pass at 1102 launches the graphics of task A.  The pass at 1121 makes the
SCIENCE to DEFAULT transition; the passes at 1122 and 1151 stay in the default
phase; the pass at 1152, the first with `now - 1121 > 60 - 30`, makes the
DEFAULT to SCIENCE transition. -/
theorem C10_carried_time_shortens_default_phase_witness :
    (after_passes phaseConfig
      (tick phaseConfig (exitEnv 1121 0 [taskA] 0)
        (after_passes phaseConfig (tick phaseConfig (slowKillEnv 1099 1100 0 [taskA])
          fallbackState).state
          [exitEnv 1101 0 [taskA] 0, calmEnv 1102 0 [taskA]])).state
      [calmEnv 1122 0 [taskA], calmEnv 1151 0 [taskA]]).default_saver_duration_in_science_phase
      = 1100 - 1070 ∧
    (phase_evaluation phaseConfig (calmEnv 1152 0 [taskA]).dtime
      (refresh (calmEnv 1152 0 [taskA]) (other_thread (calmEnv 1152 0 [taskA])
        (after_passes phaseConfig
          (tick phaseConfig (exitEnv 1121 0 [taskA] 0)
            (after_passes phaseConfig (tick phaseConfig (slowKillEnv 1099 1100 0 [taskA])
              fallbackState).state
              [exitEnv 1101 0 [taskA] 0, calmEnv 1102 0 [taskA]])).state
          [calmEnv 1122 0 [taskA], calmEnv 1151 0 [taskA]]))).1).ss_phase =
      SS_PHASE.SCIENCE_SS_PHASE :=
  ⟨(C10_carried_time_shortens_default_phase phaseConfig fallbackState 1070 1100 1121
      (slowKillEnv 1099 1100 0 [taskA]) [exitEnv 1101 0 [taskA] 0, calmEnv 1102 0 [taskA]]
      (exitEnv 1121 0 [taskA] 0)
      [calmEnv 1122 0 [taskA], calmEnv 1151 0 [taskA]] (calmEnv 1152 0 [taskA])
      (by decide) (by decide) (by decide) (by decide) (by decide) (by decide) (by decide)
      (by decide) (by decide) ⟨103, by decide⟩ (by decide) (by decide) (by decide)
      (by decide) (by decide) (by decide)).2.2.1,
    (C10_carried_time_shortens_default_phase phaseConfig fallbackState 1070 1100 1121
      (slowKillEnv 1099 1100 0 [taskA]) [exitEnv 1101 0 [taskA] 0, calmEnv 1102 0 [taskA]]
      (exitEnv 1121 0 [taskA] 0)
      [calmEnv 1122 0 [taskA], calmEnv 1151 0 [taskA]] (calmEnv 1152 0 [taskA])
      (by decide) (by decide) (by decide) (by decide) (by decide) (by decide) (by decide)
      (by decide) (by decide) ⟨103, by decide⟩ (by decide) (by decide) (by decide)
      (by decide) (by decide) (by decide)).2.2.2.mpr
      ⟨by decide, by decide⟩⟩

/-! ## The two phase transitions (claims C23, C24) -/

/-- Counterexample for C23: with no default saver on disk, the pass at time
1601 starts in the science phase with `T_default` = 120 > 0 and
1601 - 1000 > `T_science` = 600, and its phase tests leave the science phase
and `default_phase_start_time` = 0.  And in the phase accounting scenario the
pass at time 1121, with the default saver running as a fallback, makes the
transition without requesting a switch to the default saver. -/
theorem C23_counterexample :
    (entryStateNoDefault.ss_phase = SS_PHASE.SCIENCE_SS_PHASE ∧
      exampleConfig.m_fGFXDefaultPeriod > 0 ∧
      1601 - entryStateNoDefault.science_phase_start_time > exampleConfig.m_fGFXSciencePeriod ∧
      (phase_evaluation exampleConfig 1601
        (observed (calmEnv 1601 0 []) entryStateNoDefault)).ss_phase =
          SS_PHASE.SCIENCE_SS_PHASE ∧
      (phase_evaluation exampleConfig 1601
        (observed (calmEnv 1601 0 []) entryStateNoDefault)).default_phase_start_time = 0) ∧
    (fallbackState.ss_phase = SS_PHASE.SCIENCE_SS_PHASE ∧
      phaseConfig.m_fGFXDefaultPeriod > 0 ∧
      1121 - fallbackState.science_phase_start_time > phaseConfig.m_fGFXSciencePeriod ∧
      (phase_evaluation phaseConfig 1121
        (observed (calmEnv 1121 0 []) fallbackState)).ss_phase = SS_PHASE.DEFAULT_SS_PHASE ∧
      (phase_evaluation phaseConfig 1121
        (observed (calmEnv 1121 0 []) fallbackState)).switch_to_default_gfx = false) := by
  decide

/-- C23 (amended): in a session whose clock never reads 0, take a pass that
starts in the science phase with `T_default` > 0 and
`now - science_phase_start_time` > `T_science`.  If the default saver is
marked as existing, the first phase test makes the transition: the phase is
the default phase, `default_phase_start_time` is `now`,
`science_phase_start_time` is 0, a switch to the default saver is requested
unless the default saver is already running, and when it is running with its
start time set the time since then is added to the accumulated duration; the
start time is cleared.  If the default saver is marked as not existing, the
test changes nothing. -/
theorem C23_science_period_over_starts_default_phase (cfg : Config) (file_exists : Bool)
    (now0 : Int) (m : State) (envs : List Env) (env : Env) (s : State)
    (hs : s = after_passes cfg (DataManagementProc_init file_exists now0 m) envs)
    (h0 : now0 ≠ 0) (hc : clock_set envs)
    (hph : s.ss_phase = SS_PHASE.SCIENCE_SS_PHASE) (hT : cfg.m_fGFXDefaultPeriod > 0)
    (hper : env.dtime - s.science_phase_start_time > cfg.m_fGFXSciencePeriod) :
    (s.m_bDefault_ss_exists = true →
      (to_default_phase cfg env.dtime (observed env s)).ss_phase = SS_PHASE.DEFAULT_SS_PHASE ∧
      (to_default_phase cfg env.dtime (observed env s)).default_phase_start_time = env.dtime ∧
      (to_default_phase cfg env.dtime (observed env s)).science_phase_start_time = 0 ∧
      (to_default_phase cfg env.dtime (observed env s)).switch_to_default_gfx =
        (if s.m_bDefault_gfx_running = true then s.switch_to_default_gfx else true) ∧
      (to_default_phase cfg env.dtime (observed env s)).default_saver_duration_in_science_phase =
        (if s.m_bDefault_gfx_running = true ∧ s.default_saver_start_time_in_science_phase ≠ 0
          then s.default_saver_duration_in_science_phase +
            (env.dtime - s.default_saver_start_time_in_science_phase)
          else s.default_saver_duration_in_science_phase) ∧
      (to_default_phase cfg env.dtime
        (observed env s)).default_saver_start_time_in_science_phase = 0) ∧
    (s.m_bDefault_ss_exists = false →
      to_default_phase cfg env.dtime (observed env s) = observed env s) := by
  have ht : timers_set s := by
    rw [hs]
    exact after_passes_timers cfg envs _ (init_timers file_exists now0 m h0) hc
  obtain ⟨_, _, o_D, _, o_sw, o_ph, o_sp, o_ex⟩ := observed_frame env s
  obtain ⟨_, o_du, o_st, _⟩ := observed_frame_clock env s
  constructor
  · intro hex
    have hsp : s.science_phase_start_time ≠ 0 := ht.2.1 hph hex
    have hf : science_period_over cfg env.dtime (observed env s) = true := by
      simp only [science_period_over, Bool.and_eq_true, decide_eq_true_eq]
      rw [o_ex, o_ph, o_sp]
      exact ⟨⟨⟨⟨hex, hph⟩, hT⟩, hsp⟩, hper⟩
    rw [to_default_phase_fired cfg env.dtime _ hf]
    simp only [o_D, o_sw, o_du, o_st]
    refine ⟨trivial, trivial, trivial, ?_, trivial, trivial⟩
    cases s.m_bDefault_gfx_running <;> simp
  · intro hex
    apply to_default_phase_idle
    simp [science_period_over, o_ex, hex]

/-- Witness for C23: the session of the examples enters the loop at time 1000
with the default saver on disk; the pass at time 1601 starts the default
phase at 1601 and requests a switch to the default saver. -/
theorem C23_science_period_over_starts_default_phase_witness :
    (to_default_phase exampleConfig 1601
      (observed (calmEnv 1601 0 []) (DataManagementProc_init true 1000 entryState))).ss_phase =
        SS_PHASE.DEFAULT_SS_PHASE ∧
    (to_default_phase exampleConfig 1601
      (observed (calmEnv 1601 0 [])
        (DataManagementProc_init true 1000 entryState))).switch_to_default_gfx = true :=
  ⟨((C23_science_period_over_starts_default_phase exampleConfig true 1000 entryState []
      (calmEnv 1601 0 []) (DataManagementProc_init true 1000 entryState) rfl (by decide)
      (by decide) (by decide) (by decide) (by decide)).1 (by decide)).1,
    (((C23_science_period_over_starts_default_phase exampleConfig true 1000 entryState []
      (calmEnv 1601 0 []) (DataManagementProc_init true 1000 entryState) rfl (by decide)
      (by decide) (by decide) (by decide) (by decide)).1 (by decide)).2.2.2.1).trans
      (by decide)⟩

/-- C24: in a session whose clock never reads 0, take a pass that starts in
the default phase.  Its phase tests make the transition to the science phase
exactly when the link is connected, `T_science` > 0 and
`now - default_phase_start_time + default_saver_duration_in_science_phase` >
`T_default`; in particular never while the link is not connected.  When the
transition is made, `default_phase_start_time` and the accumulated duration
are 0, `science_phase_start_time` is `now`, no switch to the default saver is
requested, and `default_saver_start_time_in_science_phase` is `now` if the
default saver is running and is left alone otherwise. -/
theorem C24_default_period_over_starts_science_phase (cfg : Config) (file_exists : Bool)
    (now0 : Int) (m : State) (envs : List Env) (env : Env) (s : State)
    (hs : s = after_passes cfg (DataManagementProc_init file_exists now0 m) envs)
    (h0 : now0 ≠ 0) (hc : clock_set envs)
    (hph : s.ss_phase = SS_PHASE.DEFAULT_SS_PHASE) :
    ((phase_evaluation cfg env.dtime (observed env s)).ss_phase = SS_PHASE.SCIENCE_SS_PHASE ↔
      ((observed env s).m_bConnected = true ∧ cfg.m_fGFXSciencePeriod > 0 ∧
        env.dtime - s.default_phase_start_time + s.default_saver_duration_in_science_phase >
          cfg.m_fGFXDefaultPeriod)) ∧
    ((observed env s).m_bConnected = false →
      (phase_evaluation cfg env.dtime (observed env s)).ss_phase =
        SS_PHASE.DEFAULT_SS_PHASE) ∧
    ((phase_evaluation cfg env.dtime (observed env s)).ss_phase = SS_PHASE.SCIENCE_SS_PHASE →
      (phase_evaluation cfg env.dtime (observed env s)).default_phase_start_time = 0 ∧
      (phase_evaluation cfg env.dtime
        (observed env s)).default_saver_duration_in_science_phase = 0 ∧
      (phase_evaluation cfg env.dtime (observed env s)).science_phase_start_time = env.dtime ∧
      (phase_evaluation cfg env.dtime (observed env s)).switch_to_default_gfx = false ∧
      (phase_evaluation cfg env.dtime
        (observed env s)).default_saver_start_time_in_science_phase =
          (if s.m_bDefault_gfx_running = true then env.dtime
            else s.default_saver_start_time_in_science_phase)) := by
  have ht : timers_set s := by
    rw [hs]
    exact after_passes_timers cfg envs _ (init_timers file_exists now0 m h0) hc
  obtain ⟨_, _, o_D, _, _, o_ph, _, _⟩ := observed_frame env s
  obtain ⟨o_dp, o_du, o_st, _⟩ := observed_frame_clock env s
  have hph2 : (observed env s).ss_phase = SS_PHASE.DEFAULT_SS_PHASE := by rw [o_ph]; exact hph
  have hdp : s.default_phase_start_time ≠ 0 := ht.1 hph
  obtain ⟨k1, k2⟩ := phase_evaluation_in_default cfg env.dtime (observed env s) hph2
  rw [o_dp, o_du] at k1
  have hiff : (phase_evaluation cfg env.dtime (observed env s)).ss_phase =
      SS_PHASE.SCIENCE_SS_PHASE ↔
      ((observed env s).m_bConnected = true ∧ cfg.m_fGFXSciencePeriod > 0 ∧
        env.dtime - s.default_phase_start_time + s.default_saver_duration_in_science_phase >
          cfg.m_fGFXDefaultPeriod) := by
    rw [k1]
    constructor
    · rintro ⟨a, b, _, d⟩; exact ⟨a, b, d⟩
    · rintro ⟨a, b, d⟩; exact ⟨a, b, hdp, d⟩
  refine ⟨hiff, ?_, ?_⟩
  · intro hcon
    cases hp : (phase_evaluation cfg env.dtime (observed env s)).ss_phase
    · rfl
    · have := (hiff.mp hp).1
      rw [hcon] at this
      exact Bool.noConfusion this
  · intro hp
    obtain ⟨a, b, d⟩ := hiff.mp hp
    have hidle : to_default_phase cfg env.dtime (observed env s) = observed env s := by
      apply to_default_phase_idle
      simp [science_period_over, hph2]
    unfold phase_evaluation
    rw [hidle]
    unfold to_science_phase
    rw [if_pos ⟨hph2, a, b⟩, if_pos ⟨by rw [o_dp]; exact hdp, by rw [o_dp, o_du]; exact d⟩]
    simp only [o_D, o_st]
    refine ⟨trivial, trivial, trivial, trivial, ?_⟩
    cases s.m_bDefault_gfx_running <;> simp


/-- Witness for C24: in the phase accounting scenario the pass at time 1121
starts the default phase; the pass at time 1182, with the link connected and
1182 - 1121 > 60, makes the transition to the science phase. -/
theorem C24_default_period_over_starts_science_phase_witness :
    (after_passes phaseConfig (DataManagementProc_init true 1000 entryState)
      [calmEnv 1121 0 []]).ss_phase = SS_PHASE.DEFAULT_SS_PHASE ∧
    (phase_evaluation phaseConfig (calmEnv 1182 0 []).dtime
      (observed (calmEnv 1182 0 [])
        (after_passes phaseConfig (DataManagementProc_init true 1000 entryState)
          [calmEnv 1121 0 []]))).ss_phase = SS_PHASE.SCIENCE_SS_PHASE :=
  ⟨by decide,
    (C24_default_period_over_starts_science_phase phaseConfig true 1000 entryState
      [calmEnv 1121 0 []] (calmEnv 1182 0 [])
      (after_passes phaseConfig (DataManagementProc_init true 1000 entryState)
        [calmEnv 1121 0 []]) rfl (by decide) (by decide) (by decide)).1.mpr
      ⟨by decide, by decide, by decide⟩⟩

/-! ## The accumulated duration (claim C25) -/

/-- C25: in a session entered at time `now0` whose clock never goes backwards,
take any pass of the session.  If the pass does not make the transition from
the default phase to the science phase,
`default_saver_duration_in_science_phase` after the pass is not less than
before it; and after every pass it is not negative. -/
theorem C25_accumulated_duration_monotone (cfg : Config) (file_exists : Bool) (now0 : Int)
    (m : State) (envs : List Env) (env : Env)
    (hc : clock_never_backwards now0 (envs ++ [env]) = true) :
    (¬ science_transition cfg env
        (after_passes cfg (DataManagementProc_init file_exists now0 m) envs) →
      (tick cfg env (after_passes cfg (DataManagementProc_init file_exists now0 m)
          envs)).state.default_saver_duration_in_science_phase ≥
        (after_passes cfg (DataManagementProc_init file_exists now0 m)
          envs).default_saver_duration_in_science_phase) ∧
    (tick cfg env (after_passes cfg (DataManagementProc_init file_exists now0 m)
      envs)).state.default_saver_duration_in_science_phase ≥ 0 := by
  obtain ⟨h1, h2, h3⟩ := clock_never_backwards_append envs env now0 hc
  have hs := after_passes_accumulator cfg envs now0 _
    (init_accumulator file_exists now0 m) h1
  obtain ⟨a, b⟩ := tick_mono cfg env _ _ hs h2 h3
  exact ⟨b, a.1⟩

/-- Witness for C25: the phase accounting scenario with the passes at times
1070 (the default saver is launched as a fallback) and 1100 (a task has
graphics, the default saver is terminated): 30 seconds are accumulated. -/
theorem C25_accumulated_duration_monotone_witness :
    clock_never_backwards 1000 ([calmEnv 1070 0 []] ++ [exitEnv 1100 0 [taskA] 0]) = true ∧
    (tick phaseConfig (exitEnv 1100 0 [taskA] 0)
      (after_passes phaseConfig (DataManagementProc_init true 1000 entryState)
        [calmEnv 1070 0 []])).state.default_saver_duration_in_science_phase ≥
      (after_passes phaseConfig (DataManagementProc_init true 1000 entryState)
        [calmEnv 1070 0 []]).default_saver_duration_in_science_phase ∧
    (tick phaseConfig (exitEnv 1100 0 [taskA] 0)
      (after_passes phaseConfig (DataManagementProc_init true 1000 entryState)
        [calmEnv 1070 0 []])).state.default_saver_duration_in_science_phase = 30 :=
  ⟨by decide,
    (C25_accumulated_duration_monotone phaseConfig true 1000 entryState [calmEnv 1070 0 []]
      (exitEnv 1100 0 [taskA] 0) (by decide)).1 (by decide),
    by decide⟩


/-! ## The exit of the graphics process (claim C26) -/

/-- C26: in a pass that reaches the liveness test holding a handle, with
`HasProcessExited` answering true: after the pass the handle is null and both
running flags are clear; if the default saver was running and the coordinator
was not killing it, `m_bDefault_ss_exists` is false and the phase is the
science phase, whatever the exit status; if the coordinator was killing it, or
science graphics was running, `m_bDefault_ss_exists` and the phase are as
they were before the test. -/
theorem C26_exit_clears_handle_and_flags (cfg : Config) (env : Env) (s : State)
    (hr : reconciles cfg env s)
    (hh : (before_liveness cfg env s).m_hGraphicsApplication ≠ 0)
    (hx : (HasProcessExited cfg env (before_liveness cfg env s).m_hGraphicsApplication
      (before_liveness cfg env s).exit_status).1 = true) :
    (tick cfg env s).state.m_hGraphicsApplication = 0 ∧
    (tick cfg env s).state.m_bDefault_gfx_running = false ∧
    (tick cfg env s).state.m_bScience_gfx_running = false ∧
    ((before_liveness cfg env s).m_bDefault_gfx_running = true →
      (before_liveness cfg env s).killing_default_gfx = false →
      (tick cfg env s).state.m_bDefault_ss_exists = false ∧
        (tick cfg env s).state.ss_phase = SS_PHASE.SCIENCE_SS_PHASE) ∧
    (((before_liveness cfg env s).m_bDefault_gfx_running = true ∧
        (before_liveness cfg env s).killing_default_gfx = true) ∨
      (before_liveness cfg env s).m_bDefault_gfx_running = false →
      (tick cfg env s).state.m_bDefault_ss_exists =
          (before_liveness cfg env s).m_bDefault_ss_exists ∧
        (tick cfg env s).state.ss_phase = (before_liveness cfg env s).ss_phase) := by
  have ht : (tick cfg env s).state = liveness_check cfg env (before_liveness cfg env s) := by
    rw [tick_of_reconciles cfg env s hr, reconcile_eq]
    rfl
  rw [ht]
  generalize before_liveness cfg env s = u at *
  unfold liveness_check
  simp only [hh, hx, ne_eq, not_false_eq_true, if_true, SetError]
  refine ⟨trivial, trivial, trivial, ?_, ?_⟩
  · intro hD hk
    simp [hD, hk]
  · rintro (⟨hD, hk⟩ | hD)
    · simp [hD, hk]
    · simp [hD]


/-- Witness for C26: the default saver runs as process 103, launched by the
coordinator; the pass at time 1002 finds that it has exited with the
cannot-connect status: the handle is null, the default saver is marked as not
existing and the phase is the science phase. -/
theorem C26_exit_clears_handle_and_flags_witness :
    defaultShownState.m_hGraphicsApplication = 103 ∧
    defaultShownState.m_bDefault_ss_exists = true ∧
    (tick exampleConfig (cantConnectEnv 1002) defaultShownState).state.m_hGraphicsApplication
      = 0 ∧
    (tick exampleConfig (cantConnectEnv 1002) defaultShownState).state.m_bDefault_ss_exists
      = false ∧
    (tick exampleConfig (cantConnectEnv 1002) defaultShownState).state.ss_phase
      = SS_PHASE.SCIENCE_SS_PHASE :=
  ⟨by decide, by decide,
    (C26_exit_clears_handle_and_flags exampleConfig (cantConnectEnv 1002) defaultShownState
      (by decide) (by decide) (by decide)).1,
    ((C26_exit_clears_handle_and_flags exampleConfig (cantConnectEnv 1002) defaultShownState
      (by decide) (by decide) (by decide)).2.2.2.1 (by decide) (by decide)).1,
    ((C26_exit_clears_handle_and_flags exampleConfig (cantConnectEnv 1002) defaultShownState
      (by decide) (by decide) (by decide)).2.2.2.1 (by decide) (by decide)).2⟩

/-! ## The change rule (claim C27) -/

/-- C28: take a pass that reaches the science phase block (phase tests and
suspend test leave the science phase with no switch to the default saver
requested) with science graphics running on a held handle, and a vector that
holds no task that is the same task as the previous-task record.  The pass
calls `terminate_screensaver` for the handle and makes no launch call.  If
the pass finds that the process has exited, then a next pass that reaches the
science phase block, with the client not suspended and an eligible task in the
vector, makes one call: `launch_screensaver` for the task that the selector
returns. -/
theorem C28_task_gone_terminate_then_launch (cfg : Config) (env1 env2 : Env) (s : State)
    (hr1 : reconciles cfg env1 s)
    (hph1 : (entering cfg env1 s).ss_phase = SS_PHASE.SCIENCE_SS_PHASE)
    (hsw1 : (entering cfg env1 s).switch_to_default_gfx = false)
    (hS : s.m_bScience_gfx_running = true) (hD : s.m_bDefault_gfx_running = false)
    (hh : s.m_hGraphicsApplication ≠ 0)
    (hgone : ∀ x ∈ (observed env1 s).results,
      is_same_task (some x) s.previous_result_ptr = false) :
    Action.terminate_screensaver s.m_hGraphicsApplication ∈ (tick cfg env1 s).actions ∧
    (∀ a ∈ (tick cfg env1 s).actions, a.isLaunch = false) ∧
    ((HasProcessExited cfg env1 s.m_hGraphicsApplication s.exit_status).1 = true →
      reconciles cfg env2 (tick cfg env1 s).state →
      (entering cfg env2 (tick cfg env1 s).state).ss_phase = SS_PHASE.SCIENCE_SS_PHASE →
      (entering cfg env2 (tick cfg env1 s).state).switch_to_default_gfx = false →
      suspended cfg (observed env2 (tick cfg env1 s).state).suspend_reason = false →
      eligible_tasks (observed env2 (tick cfg env1 s).state).m_vIncompatibleGfxApps none
        (observed env2 (tick cfg env1 s).state).results ≠ [] →
      ∃ rp, (get_random_graphics_app
          (observed env2 (tick cfg env1 s).state).m_vIncompatibleGfxApps
          (observed env2 (tick cfg env1 s).state).results none env2.rand).2 = some rp ∧
        (tick cfg env2 (tick cfg env1 s).state).actions = [Action.launch_screensaver rp]) := by
  obtain ⟨e_h, e_S, e_D, _, e_p, _, _, e_x, e_res, _, _⟩ := entering_frame cfg env1 s
  obtain ⟨t_st, t_act⟩ := tick_entering cfg env1 s hr1
  have hf : find_current_task (entering cfg env1 s).previous_result_ptr
      (entering cfg env1 s).results = none := by
    rw [e_p, e_res]
    exact (find_current_task_none _ _).mpr hgone
  have hS1 : (entering cfg env1 s).m_bScience_gfx_running = true := by rw [e_S]; exact hS
  have hh1 : (entering cfg env1 s).m_hGraphicsApplication ≠ 0 := by rw [e_h]; exact hh
  obtain ⟨⟨res, lct, hcr⟩, hmem⟩ :=
    check_running_science_gone cfg env1.dtime (entering cfg env1 s) hS1 hh1 hf
  obtain ⟨_, _, _, _, _, _, _, _, hterm, _⟩ :=
    check_running_science_cases cfg env1.dtime (entering cfg env1 s)
  have c_D : (check_running_science cfg env1.dtime
      (entering cfg env1 s)).1.m_bDefault_gfx_running = false := by
    rw [hcr]; exact e_D.trans hD
  have c_h : (check_running_science cfg env1.dtime
      (entering cfg env1 s)).1.m_hGraphicsApplication = s.m_hGraphicsApplication := by
    rw [hcr]; exact e_h
  have c_sw : (check_running_science cfg env1.dtime
      (entering cfg env1 s)).1.switch_to_default_gfx = false := by
    rw [hcr]; exact hsw1
  have c_p : (check_running_science cfg env1.dtime
      (entering cfg env1 s)).1.previous_result_ptr = none := by rw [hcr]
  have c_x : (check_running_science cfg env1.dtime
      (entering cfg env1 s)).1.exit_status = s.exit_status := by
    rw [hcr]; exact e_x
  have hsp : science_phase cfg env1 (entering cfg env1 s) =
      check_running_science cfg env1.dtime (entering cfg env1 s) := by
    rw [science_phase_eq cfg env1 _ hph1 hsw1,
      pick_and_launch_held cfg env1 _ c_D (by rw [c_h]; exact hh),
      fallback_to_default_idle env1 _ c_sw]
    simp
  rw [t_st, t_act, switch_to_default_idle env1 _ hsw1, hsp]
  simp only [List.nil_append]
  rw [e_h] at hterm hmem
  generalize check_running_science cfg env1.dtime (entering cfg env1 s) = cr at *
  refine ⟨hmem, ?_, ?_⟩
  · intro a ha
    rw [(hterm a ha).1]
    rfl
  · intro hx hr2 hph2 hsw2 hsus2 hel
    have hx2 : (HasProcessExited cfg env1 cr.1.m_hGraphicsApplication cr.1.exit_status).1 =
        true := by
      rw [c_h, c_x]; exact hx
    have hlv := liveness_check_exit cfg env1 cr.1 (by rw [c_h]; exact hh) c_D hx2
    have s_h : (liveness_check cfg env1 cr.1).m_hGraphicsApplication = 0 := by rw [hlv]
    have s_S : (liveness_check cfg env1 cr.1).m_bScience_gfx_running = false := by rw [hlv]
    have s_D : (liveness_check cfg env1 cr.1).m_bDefault_gfx_running = false := by rw [hlv]
    have s_g : (liveness_check cfg env1 cr.1).graphics_app_result_ptr = none := by rw [hlv]
    have s_p : (liveness_check cfg env1 cr.1).previous_result_ptr = none := by
      rw [hlv]; exact c_p
    generalize liveness_check cfg env1 cr.1 = s1 at *
    obtain ⟨rp, hrp⟩ := selector_hits _ _ env2.rand hel
    refine ⟨rp, hrp, ?_⟩
    obtain ⟨f_h, f_S, f_D, f_g, f_p, _, _, _, f_res, f_inc, f_sr⟩ :=
      entering_frame cfg env2 s1
    obtain ⟨_, t_act2⟩ := tick_entering cfg env2 s1 hr2
    rw [t_act2, switch_to_default_idle env2 _ hsw2]
    simp only [List.nil_append]
    exact (science_phase_hit cfg env2 (entering cfg env2 s1) rp hph2 hsw2
      (by rw [f_S]; exact s_S) (by rw [f_D]; exact s_D) (by rw [f_h]; exact s_h)
      (by rw [f_g]; exact s_g) (by rw [f_sr]; exact hsus2)
      (by rw [f_inc, f_res, f_p, s_p]; exact hrp)).1

/-- Witness for C28: the graphics of task A runs as process 102; at time 1002
the vector holds task B only: the pass terminates process 102 and finds that
it has exited; the pass at time 1003 launches the graphics of task B. -/
theorem C28_task_gone_terminate_then_launch_witness :
    (tick exampleConfig (exitEnv 1002 0 [taskB] 0) rotationState).actions =
      [Action.terminate_screensaver 102] ∧
    Action.terminate_screensaver rotationState.m_hGraphicsApplication ∈
      (tick exampleConfig (exitEnv 1002 0 [taskB] 0) rotationState).actions ∧
    (tick exampleConfig (calmEnv 1003 0 [taskB])
      (tick exampleConfig (exitEnv 1002 0 [taskB] 0) rotationState).state).actions =
        [Action.launch_screensaver taskB] ∧
    (∃ rp, (get_random_graphics_app
        (observed (calmEnv 1003 0 [taskB])
          (tick exampleConfig (exitEnv 1002 0 [taskB] 0)
            rotationState).state).m_vIncompatibleGfxApps
        (observed (calmEnv 1003 0 [taskB])
          (tick exampleConfig (exitEnv 1002 0 [taskB] 0) rotationState).state).results
        none (calmEnv 1003 0 [taskB]).rand).2 = some rp ∧
      (tick exampleConfig (calmEnv 1003 0 [taskB])
        (tick exampleConfig (exitEnv 1002 0 [taskB] 0) rotationState).state).actions =
          [Action.launch_screensaver rp]) :=
  ⟨by decide,
    (C28_task_gone_terminate_then_launch exampleConfig (exitEnv 1002 0 [taskB] 0)
      (calmEnv 1003 0 [taskB]) rotationState (by decide) (by decide) (by decide)
      (by decide) (by decide) (by decide) (by decide)).1,
    by decide,
    (C28_task_gone_terminate_then_launch exampleConfig (exitEnv 1002 0 [taskB] 0)
      (calmEnv 1003 0 [taskB]) rotationState (by decide) (by decide) (by decide)
      (by decide) (by decide) (by decide) (by decide)).2.2 (by decide) (by decide)
      (by decide) (by decide) (by decide) (by decide)⟩


/-! ## The launch of a chosen task (claim C29) -/

/-- Counterexample for C30: the default saver is on disk and the graphics of
task A runs as process 102.  The passes at times 1002, 1003 and 1004 all
report the suspend reason 4 (user request).  The first terminates process 102,
launches nothing and finds that the process has exited; the second launches
the default saver as process 101; after it, and after the third pass, the
error mode is false, with code `BOINCSCREENSAVERLOADING`. -/
theorem C30_counterexample :
    scienceRunningState.m_bDefault_ss_exists = true ∧
    scienceRunningState.m_bScience_gfx_running = true ∧
    suspended exampleConfig 4 = true ∧
    (tick exampleConfig (exitEnv 1002 4 [taskA] 0) scienceRunningState).actions =
      [Action.terminate_screensaver 102] ∧
    (tick exampleConfig (exitEnv 1002 4 [taskA] 0)
      scienceRunningState).state.m_hGraphicsApplication = 0 ∧
    (tick exampleConfig (calmEnv 1003 4 [taskA])
      (tick exampleConfig (exitEnv 1002 4 [taskA] 0) scienceRunningState).state).actions =
        [Action.launch_default_screensaver] ∧
    (tick exampleConfig (calmEnv 1003 4 [taskA])
      (tick exampleConfig (exitEnv 1002 4 [taskA] 0)
        scienceRunningState).state).state.m_bDefault_gfx_running = true ∧
    (tick exampleConfig (calmEnv 1003 4 [taskA])
      (tick exampleConfig (exitEnv 1002 4 [taskA] 0)
        scienceRunningState).state).state.m_bErrorMode = false ∧
    (tick exampleConfig (calmEnv 1004 4 [taskA])
      (tick exampleConfig (calmEnv 1003 4 [taskA])
        (tick exampleConfig (exitEnv 1002 4 [taskA] 0)
          scienceRunningState).state).state).state.m_bErrorMode = false := by
  decide

/-- C30 (amended): the default saver is marked as existing, science graphics
runs on a held handle, and the client reports in two passes in a row a
suspend reason that is not 0 and has neither the CPU throttle bit nor the CPU
usage bit.  The first pass calls `terminate_screensaver` for the handle and
makes no other call, and ends with the error mode true.  If it finds that the
process has exited, the second pass calls `launch_default_screensaver` first;
and if that launch succeeds and the process has not exited when the pass
tests it, the pass makes no other call and ends with the default saver
marked as running and the error pair (false, `BOINCSCREENSAVERLOADING`). -/
theorem C30_suspended_switches_to_default (cfg : Config) (env1 env2 : Env) (s : State)
    (hE : s.m_bDefault_ss_exists = true) (hS : s.m_bScience_gfx_running = true)
    (hD : s.m_bDefault_gfx_running = false) (hh : s.m_hGraphicsApplication ≠ 0)
    (hr1 : reconciles cfg env1 s)
    (hsus1 : suspended cfg (observed env1 s).suspend_reason = true)
    (hr2 : reconciles cfg env2 (tick cfg env1 s).state)
    (hsus2 : suspended cfg (observed env2 (tick cfg env1 s).state).suspend_reason = true) :
    (tick cfg env1 s).actions = [Action.terminate_screensaver s.m_hGraphicsApplication] ∧
    (tick cfg env1 s).state.m_bErrorMode = true ∧
    ((HasProcessExited cfg env1 s.m_hGraphicsApplication s.exit_status).1 = true →
      (∃ more, (tick cfg env2 (tick cfg env1 s).state).actions =
        Action.launch_default_screensaver :: more) ∧
      (env2.spawn_default_switch.retval = 0 →
        (HasProcessExited cfg env2 (launch_default_screensaver env2.spawn_default_switch 0).2
          (tick cfg env1 s).state.exit_status).1 = false →
        (tick cfg env2 (tick cfg env1 s).state).actions =
          [Action.launch_default_screensaver] ∧
        (tick cfg env2 (tick cfg env1 s).state).state.m_bDefault_gfx_running = true ∧
        (tick cfg env2 (tick cfg env1 s).state).state.m_bErrorMode = false ∧
        (tick cfg env2 (tick cfg env1 s).state).state.m_hrError =
          SCRAPPERR.BOINCSCREENSAVERLOADING)) := by
  -- the first pass
  obtain ⟨o_h, o_S, o_D, _, _, _, _, o_ex⟩ := observed_frame env1 s
  obtain ⟨_, _, _, _, _, _, o_x, _⟩ := observed_frame_clock env1 s
  obtain ⟨p_sr, p_D, p_E⟩ := phase_evaluation_keeps cfg env1.dtime (observed env1 s)
  obtain ⟨e_h, e_S, e_D, _, _, _, e_E, e_x, _⟩ := entering_frame cfg env1 s
  have hent : entering cfg env1 s =
      { phase_evaluation cfg env1.dtime (observed env1 s) with
        m_bErrorMode := true, switch_to_default_gfx := true } :=
    suspend_check_requests cfg _ (by rw [p_sr]; exact hsus1)
      (by rw [p_D, o_D]; exact hD) (by rw [p_E, o_ex]; exact hE)
  have e_sw : (entering cfg env1 s).switch_to_default_gfx = true := by rw [hent]
  have e_m : (entering cfg env1 s).m_bErrorMode = true := by rw [hent]
  obtain ⟨t_st, t_act⟩ := tick_entering cfg env1 s hr1
  have hswd := switch_to_default_terminates env1 (entering cfg env1 s) e_sw
    (by rw [e_S]; exact hS) (by rw [e_h]; exact hh)
  have hskip := science_phase_skip cfg env1
    { entering cfg env1 s with previous_result_ptr := none } (Or.inl e_sw)
  rw [t_st, t_act, hswd]
  simp only
  rw [hskip]
  simp only [List.append_nil]
  have u_h : ({ entering cfg env1 s with previous_result_ptr := none } :
      State).m_hGraphicsApplication = s.m_hGraphicsApplication := e_h
  have u_D : ({ entering cfg env1 s with previous_result_ptr := none } :
      State).m_bDefault_gfx_running = false := e_D.trans hD
  have u_m : ({ entering cfg env1 s with previous_result_ptr := none } :
      State).m_bErrorMode = true := e_m
  have u_E : ({ entering cfg env1 s with previous_result_ptr := none } :
      State).m_bDefault_ss_exists = true := e_E.trans hE
  have u_x : ({ entering cfg env1 s with previous_result_ptr := none } :
      State).exit_status = s.exit_status := e_x
  rw [t_st, hswd] at hr2 hsus2
  simp only at hr2 hsus2
  rw [hskip] at hr2 hsus2
  simp only at hr2 hsus2
  generalize ({ entering cfg env1 s with previous_result_ptr := none } : State) = u at *
  refine ⟨by rw [e_h], ?_, ?_⟩
  · rcases liveness_check_cases cfg env1 u with ⟨_, h⟩ | ⟨_, _, h⟩ | ⟨_, _, ex, ph, k, h⟩
    · rw [h]; exact u_m
    · rw [h]; exact u_m
    · rw [h]
  · intro hx
    have hx2 : (HasProcessExited cfg env1 u.m_hGraphicsApplication u.exit_status).1 = true := by
      rw [u_h, u_x]; exact hx
    have hlv := liveness_check_exit cfg env1 u (by rw [u_h]; exact hh) u_D hx2
    have s_h : (liveness_check cfg env1 u).m_hGraphicsApplication = 0 := by rw [hlv]
    have s_S : (liveness_check cfg env1 u).m_bScience_gfx_running = false := by rw [hlv]
    have s_D : (liveness_check cfg env1 u).m_bDefault_gfx_running = false := by rw [hlv]
    have s_g : (liveness_check cfg env1 u).graphics_app_result_ptr = none := by rw [hlv]
    have s_E : (liveness_check cfg env1 u).m_bDefault_ss_exists = true := by
      rw [hlv]; exact u_E
    generalize liveness_check cfg env1 u = s1 at *
    -- the second pass
    obtain ⟨q_h, q_S, q_D, q_g, _, _, _, q_ex⟩ := observed_frame env2 s1
    obtain ⟨_, _, _, _, _, _, q_x, _⟩ := observed_frame_clock env2 s1
    obtain ⟨r_sr, r_D, r_E⟩ := phase_evaluation_keeps cfg env2.dtime (observed env2 s1)
    obtain ⟨f_h, f_S, f_D, f_g, _, _, _, f_x, _, _, f_sr⟩ := entering_frame cfg env2 s1
    have hent2 : entering cfg env2 s1 =
        { phase_evaluation cfg env2.dtime (observed env2 s1) with
          m_bErrorMode := true, switch_to_default_gfx := true } :=
      suspend_check_requests cfg _ (by rw [r_sr]; exact hsus2)
        (by rw [r_D, q_D]; exact s_D) (by rw [r_E, q_ex]; exact s_E)
    have f_sw : (entering cfg env2 s1).switch_to_default_gfx = true := by rw [hent2]
    have f_S2 : (entering cfg env2 s1).m_bScience_gfx_running = false := f_S.trans s_S
    have f_D2 : (entering cfg env2 s1).m_bDefault_gfx_running = false := f_D.trans s_D
    obtain ⟨t_st2, t_act2⟩ := tick_entering cfg env2 s1 hr2
    have hl2 := switch_to_default_launches env2 (entering cfg env2 s1) f_sw f_S2 f_D2
    rw [t_st2, t_act2, hl2]
    refine ⟨⟨_, rfl⟩, ?_⟩
    intro hok halive
    -- the state after the launch
    have hd : (switch_to_default env2 (entering cfg env2 s1)).1 =
        launch_default env2.spawn_default_switch env2.dtime
          (decide ((entering cfg env2 s1).ss_phase = SS_PHASE.SCIENCE_SS_PHASE))
          { entering cfg env2 s1 with switch_to_default_gfx := false } := by
      rcases switch_to_default_cases env2 (entering cfg env2 s1) with h | ⟨_, _, _, _, h⟩ |
        ⟨_, k, _⟩
      · rw [h] at hl2; exact List.noConfusion hl2
      · exact h
      · rw [f_S2] at k; exact Bool.noConfusion k
    have hld : launch_default env2.spawn_default_switch env2.dtime
          (decide ((entering cfg env2 s1).ss_phase = SS_PHASE.SCIENCE_SS_PHASE))
          { entering cfg env2 s1 with switch_to_default_gfx := false } =
        { ({ entering cfg env2 s1 with switch_to_default_gfx := false } : State) with
          m_bErrorMode := false, m_hrError := SCRAPPERR.BOINCSCREENSAVERLOADING,
          m_hGraphicsApplication :=
            (launch_default_screensaver env2.spawn_default_switch 0).2,
          m_bDefault_gfx_running := true,
          default_saver_start_time_in_science_phase :=
            if decide ((entering cfg env2 s1).ss_phase = SS_PHASE.SCIENCE_SS_PHASE) = true
              then env2.dtime
              else (entering cfg env2 s1).default_saver_start_time_in_science_phase } := by
      simp [launch_default, launch_default_screensaver, spawn, hok, SetError, f_h, s_h]
    rw [hd, hld]
    have d_m : ({ ({ entering cfg env2 s1 with switch_to_default_gfx := false } : State) with
          m_bErrorMode := false, m_hrError := SCRAPPERR.BOINCSCREENSAVERLOADING,
          m_hGraphicsApplication :=
            (launch_default_screensaver env2.spawn_default_switch 0).2,
          m_bDefault_gfx_running := true,
          default_saver_start_time_in_science_phase :=
            if decide ((entering cfg env2 s1).ss_phase = SS_PHASE.SCIENCE_SS_PHASE) = true
              then env2.dtime
              else (entering cfg env2 s1).default_saver_start_time_in_science_phase }
        : State).suspend_reason = (observed env2 s1).suspend_reason := f_sr
    have d_g : ({ ({ entering cfg env2 s1 with switch_to_default_gfx := false } : State) with
          m_bErrorMode := false, m_hrError := SCRAPPERR.BOINCSCREENSAVERLOADING,
          m_hGraphicsApplication :=
            (launch_default_screensaver env2.spawn_default_switch 0).2,
          m_bDefault_gfx_running := true,
          default_saver_start_time_in_science_phase :=
            if decide ((entering cfg env2 s1).ss_phase = SS_PHASE.SCIENCE_SS_PHASE) = true
              then env2.dtime
              else (entering cfg env2 s1).default_saver_start_time_in_science_phase }
        : State).graphics_app_result_ptr = none := f_g.trans s_g
    have d_S : ({ ({ entering cfg env2 s1 with switch_to_default_gfx := false } : State) with
          m_bErrorMode := false, m_hrError := SCRAPPERR.BOINCSCREENSAVERLOADING,
          m_hGraphicsApplication :=
            (launch_default_screensaver env2.spawn_default_switch 0).2,
          m_bDefault_gfx_running := true,
          default_saver_start_time_in_science_phase :=
            if decide ((entering cfg env2 s1).ss_phase = SS_PHASE.SCIENCE_SS_PHASE) = true
              then env2.dtime
              else (entering cfg env2 s1).default_saver_start_time_in_science_phase }
        : State).m_bScience_gfx_running = false := f_S2
    exact default_shown_suspended cfg env2 _ rfl rfl rfl rfl rfl d_S d_g
      (by rw [d_m]; exact hsus2)
      (by
        intro x
        rw [HasProcessExited_answer cfg env2 _ x s1.exit_status]
        exact halive)

/-- Witness for C30: the graphics of task A runs as process 102; the passes at
times 1002 and 1003 report the suspend reason 4; the first terminates process
102 and finds that it has exited, the second launches the default saver and
ends with the error pair (false, `BOINCSCREENSAVERLOADING`). -/
theorem C30_suspended_switches_to_default_witness :
    (tick exampleConfig (exitEnv 1002 4 [taskA] 0) scienceRunningState).actions =
      [Action.terminate_screensaver scienceRunningState.m_hGraphicsApplication] ∧
    (tick exampleConfig (exitEnv 1002 4 [taskA] 0) scienceRunningState).state.m_bErrorMode =
      true ∧
    (tick exampleConfig (calmEnv 1003 4 [taskA])
      (tick exampleConfig (exitEnv 1002 4 [taskA] 0) scienceRunningState).state).actions =
        [Action.launch_default_screensaver] ∧
    (tick exampleConfig (calmEnv 1003 4 [taskA])
      (tick exampleConfig (exitEnv 1002 4 [taskA] 0)
        scienceRunningState).state).state.m_bErrorMode = false :=
  ⟨(C30_suspended_switches_to_default exampleConfig (exitEnv 1002 4 [taskA] 0)
      (calmEnv 1003 4 [taskA]) scienceRunningState (by decide) (by decide) (by decide)
      (by decide) (by decide) (by decide) (by decide) (by decide)).1,
    (C30_suspended_switches_to_default exampleConfig (exitEnv 1002 4 [taskA] 0)
      (calmEnv 1003 4 [taskA]) scienceRunningState (by decide) (by decide) (by decide)
      (by decide) (by decide) (by decide) (by decide) (by decide)).2.1,
    (((C30_suspended_switches_to_default exampleConfig (exitEnv 1002 4 [taskA] 0)
      (calmEnv 1003 4 [taskA]) scienceRunningState (by decide) (by decide) (by decide)
      (by decide) (by decide) (by decide) (by decide) (by decide)).2.2 (by decide)).2
      (by decide) (by decide)).1,
    (((C30_suspended_switches_to_default exampleConfig (exitEnv 1002 4 [taskA] 0)
      (calmEnv 1003 4 [taskA]) scienceRunningState (by decide) (by decide) (by decide)
      (by decide) (by decide) (by decide) (by decide) (by decide)).2.2 (by decide)).2
      (by decide) (by decide)).2.2.1⟩


/-! ## Passes that do not call the selector -/

/-- The steps of lines 857-912 when the client is suspended: no task is
chosen, whatever the vector holds. -/
theorem pick_and_launch_suspended (cfg : Config) (env : Env) (s : State)
    (h : suspended cfg s.suspend_reason = true) :
    pick_and_launch cfg env s =
      if (s.m_bDefault_gfx_running ∨ s.m_hGraphicsApplication = 0) ∧
          s.graphics_app_result_ptr = none then
        (none_chosen { s with graphics_app_result_ptr := none }, [])
      else (s, []) := by
  by_cases hg : (s.m_bDefault_gfx_running = true ∨ s.m_hGraphicsApplication = 0) ∧
      s.graphics_app_result_ptr = none
  · simp [pick_and_launch, hg, h]
  · simp [pick_and_launch, hg]

/-- Where line 861 is not reached, the steps of lines 857-912 do not depend on
the value of `rand()`. -/
theorem pick_and_launch_rand (cfg : Config) (env : Env) (s : State) (r : Nat)
    (h : pick_and_launch_calls_selector cfg s = false) :
    pick_and_launch cfg { env with rand := r } s = pick_and_launch cfg env s := by
  by_cases hg : (s.m_bDefault_gfx_running = true ∨ s.m_hGraphicsApplication = 0) ∧
      s.graphics_app_result_ptr = none
  · have hs : suspended cfg s.suspend_reason = true := by
      simpa [pick_and_launch_calls_selector, hg] using h
    rw [pick_and_launch_suspended cfg env s hs, pick_and_launch_suspended cfg _ s hs]
  · simp [pick_and_launch, hg]

/-- The steps before the reconciliation keep the suspend reason read by the
refresh up to line 858. -/
theorem suspend_reason_at_pick (cfg : Config) (env : Env) (s : State) :
    (check_running_science cfg env.dtime
      (switch_to_default env (entering cfg env s)).1).1.suspend_reason =
        (observed env s).suspend_reason := by
  obtain ⟨_, _, _, _, _, _, _, _, _, _, e_sr⟩ := entering_frame cfg env s
  have h1 : (switch_to_default env (entering cfg env s)).1.suspend_reason =
      (entering cfg env s).suspend_reason :=
    suspend_reason_kept (fun t => (switch_to_default env t).1)
      (fun r t => by simp only [switch_to_default_sr]) _
  have h2 : (check_running_science cfg env.dtime
      (switch_to_default env (entering cfg env s)).1).1.suspend_reason =
      (switch_to_default env (entering cfg env s)).1.suspend_reason :=
    suspend_reason_kept (fun t => (check_running_science cfg env.dtime t).1)
      (fun r t => by simp only [check_running_science_sr]) _
  rw [h2, h1, e_sr]

/-- A pass that does not call the selector does not depend on the value of
`rand()`. -/
theorem tick_rand (cfg : Config) (env : Env) (s : State) (r : Nat)
    (h : calls_selector cfg env s = false) :
    tick cfg { env with rand := r } s = tick cfg env s := by
  have e1 : other_thread { env with rand := r } s = other_thread env s := rfl
  have e2 : blank_due cfg { env with rand := r } = blank_due cfg env := rfl
  have e3 : ∀ t, refresh { env with rand := r } t = refresh env t := fun _ => rfl
  by_cases hr : reconciles cfg env s
  · have hr2 : reconciles cfg { env with rand := r } s := hr
    obtain ⟨t_st, t_act⟩ := tick_entering cfg env s hr
    obtain ⟨u_st, u_act⟩ := tick_entering cfg { env with rand := r } s hr2
    have e4 : entering cfg { env with rand := r } s = entering cfg env s := rfl
    have e5 : ∀ t, switch_to_default { env with rand := r } t = switch_to_default env t :=
      fun _ => rfl
    have e6 : ∀ t, liveness_check cfg { env with rand := r } t = liveness_check cfg env t :=
      fun _ => rfl
    have e7 : ∀ t, fallback_to_default { env with rand := r } t = fallback_to_default env t :=
      fun _ => rfl
    have hsp : science_phase cfg { env with rand := r }
          (switch_to_default env (entering cfg env s)).1 =
        science_phase cfg env (switch_to_default env (entering cfg env s)).1 := by
      by_cases hen : (switch_to_default env (entering cfg env s)).1.ss_phase =
          SS_PHASE.SCIENCE_SS_PHASE ∧
          (switch_to_default env (entering cfg env s)).1.switch_to_default_gfx = false
      · have hp : pick_and_launch_calls_selector cfg
            (check_running_science cfg env.dtime
              (switch_to_default env (entering cfg env s)).1).1 = false := by
          simpa [calls_selector, hr, hen.1, hen.2] using h
        rw [science_phase_eq cfg env _ hen.1 hen.2, science_phase_eq cfg _ _ hen.1 hen.2]
        simp only [e7]
        have e8 : ({ env with rand := r } : Env).dtime = env.dtime := rfl
        rw [e8, pick_and_launch_rand cfg env _ r hp]
      · have hsk : (switch_to_default env (entering cfg env s)).1.switch_to_default_gfx = true ∨
            (switch_to_default env (entering cfg env s)).1.ss_phase ≠
              SS_PHASE.SCIENCE_SS_PHASE := by
          by_cases h1 : (switch_to_default env (entering cfg env s)).1.ss_phase =
              SS_PHASE.SCIENCE_SS_PHASE
          · left
            cases hsw : (switch_to_default env (entering cfg env s)).1.switch_to_default_gfx
            · exact absurd ⟨h1, hsw⟩ hen
            · rfl
          · right; exact h1
        rw [science_phase_skip cfg env _ hsk, science_phase_skip cfg _ _ hsk]
    have hst : (tick cfg { env with rand := r } s).state = (tick cfg env s).state := by
      rw [t_st, u_st, e4, e5, e6, hsp]
    have hact : (tick cfg { env with rand := r } s).actions = (tick cfg env s).actions := by
      rw [t_act, u_act, e4, e5, hsp]
    have hret : (tick cfg { env with rand := r } s).returned = (tick cfg env s).returned := by
      rw [tick_of_reconciles cfg env s hr, tick_of_reconciles cfg _ s hr2]
    cases hx : tick cfg { env with rand := r } s
    cases hy : tick cfg env s
    rw [hx, hy] at hst hact hret
    simp only at hst hact hret
    rw [hst, hact, hret]
  · rcases tick_cases cfg env s with ⟨q0, h1⟩ | ⟨q0, q1, h1⟩ | ⟨q0, q1, q2, h1⟩ | ⟨a, b, c, _⟩
    · rcases tick_cases cfg { env with rand := r } s with ⟨_, h2⟩ | ⟨k, _⟩ | ⟨k, _⟩ | ⟨k, _⟩
      · rw [h1, h2, e1]
      · rw [e1, q0] at k; exact Bool.noConfusion k
      · rw [e1, q0] at k; exact Bool.noConfusion k
      · rw [e1, q0] at k; exact Bool.noConfusion k
    · rcases tick_cases cfg { env with rand := r } s with ⟨k, _⟩ | ⟨_, _, h2⟩ | ⟨_, k, _⟩ |
        ⟨_, k, _⟩
      · rw [e1, q0] at k; exact Bool.noConfusion k
      · rw [h1, h2, e1]
      · rw [e2, q1] at k; exact Bool.noConfusion k
      · rw [e2, q1] at k; exact Bool.noConfusion k
    · rcases tick_cases cfg { env with rand := r } s with ⟨k, _⟩ | ⟨_, k, _⟩ | ⟨_, _, _, h2⟩ |
        ⟨_, _, k, _⟩
      · rw [e1, q0] at k; exact Bool.noConfusion k
      · rw [e2, q1] at k; exact Bool.noConfusion k
      · rw [h1, h2, e1, e3]
      · rw [e1, e3, q2] at k; exact Bool.noConfusion k
    · exact absurd ⟨a, b, c⟩ hr

/-- The science phase block makes no call of `launch_screensaver` when the
client is suspended. -/
theorem science_phase_suspended (cfg : Config) (env : Env) (s : State) (rp : RESULT)
    (h : suspended cfg s.suspend_reason = true) :
    Action.launch_screensaver rp ∉ (science_phase cfg env s).2 := by
  intro hcall
  by_cases hen : s.ss_phase = SS_PHASE.SCIENCE_SS_PHASE ∧ s.switch_to_default_gfx = false
  · rw [science_phase_eq cfg env s hen.1 hen.2] at hcall
    simp only at hcall
    obtain ⟨res, lct, running, g, pp, hcr, _, _, hterm, _⟩ :=
      check_running_science_cases cfg env.dtime s
    have c_sr : (check_running_science cfg env.dtime s).1.suspend_reason = s.suspend_reason := by
      rw [hcr]
    generalize check_running_science cfg env.dtime s = cr at *
    have hpk : (pick_and_launch cfg env cr.1).2 = [] := by
      rw [pick_and_launch_suspended cfg env cr.1 (by rw [c_sr]; exact h)]
      split <;> rfl
    rw [hpk] at hcall
    simp only [List.append_nil] at hcall
    rcases List.mem_append.mp hcall with hm | hm
    · exact Action.noConfusion (hterm _ hm).1
    · rcases fallback_to_default_cases env (pick_and_launch cfg env cr.1).1 with
        ⟨_, k⟩ | ⟨_, _, k⟩ | ⟨_, _, k⟩
      · rw [k] at hm; exact absurd hm (List.not_mem_nil _)
      · rw [k] at hm; exact absurd hm (List.not_mem_nil _)
      · rw [k] at hm
        exact Action.noConfusion (List.mem_singleton.mp hm)
  · have hsk : science_phase cfg env s = (s, []) := by
      apply science_phase_skip
      by_cases h1 : s.ss_phase = SS_PHASE.SCIENCE_SS_PHASE
      · left
        cases hsw : s.switch_to_default_gfx
        · exact absurd ⟨h1, hsw⟩ hen
        · rfl
      · right; exact h1
    rw [hsk] at hcall
    exact absurd hcall (List.not_mem_nil _)


/-! ## Suspension and the selector (claim C31) -/

/-- C31: in every pass in which the suspend reason, as it stands after the
refresh of the pass, is not 0 and has neither the CPU throttle bit nor the CPU
usage bit, whatever the vector holds: `get_random_graphics_app` is not
called, the pass makes no call of `launch_screensaver`, and the pass does not
depend on the value of `rand()`. -/
theorem C31_suspended_pass_calls_no_selector (cfg : Config) (env : Env) (s : State)
    (hnz : (observed env s).suspend_reason ≠ 0)
    (hbits : (observed env s).suspend_reason &&&
      (cfg.SUSPEND_REASON_CPU_THROTTLE ||| cfg.SUSPEND_REASON_CPU_USAGE) = 0) :
    calls_selector cfg env s = false ∧
    (∀ rp, Action.launch_screensaver rp ∉ (tick cfg env s).actions) ∧
    (∀ r, tick cfg { env with rand := r } s = tick cfg env s) := by
  have hs : suspended cfg (observed env s).suspend_reason = true := by
    simp [suspended, hnz, hbits]
  have hcall : calls_selector cfg env s = false := by
    have hp : pick_and_launch_calls_selector cfg
        (check_running_science cfg env.dtime
          (switch_to_default env (entering cfg env s)).1).1 = false := by
      simp [pick_and_launch_calls_selector, suspend_reason_at_pick, hs]
    simp [calls_selector, hp]
  refine ⟨hcall, ?_, fun r => tick_rand cfg env s r hcall⟩
  intro rp hm
  obtain ⟨r1, r2, r3, _⟩ := tick_launch_reconciles cfg env s ⟨_, hm, rfl⟩
  obtain ⟨_, t_act⟩ := tick_entering cfg env s ⟨r1, r2, r3⟩
  rw [t_act] at hm
  rcases List.mem_append.mp hm with h1 | h1
  · exact switch_to_default_no_science_launch env _ rp h1
  · have hsr : (switch_to_default env (entering cfg env s)).1.suspend_reason =
        (observed env s).suspend_reason := by
      obtain ⟨_, _, _, _, _, _, _, _, _, _, e_sr⟩ := entering_frame cfg env s
      rw [← e_sr]
      exact suspend_reason_kept (fun t => (switch_to_default env t).1)
        (fun r t => by simp only [switch_to_default_sr]) _
    exact science_phase_suspended cfg env _ rp (by rw [hsr]; exact hs) h1

/-- Witness for C31: the graphics of no task runs and the client reports the
suspend reason 4 with task A in the vector: the pass launches the default
saver and no science graphics; with the suspend reason 0 the same pass calls
the selector and launches the graphics of task A. -/
theorem C31_suspended_pass_calls_no_selector_witness :
    calls_selector exampleConfig (calmEnv 1001 4 [taskA]) entryState = false ∧
    (∀ rp, Action.launch_screensaver rp ∉
      (tick exampleConfig (calmEnv 1001 4 [taskA]) entryState).actions) ∧
    (tick exampleConfig (calmEnv 1001 4 [taskA]) entryState).actions =
      [Action.launch_default_screensaver] ∧
    calls_selector exampleConfig (calmEnv 1001 0 [taskA]) entryState = true ∧
    (tick exampleConfig (calmEnv 1001 0 [taskA]) entryState).actions =
      [Action.launch_screensaver taskA] :=
  ⟨(C31_suspended_pass_calls_no_selector exampleConfig (calmEnv 1001 4 [taskA]) entryState
      (by decide) (by decide)).1,
    (C31_suspended_pass_calls_no_selector exampleConfig (calmEnv 1001 4 [taskA]) entryState
      (by decide) (by decide)).2.1,
    by decide, by decide, by decide⟩


/-! ## Both phase tests fire in one pass -/

/-- The liveness test leaves the request for the default saver alone. -/
theorem liveness_check_switch (cfg : Config) (env : Env) (s : State) :
    (liveness_check cfg env s).switch_to_default_gfx = s.switch_to_default_gfx := by
  rcases liveness_check_cases cfg env s with ⟨_, h⟩ | ⟨_, _, h⟩ | ⟨_, _, ex, ph, k, h⟩ <;>
  · rw [h]

/-- The suspend test sets the request for the default saver exactly when the
client is suspended and the default saver exists and is not running;
otherwise it leaves the request alone.  It makes no call and keeps the
running flags. -/
theorem suspend_check_switch (cfg : Config) (s : State) :
    (suspend_check cfg s).switch_to_default_gfx =
      (if suspended cfg s.suspend_reason = true ∧ s.m_bDefault_gfx_running = false ∧
          s.m_bDefault_ss_exists = true then true else s.switch_to_default_gfx) ∧
    (suspend_check cfg s).m_bScience_gfx_running = s.m_bScience_gfx_running ∧
    (suspend_check cfg s).m_bDefault_gfx_running = s.m_bDefault_gfx_running ∧
    (suspend_check cfg s).ss_phase = s.ss_phase := by
  cases hsus : suspended cfg s.suspend_reason
  · rw [suspend_check_idle cfg s hsus]
    simp
  · cases hD : s.m_bDefault_gfx_running
    · cases hE : s.m_bDefault_ss_exists
      · simp [suspend_check, hsus, hD, hE, SetError]
      · simp [suspend_check, hsus, hD, hE, SetError]
    · simp [suspend_check, hsus, hD]

/-- The accumulated duration after the step of lines 854-912: the time since
the start of the default saver inside the science phase is added, up to the
read of line 871, exactly when line 866 is reached and that start time is
set. -/
theorem pick_and_launch_acc (cfg : Config) (env : Env) (s : State) :
    (pick_and_launch cfg env s).1.default_saver_duration_in_science_phase =
      if pick_and_launch_kills_default cfg env s = true ∧
          s.default_saver_start_time_in_science_phase ≠ 0 then
        s.default_saver_duration_in_science_phase +
          (env.dtime_after_kill - s.default_saver_start_time_in_science_phase)
      else s.default_saver_duration_in_science_phase := by
  by_cases hg : (s.m_bDefault_gfx_running = true ∨ s.m_hGraphicsApplication = 0) ∧
      s.graphics_app_result_ptr = none
  · cases hsus : suspended cfg s.suspend_reason
    · cases hsel : (get_random_graphics_app s.m_vIncompatibleGfxApps s.results
          s.previous_result_ptr env.rand).2 with
      | none =>
        have hk : pick_and_launch_kills_default cfg env s = false := by
          simp [pick_and_launch_kills_default, hsel]
        rw [hk]
        simp only [Bool.false_eq_true, false_and, if_false]
        rcases pick_and_launch_cases cfg env s with ⟨h0, _⟩ | ⟨_, _, res2, p2, h0⟩ |
          ⟨_, _, _, rp, k, _⟩ | ⟨_, _, _, _, rp, k, _⟩
        · rw [h0]
        · rw [h0]
          rcases none_chosen_cases
            { s with results := res2, graphics_app_result_ptr := none, previous_result_ptr := p2 }
            with ⟨_, hn⟩ | ⟨_, hn⟩ <;>
          · rw [hn]
        · rw [hsel] at k; exact Option.noConfusion k
        · rw [hsel] at k; exact Option.noConfusion k
      | some rp0 =>
        cases hD : s.m_bDefault_gfx_running
        · have hk : pick_and_launch_kills_default cfg env s = false := by
            simp [pick_and_launch_kills_default, hD]
          rw [hk]
          simp only [Bool.false_eq_true, false_and, if_false]
          rcases pick_and_launch_cases cfg env s with ⟨h0, _⟩ | ⟨_, _, res2, p2, h0⟩ |
            ⟨k, _⟩ | ⟨_, _, _, _, rp, _, _, h0⟩
          · rw [h0]
          · rw [h0]
            rcases none_chosen_cases
              { s with results := res2, graphics_app_result_ptr := none, previous_result_ptr := p2 }
              with ⟨_, hn⟩ | ⟨_, hn⟩ <;>
            · rw [hn]
          · rw [hD] at k; exact Bool.noConfusion k
          · rcases h0 with ⟨_, h0⟩ | ⟨_, h0⟩ <;>
            · rw [h0]
        · have hk : pick_and_launch_kills_default cfg env s = true := by
            simp [pick_and_launch_kills_default, pick_and_launch_calls_selector, hD, hsus,
              hsel, hg.2]
          rw [hk]
          simp only [true_and]
          simp [pick_and_launch, hg, hsus, hsel, show_chosen, hD]
    · have hk : pick_and_launch_kills_default cfg env s = false := by
        simp [pick_and_launch_kills_default, pick_and_launch_calls_selector, hsus]
      rw [hk]
      simp only [Bool.false_eq_true, false_and, if_false]
      rcases pick_and_launch_cases cfg env s with ⟨h0, _⟩ | ⟨_, _, res2, p2, h0⟩ |
        ⟨_, _, k, _⟩ | ⟨_, _, _, k, _⟩
      · rw [h0]
      · rw [h0]
        rcases none_chosen_cases
          { s with results := res2, graphics_app_result_ptr := none, previous_result_ptr := p2 }
          with ⟨_, hn⟩ | ⟨_, hn⟩ <;>
        · rw [hn]
      · rw [hsus] at k; exact Bool.noConfusion k
      · rw [hsus] at k; exact Bool.noConfusion k
  · have hk : pick_and_launch_kills_default cfg env s = false := by
      have hg2 := hg
      simp only [pick_and_launch_kills_default, pick_and_launch_calls_selector]
      rw [decide_eq_false hg2]
      rfl
    rw [hk]
    simp only [Bool.false_eq_true, false_and, if_false]
    rcases pick_and_launch_cases cfg env s with ⟨h0, _⟩ | ⟨k1, k2, _⟩ |
      ⟨k1, k2, _⟩ | ⟨_, k1, k2, _⟩
    · rw [h0]
    · exact absurd ⟨k1, k2⟩ hg
    · exact absurd ⟨Or.inl k1, k2⟩ hg
    · exact absurd ⟨Or.inr k1, k2⟩ hg

/-- The accumulated duration at the end of the reconciliation, when a default
saver that runs after the phase tests has the time of the pass as its start
time inside the science phase: the steps after the phase tests add the time
up to the read of line 871 exactly when the science phase block is entered
and reaches line 866; otherwise they keep the accumulated duration. -/
theorem after_phase_tests_acc (cfg : Config) (env : Env) (p : State)
    (hn : env.dtime ≠ 0)
    (hst : p.m_bDefault_gfx_running = true →
      p.default_saver_start_time_in_science_phase = env.dtime) :
    (liveness_check cfg env (science_phase cfg env
        (switch_to_default env (suspend_check cfg p)).1).1
      ).default_saver_duration_in_science_phase =
      if (decide ((switch_to_default env (suspend_check cfg p)).1.ss_phase =
            SS_PHASE.SCIENCE_SS_PHASE) &&
          !(switch_to_default env (suspend_check cfg p)).1.switch_to_default_gfx &&
          pick_and_launch_kills_default cfg env
            (check_running_science cfg env.dtime
              (switch_to_default env (suspend_check cfg p)).1).1) = true then
        p.default_saver_duration_in_science_phase + (env.dtime_after_kill - env.dtime)
      else p.default_saver_duration_in_science_phase := by
  -- the suspend test
  obtain ⟨m, sw, hsc⟩ := suspend_check_frame cfg p
  have a_du : (suspend_check cfg p).default_saver_duration_in_science_phase =
      p.default_saver_duration_in_science_phase := by rw [hsc]
  have a_st : (suspend_check cfg p).default_saver_start_time_in_science_phase =
      p.default_saver_start_time_in_science_phase := by rw [hsc]
  have a_D : (suspend_check cfg p).m_bDefault_gfx_running = p.m_bDefault_gfx_running := by
    rw [hsc]
  have hst1 : (suspend_check cfg p).m_bDefault_gfx_running = true →
      (suspend_check cfg p).default_saver_start_time_in_science_phase = env.dtime := by
    rw [a_D, a_st]; exact hst
  clear hsc a_st a_D
  generalize suspend_check cfg p = s1 at *
  -- a launch of the default saver keeps the duration
  have hld : ∀ (o : SpawnOutcome) (b : Bool) (t : State),
      (launch_default o env.dtime b t).default_saver_duration_in_science_phase =
        t.default_saver_duration_in_science_phase := by
    intro o b t
    rcases launch_default_cases o env.dtime b t with ⟨_, h⟩ | ⟨_, h⟩ <;>
    · rw [h]
  -- the switch to the default saver
  have b : (switch_to_default env s1).1.default_saver_duration_in_science_phase =
        s1.default_saver_duration_in_science_phase ∧
      ((switch_to_default env s1).1.ss_phase = SS_PHASE.SCIENCE_SS_PHASE →
        (switch_to_default env s1).1.m_bDefault_gfx_running = true →
        (switch_to_default env s1).1.default_saver_start_time_in_science_phase =
          env.dtime) := by
    rcases switch_to_default_cases env s1 with h | ⟨_, _, _, _, h⟩ | ⟨_, _, _, _, h⟩
    · rw [h]; exact ⟨rfl, fun _ => hst1⟩
    · rw [h]
      refine ⟨hld _ _ _, ?_⟩
      rcases launch_default_cases env.spawn_default_switch env.dtime
        (decide (s1.ss_phase = SS_PHASE.SCIENCE_SS_PHASE))
        { s1 with switch_to_default_gfx := false } with ⟨_, k⟩ | ⟨_, k⟩
      · rw [k]
        intro _ hD
        exact Bool.noConfusion hD
      · rw [k]
        intro hph _
        simp only at hph
        simp only [hph, decide_True, if_true]
    · rw [h]
      unfold after_terminate
      split
      · exact ⟨rfl, fun _ => hst1⟩
      · exact ⟨rfl, fun _ => hst1⟩
  obtain ⟨b_du, b_st⟩ := b
  clear hst1
  generalize switch_to_default env s1 = s2 at *
  rw [liveness_check_acc]
  by_cases hen : s2.1.ss_phase = SS_PHASE.SCIENCE_SS_PHASE ∧
      s2.1.switch_to_default_gfx = false
  · rw [science_phase_eq cfg env s2.1 hen.1 hen.2]
    simp only
    obtain ⟨res, lct, running, g, pp, hcr, _⟩ :=
      check_running_science_cases cfg env.dtime s2.1
    have c_du : (check_running_science cfg env.dtime s2.1).1.default_saver_duration_in_science_phase
        = s2.1.default_saver_duration_in_science_phase := by rw [hcr]
    have c_st :
        (check_running_science cfg env.dtime s2.1).1.default_saver_start_time_in_science_phase
        = s2.1.default_saver_start_time_in_science_phase := by rw [hcr]
    have c_D : (check_running_science cfg env.dtime s2.1).1.m_bDefault_gfx_running
        = s2.1.m_bDefault_gfx_running := by rw [hcr]
    clear hcr
    generalize check_running_science cfg env.dtime s2.1 = cr at *
    have hfb : (fallback_to_default env
          (pick_and_launch cfg env cr.1).1).1.default_saver_duration_in_science_phase =
        (pick_and_launch cfg env cr.1).1.default_saver_duration_in_science_phase := by
      rcases fallback_to_default_cases env (pick_and_launch cfg env cr.1).1 with
        ⟨_, h⟩ | ⟨_, _, h⟩ | ⟨_, _, h⟩
      · rw [h]
      · rw [h]
      · rw [h]; exact hld _ _ _
    rw [hfb, pick_and_launch_acc, c_du, b_du]
    have hdec : decide (s2.1.ss_phase = SS_PHASE.SCIENCE_SS_PHASE) = true :=
      decide_eq_true hen.1
    rw [hdec, hen.2]
    simp only [Bool.not_false, Bool.and_true, Bool.true_and]
    cases hK : pick_and_launch_kills_default cfg env cr.1
    · simp only [Bool.false_eq_true, false_and, if_false]
      exact a_du
    · have hD : cr.1.m_bDefault_gfx_running = true := by
        simp only [pick_and_launch_kills_default, Bool.and_eq_true] at hK
        exact hK.2
      have hs : cr.1.default_saver_start_time_in_science_phase = env.dtime := by
        rw [c_st]
        exact b_st hen.1 (by rw [← c_D]; exact hD)
      rw [hs]
      simp only [true_and, if_true]
      rw [if_pos hn, a_du]
  · have hsk : science_phase cfg env s2.1 = (s2.1, []) := by
      apply science_phase_skip
      by_cases h1 : s2.1.ss_phase = SS_PHASE.SCIENCE_SS_PHASE
      · left
        cases hsw : s2.1.switch_to_default_gfx
        · exact absurd ⟨h1, hsw⟩ hen
        · rfl
      · right; exact h1
    rw [hsk, b_du, a_du]
    have hc : (decide (s2.1.ss_phase = SS_PHASE.SCIENCE_SS_PHASE) &&
        !s2.1.switch_to_default_gfx &&
        pick_and_launch_kills_default cfg env
          (check_running_science cfg env.dtime s2.1).1) = false := by
      by_cases h1 : s2.1.ss_phase = SS_PHASE.SCIENCE_SS_PHASE
      · cases hsw : s2.1.switch_to_default_gfx
        · exact absurd ⟨h1, hsw⟩ hen
        · simp
      · rw [decide_eq_false h1]
        rfl
    rw [hc]
    simp only [Bool.false_eq_true, if_false]

/-- The request for the default saver at the end of a pass whose phase tests
end in the science phase with no request: it stands exactly when the suspend
test makes it while science graphics is running. -/
theorem after_phase_tests_switch (cfg : Config) (env : Env) (p : State)
    (hsw : p.switch_to_default_gfx = false) :
    (liveness_check cfg env (science_phase cfg env
        (switch_to_default env (suspend_check cfg p)).1).1).switch_to_default_gfx = true ↔
      (suspended cfg p.suspend_reason = true ∧ p.m_bDefault_gfx_running = false ∧
        p.m_bDefault_ss_exists = true ∧ p.m_bScience_gfx_running = true) := by
  rw [liveness_check_switch]
  obtain ⟨a_sw, a_S, a_D, _⟩ := suspend_check_switch cfg p
  generalize suspend_check cfg p = e at *
  by_cases hreq : suspended cfg p.suspend_reason = true ∧ p.m_bDefault_gfx_running = false ∧
      p.m_bDefault_ss_exists = true
  · rw [if_pos hreq] at a_sw
    cases hS : p.m_bScience_gfx_running
    · -- the default saver is launched and the request is cleared
      have hl : (switch_to_default env e).1.switch_to_default_gfx = false := by
        rcases switch_to_default_cases env e with h | ⟨_, _, _, _, h⟩ | ⟨_, k, _⟩
        · exfalso
          have : (switch_to_default env e).2 = [Action.launch_default_screensaver] :=
            switch_to_default_launches env e a_sw (by rw [a_S]; exact hS)
              (by rw [a_D]; exact hreq.2.1)
          rw [h] at this
          exact List.noConfusion this
        · rw [h]
          rcases launch_default_cases env.spawn_default_switch env.dtime
            (decide (e.ss_phase = SS_PHASE.SCIENCE_SS_PHASE))
            { e with switch_to_default_gfx := false } with ⟨_, k⟩ | ⟨_, k⟩ <;>
          · rw [k]
        · rw [a_S, hS] at k; exact Bool.noConfusion k
      have hfin : (science_phase cfg env
          (switch_to_default env e).1).1.switch_to_default_gfx = false := by
        rcases (science_phase_request cfg env (switch_to_default env e).1).2.2.1 with h | h
        · rw [h]; exact hl
        · exact h
      rw [hfin]
      constructor
      · intro h; exact Bool.noConfusion h
      · intro h; exact Bool.noConfusion h.2.2.2
    · -- science graphics is running: the request stands
      have hl : (switch_to_default env e).1.switch_to_default_gfx = true := by
        rcases switch_to_default_cases env e with h | ⟨_, _, k, _⟩ | ⟨_, _, h, _⟩
        · rw [h]; exact a_sw
        · rw [a_S, hS] at k; exact Bool.noConfusion k
        · exact h
      rw [science_phase_skip cfg env _ (Or.inl hl), hl]
      exact ⟨fun _ => ⟨hreq.1, hreq.2.1, hreq.2.2, rfl⟩, fun _ => rfl⟩
  · rw [if_neg hreq, hsw] at a_sw
    rw [switch_to_default_idle env e a_sw]
    have hfin : (science_phase cfg env e).1.switch_to_default_gfx = false := by
      rcases (science_phase_request cfg env e).2.2.1 with h | h
      · rw [h]; exact a_sw
      · exact h
    rw [hfin]
    constructor
    · intro h; exact Bool.noConfusion h
    · intro h; exact absurd ⟨h.1, h.2.1, h.2.2.1⟩ hreq


/-! ## Both phase transitions in one pass (claim C32) -/

/-- Counterexample for C32, in the phase accounting scenario (`T_default` = 60,
`T_science` = 120, the science phase started at 1000), on two passes at time
1121 in which both phase tests fire.  In the first state the default saver
runs inside the science phase since 1001 as process 103 and task A has
graphics: the first test leaves 120 > 60 accumulated, the second test sets the
accumulated duration to 0 and the start time of the default saver to 1121,
and the science phase block of the same pass terminates the default saver for
task A; the terminate call returns at 1122 and line 871 adds 1122 - 1121, so
the pass ends with the accumulated duration 1, not 0.  In the second state 99
seconds are accumulated, the graphics of task A runs as process 102 and the
client reports the suspend reason 4 (user request): after both phase tests
the suspend test requests the default saver and the science graphics is
terminated, so the pass ends with `switch_to_default_gfx` true. -/
theorem C32_counterexample :
    (science_period_over phaseConfig 1121
        (observed (slowKillEnv 1121 1122 0 [taskA]) defaultRunningState) = true ∧
      (to_default_phase phaseConfig 1121
        (observed (slowKillEnv 1121 1122 0 [taskA])
          defaultRunningState)).default_saver_duration_in_science_phase = 120 ∧
      phaseConfig.m_fGFXDefaultPeriod = 60 ∧
      (observed (slowKillEnv 1121 1122 0 [taskA]) defaultRunningState).m_bConnected = true ∧
      phaseConfig.m_fGFXSciencePeriod > 0 ∧
      (phase_evaluation phaseConfig 1121
        (observed (slowKillEnv 1121 1122 0 [taskA]) defaultRunningState)).ss_phase =
          SS_PHASE.SCIENCE_SS_PHASE ∧
      (phase_evaluation phaseConfig 1121
        (observed (slowKillEnv 1121 1122 0 [taskA])
          defaultRunningState)).default_saver_duration_in_science_phase = 0 ∧
      (tick phaseConfig (slowKillEnv 1121 1122 0 [taskA]) defaultRunningState).actions =
        [Action.terminate_default_screensaver 103] ∧
      (tick phaseConfig (slowKillEnv 1121 1122 0 [taskA]) defaultRunningState).state.ss_phase =
        SS_PHASE.SCIENCE_SS_PHASE ∧
      (tick phaseConfig (slowKillEnv 1121 1122 0 [taskA])
        defaultRunningState).state.default_saver_duration_in_science_phase = 1) ∧
    (science_period_over phaseConfig 1121
        (observed (calmEnv 1121 4 [taskA]) accumulatedState) = true ∧
      (to_default_phase phaseConfig 1121
        (observed (calmEnv 1121 4 [taskA])
          accumulatedState)).default_saver_duration_in_science_phase = 99 ∧
      (observed (calmEnv 1121 4 [taskA]) accumulatedState).m_bConnected = true ∧
      (phase_evaluation phaseConfig 1121
        (observed (calmEnv 1121 4 [taskA]) accumulatedState)).ss_phase =
          SS_PHASE.SCIENCE_SS_PHASE ∧
      (phase_evaluation phaseConfig 1121
        (observed (calmEnv 1121 4 [taskA]) accumulatedState)).switch_to_default_gfx = false ∧
      (tick phaseConfig (calmEnv 1121 4 [taskA]) accumulatedState).actions =
        [Action.terminate_screensaver 102] ∧
      (tick phaseConfig (calmEnv 1121 4 [taskA]) accumulatedState).state.ss_phase =
        SS_PHASE.SCIENCE_SS_PHASE ∧
      (tick phaseConfig (calmEnv 1121 4 [taskA])
        accumulatedState).state.default_saver_duration_in_science_phase = 0 ∧
      (tick phaseConfig (calmEnv 1121 4 [taskA])
        accumulatedState).state.switch_to_default_gfx = true) := by
  decide

/-- C32 (amended): take a pass, at a time that is not 0, that reaches the phase
tests and in which the first test fires (the transition from the science
phase to the default phase), the link is connected, `T_science` > 0 and the
accumulated duration left by the first test is more than `T_default`.  Then
the second test fires in the same pass: the phase tests end in the science
phase with the accumulated duration 0, `science_phase_start_time` = `now` and
no switch to the default saver requested, and they leave the running flag of
the default saver, the handle and `killing_default_gfx` as they were.  The
pass ends in the science phase with `science_phase_start_time` = `now`.  The
accumulated duration at the end of the pass is 0, unless the science phase
block of the pass reaches line 866 (a task is chosen while the default saver
runs): then it is the time from `now` to the read of line 871.  At the end of
the pass a switch to the default saver is requested exactly when the client is
suspended in the pass while science graphics is running and the default saver
is not.  If the default saver is running, the step of line 749 makes no call
and the pass makes no launch call for the default saver. -/
theorem C32_both_transitions_in_one_pass (cfg : Config) (env : Env) (s : State)
    (hr : reconciles cfg env s) (hn : env.dtime ≠ 0)
    (hover : science_period_over cfg env.dtime (observed env s) = true)
    (hcon : (observed env s).m_bConnected = true) (hT : cfg.m_fGFXSciencePeriod > 0)
    (hacc : (to_default_phase cfg env.dtime
      (observed env s)).default_saver_duration_in_science_phase > cfg.m_fGFXDefaultPeriod) :
    ((phase_evaluation cfg env.dtime (observed env s)).ss_phase = SS_PHASE.SCIENCE_SS_PHASE ∧
      (phase_evaluation cfg env.dtime
        (observed env s)).default_saver_duration_in_science_phase = 0 ∧
      (phase_evaluation cfg env.dtime (observed env s)).science_phase_start_time = env.dtime ∧
      (phase_evaluation cfg env.dtime (observed env s)).switch_to_default_gfx = false ∧
      (phase_evaluation cfg env.dtime (observed env s)).m_bDefault_gfx_running =
        s.m_bDefault_gfx_running ∧
      (phase_evaluation cfg env.dtime (observed env s)).m_hGraphicsApplication =
        s.m_hGraphicsApplication ∧
      (phase_evaluation cfg env.dtime (observed env s)).killing_default_gfx =
        s.killing_default_gfx) ∧
    ((tick cfg env s).state.ss_phase = SS_PHASE.SCIENCE_SS_PHASE ∧
      (tick cfg env s).state.default_saver_duration_in_science_phase =
        (if kills_default_for_task cfg env s = true then env.dtime_after_kill - env.dtime
          else 0) ∧
      (tick cfg env s).state.science_phase_start_time = env.dtime) ∧
    ((tick cfg env s).state.switch_to_default_gfx = true ↔
      (suspended cfg (observed env s).suspend_reason = true ∧
        s.m_bDefault_gfx_running = false ∧ s.m_bScience_gfx_running = true)) ∧
    (s.m_bDefault_gfx_running = true →
      (switch_to_default env (entering cfg env s)).2 = [] ∧
      Action.launch_default_screensaver ∉ (tick cfg env s).actions) := by
  obtain ⟨o_h, o_S, o_D, _, _, _, _, _⟩ := observed_frame env s
  obtain ⟨_, _, _, _, _, o_k, _⟩ := observed_frame_clock env s
  have hE : (observed env s).m_bDefault_ss_exists = true := by
    simp only [science_period_over, Bool.and_eq_true, decide_eq_true_eq] at hover
    exact hover.1.1.1.1
  -- the first phase test
  have htd := to_default_phase_fired cfg env.dtime (observed env s) hover
  have t_ph : (to_default_phase cfg env.dtime (observed env s)).ss_phase =
      SS_PHASE.DEFAULT_SS_PHASE := by rw [htd]
  have t_con : (to_default_phase cfg env.dtime (observed env s)).m_bConnected = true := by
    rw [htd]; exact hcon
  have t_dps : (to_default_phase cfg env.dtime (observed env s)).default_phase_start_time =
      env.dtime := by rw [htd]
  have t_st : (to_default_phase cfg env.dtime
      (observed env s)).default_saver_start_time_in_science_phase = 0 := by rw [htd]
  have t_D : (to_default_phase cfg env.dtime (observed env s)).m_bDefault_gfx_running =
      s.m_bDefault_gfx_running := by rw [htd]; exact o_D
  have t_S : (to_default_phase cfg env.dtime (observed env s)).m_bScience_gfx_running =
      s.m_bScience_gfx_running := by rw [htd]; exact o_S
  have t_h : (to_default_phase cfg env.dtime (observed env s)).m_hGraphicsApplication =
      s.m_hGraphicsApplication := by rw [htd]; exact o_h
  have t_k : (to_default_phase cfg env.dtime (observed env s)).killing_default_gfx =
      s.killing_default_gfx := by rw [htd]; exact o_k
  have t_E : (to_default_phase cfg env.dtime (observed env s)).m_bDefault_ss_exists = true := by
    rw [htd]; exact hE
  have t_sr : (to_default_phase cfg env.dtime (observed env s)).suspend_reason =
      (observed env s).suspend_reason := by rw [htd]
  -- the second phase test
  have hov : default_period_over cfg env.dtime
      (to_default_phase cfg env.dtime (observed env s)) = true := by
    simp only [default_period_over, Bool.and_eq_true, decide_eq_true_eq]
    refine ⟨⟨⟨⟨t_ph, t_con⟩, hT⟩, by rw [t_dps]; exact hn⟩, ?_⟩
    rw [t_dps]
    omega
  have hts := to_science_phase_over cfg env.dtime _ hov
  have hpe : phase_evaluation cfg env.dtime (observed env s) =
      to_science_phase cfg env.dtime (to_default_phase cfg env.dtime (observed env s)) := rfl
  generalize to_default_phase cfg env.dtime (observed env s) = td at *
  have p_ph : (phase_evaluation cfg env.dtime (observed env s)).ss_phase =
      SS_PHASE.SCIENCE_SS_PHASE := by rw [hpe, hts]
  have p_du : (phase_evaluation cfg env.dtime
      (observed env s)).default_saver_duration_in_science_phase = 0 := by rw [hpe, hts]
  have p_sps : (phase_evaluation cfg env.dtime (observed env s)).science_phase_start_time =
      env.dtime := by rw [hpe, hts]
  have p_sw : (phase_evaluation cfg env.dtime (observed env s)).switch_to_default_gfx =
      false := by rw [hpe, hts]
  have p_D : (phase_evaluation cfg env.dtime (observed env s)).m_bDefault_gfx_running =
      s.m_bDefault_gfx_running := by rw [hpe, hts]; exact t_D
  have p_S : (phase_evaluation cfg env.dtime (observed env s)).m_bScience_gfx_running =
      s.m_bScience_gfx_running := by rw [hpe, hts]; exact t_S
  have p_h : (phase_evaluation cfg env.dtime (observed env s)).m_hGraphicsApplication =
      s.m_hGraphicsApplication := by rw [hpe, hts]; exact t_h
  have p_k : (phase_evaluation cfg env.dtime (observed env s)).killing_default_gfx =
      s.killing_default_gfx := by rw [hpe, hts]; exact t_k
  have p_E : (phase_evaluation cfg env.dtime (observed env s)).m_bDefault_ss_exists =
      true := by rw [hpe, hts]; exact t_E
  have p_sr : (phase_evaluation cfg env.dtime (observed env s)).suspend_reason =
      (observed env s).suspend_reason := by rw [hpe, hts]; exact t_sr
  have p_st : (phase_evaluation cfg env.dtime (observed env s)).m_bDefault_gfx_running = true →
      (phase_evaluation cfg env.dtime
        (observed env s)).default_saver_start_time_in_science_phase = env.dtime := by
    rw [hpe, hts]
    simp only
    intro hD
    rw [if_pos hD]
  -- the pass
  obtain ⟨c_dps, c_sps, c_ph, _⟩ := reconcile_clock cfg env (observed env s)
  have ht : (tick cfg env s).state =
      liveness_check cfg env (science_phase cfg env (switch_to_default env
        (suspend_check cfg (phase_evaluation cfg env.dtime (observed env s)))).1).1 := by
    rw [tick_of_reconciles cfg env s hr, reconcile_eq]
  have ht2 : (tick cfg env s).state = (reconcile cfg env (observed env s)).1 := by
    rw [tick_of_reconciles cfg env s hr]
  refine ⟨⟨p_ph, p_du, p_sps, p_sw, p_D, p_h, p_k⟩, ⟨?_, ?_, ?_⟩, ?_, ?_⟩
  · rw [ht2]
    rcases c_ph with h | h
    · rw [h]; exact p_ph
    · exact h
  · rw [ht, after_phase_tests_acc cfg env _ hn p_st, p_du]
    have hk : kills_default_for_task cfg env s =
        (decide ((switch_to_default env (suspend_check cfg
            (phase_evaluation cfg env.dtime (observed env s)))).1.ss_phase =
              SS_PHASE.SCIENCE_SS_PHASE) &&
          !(switch_to_default env (suspend_check cfg
            (phase_evaluation cfg env.dtime (observed env s)))).1.switch_to_default_gfx &&
          pick_and_launch_kills_default cfg env
            (check_running_science cfg env.dtime
              (switch_to_default env (suspend_check cfg
                (phase_evaluation cfg env.dtime (observed env s)))).1).1) := by
      unfold kills_default_for_task entering
      rw [decide_eq_true hr, Bool.true_and]
    rw [hk, Int.zero_add]
  · rw [ht2, c_sps]
    exact p_sps
  · rw [ht, after_phase_tests_switch cfg env _ p_sw, p_sr, p_D, p_E, p_S]
    constructor
    · intro h; exact ⟨h.1, h.2.1, h.2.2.2⟩
    · intro h; exact ⟨h.1, h.2.1, rfl, h.2.2⟩
  · intro hD
    obtain ⟨a_sw, _, a_D, _⟩ := suspend_check_switch cfg
      (phase_evaluation cfg env.dtime (observed env s))
    have e_sw : (entering cfg env s).switch_to_default_gfx = false := by
      unfold entering
      rw [a_sw, if_neg, p_sw]
      intro h
      rw [p_D, hD] at h
      exact Bool.noConfusion h.2.1
    have e_D : (entering cfg env s).m_bDefault_gfx_running = true := by
      unfold entering
      rw [a_D, p_D]; exact hD
    obtain ⟨_, t_act⟩ := tick_entering cfg env s hr
    rw [t_act, switch_to_default_idle env _ e_sw]
    refine ⟨rfl, ?_⟩
    simp only [List.nil_append]
    rcases (science_phase_request cfg env (entering cfg env s)).2.2.2 with ⟨_, h⟩ | ⟨h, _⟩
    · exact h
    · rw [e_D] at h; exact Bool.noConfusion h

/-- Witness for C32: in the phase accounting scenario the default saver runs
inside the science phase since 1001 and task A has graphics; in the pass at
time 1121 the first phase test leaves 120 > 60 accumulated and the second
fires.  The pass reaches line 866, the terminate call returns at 1122, and
the pass ends in the science phase, started at 1121, with the accumulated
duration 1122 - 1121 and without a launch call for the default saver. -/
theorem C32_both_transitions_in_one_pass_witness :
    (to_default_phase phaseConfig 1121
      (observed (slowKillEnv 1121 1122 0 [taskA])
        defaultRunningState)).default_saver_duration_in_science_phase = 120 ∧
    kills_default_for_task phaseConfig (slowKillEnv 1121 1122 0 [taskA])
      defaultRunningState = true ∧
    (tick phaseConfig (slowKillEnv 1121 1122 0 [taskA]) defaultRunningState).state.ss_phase =
      SS_PHASE.SCIENCE_SS_PHASE ∧
    (tick phaseConfig (slowKillEnv 1121 1122 0 [taskA])
      defaultRunningState).state.default_saver_duration_in_science_phase =
        (if kills_default_for_task phaseConfig (slowKillEnv 1121 1122 0 [taskA])
            defaultRunningState = true then
          (slowKillEnv 1121 1122 0 [taskA]).dtime_after_kill -
            (slowKillEnv 1121 1122 0 [taskA]).dtime
        else 0) ∧
    (tick phaseConfig (slowKillEnv 1121 1122 0 [taskA])
      defaultRunningState).state.science_phase_start_time =
        (slowKillEnv 1121 1122 0 [taskA]).dtime ∧
    Action.launch_default_screensaver ∉
      (tick phaseConfig (slowKillEnv 1121 1122 0 [taskA]) defaultRunningState).actions :=
  ⟨by decide, by decide,
    (C32_both_transitions_in_one_pass phaseConfig (slowKillEnv 1121 1122 0 [taskA])
      defaultRunningState
      (by decide) (by decide) (by decide) (by decide) (by decide) (by decide)).2.1.1,
    (C32_both_transitions_in_one_pass phaseConfig (slowKillEnv 1121 1122 0 [taskA])
      defaultRunningState
      (by decide) (by decide) (by decide) (by decide) (by decide) (by decide)).2.1.2.1,
    (C32_both_transitions_in_one_pass phaseConfig (slowKillEnv 1121 1122 0 [taskA])
      defaultRunningState
      (by decide) (by decide) (by decide) (by decide) (by decide) (by decide)).2.1.2.2,
    ((C32_both_transitions_in_one_pass phaseConfig (slowKillEnv 1121 1122 0 [taskA])
      defaultRunningState
      (by decide) (by decide) (by decide) (by decide) (by decide) (by decide)).2.2.2
      (by decide)).2⟩

end Screensaver
